import Mathlib

/-!
# twofing: two-finger gesture daemon

A shallow embedding of `twofingemu.c` (namespace `TwoFing.Emu`) and of
`twofingemu_with_extended_continuation.c` (namespace `TwoFing.Ext`), followed by
theorems about the action executor, the calibration transform, the touch
tracker and the gesture recognizer.

Conventions of the embedding

* C `int` variables are `Int`; where the C code mixes `int` and `unsigned int`
  the conversions are written out with `toU32` and `toI32`.
* C `int` used as a truth value is kept as `Int` and tested against `0`.
* C `double` values are `Dbl`: the rational a finite value denotes, or an
  infinity or NaN; every arithmetic operation rounds its exact result to the
  nearest binary64 value, ties to even. `sqrt` and `atan2` are parameters.
* Calls into Xlib / XTest are recorded, in program order, in an output trace.
-/

namespace TwoFing

/-! ## Constants of the missing headers -/

/-- Modelled from the spec: `twofingemu.h` is not among the sources; the phase
is "a bitmask of {PRESS, RELEASE}". This is the PRESS bit. -/
def EXECUTEACTION_PRESS : Int := 1

/-- Modelled from the spec: the RELEASE bit of the phase bitmask
(`twofingemu.h` is not among the sources). -/
def EXECUTEACTION_RELEASE : Int := 2

/-- Modelled from the spec: phase BOTH is `PRESS|RELEASE`
(`twofingemu.h` is not among the sources). -/
def EXECUTEACTION_BOTH : Int := 3

/-- Modelled from the spec: tag of the `None` variant of an Action
(`twofingemu.h` is not among the sources). -/
def ACTIONTYPE_NONE : Int := 0

/-- Modelled from the spec: tag of the `ButtonPress` variant of an Action
(`twofingemu.h` is not among the sources). -/
def ACTIONTYPE_BUTTONPRESS : Int := 1

/-- Modelled from the spec: tag of the `KeyPress` variant of an Action
(`twofingemu.h` is not among the sources). -/
def ACTIONTYPE_KEYPRESS : Int := 2

/-- Modelled from the spec: Shift bit of the modifier mask
(`twofingemu.h` is not among the sources). -/
def MODIFIER_SHIFT : Int := 1

/-- Modelled from the spec: Control bit of the modifier mask
(`twofingemu.h` is not among the sources). -/
def MODIFIER_CONTROL : Int := 2

/-- Modelled from the spec: Alt bit of the modifier mask
(`twofingemu.h` is not among the sources). -/
def MODIFIER_ALT : Int := 4

/-- Modelled from the spec: Super bit of the modifier mask
(`twofingemu.h` is not among the sources). -/
def MODIFIER_SUPER : Int := 8

/-- Keysym `XK_Shift_L` of `X11/keysymdef.h`. -/
def XK_Shift_L : Int := 0xffe1

/-- Keysym `XK_Control_L` of `X11/keysymdef.h`. -/
def XK_Control_L : Int := 0xffe3

/-- Keysym `XK_Alt_L` of `X11/keysymdef.h`. -/
def XK_Alt_L : Int := 0xffe9

/-- Keysym `XK_Super_L` of `X11/keysymdef.h`. -/
def XK_Super_L : Int := 0xffeb

/-! ## Actions and synthetic X events -/

/-- The `Action` record: `actionType`, `keyButton` and `modifier` are the three
fields `executeAction` reads. -/
structure Action where
  actionType : Int
  keyButton : Int
  modifier : Int
  deriving DecidableEq, Repr

/-- One call into XTest / Xlib made by the daemon.
`key k p` is `XTestFakeKeyEvent(display, XKeysymToKeycode(display, k), p, CurrentTime)`,
`button b p` is `XTestFakeButtonEvent(display, b, p, CurrentTime)`,
`motion x y` is `XTestFakeMotionEvent(display, -1, x, y, CurrentTime)`,
`flush` is `XFlush(display)`. -/
inductive XEvent where
  | key (keysym : Int) (press : Bool)
  | button (button : Int) (press : Bool)
  | motion (x y : Int)
  | flush
  deriving DecidableEq, Repr

/-- Whether an output call is a key or button event. -/
def XEvent.isKeyButton : XEvent → Bool
  | .key _ _ => true
  | .button _ _ => true
  | _ => false

/-- The key and button events of a trace, in order. -/
def keyButtonEvents (t : List XEvent) : List XEvent := t.filter XEvent.isKeyButton

namespace Emu

/-- The function `executeAction` of `twofingemu.c` (lines 206-287): every synthetic event is
followed by its own `XFlush`. -/
def executeAction (action : Action) (whatToDo : Int) : List XEvent :=
  (if Int.land whatToDo EXECUTEACTION_PRESS ≠ 0 then
    (if action.actionType ≠ ACTIONTYPE_NONE ∧ action.modifier ≠ 0 then
      (if Int.land action.modifier MODIFIER_SHIFT ≠ 0 then
        [XEvent.key XK_Shift_L true, XEvent.flush] else []) ++
      (if Int.land action.modifier MODIFIER_CONTROL ≠ 0 then
        [XEvent.key XK_Control_L true, XEvent.flush] else []) ++
      (if Int.land action.modifier MODIFIER_ALT ≠ 0 then
        [XEvent.key XK_Alt_L true, XEvent.flush] else []) ++
      (if Int.land action.modifier MODIFIER_SUPER ≠ 0 then
        [XEvent.key XK_Super_L true, XEvent.flush] else [])
    else []) ++
    (if action.actionType = ACTIONTYPE_BUTTONPRESS then
      [XEvent.button action.keyButton true, XEvent.flush]
    else if action.actionType = ACTIONTYPE_KEYPRESS then
      [XEvent.key action.keyButton true, XEvent.flush]
    else [])
  else []) ++
  (if Int.land whatToDo EXECUTEACTION_RELEASE ≠ 0 then
    (if action.actionType = ACTIONTYPE_BUTTONPRESS then
      [XEvent.button action.keyButton false, XEvent.flush]
    else if action.actionType = ACTIONTYPE_KEYPRESS then
      [XEvent.key action.keyButton false, XEvent.flush]
    else []) ++
    (if action.actionType ≠ ACTIONTYPE_NONE ∧ action.modifier ≠ 0 then
      (if Int.land action.modifier MODIFIER_SHIFT ≠ 0 then
        [XEvent.key XK_Shift_L false, XEvent.flush] else []) ++
      (if Int.land action.modifier MODIFIER_CONTROL ≠ 0 then
        [XEvent.key XK_Control_L false, XEvent.flush] else []) ++
      (if Int.land action.modifier MODIFIER_ALT ≠ 0 then
        [XEvent.key XK_Alt_L false, XEvent.flush] else []) ++
      (if Int.land action.modifier MODIFIER_SUPER ≠ 0 then
        [XEvent.key XK_Super_L false, XEvent.flush] else [])
    else [])
  else [])

end Emu

namespace Ext

/-- The function `executeAction` of `twofingemu_with_extended_continuation.c`
(lines 271-344): modifier events are not flushed individually. -/
def executeAction (action : Action) (whatToDo : Int) : List XEvent :=
  (if Int.land whatToDo EXECUTEACTION_PRESS ≠ 0 then
    (if action.actionType ≠ ACTIONTYPE_NONE ∧ action.modifier ≠ 0 then
      (if Int.land action.modifier MODIFIER_SHIFT ≠ 0 then
        [XEvent.key XK_Shift_L true] else []) ++
      (if Int.land action.modifier MODIFIER_CONTROL ≠ 0 then
        [XEvent.key XK_Control_L true] else []) ++
      (if Int.land action.modifier MODIFIER_ALT ≠ 0 then
        [XEvent.key XK_Alt_L true] else []) ++
      (if Int.land action.modifier MODIFIER_SUPER ≠ 0 then
        [XEvent.key XK_Super_L true] else [])
    else []) ++
    (if action.actionType = ACTIONTYPE_BUTTONPRESS then
      [XEvent.button action.keyButton true, XEvent.flush]
    else if action.actionType = ACTIONTYPE_KEYPRESS then
      [XEvent.key action.keyButton true, XEvent.flush]
    else [])
  else []) ++
  (if Int.land whatToDo EXECUTEACTION_RELEASE ≠ 0 then
    (if action.actionType = ACTIONTYPE_BUTTONPRESS then
      [XEvent.button action.keyButton false, XEvent.flush]
    else if action.actionType = ACTIONTYPE_KEYPRESS then
      [XEvent.key action.keyButton false, XEvent.flush]
    else []) ++
    (if action.actionType ≠ ACTIONTYPE_NONE ∧ action.modifier ≠ 0 then
      (if Int.land action.modifier MODIFIER_SHIFT ≠ 0 then
        [XEvent.key XK_Shift_L false] else []) ++
      (if Int.land action.modifier MODIFIER_CONTROL ≠ 0 then
        [XEvent.key XK_Control_L false] else []) ++
      (if Int.land action.modifier MODIFIER_ALT ≠ 0 then
        [XEvent.key XK_Alt_L false] else []) ++
      (if Int.land action.modifier MODIFIER_SUPER ≠ 0 then
        [XEvent.key XK_Super_L false] else [])
    else [])
  else [])

end Ext

/-! ## Machine arithmetic -/

/-- Conversion of an integer to `unsigned int`: reduction modulo `2^32`. -/
def toU32 (x : Int) : Int := x % 4294967296

/-- Conversion of an integer to `int`: the representative of `x` modulo `2^32`
in `[-2^31, 2^31)` (wrap-around, as gcc defines it). -/
def toI32 (x : Int) : Int := (x + 2147483648) % 4294967296 - 2147483648

/-- A C `double`: a finite value (held as the rational it denotes), an
infinity or NaN. The arithmetic operations round their exact result to the
nearest IEEE 754 binary64 value, ties to even (`Dbl.rnd`). Zero is not signed;
a zero divisor counts as `+0`. -/
inductive Dbl where
  | fin (q : ℚ)
  | pinf
  | ninf
  | nan
  deriving DecidableEq

namespace Dbl

/-- Conversion `(double) i` of an `int`: every `int` is a binary64 value. -/
def ofInt (i : Int) : Dbl := fin i

/-- The infinity (or NaN) with the sign of the rational `q`. -/
def signedInf (q : ℚ) : Dbl :=
  if q = 0 then nan else if 0 < q then pinf else ninf

/-- Rounding of a rational to the nearest integer, a tie going to the even
neighbour. -/
def roundEven (x : ℚ) : Int :=
  if x - ⌊x⌋ < 1 / 2 then ⌊x⌋
  else if 1 / 2 < x - ⌊x⌋ then ⌊x⌋ + 1
  else if ⌊x⌋ % 2 = 0 then ⌊x⌋ else ⌊x⌋ + 1

/-- Rounding of the rational `q` to the nearest value of the binary
floating-point format with `p` significant bits and exponents `emin..emax`,
ties to even: the unit in the last place is `2^k` with
`k = max ⌊log2 |q|⌋ emin - (p - 1)` (the subnormal range keeps the unit of
`emin`), the significand is `q / 2^k` rounded to an integer, and a rounded
magnitude of `2^(emax+1)` or more is an infinity. -/
def roundTo (p emin emax : Int) (q : ℚ) : Dbl :=
  let k : Int := max (Int.log 2 |q|) emin - (p - 1)
  let v : ℚ := (roundEven (q / 2 ^ k) : ℚ) * 2 ^ k
  if (2 : ℚ) ^ (emax + 1) ≤ |v| then signedInf q else fin v

/-- Rounding to `double` (binary64: 53 significant bits, exponents
`-1022..1023`). -/
def rnd (q : ℚ) : Dbl := roundTo 53 (-1022) 1023 q

/-- Rounding to `float` (binary32: 24 significant bits, exponents
`-126..127`); a `float` converts to `double` without change. -/
def rndFloat (q : ℚ) : Dbl := roundTo 24 (-126) 127 q

/-- Unary minus. -/
def neg : Dbl → Dbl
  | fin q => fin (-q)
  | pinf => ninf
  | ninf => pinf
  | nan => nan

/-- Addition of doubles: the exact sum, rounded. -/
def add : Dbl → Dbl → Dbl
  | fin a, fin b => rnd (a + b)
  | fin _, pinf => pinf
  | fin _, ninf => ninf
  | pinf, fin _ => pinf
  | pinf, pinf => pinf
  | ninf, fin _ => ninf
  | ninf, ninf => ninf
  | _, _ => nan

/-- Subtraction of doubles. -/
def sub (a b : Dbl) : Dbl := add a (neg b)

/-- Multiplication of doubles: the exact product, rounded. -/
def mul : Dbl → Dbl → Dbl
  | fin a, fin b => rnd (a * b)
  | fin a, pinf => signedInf a
  | fin a, ninf => signedInf (-a)
  | pinf, fin b => signedInf b
  | ninf, fin b => signedInf (-b)
  | pinf, pinf => pinf
  | ninf, ninf => pinf
  | pinf, ninf => ninf
  | ninf, pinf => ninf
  | _, _ => nan

/-- Division of doubles: the exact quotient, rounded; `x / 0` is an infinity
with the sign of `x`, `0 / 0` is NaN. -/
def div : Dbl → Dbl → Dbl
  | fin a, fin b => if b = 0 then signedInf a else rnd (a / b)
  | fin _, pinf => fin 0
  | fin _, ninf => fin 0
  | pinf, fin b => if 0 ≤ b then pinf else ninf
  | ninf, fin b => if 0 ≤ b then ninf else pinf
  | _, _ => nan

/-- The comparison `a < b` of doubles; false as soon as one side is NaN. -/
def lt : Dbl → Dbl → Bool
  | fin a, fin b => decide (a < b)
  | fin _, pinf => true
  | ninf, fin _ => true
  | ninf, pinf => true
  | _, _ => false

/-- The comparison `a > b` of doubles. -/
def gt (a b : Dbl) : Bool := lt b a

/-- The cast `(int) d`: truncation toward zero; a value that does not fit in
an `int` (and an infinity or NaN) gives `INT_MIN`, as the x86 conversion does
(C leaves that case undefined). -/
def toInt : Dbl → Int
  | fin q =>
    let t := Int.tdiv q.num q.den
    if -2147483648 ≤ t ∧ t < 2147483648 then t else -2147483648
  | _ => -2147483648

end Dbl

/-! ## Calibration (`twofingemu.c`) -/

namespace Emu

/-- The `FingerInfo` record as `twofingemu.c` uses it: raw device coordinates,
calibrated coordinates, tracking id (`-1` for an empty slot) and the
`setThisTime` flag of the MT_SYNC protocol. -/
structure FingerInfo where
  rawX : Int
  rawY : Int
  x : Int
  y : Int
  id : Int
  setThisTime : Int
  deriving DecidableEq

/-- The calibration globals of `twofingemu.c`: `calibMin*`, `calibMax*` are
`int`, the factors `double`, the swap flags `unsigned char` and the screen size
`unsigned int`. -/
structure Calib where
  calibMinX : Int
  calibMaxX : Int
  calibMinY : Int
  calibMaxY : Int
  calibFactorX : Dbl
  calibFactorY : Dbl
  calibSwapX : Nat
  calibSwapY : Nat
  calibSwapAxes : Nat
  screenWidth : Nat
  screenHeight : Nat

/-- The function `calibrate` (lines 393-423). `screenWidth - fingerInfo->x` is an unsigned
subtraction stored back into an `int`; `fingerInfo->x > screenWidth` is an
unsigned comparison. -/
def calibrate (c : Calib) (fingerInfo : FingerInfo) : FingerInfo :=
  let x0 :=
    if c.calibSwapAxes ≠ 0 then
      Dbl.toInt (Dbl.mul (Dbl.ofInt (toI32 (fingerInfo.rawY - c.calibMinX))) c.calibFactorX)
    else
      Dbl.toInt (Dbl.mul (Dbl.ofInt (toI32 (fingerInfo.rawX - c.calibMinX))) c.calibFactorX)
  let y0 :=
    if c.calibSwapAxes ≠ 0 then
      Dbl.toInt (Dbl.mul (Dbl.ofInt (toI32 (fingerInfo.rawX - c.calibMinY))) c.calibFactorY)
    else
      Dbl.toInt (Dbl.mul (Dbl.ofInt (toI32 (fingerInfo.rawY - c.calibMinY))) c.calibFactorY)
  let x1 := if c.calibSwapX ≠ 0 then toI32 (toU32 ((c.screenWidth : Int) - x0)) else x0
  let y1 := if c.calibSwapY ≠ 0 then toI32 (toU32 ((c.screenHeight : Int) - y0)) else y0
  let x2 := if x1 < 0 then 0 else x1
  let y2 := if y1 < 0 then 0 else y1
  let x3 := if toU32 x2 > (c.screenWidth : Int) then toI32 (c.screenWidth : Int) else x2
  let y3 := if toU32 y2 > (c.screenHeight : Int) then toI32 (c.screenHeight : Int) else y2
  { fingerInfo with x := x3, y := y3 }

/-- The function `setScreenSize` (lines 535-548); `width` and `height` are the `int` fields of
the screen-change event, stored into the `unsigned int` screen size. -/
def setScreenSize (c : Calib) (width height : Int) : Calib :=
  let sw := (toU32 width).toNat
  let sh := (toU32 height).toNat
  if c.calibMaxX ≠ c.calibMinX ∧ c.calibMaxY ≠ c.calibMinY then
    { c with
      screenWidth := sw
      screenHeight := sh
      calibFactorX := Dbl.div (Dbl.ofInt sw) (Dbl.ofInt (toI32 (c.calibMaxX - c.calibMinX)))
      calibFactorY := Dbl.div (Dbl.ofInt sh) (Dbl.ofInt (toI32 (c.calibMaxY - c.calibMinY))) }
  else
    { c with
      screenWidth := sw
      screenHeight := sh
      calibFactorX := Dbl.fin 1
      calibFactorY := Dbl.fin 1 }

end Emu

/-! ## Touch tracker (`twofingemu.c`, kernel device event loop of `main`) -/

/-- Event type `EV_SYN` of `linux/input.h`. -/
def EV_SYN : Nat := 0

/-- Event type `EV_ABS` of `linux/input.h`. -/
def EV_ABS : Nat := 3

/-- Event type `EV_MSC` of `linux/input.h`. -/
def EV_MSC : Nat := 4

/-- Event code `MSC_RAW` of `linux/input.h`. -/
def MSC_RAW : Nat := 3

/-- Event code `MSC_SCAN` of `linux/input.h`. -/
def MSC_SCAN : Nat := 4

/-- One evdev record `struct input_event` without its timestamp: `type` and
`code` are unsigned 16-bit, `value` is a signed 32-bit integer. -/
structure InputEvent where
  type : Nat
  code : Nat
  value : Int
  deriving DecidableEq

namespace Emu

/-- The global array `fingerInfos[2]`. -/
structure Fingers where
  f0 : FingerInfo
  f1 : FingerInfo
  deriving DecidableEq

/-- The access `fingerInfos[i]` followed by the update `g` of that element;
`none` is the out-of-range access (`i` outside `0..1`). -/
def Fingers.modify? (fs : Fingers) (i : Int) (g : FingerInfo → FingerInfo) : Option Fingers :=
  if i = 0 then some { fs with f0 := g fs.f0 }
  else if i = 1 then some { fs with f1 := g fs.f1 }
  else none

/-- The variables of the tracker: the global `fingerInfos` and the locals
`useSlots`, `currentSlot` and `tempFingerInfo` of `main`. -/
structure Tracker where
  fingerInfos : Fingers
  useSlots : Int
  currentSlot : Int
  tempFingerInfo : FingerInfo
  deriving DecidableEq

/-- The static initialiser of `fingerInfos`: an empty slot. -/
def emptyFinger : FingerInfo :=
  { rawX := 0, rawY := 0, x := 0, y := 0, id := -1, setThisTime := 0 }

/-- The state in which the event loop starts (lines 944-948); the field order
of `FingerInfo`, hence the initial `tempFingerInfo`, is fixed by the missing
header and is a parameter here. -/
def initTracker (temp : FingerInfo) : Tracker :=
  { fingerInfos := { f0 := emptyFinger, f1 := emptyFinger },
    useSlots := 1, currentSlot := 0, tempFingerInfo := temp }

/-- First loop of the MT_SYNC lookup (lines 972-979): the index of the slot
holding tracking id `id`, or `-1`. -/
def findSlotById (fs : Fingers) (id : Int) : Int :=
  if fs.f0.id = id then 0 else if fs.f1.id = id then 1 else -1

/-- Second loop of the MT_SYNC lookup (lines 981-990): the first empty slot
receives `id`; the result is the array and the index found, or `-1`. -/
def claimEmptySlot (fs : Fingers) (id : Int) : Fingers × Int :=
  if fs.f0.id = -1 then ({ fs with f0 := { fs.f0 with id := id } }, 0)
  else if fs.f1.id = -1 then ({ fs with f1 := { fs.f1 with id := id } }, 1)
  else (fs, -1)

/-- One slot of the loop "clear slots not set this time" (lines 1003-1010). -/
def clearUnset (f : FingerInfo) : FingerInfo :=
  if f.setThisTime ≠ 0 then { f with setThisTime := 0 } else { f with id := -1 }

/-- The loop of `processFingers` over the two slots (lines 428-434): every
non-empty slot is calibrated. The remainder of `processFingers` (activation and
the call of `processFingerGesture`, which reads the slots) writes none of the
tracker's variables. -/
def calibrateSlots (c : Calib) (fs : Fingers) : Fingers :=
  { f0 := if fs.f0.id ≠ -1 then calibrate c fs.f0 else fs.f0,
    f1 := if fs.f1.id ≠ -1 then calibrate c fs.f1 else fs.f1 }

/-- The number `fingersDown` that `processFingers` computes (lines 428-434). -/
def countFingersDown (fs : Fingers) : Int :=
  (if fs.f0.id ≠ -1 then 1 else 0) + (if fs.f1.id ≠ -1 then 1 else 0)

/-- The slot lookup of the MT_SYNC path (lines 971-990): the array after the
lookup and the `index` found (`-1` when the finger fits no slot). -/
def lookupSlot (fs : Fingers) (id : Int) : Fingers × Int :=
  if findSlotById fs id = -1 then claimEmptySlot fs id else (fs, findSlotById fs id)

/-- The handling of an `EV_SYN` event with code 2 (MT_SYNC; lines 960-997). -/
def handleMtSync (s : Tracker) : Option Tracker :=
  if s.useSlots ≠ 0 then
    some { s with useSlots := 0, currentSlot := -1 }
  else
    let r := lookupSlot s.fingerInfos s.tempFingerInfo.id
    if r.2 ≠ -1 then
      (r.1.modify? r.2 (fun f =>
        { f with setThisTime := 1, rawX := s.tempFingerInfo.rawX,
                 rawY := s.tempFingerInfo.rawY })).map
        (fun fs => { s with fingerInfos := fs })
    else
      some { s with fingerInfos := r.1 }

/-- The handling of an `EV_SYN` event with code 0 (SYN_REPORT; lines 998-1021). -/
def handleSynReport (c : Calib) (s : Tracker) : Tracker :=
  let fs1 : Fingers :=
    if s.useSlots = 0 then
      { f0 := clearUnset s.fingerInfos.f0, f1 := clearUnset s.fingerInfos.f1 }
    else s.fingerInfos
  let fs2 := calibrateSlots c fs1
  if s.useSlots = 0 then
    { s with fingerInfos := fs2, tempFingerInfo := { s.tempFingerInfo with id := -1 } }
  else
    { s with fingerInfos := fs2 }

/-- The write of one field of the current finger (lines 1035-1062): into
`fingerInfos[currentSlot]` in slot mode when `currentSlot != -1`, into
`tempFingerInfo` in MT_SYNC mode. -/
def writeCurrent (s : Tracker) (g : FingerInfo → FingerInfo) : Option Tracker :=
  if s.useSlots ≠ 0 then
    if s.currentSlot ≠ -1 then
      (s.fingerInfos.modify? s.currentSlot g).map (fun fs => { s with fingerInfos := fs })
    else some s
  else
    some { s with tempFingerInfo := g s.tempFingerInfo }

/-- The body of the kernel device event loop for one event (lines 957-1064);
`none` is an access to `fingerInfos` outside `0..1`. -/
def handleEvent (c : Calib) (s : Tracker) (ev : InputEvent) : Option Tracker :=
  if ev.type = EV_SYN then
    if 2 = ev.code then handleMtSync s
    else if 0 = ev.code then some (handleSynReport c s)
    else some s
  else if ev.type = EV_MSC ∧ (ev.code = MSC_RAW ∨ ev.code = MSC_SCAN) then
    some s
  else if ev.code = 47 then
    some { s with
      useSlots := if s.useSlots = 0 then 1 else s.useSlots
      currentSlot := if ev.value < 0 ∨ ev.value > 1 then -1 else ev.value }
  else
    (if ev.code = 57 then writeCurrent s (fun f => { f with id := ev.value }) else some s).bind
      (fun s1 =>
    (if ev.code = 53 then writeCurrent s1 (fun f => { f with rawX := ev.value }) else some s1).bind
      (fun s2 =>
    (if ev.code = 54 then writeCurrent s2 (fun f => { f with rawY := ev.value }) else some s2)))

/-- The event loop over a sequence of events. -/
def runEvents (c : Calib) : Tracker → List InputEvent → Option Tracker
  | s, [] => some s
  | s, ev :: rest => (handleEvent c s ev).bind (fun s1 => runEvents c s1 rest)

end Emu

/-! ## Gesture recognizer (`twofingemu_with_extended_continuation.c`) -/

/-- Modelled from the spec: gesture tag `None` (`twofingemu.h` is not among the
sources; `amPerformingGesture` is initialised to `0`). -/
def GESTURE_NONE : Int := 0

/-- Modelled from the spec: gesture tag `Undecided` (`twofingemu.h` is not among
the sources). -/
def GESTURE_UNDECIDED : Int := 1

/-- Modelled from the spec: gesture tag `Scroll` (`twofingemu.h` is not among the
sources). -/
def GESTURE_SCROLL : Int := 2

/-- Modelled from the spec: gesture tag `Zoom` (`twofingemu.h` is not among the
sources). -/
def GESTURE_ZOOM : Int := 3

/-- Modelled from the spec: gesture tag `Rotate` (`twofingemu.h` is not among the
sources). -/
def GESTURE_ROTATE : Int := 4

/-- Conversion of an integer to `unsigned long` (64 bits), the X11 type `Time`. -/
def toU64 (x : Int) : Int := x % 18446744073709551616

/-- The C library function `abs` on `int`; `abs(INT_MIN)` stays `INT_MIN`. -/
def cAbs (x : Int) : Int := if x = -2147483648 then x else if x < 0 then -x else x

namespace Ext

/-- The constant `#define MAX_EASING_INTERVAL 200`. -/
def MAX_EASING_INTERVAL : Int := 200

/-- The constant `#define MAX_EASING_START_INTERVAL 200`. -/
def MAX_EASING_START_INTERVAL : Int := 200

/-- The constant `#define CLICK_DELAY 200`. -/
def CLICK_DELAY : Int := 200

/-- The constant `#define CONTINUATION_TIME 500`. -/
def CONTINUATION_TIME : Int := 500

/-- The constant `#define PI 3.141592654`. -/
def PI : Dbl := Dbl.rnd (3141592654 / 1000000000)

/-- The `FingerInfo` record as the extended-continuation version uses it. -/
structure FingerInfo where
  x : Int
  y : Int
  down : Int
  id : Int
  deriving DecidableEq

/-- The `Profile` record (declared in the missing headers); each field has the
type of the local variable the recognizer copies it into. A `windowClass` of
`none` is the NULL pointer. -/
structure Profile where
  windowClass : Option String
  scrollInherit : Int
  scrollMinDistance : Int
  hscrollStep : Int
  vscrollStep : Int
  scrollBraceAction : Action
  scrollUpAction : Action
  scrollDownAction : Action
  scrollLeftAction : Action
  scrollRightAction : Action
  zoomInherit : Int
  zoomMinDistance : Int
  zoomStep : Dbl
  zoomInAction : Action
  zoomOutAction : Action
  rotateInherit : Int
  rotateMinDistance : Int
  rotateMinAngle : Dbl
  rotateStep : Dbl
  rotateLeftAction : Action
  rotateRightAction : Action
  tapInherit : Int
  tapAction : Action
  deriving DecidableEq

/-- One entry of the output trace of the recognizer: a direct XTest/Xlib call,
a call of `executeAction`, or a call of one of the grab and thread-control
functions. -/
inductive Call where
  | x (e : XEvent)
  | action (a : Action) (whatToDo : Int)
  | grab
  | ungrab
  | stopEasingThread
  | startEasingThread
  | startContinuation
  deriving DecidableEq

/-- The window handed to `getWindowProfile`: `none` is the window `None`,
`some none` a window for which `XGetClassHint` fails, `some (some n)` a window
whose class hint has `res_name = n`. -/
abbrev WindowInfo := Option (Option String)

/-- What the recognizer reads but never writes: the profile table of the missing
`profiles.h`, `clickmode`, the answer of `getCurrentWindow()` and the two libm
functions `sqrt` and `atan2` (on `int` arguments). -/
structure Env where
  defaultProfile : Profile
  profiles : List Profile
  clickmode : Int
  currentWindow : WindowInfo
  sqrt : Int → Dbl
  atan2 : Int → Int → Dbl

/-- The global variables of the recognizer, the easing and the continuation
machinery, and the trace `out` of the calls made so far. `Time` values are
`unsigned long`. `currentProfile` and `easingProfile` are the profiles pointed
to. -/
structure State where
  f0 : FingerInfo
  f1 : FingerInfo
  fairlyCurrentTime : Int
  fingersDown : Int
  fingersWereDown : Int
  buttonDown : Int
  maxDist : Dbl
  fingerDownTime : Int
  hadTwoFingersOn : Int
  active : Int
  activateAtRelease : Int
  amPerformingGesture : Int
  dragScrolling : Int
  gestureStartCenterX : Int
  gestureStartCenterY : Int
  gestureStartDist : Dbl
  gestureStartAngle : Dbl
  currentCenterX : Int
  currentCenterY : Int
  currentProfile : Profile
  stopEasing : Int
  easingThreadActive : Int
  easingActive : Int
  easingWakeup : Int
  easingInterval : Int
  easingDirectionX : Int
  easingDirectionY : Int
  easingProfile : Profile
  lastScrollXTime : Int
  lastScrollYTime : Int
  lastScrollXIntv : Int
  lastScrollYIntv : Int
  lastLastScrollXIntv : Int
  lastLastScrollYIntv : Int
  continuationWakeup : Int
  dontStartContinuation : Int
  ignoreFingersUp : Int
  out : List Call

/-- Append calls to the trace. -/
def State.emit (s : State) (cs : List Call) : State := { s with out := s.out ++ cs }

/-- The function `activate` (lines 243-249). -/
def activate (s : State) : State :=
  let s1 := { s with activateAtRelease := 0 }
  if s1.active = 0 then { (s1.emit [Call.grab]) with active := 1 } else s1

/-- The function `deactivate` (lines 252-258). -/
def deactivate (s : State) : State :=
  let s1 := { s with activateAtRelease := 0 }
  if s1.active ≠ 0 then ({ s1 with active := 0 }).emit [Call.ungrab] else s1

/-- The function `releaseButton` (lines 261-267). -/
def releaseButton (s : State) : State :=
  if s.buttonDown ≠ 0 then
    ({ s with buttonDown := 0 }).emit [Call.x (XEvent.button 1 false), Call.x XEvent.flush]
  else s

/-- The test `strncmp(a, b, 30) == 0` on two NUL-terminated strings. -/
def strncmp30Eq (a b : String) : Bool := decide (a.data.take 30 = b.data.take 30)

/-- The function `getWindowProfile` (lines 429-469): the first profile of the table whose
`windowClass` agrees with `res_name`, else the default profile. An entry with a
NULL `windowClass` never matches. -/
def getWindowProfile (env : Env) (w : WindowInfo) : Profile :=
  match w with
  | none => env.defaultProfile
  | some none => env.defaultProfile
  | some (some resName) =>
    match env.profiles.find? (fun p =>
        match p.windowClass with
        | some wc => strncmp30Eq resName wc
        | none => false) with
    | some p => p
    | none => env.defaultProfile

/-- The function `startEasingThread` (lines 1090-1103). -/
def startEasingThread (s : State) : State :=
  let s1 := ({ s with stopEasing := 0 }).emit [Call.startEasingThread]
  if s1.easingThreadActive = 0 then { s1 with easingThreadActive := 1 }
  else { s1 with easingWakeup := 1 }

/-- The function `stopEasingThread` (lines 1105-1111). -/
def stopEasingThread (s : State) : State :=
  let s1 := s.emit [Call.stopEasingThread]
  if s1.easingThreadActive ≠ 0 then { s1 with stopEasing := 1 } else s1

/-- The function `startContinuation` (lines 1114-1119). -/
def startContinuation (s : State) : State :=
  ({ s with continuationWakeup := 1 }).emit [Call.startContinuation]

end Ext

namespace Ext

/-- The classification block of `checkGesture` (lines 726-783), entered when
the gesture is undecided and two fingers are down: `some` is an early
`return 1`, `none` falls through to the `switch`. `abs` is the `int` function of
`stdlib.h`, so its `double` argument is first cast to `int`. -/
def checkGestureUndecided (env : Env) (s : State) (currentDist currentAngle moveDist : Dbl) :
    Option (State × Int) :=
  let scrollMinDist :=
    if s.currentProfile.scrollInherit ≠ 0 then env.defaultProfile.scrollMinDistance
    else s.currentProfile.scrollMinDistance
  if Dbl.toInt moveDist > scrollMinDist then
    let s1 := { s with amPerformingGesture := GESTURE_SCROLL }
    if s.currentProfile.scrollInherit ≠ 0 then
      some ({ (s1.emit [Call.action env.defaultProfile.scrollBraceAction EXECUTEACTION_PRESS]) with
               dragScrolling :=
                 if env.defaultProfile.scrollBraceAction.actionType = ACTIONTYPE_NONE then 0 else 1 },
            1)
    else
      some ({ (s1.emit [Call.action s.currentProfile.scrollBraceAction EXECUTEACTION_PRESS]) with
               dragScrolling :=
                 if s.currentProfile.scrollBraceAction.actionType = ACTIONTYPE_NONE then 0 else 1 },
            1)
  else
    let zoomMinDist :=
      if s.currentProfile.zoomInherit ≠ 0 then env.defaultProfile.zoomMinDistance
      else s.currentProfile.zoomMinDistance
    if cAbs (Dbl.toInt (Dbl.sub (Dbl.ofInt (Dbl.toInt currentDist)) s.gestureStartDist))
        > zoomMinDist then
      some ({ s with amPerformingGesture := GESTURE_ZOOM }, 1)
    else
      let rotateMinDist :=
        if s.currentProfile.rotateInherit ≠ 0 then env.defaultProfile.rotateMinDistance
        else s.currentProfile.rotateMinDistance
      let rotateMinAngle :=
        if s.currentProfile.rotateInherit ≠ 0 then env.defaultProfile.rotateMinAngle
        else s.currentProfile.rotateMinAngle
      let rotatedBy0 := Dbl.sub currentAngle s.gestureStartAngle
      let rotatedBy1 :=
        if Dbl.lt rotatedBy0 (Dbl.ofInt (-180)) then Dbl.add rotatedBy0 (Dbl.ofInt 360)
        else rotatedBy0
      let rotatedBy :=
        if Dbl.gt rotatedBy1 (Dbl.ofInt 180) then Dbl.sub rotatedBy1 (Dbl.ofInt 360)
        else rotatedBy1
      if Dbl.gt (Dbl.ofInt (cAbs (Dbl.toInt rotatedBy))) rotateMinAngle = true
          ∧ Dbl.toInt currentDist > rotateMinDist then
        some ({ s with amPerformingGesture := GESTURE_ROTATE }, 1)
      else none

/-- The `case GESTURE_SCROLL` of `checkGesture` (lines 787-863). The interval
`fairlyCurrentTime - lastScrollXTime` is an `unsigned long` stored in an `int`. -/
def checkGestureScroll (env : Env) (s : State) : State × Int :=
  let hscrolledBy := s.currentCenterX - s.gestureStartCenterX
  let vscrolledBy := s.currentCenterY - s.gestureStartCenterY
  let hscrollStep :=
    if s.currentProfile.scrollInherit ≠ 0 then env.defaultProfile.hscrollStep
    else s.currentProfile.hscrollStep
  let vscrollStep :=
    if s.currentProfile.scrollInherit ≠ 0 then env.defaultProfile.vscrollStep
    else s.currentProfile.vscrollStep
  if hscrollStep = 0 ∨ vscrollStep = 0 then (s, 0)
  else if hscrolledBy > hscrollStep then
    let s1 := { s with
      easingDirectionX := 1
      lastLastScrollXIntv := s.lastScrollXIntv
      lastScrollXIntv := toI32 (toU64 (s.fairlyCurrentTime - s.lastScrollXTime))
      lastScrollXTime := s.fairlyCurrentTime }
    let s2 :=
      if s.currentProfile.scrollInherit ≠ 0 then
        s1.emit [Call.action env.defaultProfile.scrollRightAction EXECUTEACTION_BOTH]
      else s1.emit [Call.action s.currentProfile.scrollRightAction EXECUTEACTION_BOTH]
    ({ s2 with gestureStartCenterX := s.gestureStartCenterX + hscrollStep }, 1)
  else if hscrolledBy < -hscrollStep then
    let s1 := { s with
      lastLastScrollXIntv := s.lastScrollXIntv
      lastScrollXIntv := toI32 (toU64 (s.fairlyCurrentTime - s.lastScrollXTime))
      lastScrollXTime := s.fairlyCurrentTime
      easingDirectionX := -1 }
    let s2 :=
      if s.currentProfile.scrollInherit ≠ 0 then
        s1.emit [Call.action env.defaultProfile.scrollLeftAction EXECUTEACTION_BOTH]
      else s1.emit [Call.action s.currentProfile.scrollLeftAction EXECUTEACTION_BOTH]
    ({ s2 with gestureStartCenterX := s.gestureStartCenterX - hscrollStep }, 1)
  else if vscrolledBy > vscrollStep then
    let s1 := { s with
      lastLastScrollYIntv := s.lastScrollYIntv
      lastScrollYIntv := toI32 (toU64 (s.fairlyCurrentTime - s.lastScrollYTime))
      lastScrollYTime := s.fairlyCurrentTime
      easingDirectionY := 1 }
    let s2 :=
      if s.currentProfile.scrollInherit ≠ 0 then
        s1.emit [Call.action env.defaultProfile.scrollDownAction EXECUTEACTION_BOTH]
      else s1.emit [Call.action s.currentProfile.scrollDownAction EXECUTEACTION_BOTH]
    ({ s2 with gestureStartCenterY := s.gestureStartCenterY + vscrollStep }, 1)
  else if vscrolledBy < -vscrollStep then
    let s1 := { s with
      lastLastScrollYIntv := s.lastScrollYIntv
      lastScrollYIntv := toI32 (toU64 (s.fairlyCurrentTime - s.lastScrollYTime))
      lastScrollYTime := s.fairlyCurrentTime
      easingDirectionY := -1 }
    let s2 :=
      if s.currentProfile.scrollInherit ≠ 0 then
        s1.emit [Call.action env.defaultProfile.scrollUpAction EXECUTEACTION_BOTH]
      else s1.emit [Call.action s.currentProfile.scrollUpAction EXECUTEACTION_BOTH]
    ({ s2 with gestureStartCenterY := s.gestureStartCenterY - vscrollStep }, 1)
  else (s, 0)

/-- The `case GESTURE_ZOOM` of `checkGesture` (lines 864-895). -/
def checkGestureZoom (env : Env) (s : State) (currentDist : Dbl) : State × Int :=
  let zoomedBy := Dbl.div currentDist s.gestureStartDist
  let zoomStep :=
    if s.currentProfile.zoomInherit ≠ 0 then env.defaultProfile.zoomStep
    else s.currentProfile.zoomStep
  if Dbl.gt zoomedBy zoomStep then
    let s1 :=
      if s.currentProfile.zoomInherit ≠ 0 then
        s.emit [Call.action env.defaultProfile.zoomInAction EXECUTEACTION_BOTH]
      else s.emit [Call.action s.currentProfile.zoomInAction EXECUTEACTION_BOTH]
    ({ s1 with gestureStartDist := Dbl.mul s.gestureStartDist zoomStep }, 1)
  else if Dbl.lt zoomedBy (Dbl.div (Dbl.ofInt 1) zoomStep) then
    let s1 :=
      if s.currentProfile.zoomInherit ≠ 0 then
        s.emit [Call.action env.defaultProfile.zoomOutAction EXECUTEACTION_BOTH]
      else s.emit [Call.action s.currentProfile.zoomOutAction EXECUTEACTION_BOTH]
    ({ s1 with gestureStartDist := Dbl.div s.gestureStartDist zoomStep }, 1)
  else (s, 0)

/-- The `case GESTURE_ROTATE` of `checkGesture` (lines 896-930). -/
def checkGestureRotate (env : Env) (s : State) (currentAngle : Dbl) : State × Int :=
  let rotatedBy0 := Dbl.sub currentAngle s.gestureStartAngle
  let rotatedBy1 :=
    if Dbl.lt rotatedBy0 (Dbl.ofInt (-180)) then Dbl.add rotatedBy0 (Dbl.ofInt 360)
    else rotatedBy0
  let rotatedBy :=
    if Dbl.gt rotatedBy1 (Dbl.ofInt 180) then Dbl.sub rotatedBy1 (Dbl.ofInt 360)
    else rotatedBy1
  let rotateStep :=
    if s.currentProfile.rotateInherit ≠ 0 then env.defaultProfile.rotateStep
    else s.currentProfile.rotateStep
  if Dbl.gt rotatedBy rotateStep then
    let s1 :=
      if s.currentProfile.rotateInherit ≠ 0 then
        s.emit [Call.action env.defaultProfile.rotateRightAction EXECUTEACTION_BOTH]
      else s.emit [Call.action s.currentProfile.rotateRightAction EXECUTEACTION_BOTH]
    ({ s1 with gestureStartAngle := Dbl.add s.gestureStartAngle rotateStep }, 0)
  else if Dbl.lt rotatedBy (Dbl.neg rotateStep) then
    let s1 :=
      if s.currentProfile.rotateInherit ≠ 0 then
        s.emit [Call.action env.defaultProfile.rotateLeftAction EXECUTEACTION_BOTH]
      else s.emit [Call.action s.currentProfile.rotateLeftAction EXECUTEACTION_BOTH]
    ({ s1 with gestureStartAngle := Dbl.sub s.gestureStartAngle rotateStep }, 0)
  else (s, 0)

/-- The function `checkGesture` (lines 709-935): the state after the call and the value
returned. Arithmetic on coordinates is exact (C leaves `int` overflow
undefined). -/
def checkGesture (env : Env) (s : State) : State × Int :=
  let xdiff := s.f1.x - s.f0.x
  let ydiff := s.f1.y - s.f0.y
  let currentDist := env.sqrt (xdiff * xdiff + ydiff * ydiff)
  let currentAngle := Dbl.div (Dbl.mul (env.atan2 ydiff xdiff) (Dbl.ofInt 180)) PI
  let xdist := s.currentCenterX - s.gestureStartCenterX
  let ydist := s.currentCenterY - s.gestureStartCenterY
  let moveDist := env.sqrt (xdist * xdist + ydist * ydist)
  let s1 :=
    if Dbl.gt moveDist s.maxDist = true ∧ s.fingersDown = 2 then { s with maxDist := moveDist }
    else s
  match (if s1.amPerformingGesture = GESTURE_UNDECIDED ∧ s1.fingersDown = 2 then
          checkGestureUndecided env s1 currentDist currentAngle moveDist
         else none) with
  | some r => r
  | none =>
    if s1.amPerformingGesture = GESTURE_SCROLL then checkGestureScroll env s1
    else if s1.amPerformingGesture = GESTURE_ZOOM then checkGestureZoom env s1 currentDist
    else if s1.amPerformingGesture = GESTURE_ROTATE then checkGestureRotate env s1 currentAngle
    else (s1, 0)

/-- The loop `while (checkGesture());` (lines 567-569), run for at most `fuel`
calls of `checkGesture`; `none` when the loop has not ended by then. -/
def checkGestureLoop (env : Env) : Nat → State → Option State
  | 0, _ => none
  | fuel + 1, s =>
    if (checkGesture env s).2 ≠ 0 then checkGestureLoop env fuel (checkGesture env s).1
    else some (checkGesture env s).1

end Ext

namespace Ext

/-- The block "If we should activate at release, do it" (lines 485-488 and
700-703). -/
def activateAtReleaseCheck (s : State) : State :=
  if s.buttonDown = 0 ∧ s.fingersDown = 0 ∧ s.activateAtRelease ≠ 0 then
    activate (releaseButton s)
  else s

/-- The loops "fake single-touch move event" (lines 645-651 and 667-673): a
pointer warp to every finger whose `down` flag is set. -/
def moveToDownFingers (s : State) : State :=
  let s1 :=
    if s.f0.down ≠ 0 then s.emit [Call.x (XEvent.motion s.f0.x s.f0.y), Call.x XEvent.flush]
    else s
  if s1.f1.down ≠ 0 then s1.emit [Call.x (XEvent.motion s1.f1.x s1.f1.y), Call.x XEvent.flush]
  else s1

/-- The branch `TWO_FINGERS_DOWN` of `processFingers` (lines 497-539). -/
def twoFingersDown (env : Env) (s : State) : State :=
  let s1 := { s with
    lastScrollXTime := s.fairlyCurrentTime
    lastScrollYTime := s.fairlyCurrentTime
    lastScrollXIntv := 0
    lastScrollYIntv := 0
    lastLastScrollXIntv := 0
    lastLastScrollYIntv := 0
    maxDist := Dbl.ofInt 0
    hadTwoFingersOn := 1
    currentProfile := getWindowProfile env env.currentWindow }
  let s2 := releaseButton s1
  let xdiff := s2.f1.x - s2.f0.x
  let ydiff := s2.f1.y - s2.f0.y
  let s3 := { s2 with
    gestureStartCenterX := Int.tdiv (s2.f0.x + s2.f1.x) 2
    gestureStartCenterY := Int.tdiv (s2.f0.y + s2.f1.y) 2
    gestureStartDist := env.sqrt (xdiff * xdiff + ydiff * ydiff)
    gestureStartAngle := Dbl.div (Dbl.mul (env.atan2 ydiff xdiff) (Dbl.ofInt 180)) PI
    amPerformingGesture := GESTURE_UNDECIDED }
  s3.emit [Call.x (XEvent.motion s3.gestureStartCenterX s3.gestureStartCenterY),
           Call.x XEvent.flush]

/-- The branch `TWO_FINGERS_ON` of `processFingers` (lines 540-570), for a tick
whose fingers are not only pretended; `none` when the gesture loop has not
ended within `fuel` calls. -/
def twoFingersOn (env : Env) (fuel : Nat) (s : State) : Option State :=
  let s1 :=
    if s.fingersDown = 2 then
      { s with
        currentCenterX := Int.tdiv (s.f0.x + s.f1.x) 2
        currentCenterY := Int.tdiv (s.f0.y + s.f1.y) 2 }
    else
      let a := if s.f0.down ≠ 0 then { s with currentCenterX := s.f0.x, currentCenterY := s.f0.y }
        else s
      if a.f1.down ≠ 0 then { a with currentCenterX := a.f1.x, currentCenterY := a.f1.y } else a
  let s2 :=
    if s1.amPerformingGesture = GESTURE_SCROLL ∧ s1.dragScrolling ≠ 0 then
      s1.emit [Call.x (XEvent.motion s1.currentCenterX s1.currentCenterY), Call.x XEvent.flush]
    else s1
  checkGestureLoop env fuel s2

/-- The compensation "for scrolling gestures getting a little bit slower at the
end" (lines 590-591). -/
def compensateIntervals (s : State) : State :=
  let s1 :=
    if s.lastLastScrollXIntv < s.lastScrollXIntv ∧ s.lastLastScrollXIntv ≠ 0 then
      { s with lastScrollXIntv := s.lastLastScrollXIntv }
    else s
  if s1.lastLastScrollYIntv < s1.lastScrollYIntv ∧ s1.lastLastScrollYIntv ≠ 0 then
    { s1 with lastScrollYIntv := s1.lastLastScrollYIntv }
  else s1

/-- The cancellation of the Y axis (line 595). The comparison
`fairlyCurrentTime - lastScrollYTime > lastScrollYIntv * 2` is made on
`unsigned long`. -/
def cancelStoppedY (s : State) : State :=
  if s.lastScrollYIntv = 0
      ∨ toU64 (s.fairlyCurrentTime - s.lastScrollYTime) > toU64 (toI32 (s.lastScrollYIntv * 2))
      ∨ s.lastScrollYIntv > MAX_EASING_START_INTERVAL then
    { s with easingDirectionY := 0 }
  else s

/-- The cancellation of the X axis (line 596). -/
def cancelStoppedX (s : State) : State :=
  if s.lastScrollXIntv = 0
      ∨ toU64 (s.fairlyCurrentTime - s.lastScrollXTime) > toU64 (toI32 (s.lastScrollXIntv * 2))
      ∨ s.lastScrollXIntv > MAX_EASING_START_INTERVAL then
    { s with easingDirectionX := 0 }
  else s

/-- The choice of one axis when both are eligible (lines 598-605). -/
def dropSlowerAxis (s : State) : State :=
  if s.easingDirectionX ≠ 0 ∧ s.easingDirectionY ≠ 0 then
    if s.lastScrollXIntv < s.lastScrollYIntv then { s with easingDirectionY := 0 }
    else if s.lastScrollYIntv < s.lastScrollXIntv then { s with easingDirectionX := 0 }
    else s
  else s

/-- The assignment of `easingInterval` (lines 606-610). -/
def setEasingInterval (s : State) : State :=
  if s.easingDirectionY = 0 then { s with easingInterval := s.lastScrollXIntv }
  else if s.easingDirectionX = 0 then { s with easingInterval := s.lastScrollYIntv }
  else s

/-- The release of the scroll brace and the assignment of `easingProfile`
(lines 578-586). -/
def releaseScrollBrace (env : Env) (s : State) : State :=
  let s1 :=
    if s.currentProfile.scrollInherit ≠ 0 then
      s.emit [Call.action env.defaultProfile.scrollBraceAction EXECUTEACTION_RELEASE]
    else s.emit [Call.action s.currentProfile.scrollBraceAction EXECUTEACTION_RELEASE]
  { s1 with easingProfile := s1.currentProfile }

/-- The start of easing when an axis is left (lines 597-612). -/
def startEasingIfEligible (s : State) : State :=
  if s.easingDirectionX ≠ 0 ∨ s.easingDirectionY ≠ 0 then
    startEasingThread (setEasingInterval (dropSlowerAxis s))
  else s

/-- The easing-start block of the branch `TWO_FINGERS_UP` (lines 576-613). -/
def startEasingAfterScroll (env : Env) (s : State) : State :=
  startEasingIfEligible
    (cancelStoppedX (cancelStoppedY (compensateIntervals (releaseScrollBrace env s))))

/-- The tap block of the branch `TWO_FINGERS_UP` (lines 621-637); `none` is an
access `fingerInfos[clickmode]` outside `0..1`. -/
def tapIfQuiet (env : Env) (s : State) : Option State :=
  if (s.amPerformingGesture = GESTURE_NONE ∨ s.amPerformingGesture = GESTURE_UNDECIDED)
      ∧ Dbl.lt s.maxDist (Dbl.ofInt 10) = true then
    let moved : Option State :=
      if env.clickmode = 2 then
        some (s.emit [Call.x (XEvent.motion s.gestureStartCenterX s.gestureStartCenterY)])
      else if env.clickmode = 0 then
        some (s.emit [Call.x (XEvent.motion s.f0.x s.f0.y)])
      else if env.clickmode = 1 then
        some (s.emit [Call.x (XEvent.motion s.f1.x s.f1.y)])
      else none
    moved.map (fun s1 =>
      let s2 := s1.emit [Call.x XEvent.flush]
      if s2.currentProfile.tapInherit ≠ 0 then
        s2.emit [Call.action env.defaultProfile.tapAction EXECUTEACTION_BOTH]
      else s2.emit [Call.action s2.currentProfile.tapAction EXECUTEACTION_BOTH])
  else some s

/-- The branch `TWO_FINGERS_UP` of `processFingers` (lines 571-640), with
`CONTINUATION == 2`. -/
def twoFingersUp (env : Env) (s : State) : Option State :=
  let s1 :=
    if s.amPerformingGesture = GESTURE_SCROLL ∧ ¬ (s.easingActive ≠ 0) then
      startEasingAfterScroll env s
    else s
  if s1.amPerformingGesture ≠ GESTURE_NONE ∧ s1.amPerformingGesture ≠ GESTURE_UNDECIDED
      ∧ ¬ (s1.dontStartContinuation ≠ 0) then
    some { (startContinuation s1) with fingersDown := 1 }
  else
    (tapIfQuiet env s1).map (fun s2 => { s2 with amPerformingGesture := GESTURE_NONE })

/-- The branch "moved with one finger" (lines 653-676), for a tick whose finger
is not only pretended. `fingerDownTime + CLICK_DELAY` is an `unsigned long`
sum. -/
def oneFingerMoved (s : State) : State :=
  let s1 :=
    if s.hadTwoFingersOn = 0 ∧ s.buttonDown = 0 then
      if s.fairlyCurrentTime > toU64 (s.fingerDownTime + CLICK_DELAY) then
        ({ s with buttonDown := 1 }).emit [Call.x (XEvent.button 1 true), Call.x XEvent.flush]
      else s
    else s
  if s1.buttonDown ≠ 0 then moveToDownFingers s1 else s1

/-- The branch "last finger released" (lines 677-691). -/
def lastFingerReleased (s : State) : State :=
  if s.hadTwoFingersOn = 0 ∧ s.buttonDown = 0 then
    s.emit [Call.x (XEvent.button 1 true), Call.x XEvent.flush,
            Call.x (XEvent.button 1 false), Call.x XEvent.flush]
  else releaseButton s

/-- The end of `processFingers` (lines 692-703). -/
def finishTick (s : State) : State :=
  let s1 := if s.fingersDown = 0 then { s with hadTwoFingersOn := 0 } else s
  activateAtReleaseCheck { s1 with fingersWereDown := s1.fingersDown }

/-- The continuation masking at the start of `processFingers` (lines 474-482):
the value of the global `fingersDown` and of `ignoreFingersUp` afterwards. -/
def continuationMask (s : State) : State :=
  if s.ignoreFingersUp ≠ 0 then
    if s.fingersDown = 0 then { s with fingersDown := 1 }
    else { s with ignoreFingersUp := 0 }
  else s

/-- The local `fingersOnlyPretended` set by the continuation masking
(lines 474-482). -/
def fingersOnlyPretended (s : State) : Bool :=
  decide (s.ignoreFingersUp ≠ 0 ∧ s.fingersDown = 0)

/-- The call of `stopEasingThread` on a new touch (lines 493-495), with
`CONTINUATION == 2`. -/
def stopEasingOnNewTouch (s : State) : State :=
  if (s.fingersDown ≠ 0 ∧ s.fingersWereDown = 0)
      ∨ (s.fingersDown = 2 ∧ s.fingersWereDown = 1) then
    stopEasingThread s
  else s

/-- The chain of branches of `processFingers` (lines 497-691); `pretended` is
the local `fingersOnlyPretended`. -/
def gestureBranch (env : Env) (fuel : Nat) (pretended : Bool) (s : State) : Option State :=
  if s.fingersDown = 2 ∧ s.hadTwoFingersOn = 0 then
    some (twoFingersDown env s)
  else if s.fingersDown > 0 ∧ s.hadTwoFingersOn = 1 then
    if pretended = false then twoFingersOn env fuel s else some s
  else if s.fingersDown = 0 ∧ s.hadTwoFingersOn = 1 then
    twoFingersUp env s
  else if s.fingersDown = 1 ∧ s.fingersWereDown = 0 then
    some (moveToDownFingers { s with fingerDownTime := s.fairlyCurrentTime })
  else if s.fingersDown = 1 then
    if pretended = false then some (oneFingerMoved s) else some s
  else if s.fingersDown = 0 ∧ s.fingersWereDown > 0 then
    some (lastFingerReleased s)
  else some s

/-- The function `processFingers` (lines 472-704). The tick reads the globals `fingersDown`,
`fingerInfos` and `fairlyCurrentTime` from the state. `none` when the gesture
loop does not end within `fuel` calls of `checkGesture`, or on an access
`fingerInfos[clickmode]` outside `0..1`. -/
def processFingers (env : Env) (fuel : Nat) (s : State) : Option State :=
  if (activateAtReleaseCheck (continuationMask s)).active = 0 then
    some (activateAtReleaseCheck (continuationMask s))
  else
    (gestureBranch env fuel (fingersOnlyPretended s)
      (stopEasingOnNewTouch (activateAtReleaseCheck (continuationMask s)))).map finishTick

/-- The part of `continuationThreadFunction` after the sleep (lines 1138-1146). -/
def continuationTimeout (env : Env) (fuel : Nat) (s : State) : Option State :=
  if s.ignoreFingersUp ≠ 0 then
    (processFingers env fuel
      { s with ignoreFingersUp := 0, fingersDown := 0, dontStartContinuation := 1 }).map
      (fun s1 => { s1 with dontStartContinuation := 0 })
  else some s

end Ext

/-! ## Reference notions for the recognizer -/

/-- The calls of `executeAction` recorded in a trace, in order, each with its
phase. -/
def calledActions : List Ext.Call → List (Action × Int)
  | [] => []
  | Ext.Call.action a w :: rest => (a, w) :: calledActions rest
  | _ :: rest => calledActions rest

/-- Whether a call is a direct button-1 event (an edge of the simulated mouse
button, not part of an Action). -/
def isButton1Call : Ext.Call → Bool
  | Ext.Call.x (XEvent.button b _) => decide (b = 1)
  | _ => false

/-- The tap action the recognizer reads: that of `defaultProfile` when
`tapInherit` is set, else that of `currentProfile`. -/
def effectiveTapAction (env : Ext.Env) (s : Ext.State) : Action :=
  if s.currentProfile.tapInherit ≠ 0 then env.defaultProfile.tapAction
  else s.currentProfile.tapAction

/-- The input of one recognizer tick: the finger records and the count
`fingersDown` left by the device loop, and the time `fairlyCurrentTime` left by
the X thread. -/
structure TickInput where
  f0 : Ext.FingerInfo
  f1 : Ext.FingerInfo
  fingersDown : Int
  time : Int

/-- One tick: `processFingers` called with the given input in the globals. -/
def deviceTick (env : Ext.Env) (fuel : Nat) (s : Ext.State) (inp : TickInput) :
    Option Ext.State :=
  Ext.processFingers env fuel
    { s with f0 := inp.f0, f1 := inp.f1, fingersDown := inp.fingersDown,
             fairlyCurrentTime := inp.time }

/-- A sequence of ticks, each allowed `fuel` calls of `checkGesture`. -/
def runTicks (env : Ext.Env) (fuel : Nat) : Ext.State → List TickInput → Option Ext.State
  | s, [] => some s
  | s, inp :: rest => (deviceTick env fuel s inp).bind (fun s1 => runTicks env fuel s1 rest)

/-- The tick input has real fingers whose centre point, as the branch
`TWO_FINGERS_ON` computes it, is `(x, y)`: the midpoint of the two fingers when
`fingersDown = 2`, the finger flagged `down` when `fingersDown = 1`. -/
def TickInput.hasCenter (inp : TickInput) (x y : Int) : Prop :=
  (inp.fingersDown = 2 ∧ Int.tdiv (inp.f0.x + inp.f1.x) 2 = x
    ∧ Int.tdiv (inp.f0.y + inp.f1.y) 2 = y) ∨
  (inp.fingersDown = 1 ∧
    ((inp.f1.down ≠ 0 ∧ inp.f1.x = x ∧ inp.f1.y = y) ∨
     (inp.f1.down = 0 ∧ inp.f0.down ≠ 0 ∧ inp.f0.x = x ∧ inp.f0.y = y)))

/-- The horizontal scroll step the recognizer reads (of `defaultProfile` when
`scrollInherit` is set). -/
def effectiveHscrollStep (env : Ext.Env) (p : Ext.Profile) : Int :=
  if p.scrollInherit ≠ 0 then env.defaultProfile.hscrollStep else p.hscrollStep

/-- The vertical scroll step the recognizer reads. -/
def effectiveVscrollStep (env : Ext.Env) (p : Ext.Profile) : Int :=
  if p.scrollInherit ≠ 0 then env.defaultProfile.vscrollStep else p.vscrollStep

/-- The scroll-right Action the recognizer executes. -/
def effectiveScrollRightAction (env : Ext.Env) (p : Ext.Profile) : Action :=
  if p.scrollInherit ≠ 0 then env.defaultProfile.scrollRightAction else p.scrollRightAction

/-- The number of scroll-right steps for a displacement `d` and a step `h`:
`⌈d / h⌉ - 1` for `d ≥ 1`, and `0` for `d ≤ 0`. -/
def scrollRightSteps (d h : Int) : Nat :=
  if d ≥ 1 then ((d - 1) / h).toNat else 0

/-- What the gesture loop leaves unchanged while it scrolls horizontally. -/
def ScrollFrame (s s' : Ext.State) : Prop :=
  s'.active = s.active ∧ s'.hadTwoFingersOn = s.hadTwoFingersOn ∧
  s'.amPerformingGesture = s.amPerformingGesture ∧
  s'.gestureStartCenterY = s.gestureStartCenterY ∧
  s'.currentCenterX = s.currentCenterX ∧ s'.currentCenterY = s.currentCenterY ∧
  s'.currentProfile = s.currentProfile ∧ s'.fingersDown = s.fingersDown ∧
  s'.buttonDown = s.buttonDown ∧ s'.activateAtRelease = s.activateAtRelease ∧
  s'.ignoreFingersUp = s.ignoreFingersUp

/-! ## Concrete profiles and states for the examples -/

/-- Newton iteration for the integer square root of `n`, at most `fuel` steps
from the estimate `x`. -/
def isqrtIter (n : Nat) : Nat → Nat → Nat
  | 0, x => x
  | fuel + 1, x => if (x + n / x) / 2 < x then isqrtIter n fuel ((x + n / x) / 2) else x

/-- A stand-in for libm `sqrt` in the examples: the integer square root. -/
def demoSqrt (n : Int) : Dbl :=
  Dbl.fin ((if n.toNat = 0 then 0 else isqrtIter n.toNat 64 n.toNat : Nat) : ℚ)

/-- A stand-in for libm `atan2` in the examples, which do not rotate. -/
def demoAtan2 (_ _ : Int) : Dbl := Dbl.fin 0

/-- The Action "press and release button `b`" without modifiers. -/
def buttonAction (b : Int) : Action :=
  { actionType := ACTIONTYPE_BUTTONPRESS, keyButton := b, modifier := 0 }

/-- A profile with `hscrollStep = vscrollStep = 50`, `scrollMinDistance = 30`,
`zoomStep = 1.2` (the `double` nearest to it,
`5404319552844595 / 2^52`), no brace action and no inheritance; scrolling uses
buttons 4 to 7, the tap button 2. -/
def demoProfile : Ext.Profile :=
  { windowClass := none
    scrollInherit := 0
    scrollMinDistance := 30
    hscrollStep := 50
    vscrollStep := 50
    scrollBraceAction := { actionType := ACTIONTYPE_NONE, keyButton := 0, modifier := 0 }
    scrollUpAction := buttonAction 4
    scrollDownAction := buttonAction 5
    scrollLeftAction := buttonAction 6
    scrollRightAction := buttonAction 7
    zoomInherit := 0
    zoomMinDistance := 100
    zoomStep := Dbl.fin (5404319552844595 / 4503599627370496)
    zoomInAction := { actionType := ACTIONTYPE_KEYPRESS, keyButton := 43, modifier := 2 }
    zoomOutAction := { actionType := ACTIONTYPE_KEYPRESS, keyButton := 45, modifier := 2 }
    rotateInherit := 0
    rotateMinDistance := 50
    rotateMinAngle := Dbl.fin 15
    rotateStep := Dbl.fin 15
    rotateLeftAction := { actionType := ACTIONTYPE_KEYPRESS, keyButton := 108, modifier := 0 }
    rotateRightAction := { actionType := ACTIONTYPE_KEYPRESS, keyButton := 114, modifier := 0 }
    tapInherit := 0
    tapAction := buttonAction 2 }

/-- An environment whose only profile is `demoProfile`, with
`clickmode = 2` (centre). -/
def demoEnv : Ext.Env :=
  { defaultProfile := demoProfile
    profiles := []
    clickmode := 2
    currentWindow := none
    sqrt := demoSqrt
    atan2 := demoAtan2 }

/-- A finger record at `(x, y)` flagged `down`. -/
def fingerAt (x y id : Int) : Ext.FingerInfo := { x := x, y := y, down := 1, id := id }

/-- The active recognizer with no finger down and no gesture. -/
def idleState : Ext.State :=
  { f0 := { x := 0, y := 0, down := 0, id := 0 }
    f1 := { x := 0, y := 0, down := 0, id := 1 }
    fairlyCurrentTime := 0
    fingersDown := 0
    fingersWereDown := 0
    buttonDown := 0
    maxDist := Dbl.fin 0
    fingerDownTime := 0
    hadTwoFingersOn := 0
    active := 1
    activateAtRelease := 0
    amPerformingGesture := GESTURE_NONE
    dragScrolling := 0
    gestureStartCenterX := 0
    gestureStartCenterY := 0
    gestureStartDist := Dbl.fin 0
    gestureStartAngle := Dbl.fin 0
    currentCenterX := 0
    currentCenterY := 0
    currentProfile := demoProfile
    stopEasing := 0
    easingThreadActive := 0
    easingActive := 0
    easingWakeup := 0
    easingInterval := 0
    easingDirectionX := 0
    easingDirectionY := 0
    easingProfile := demoProfile
    lastScrollXTime := 0
    lastScrollYTime := 0
    lastScrollXIntv := 0
    lastScrollYIntv := 0
    lastLastScrollXIntv := 0
    lastLastScrollYIntv := 0
    continuationWakeup := 0
    dontStartContinuation := 0
    ignoreFingersUp := 0
    out := [] }

/-- A state after two fingers touched and left again without moving: the
gesture is still undecided. -/
def tapState : Ext.State :=
  { idleState with
    hadTwoFingersOn := 1, fingersWereDown := 2, amPerformingGesture := GESTURE_UNDECIDED }

/-- A state in Scroll mode whose gesture start centre is `(0, 500)`. -/
def scrollState : Ext.State :=
  { idleState with
    hadTwoFingersOn := 1, fingersWereDown := 2, fingersDown := 2,
    amPerformingGesture := GESTURE_SCROLL,
    gestureStartCenterX := 0, gestureStartCenterY := 500,
    currentCenterX := 0, currentCenterY := 500 }

/-- The tick input of two fingers 300 apart on the line `y = 500` whose centre
point is `(x, 500)`. -/
def scrollTick (x : Int) : TickInput :=
  { f0 := fingerAt (x - 150) 500 0, f1 := fingerAt (x + 150) 500 1, fingersDown := 2, time := 0 }

/-- The number of executions of Action `a` with phase BOTH in a trace. -/
def countBoth (a : Action) (t : List Ext.Call) : Nat :=
  (calledActions t).count (a, EXECUTEACTION_BOTH)

/-- What the part of a tick before the gesture loop leaves unchanged when real
fingers are down; the calls it adds to the trace are no Actions. -/
def TickFrame (s s' : Ext.State) : Prop :=
  s'.f0 = s.f0 ∧ s'.f1 = s.f1 ∧ s'.fingersDown = s.fingersDown ∧ s'.active = s.active ∧
  s'.hadTwoFingersOn = s.hadTwoFingersOn ∧ s'.amPerformingGesture = s.amPerformingGesture ∧
  s'.gestureStartCenterX = s.gestureStartCenterX ∧
  s'.gestureStartCenterY = s.gestureStartCenterY ∧
  s'.currentProfile = s.currentProfile ∧ s'.dragScrolling = s.dragScrolling ∧
  ∃ pre, s'.out = s.out ++ pre ∧ calledActions pre = []

/-! ## Reference predicates for the touch tracker -/

/-- The event is a tracking-id event (code 57) handled in slot mode: its value
is stored in the current slot whatever the slot held. -/
def isSlotIdWrite (s : Emu.Tracker) (ev : InputEvent) : Prop :=
  ev.type ≠ EV_SYN ∧ ev.code = 57 ∧ s.useSlots ≠ 0

instance (s : Emu.Tracker) (ev : InputEvent) : Decidable (isSlotIdWrite s ev) := by
  unfold isSlotIdWrite; infer_instance

/-- The event is a slot-mode tracking-id event that stores, in the current
slot, a non-empty id which the other slot holds at that moment. -/
def writesDuplicateId (s : Emu.Tracker) (ev : InputEvent) : Bool :=
  decide (ev.type ≠ EV_SYN ∧ ev.code = 57 ∧ s.useSlots ≠ 0 ∧ ev.value ≠ -1 ∧
    ((s.currentSlot = 0 ∧ s.fingerInfos.f1.id = ev.value) ∨
     (s.currentSlot = 1 ∧ s.fingerInfos.f0.id = ev.value)))

/-- No event of the sequence, processed from state `s`, is a duplicate-id write
at the state in which it is processed. -/
def noDuplicateWrites (c : Emu.Calib) : Emu.Tracker → List InputEvent → Bool
  | _, [] => true
  | s, ev :: rest =>
    !writesDuplicateId s ev &&
      (match Emu.handleEvent c s ev with
       | some s1 => noDuplicateWrites c s1 rest
       | none => true)

/-- The two slots do not hold the same non-empty tracking id. -/
def DistinctIds (fs : Emu.Fingers) : Prop :=
  fs.f0.id ≠ -1 → fs.f1.id ≠ -1 → fs.f0.id ≠ fs.f1.id

/-- The variable `currentSlot` is one of `-1`, `0`, `1`. -/
def SlotInRange (s : Emu.Tracker) : Prop :=
  s.currentSlot = -1 ∨ s.currentSlot = 0 ∨ s.currentSlot = 1

/-- The event is one of ABS_MT_TRACKING_ID, ABS_MT_POSITION_X,
ABS_MT_POSITION_Y. -/
def isFingerValueEvent (ev : InputEvent) : Prop :=
  ev.type = EV_ABS ∧ (ev.code = 57 ∨ ev.code = 53 ∨ ev.code = 54)

instance (ev : InputEvent) : Decidable (isFingerValueEvent ev) := by
  unfold isFingerValueEvent; infer_instance

/-- How one event may change the pair of tracking ids held by the two slots. -/
def IdStep (s s' : Emu.Tracker) (ev : InputEvent) : Prop :=
  ((s'.fingerInfos.f0.id = s.fingerInfos.f0.id ∨ s'.fingerInfos.f0.id = -1) ∧
    (s'.fingerInfos.f1.id = s.fingerInfos.f1.id ∨ s'.fingerInfos.f1.id = -1)) ∨
  (s.fingerInfos.f0.id = -1 ∧ s'.fingerInfos.f0.id = s.tempFingerInfo.id ∧
    s'.fingerInfos.f1.id = s.fingerInfos.f1.id ∧ s.fingerInfos.f1.id ≠ s.tempFingerInfo.id) ∨
  (s.fingerInfos.f1.id = -1 ∧ s'.fingerInfos.f1.id = s.tempFingerInfo.id ∧
    s'.fingerInfos.f0.id = s.fingerInfos.f0.id ∧ s.fingerInfos.f0.id ≠ s.tempFingerInfo.id) ∨
  (isSlotIdWrite s ev ∧ s.currentSlot = 0 ∧ s'.fingerInfos.f0.id = ev.value ∧
    s'.fingerInfos.f1.id = s.fingerInfos.f1.id) ∨
  (isSlotIdWrite s ev ∧ s.currentSlot = 1 ∧ s'.fingerInfos.f1.id = ev.value ∧
    s'.fingerInfos.f0.id = s.fingerInfos.f0.id)

/-- The event reaches the slot branch of the event loop (code 47 on a type
other than `EV_SYN`): the loop treats it as ABS_MT_SLOT. -/
def isSlotEvent (ev : InputEvent) : Prop :=
  ev.type ≠ EV_SYN ∧ ev.code = 47

instance (ev : InputEvent) : Decidable (isSlotEvent ev) := by
  unfold isSlotEvent; infer_instance

/-- The tracker after the single event "tracking id 5" from the initial state:
slot 0 holds id 5. -/
def trackerWithId5 : Emu.Tracker :=
  { fingerInfos := { f0 := { Emu.emptyFinger with id := 5 }, f1 := Emu.emptyFinger },
    useSlots := 1, currentSlot := 0, tempFingerInfo := Emu.emptyFinger }

/-- An MT_SYNC-mode tracker whose slots hold ids 5 and 6 while the pending
finger has id 9 (a third finger). -/
def trackerThirdFinger : Emu.Tracker :=
  { fingerInfos := { f0 := { Emu.emptyFinger with id := 5 },
                     f1 := { Emu.emptyFinger with id := 6 } },
    useSlots := 0, currentSlot := -1,
    tempFingerInfo := { Emu.emptyFinger with id := 9, rawX := 40, rawY := 50 } }

/-! ## Reference points for the calibration round trip -/

/-- The raw point whose X-calibrated coordinate is `ex` and whose Y-calibrated
coordinate is `ey`: `calibrate` pairs `rawY` with the X calibration and `rawX`
with the Y calibration when `calibSwapAxes` is set. The other fields are those
of `f`. -/
def rawExtreme (c : Emu.Calib) (f : Emu.FingerInfo) (ex ey : Int) : Emu.FingerInfo :=
  if c.calibSwapAxes ≠ 0 then { f with rawX := ey, rawY := ex }
  else { f with rawX := ex, rawY := ey }

/-- The value range of a C `int`. -/
def isI32 (x : Int) : Prop := -2147483648 ≤ x ∧ x < 2147483648

instance (x : Int) : Decidable (isI32 x) := by unfold isI32; infer_instance

/-- Calibration data used by the concrete calibration examples: X range
`0..100`, Y range `50..150`, axes swapped, no inversion. -/
def calibSwapped : Emu.Calib :=
  { calibMinX := 0, calibMaxX := 100, calibMinY := 50, calibMaxY := 150,
    calibFactorX := Dbl.fin 1, calibFactorY := Dbl.fin 1,
    calibSwapX := 0, calibSwapY := 0, calibSwapAxes := 1,
    screenWidth := 0, screenHeight := 0 }

/-- A finger record with all fields zero and tracking id 7. -/
def fingerZero : Emu.FingerInfo :=
  { rawX := 0, rawY := 0, x := 0, y := 0, id := 7, setThisTime := 0 }

/-- Calibration data of a panel reporting `0..1074` in X and `0..4280` in Y,
no inversion, axes not swapped. -/
def calibPanel : Emu.Calib :=
  { calibMinX := 0, calibMaxX := 1074, calibMinY := 0, calibMaxY := 4280,
    calibFactorX := Dbl.fin 1, calibFactorY := Dbl.fin 1,
    calibSwapX := 0, calibSwapY := 0, calibSwapAxes := 0,
    screenWidth := 0, screenHeight := 0 }

/-- Calibration data with the raw range `0..49` on both axes. -/
def calibNarrow : Emu.Calib :=
  { calibPanel with calibMaxX := 49, calibMaxY := 49 }

/-! ## Reference sequences for the action executor -/

/-- The keysyms of the modifiers set in mask `m`, in the fixed order
Shift, Control, Alt, Super. -/
def modifierKeysyms (m : Int) : List Int :=
  ([(MODIFIER_SHIFT, XK_Shift_L), (MODIFIER_CONTROL, XK_Control_L),
    (MODIFIER_ALT, XK_Alt_L), (MODIFIER_SUPER, XK_Super_L)].filter
      (fun p => Int.land m p.1 ≠ 0)).map Prod.snd

/-- The press (`true`) or release (`false`) edge of the main button or key of an
action of type ButtonPress or KeyPress. -/
def mainEdge (a : Action) (press : Bool) : XEvent :=
  if a.actionType = ACTIONTYPE_BUTTONPRESS then XEvent.button a.keyButton press
  else XEvent.key a.keyButton press

/-- The sequence the Action-atomicity property prescribes for phase BOTH. -/
def atomicSequence (a : Action) : List XEvent :=
  (modifierKeysyms a.modifier).map (fun k => XEvent.key k true)
    ++ [mainEdge a true, mainEdge a false]
    ++ (modifierKeysyms a.modifier).map (fun k => XEvent.key k false)

/-! ## Reference notions for the classification block -/

/-- The scroll threshold the recognizer reads (of `defaultProfile` when
`scrollInherit` is set). -/
def effectiveScrollMinDistance (env : Ext.Env) (p : Ext.Profile) : Int :=
  if p.scrollInherit ≠ 0 then env.defaultProfile.scrollMinDistance else p.scrollMinDistance

/-- The zoom threshold the recognizer reads. -/
def effectiveZoomMinDistance (env : Ext.Env) (p : Ext.Profile) : Int :=
  if p.zoomInherit ≠ 0 then env.defaultProfile.zoomMinDistance else p.zoomMinDistance

/-- The rotate distance threshold the recognizer reads. -/
def effectiveRotateMinDistance (env : Ext.Env) (p : Ext.Profile) : Int :=
  if p.rotateInherit ≠ 0 then env.defaultProfile.rotateMinDistance else p.rotateMinDistance

/-- The rotate angle threshold the recognizer reads. -/
def effectiveRotateMinAngle (env : Ext.Env) (p : Ext.Profile) : Dbl :=
  if p.rotateInherit ≠ 0 then env.defaultProfile.rotateMinAngle else p.rotateMinAngle

/-- The local `currentDist` of `checkGesture` (line 714). -/
def currentDistOf (env : Ext.Env) (s : Ext.State) : Dbl :=
  env.sqrt ((s.f1.x - s.f0.x) * (s.f1.x - s.f0.x) + (s.f1.y - s.f0.y) * (s.f1.y - s.f0.y))

/-- The local `moveDist` of `checkGesture` (line 721). -/
def moveDistOf (env : Ext.Env) (s : Ext.State) : Dbl :=
  env.sqrt ((s.currentCenterX - s.gestureStartCenterX) * (s.currentCenterX - s.gestureStartCenterX)
    + (s.currentCenterY - s.gestureStartCenterY) * (s.currentCenterY - s.gestureStartCenterY))

/-- The angle `rotatedBy` of the classification block (lines 771-775): the
difference of the current and the start angle, brought back by one turn when
it leaves `[-180, 180]`. -/
def rotatedByOf (currentAngle gestureStartAngle : Dbl) : Dbl :=
  let r0 := Dbl.sub currentAngle gestureStartAngle
  let r1 := if Dbl.lt r0 (Dbl.ofInt (-180)) then Dbl.add r0 (Dbl.ofInt 360) else r0
  if Dbl.gt r1 (Dbl.ofInt 180) then Dbl.sub r1 (Dbl.ofInt 360) else r1

/-- The local `currentAngle` of `checkGesture` (line 715), in degrees. -/
def currentAngleOf (env : Ext.Env) (s : Ext.State) : Dbl :=
  Dbl.div (Dbl.mul (env.atan2 (s.f1.y - s.f0.y) (s.f1.x - s.f0.x)) (Dbl.ofInt 180)) Ext.PI

/-- The scroll test of the classification block (line 730):
`(int) moveDist > scrollMinDist`. -/
def scrollTest (env : Ext.Env) (s : Ext.State) : Prop :=
  Dbl.toInt (moveDistOf env s) > effectiveScrollMinDistance env s.currentProfile

/-- The zoom test of the classification block (line 759):
`abs((int) currentDist - gestureStartDist) > zoomMinDist`. -/
def zoomTest (env : Ext.Env) (s : Ext.State) : Prop :=
  cAbs (Dbl.toInt (Dbl.sub (Dbl.ofInt (Dbl.toInt (currentDistOf env s))) s.gestureStartDist))
    > effectiveZoomMinDistance env s.currentProfile

/-- The rotate test of the classification block (lines 777-778):
`abs(rotatedBy) > rotateMinAngle && (int) currentDist > rotateMinDist`. -/
def rotateTest (env : Ext.Env) (s : Ext.State) : Prop :=
  Dbl.gt (Dbl.ofInt (cAbs (Dbl.toInt (rotatedByOf (currentAngleOf env s) s.gestureStartAngle))))
      (effectiveRotateMinAngle env s.currentProfile) = true
    ∧ Dbl.toInt (currentDistOf env s) > effectiveRotateMinDistance env s.currentProfile

instance (env : Ext.Env) (s : Ext.State) : Decidable (scrollTest env s) := by
  unfold scrollTest; infer_instance

instance (env : Ext.Env) (s : Ext.State) : Decidable (zoomTest env s) := by
  unfold zoomTest; infer_instance

instance (env : Ext.Env) (s : Ext.State) : Decidable (rotateTest env s) := by
  unfold rotateTest; infer_instance

/-- The state on which the classification block and the `switch` of
`checkGesture` work: `maxDist` raised to `moveDist` (lines 722-723). -/
def withMaxDist (env : Ext.Env) (s : Ext.State) : Ext.State :=
  if Dbl.gt (moveDistOf env s) s.maxDist = true ∧ s.fingersDown = 2 then
    { s with maxDist := moveDistOf env s }
  else s


/-- A state with the gesture undecided whose centre has moved by 40 and whose
fingers are 300 apart, the start distance being 0: the scroll test and the
zoom test are both met. -/
def undecidedState : Ext.State :=
  { idleState with
    f0 := fingerAt (-110) 0 0, f1 := fingerAt 190 0 1,
    hadTwoFingersOn := 1, fingersWereDown := 2, fingersDown := 2,
    amPerformingGesture := GESTURE_UNDECIDED,
    gestureStartCenterX := 0, gestureStartCenterY := 0,
    currentCenterX := 40, currentCenterY := 0 }

/-! ## Easing worker (`easingThreadFunction`) -/

namespace Ext

/-- The update `nextInterval = (int) (((float) nextInterval) * 1.15)`
(line 1084): the `int` is converted to `float`, the product with the `double`
constant `1.15` is a `double` product, and the cast truncates. -/
def easingNextInterval (nextInterval : Int) : Int :=
  Dbl.toInt (Dbl.mul (Dbl.rndFloat nextInterval) (Dbl.rnd (115 / 100)))

/-- The four directional executions of one easing step with the Actions of
profile `p` (lines 1050-1065 for `defaultProfile`, lines 1067-1082 for
`easingProfile`). -/
def easingActions (p : Profile) (s : State) : State :=
  let s1 :=
    if s.easingDirectionY = -1 then s.emit [Call.action p.scrollUpAction EXECUTEACTION_BOTH]
    else s
  let s2 :=
    if s1.easingDirectionY = 1 then s1.emit [Call.action p.scrollDownAction EXECUTEACTION_BOTH]
    else s1
  let s3 :=
    if s2.easingDirectionX = -1 then s2.emit [Call.action p.scrollLeftAction EXECUTEACTION_BOTH]
    else s2
  if s3.easingDirectionX = 1 then s3.emit [Call.action p.scrollRightAction EXECUTEACTION_BOTH]
  else s3

/-- One easing step (lines 1048-1083). -/
def easingStep (env : Env) (s : State) : State :=
  if s.easingProfile.scrollInherit ≠ 0 then easingActions env.defaultProfile s
  else easingActions s.easingProfile s

/-- The parking of the easing worker (lines 1034-1036). -/
def easingPark (s : State) : State := { s with stopEasing := 0, easingActive := 0 }

/-- The loop of `easingThreadFunction` (lines 1029-1085) from the test of
line 1033 on, run while no other thread writes the shared variables, until the
worker parks: the state at parking and the number of easing steps executed
(`steps` counts those executed before). `none` when the worker has not parked
within `fuel` passes. -/
def easingLoop (env : Env) : Nat → State → Int → Nat → Option (State × Nat)
  | 0, _, _, _ => none
  | fuel + 1, s, nextInterval, steps =>
    if s.stopEasing ≠ 0 ∨ nextInterval > MAX_EASING_INTERVAL then some (easingPark s, steps)
    else easingLoop env fuel (easingStep env s) (easingNextInterval nextInterval) (steps + 1)

/-- The function `easingThreadFunction` from its start (lines 1027-1029) until it parks. -/
def easingThreadFunction (env : Env) (fuel : Nat) (s : State) : Option (State × Nat) :=
  easingLoop env fuel s s.easingInterval 0

/-- The easing worker woken from its parking (lines 1041-1044) until it parks
again: it resumes behind the test of line 1033, with an easing step. -/
def easingWokenUp (env : Env) (fuel : Nat) (s : State) : Option (State × Nat) :=
  easingLoop env fuel (easingStep env { s with easingWakeup := 0, easingActive := 1 })
    (easingNextInterval s.easingInterval) 1

end Ext

/-- The exponent of the easing-cutoff formula: `n` is the least natural number
with `I · 1.15^n ≥ 200`, so that `n = ⌈log(200 / I) / log(1.15)⌉` for
`1 ≤ I ≤ 200`. -/
def IsCutoffExponent (I : Int) (n : Nat) : Prop :=
  (200 : ℚ) ≤ I * (23 / 20) ^ n ∧ ∀ k < n, (I : ℚ) * (23 / 20) ^ k < 200

/-- The values of the interval update of line 1084 on `7..200`: the truncation
of `x · 1.15`, and one less at 100, 180 and 200, where the `double` product
lies just below the integer `x · 1.15`. -/
def easingTable (x : Int) : Int :=
  x * 23 / 20 - (if x = 100 ∨ x = 180 ∨ x = 200 then 1 else 0)

/-- The number of passes of the easing loop that execute a step, by the values
of `easingTable`: from the interval `x` the loop steps as long as the interval
is not above `MAX_EASING_INTERVAL`. -/
def easingStepCount : Nat → Int → Nat
  | 0, _ => 0
  | fuel + 1, x => if 200 < x then 0 else easingStepCount fuel (easingTable x) + 1

/-- The step count from the start interval `I` stays within 4 of the exponent
of the cutoff formula: with `m` steps, `I · 1.15^(m-5) < 200`. -/
def stepCountNearFormula (I : Int) : Bool :=
  decide (easingStepCount 201 I < 5 ∨
    I * 23 ^ (easingStepCount 201 I - 5) < 200 * 20 ^ (easingStepCount 201 I - 5))

/-- A state in which easing to the right is about to start with
`easingInterval = I` and no stop request. -/
def easingState (I : Int) : Ext.State :=
  { idleState with easingInterval := I, easingDirectionX := 1 }

/-! ## Reference notions for the continuation -/

/-- The scroll-brace Action the recognizer executes (of `defaultProfile` when
`scrollInherit` is set). -/
def effectiveScrollBraceAction (env : Ext.Env) (p : Ext.Profile) : Action :=
  if p.scrollInherit ≠ 0 then env.defaultProfile.scrollBraceAction else p.scrollBraceAction

/-- The recognizer variables written neither by the easing bookkeeping nor by
a call of `checkGesture` that finds the gesture decided. -/
structure GestureCore where
  f0 : Ext.FingerInfo
  f1 : Ext.FingerInfo
  fairlyCurrentTime : Int
  fingersDown : Int
  fingersWereDown : Int
  buttonDown : Int
  fingerDownTime : Int
  hadTwoFingersOn : Int
  active : Int
  activateAtRelease : Int
  amPerformingGesture : Int
  dragScrolling : Int
  currentCenterX : Int
  currentCenterY : Int
  currentProfile : Ext.Profile
  easingActive : Int
  continuationWakeup : Int
  dontStartContinuation : Int
  ignoreFingersUp : Int

/-- The part of a state that `GestureCore` describes. -/
def coreOf (s : Ext.State) : GestureCore :=
  { f0 := s.f0, f1 := s.f1, fairlyCurrentTime := s.fairlyCurrentTime,
    fingersDown := s.fingersDown, fingersWereDown := s.fingersWereDown,
    buttonDown := s.buttonDown, fingerDownTime := s.fingerDownTime,
    hadTwoFingersOn := s.hadTwoFingersOn, active := s.active,
    activateAtRelease := s.activateAtRelease, amPerformingGesture := s.amPerformingGesture,
    dragScrolling := s.dragScrolling, currentCenterX := s.currentCenterX,
    currentCenterY := s.currentCenterY, currentProfile := s.currentProfile,
    easingActive := s.easingActive, continuationWakeup := s.continuationWakeup,
    dontStartContinuation := s.dontStartContinuation, ignoreFingersUp := s.ignoreFingersUp }

/-- The reference values of a gesture: what the branch `TWO_FINGERS_DOWN`
records and `checkGesture` moves. -/
structure GestureStart where
  maxDist : Dbl
  gestureStartCenterX : Int
  gestureStartCenterY : Int
  gestureStartDist : Dbl
  gestureStartAngle : Dbl

/-- The reference values of the gesture in a state. -/
def startOf (s : Ext.State) : GestureStart :=
  { maxDist := s.maxDist, gestureStartCenterX := s.gestureStartCenterX,
    gestureStartCenterY := s.gestureStartCenterY, gestureStartDist := s.gestureStartDist,
    gestureStartAngle := s.gestureStartAngle }

/-- The start of the continuation worker's round (lines 1129-1135): woken by
`startContinuation`, it clears `continuationWakeup` and sets
`ignoreFingersUp` before it sleeps. -/
def continuationWake (s : Ext.State) : Ext.State :=
  { s with continuationWakeup := 0, ignoreFingersUp := 1 }

/-- A state in Scroll mode with `ignoreFingersUp` set, as the continuation
worker leaves it before its sleep. -/
def continuedScrollState : Ext.State :=
  { scrollState with fingersDown := 1, fingersWereDown := 1, ignoreFingersUp := 1 }
/-- The profile `demoProfile` with a scroll brace: button 2 is held while
scrolling. -/
def dragProfile : Ext.Profile :=
  { demoProfile with scrollBraceAction := buttonAction 2 }

/-- An environment whose only profile is `dragProfile`. -/
def dragEnv : Ext.Env :=
  { demoEnv with defaultProfile := dragProfile }

/-- The ticks of a short two-finger scroll: both fingers touch, both move 40 to
the right (the scroll threshold is 30, the scroll step 50), both leave. -/
def shortScrollTicks : List TickInput :=
  [ { f0 := fingerAt 100 500 0, f1 := fingerAt 400 500 1, fingersDown := 2, time := 0 },
    { f0 := fingerAt 140 500 0, f1 := fingerAt 440 500 1, fingersDown := 2, time := 20 },
    { f0 := { x := 140, y := 500, down := 0, id := 0 },
      f1 := { x := 440, y := 500, down := 0, id := 1 }, fingersDown := 0, time := 40 } ]
/-- The ticks of a two-finger scroll with two steps to the right: touch at
time 0, centre moved by 60 at time 20 and by 120 at time 40 (scroll step 50),
release at time 50. -/
def easedScrollTicks : List TickInput :=
  [ { f0 := fingerAt 100 500 0, f1 := fingerAt 400 500 1, fingersDown := 2, time := 0 },
    { f0 := fingerAt 160 500 0, f1 := fingerAt 460 500 1, fingersDown := 2, time := 20 },
    { f0 := fingerAt 220 500 0, f1 := fingerAt 520 500 1, fingersDown := 2, time := 40 },
    { f0 := { x := 220, y := 500, down := 0, id := 0 },
      f1 := { x := 520, y := 500, down := 0, id := 1 }, fingersDown := 0, time := 50 } ]

/-- The number of calls of `startEasingThread` in a trace. -/
def countEasingStarts (t : List Ext.Call) : Nat := t.count Ext.Call.startEasingThread

/-! ## Reference notions for the zoom gesture -/

/-- The zoom step the recognizer reads (of `defaultProfile` when `zoomInherit`
is set). -/
def effectiveZoomStep (env : Ext.Env) (p : Ext.Profile) : Dbl :=
  if p.zoomInherit ≠ 0 then env.defaultProfile.zoomStep else p.zoomStep

/-- The zoom-in Action the recognizer executes. -/
def effectiveZoomInAction (env : Ext.Env) (p : Ext.Profile) : Action :=
  if p.zoomInherit ≠ 0 then env.defaultProfile.zoomInAction else p.zoomInAction

/-- The zoom-out Action the recognizer executes. -/
def effectiveZoomOutAction (env : Ext.Env) (p : Ext.Profile) : Action :=
  if p.zoomInherit ≠ 0 then env.defaultProfile.zoomOutAction else p.zoomOutAction

/-- The reference distance after `n` zoom-in steps: `n` times the assignment
`gestureStartDist = gestureStartDist * zoomStep` (line 880), each product
rounded. -/
def zoomInDist (zoomStep : Dbl) (n : Nat) (gestureStartDist : Dbl) : Dbl :=
  (fun g => Dbl.mul g zoomStep)^[n] gestureStartDist

/-- A state in Zoom mode whose reference distance is 0 (both fingers touched
at the same point) while the fingers are now 300 apart. -/
def zoomStuckState : Ext.State :=
  { idleState with
    f0 := fingerAt 100 100 0, f1 := fingerAt 400 100 1,
    hadTwoFingersOn := 1, fingersWereDown := 2, fingersDown := 2,
    amPerformingGesture := GESTURE_ZOOM,
    gestureStartCenterX := 250, gestureStartCenterY := 100,
    currentCenterX := 250, currentCenterY := 100 }

/-- The tick input of two fingers that touch at the same point `(250, 100)`. -/
def touchTogether : TickInput :=
  { f0 := fingerAt 250 100 0, f1 := fingerAt 250 100 1, fingersDown := 2, time := 0 }

/-- A state in Zoom mode with reference distance 100 whose fingers are 150
apart. -/
def zoomState : Ext.State :=
  { idleState with
    f0 := fingerAt 100 100 0, f1 := fingerAt 250 100 1,
    hadTwoFingersOn := 1, fingersWereDown := 2, fingersDown := 2,
    amPerformingGesture := GESTURE_ZOOM, gestureStartDist := Dbl.fin 100,
    gestureStartCenterX := 175, gestureStartCenterY := 100,
    currentCenterX := 175, currentCenterY := 100 }

/-- The profile `demoProfile` with `zoomMinDistance = 20`. -/
def pinchProfile : Ext.Profile :=
  { demoProfile with zoomMinDistance := 20 }

/-- An environment whose only profile is `pinchProfile`. -/
def pinchEnv : Ext.Env :=
  { demoEnv with defaultProfile := pinchProfile }

/-- The state after two fingers touched 100 apart around `(175, 100)`: the
gesture is undecided, `gestureStartDist = 100`, `zoomStep = 1.2`. -/
def pinchState : Ext.State :=
  { idleState with
    f0 := fingerAt 125 100 0, f1 := fingerAt 225 100 1,
    hadTwoFingersOn := 1, fingersWereDown := 2, fingersDown := 2,
    amPerformingGesture := GESTURE_UNDECIDED, gestureStartDist := Dbl.fin 100,
    gestureStartCenterX := 175, gestureStartCenterY := 100,
    currentCenterX := 175, currentCenterY := 100, currentProfile := pinchProfile }

/-- The tick input of two fingers 150 apart around the unmoved centre
`(175, 100)`. -/
def pinchTick : TickInput :=
  { f0 := fingerAt 100 100 0, f1 := fingerAt 250 100 1, fingersDown := 2, time := 20 }

/-- The tick input of two fingers 300 apart around the centre `(250, 100)`,
the point where `touchTogether` put both fingers. -/
def spreadTick : TickInput :=
  { f0 := fingerAt 100 100 0, f1 := fingerAt 400 100 1, fingersDown := 2, time := 20 }

/-- The tick input of two fingers 144 apart around the unmoved centre
`(175, 100)`. -/
def pinchTick144 : TickInput :=
  { f0 := fingerAt 103 100 0, f1 := fingerAt 247 100 1, fingersDown := 2, time := 20 }

/-- A state in Zoom mode (reference distance 100, zoom step 1.2) after both
fingers have left, with `ignoreFingersUp` set as the continuation worker
leaves it before its sleep; the slots keep the last positions `(100, 100)` and
`(250, 100)`. -/
def continuedZoomState : Ext.State :=
  { zoomState with
    f0 := { x := 100, y := 100, down := 0, id := 0 }
    f1 := { x := 250, y := 100, down := 0, id := 1 }
    fingersDown := 0, fingersWereDown := 0, ignoreFingersUp := 1 }

/-- The tick input of one finger that comes back in slot 0 at `(250, 100)`,
the point that the empty slot 1 still holds. -/
def returnTick : TickInput :=
  { f0 := fingerAt 250 100 0, f1 := { x := 250, y := 100, down := 0, id := 1 },
    fingersDown := 1, time := 300 }

/-! ## Reference notions for profile inheritance -/

/-- The scroll parameters and Actions that `checkGesture` reads from profile
`q` are those of `defaultProfile`: `q` inherits them, or holds the same
values. -/
def ScrollFromDefault (env : Ext.Env) (q : Ext.Profile) : Prop :=
  q.scrollInherit ≠ 0 ∨
    (q.scrollMinDistance = env.defaultProfile.scrollMinDistance ∧
     q.hscrollStep = env.defaultProfile.hscrollStep ∧
     q.vscrollStep = env.defaultProfile.vscrollStep ∧
     q.scrollBraceAction = env.defaultProfile.scrollBraceAction ∧
     q.scrollUpAction = env.defaultProfile.scrollUpAction ∧
     q.scrollDownAction = env.defaultProfile.scrollDownAction ∧
     q.scrollLeftAction = env.defaultProfile.scrollLeftAction ∧
     q.scrollRightAction = env.defaultProfile.scrollRightAction)

/-- The zoom parameters and Actions read from profile `q` are those of
`defaultProfile`. -/
def ZoomFromDefault (env : Ext.Env) (q : Ext.Profile) : Prop :=
  q.zoomInherit ≠ 0 ∨
    (q.zoomMinDistance = env.defaultProfile.zoomMinDistance ∧
     q.zoomStep = env.defaultProfile.zoomStep ∧
     q.zoomInAction = env.defaultProfile.zoomInAction ∧
     q.zoomOutAction = env.defaultProfile.zoomOutAction)

/-- The rotate parameters and Actions read from profile `q` are those of
`defaultProfile`. -/
def RotateFromDefault (env : Ext.Env) (q : Ext.Profile) : Prop :=
  q.rotateInherit ≠ 0 ∨
    (q.rotateMinDistance = env.defaultProfile.rotateMinDistance ∧
     q.rotateMinAngle = env.defaultProfile.rotateMinAngle ∧
     q.rotateStep = env.defaultProfile.rotateStep ∧
     q.rotateLeftAction = env.defaultProfile.rotateLeftAction ∧
     q.rotateRightAction = env.defaultProfile.rotateRightAction)

/-- The profile `p` with its scroll, zoom and rotate thresholds, steps and
Actions replaced by those of `defaultProfile`, and no inheritance left for
these gestures. -/
def withDefaultGestures (env : Ext.Env) (p : Ext.Profile) : Ext.Profile :=
  { p with
    scrollInherit := 0
    scrollMinDistance := env.defaultProfile.scrollMinDistance
    hscrollStep := env.defaultProfile.hscrollStep
    vscrollStep := env.defaultProfile.vscrollStep
    scrollBraceAction := env.defaultProfile.scrollBraceAction
    scrollUpAction := env.defaultProfile.scrollUpAction
    scrollDownAction := env.defaultProfile.scrollDownAction
    scrollLeftAction := env.defaultProfile.scrollLeftAction
    scrollRightAction := env.defaultProfile.scrollRightAction
    zoomInherit := 0
    zoomMinDistance := env.defaultProfile.zoomMinDistance
    zoomStep := env.defaultProfile.zoomStep
    zoomInAction := env.defaultProfile.zoomInAction
    zoomOutAction := env.defaultProfile.zoomOutAction
    rotateInherit := 0
    rotateMinDistance := env.defaultProfile.rotateMinDistance
    rotateMinAngle := env.defaultProfile.rotateMinAngle
    rotateStep := env.defaultProfile.rotateStep
    rotateLeftAction := env.defaultProfile.rotateLeftAction
    rotateRightAction := env.defaultProfile.rotateRightAction }

/-- A profile that inherits scroll, zoom and rotate and whose own values
differ from those of `demoProfile`. -/
def inheritingProfile : Ext.Profile :=
  { demoProfile with
    windowClass := some "viewer"
    scrollInherit := 1, zoomInherit := 1, rotateInherit := 1
    scrollMinDistance := 5, hscrollStep := 7, vscrollStep := 9
    zoomMinDistance := 3, zoomStep := Dbl.fin 3
    scrollRightAction := buttonAction 9 }

/-! ## Reference notions for the profile lookup -/

/-- Profile `p` has a window class that agrees with `resName` under the
30-character bounded comparison: the first 30 characters of the two strings
are the same. -/
def classMatches (resName : String) (p : Ext.Profile) : Prop :=
  ∃ wc, p.windowClass = some wc ∧ resName.data.take 30 = wc.data.take 30

/-- An environment with three profiles, of the classes `xterm`, `evince` and
`evince` again (with another tap Action). -/
def lookupEnv : Ext.Env :=
  { demoEnv with
    profiles :=
      [ { demoProfile with windowClass := some "xterm" },
        { demoProfile with windowClass := some "evince" },
        { demoProfile with windowClass := some "evince", tapAction := buttonAction 3 } ] }
/-! ## Reference notions for the scroll threshold -/

/-- The last scroll interval of the X axis after the compensation "for
scrolling gestures getting a little bit slower at the end" (line 590). -/
def compensatedXIntv (s : Ext.State) : Int :=
  if s.lastLastScrollXIntv < s.lastScrollXIntv ∧ s.lastLastScrollXIntv ≠ 0 then
    s.lastLastScrollXIntv
  else s.lastScrollXIntv

/-- The last scroll interval of the Y axis after the compensation (line 591). -/
def compensatedYIntv (s : Ext.State) : Int :=
  if s.lastLastScrollYIntv < s.lastScrollYIntv ∧ s.lastLastScrollYIntv ≠ 0 then
    s.lastLastScrollYIntv
  else s.lastScrollYIntv

/-- The X axis is eligible for easing: it has a direction, and line 596 does
not cancel it (its compensated interval is neither 0 nor above
`MAX_EASING_START_INTERVAL`, and its last scroll step is at most twice that
interval ago, compared on `unsigned long`). -/
def XEligible (s : Ext.State) : Prop :=
  s.easingDirectionX ≠ 0 ∧ compensatedXIntv s ≠ 0 ∧
  toU64 (s.fairlyCurrentTime - s.lastScrollXTime) ≤ toU64 (toI32 (compensatedXIntv s * 2)) ∧
  compensatedXIntv s ≤ Ext.MAX_EASING_START_INTERVAL

/-- The Y axis is eligible for easing: it has a direction, and line 595 does
not cancel it. -/
def YEligible (s : Ext.State) : Prop :=
  s.easingDirectionY ≠ 0 ∧ compensatedYIntv s ≠ 0 ∧
  toU64 (s.fairlyCurrentTime - s.lastScrollYTime) ≤ toU64 (toI32 (compensatedYIntv s * 2)) ∧
  compensatedYIntv s ≤ Ext.MAX_EASING_START_INTERVAL

instance (s : Ext.State) : Decidable (XEligible s) := by unfold XEligible; infer_instance

instance (s : Ext.State) : Decidable (YEligible s) := by unfold YEligible; infer_instance

/-- The ticks of a diagonal two-finger scroll: touch at time 0, the centre
moved by 60 on both axes at time 30 and again at time 60 (scroll steps 50),
release at time 70. Both axes step at times 30 and 60. -/
def diagonalScrollTicks : List TickInput :=
  [ { f0 := fingerAt 100 500 0, f1 := fingerAt 400 500 1, fingersDown := 2, time := 0 },
    { f0 := fingerAt 160 560 0, f1 := fingerAt 460 560 1, fingersDown := 2, time := 30 },
    { f0 := fingerAt 220 620 0, f1 := fingerAt 520 620 1, fingersDown := 2, time := 60 },
    { f0 := { x := 220, y := 620, down := 0, id := 0 },
      f1 := { x := 520, y := 620, down := 0, id := 1 }, fingersDown := 0, time := 70 } ]

/-- A state in Scroll mode at the entry of the branch `TWO_FINGERS_UP`: the
last two scroll steps to the right were 20 apart, the last one 10 ago. -/
def easingReadyState : Ext.State :=
  { scrollState with
    fingersDown := 0, fairlyCurrentTime := 50, easingDirectionX := 1,
    lastScrollXIntv := 20, lastLastScrollXIntv := 20, lastScrollXTime := 40 }

/-! ## Reference notions for the one-finger touch -/

/-- The recognizer during a one-finger touch that began at time `t0` on top of
the trace `base`: no two-finger gesture, the finger counted, and the simulated
button pressed exactly when `pressed`, by the only direct button-1 event since
the touch began. -/
def OneFingerHeld (base : List Ext.Call) (t0 : Int) (pressed : Bool) (m : Ext.State) : Prop :=
  m.active ≠ 0 ∧ m.hadTwoFingersOn = 0 ∧ m.fingersWereDown = 1 ∧ m.ignoreFingersUp = 0 ∧
  m.fingerDownTime = t0 ∧ m.buttonDown = (if pressed = true then 1 else 0) ∧
  ∃ new, m.out = base ++ new ∧
    new.filter isButton1Call =
      (if pressed = true then [Ext.Call.x (XEvent.button 1 true)] else [])

/-- Whether one of the hold ticks comes later than the click delay after the
touch at time `t0`. -/
def clickDelayPassed (t0 : Int) (holds : List TickInput) : Bool :=
  holds.any (fun h => decide (h.time > t0 + Ext.CLICK_DELAY))

/-- A one-finger tick at time `t` with the finger at `(x, y)`. -/
def oneFingerTick (x y t : Int) : TickInput :=
  { f0 := fingerAt x y 0, f1 := { x := 0, y := 0, down := 0, id := 1 }, fingersDown := 1,
    time := t }

/-- The tick after the last finger has left, at time `t`. -/
def noFingerTick (t : Int) : TickInput :=
  { f0 := { x := 0, y := 0, down := 0, id := 0 }, f1 := { x := 0, y := 0, down := 0, id := 1 },
    fingersDown := 0, time := t }

/-! ## Reference notions for the gesture invariant -/

/-- The variables the gesture invariant is about, with the finger count. -/
structure GestureFlags where
  hadTwoFingersOn : Int
  amPerformingGesture : Int
  fingersWereDown : Int
  fingersDown : Int

/-- The gesture flags of a state. -/
def flagsOf (s : Ext.State) : GestureFlags :=
  { hadTwoFingersOn := s.hadTwoFingersOn, amPerformingGesture := s.amPerformingGesture,
    fingersWereDown := s.fingersWereDown, fingersDown := s.fingersDown }

/-- The gesture invariant: `hadTwoFingersOn = 1` exactly when a gesture is in
progress, and then a finger was counted at the last tick. -/
def GestureInv (s : Ext.State) : Prop :=
  (s.hadTwoFingersOn = 1 ↔ s.amPerformingGesture ≠ GESTURE_NONE) ∧
  (s.hadTwoFingersOn = 1 → s.fingersWereDown > 0)

/-- The states of the recognizer between calls of `processFingers`: an initial
state; the state after a tick of the device loop with `fingersDown` in
`{0, 1, 2}` that returns; the state after a continuation timeout whose tick
returns; and a state in which the other threads have written variables other
than `hadTwoFingersOn`, `amPerformingGesture` and `fingersWereDown` (which only
`processFingers` and `checkGesture` write), such as `active`,
`activateAtRelease`, `ignoreFingersUp` or the easing variables. -/
inductive Reachable (env : Ext.Env) : Ext.State → Prop
  | init (s : Ext.State) : s.amPerformingGesture = GESTURE_NONE → s.hadTwoFingersOn = 0 →
      s.fingersWereDown = 0 → Reachable env s
  | tick (fuel : Nat) (s r : Ext.State) (inp : TickInput) : Reachable env s →
      (inp.fingersDown = 0 ∨ inp.fingersDown = 1 ∨ inp.fingersDown = 2) →
      deviceTick env fuel s inp = some r → Reachable env r
  | timeout (fuel : Nat) (s r : Ext.State) : Reachable env s →
      Ext.continuationTimeout env fuel s = some r → Reachable env r
  | others (s r : Ext.State) : Reachable env s → r.hadTwoFingersOn = s.hadTwoFingersOn →
      r.amPerformingGesture = s.amPerformingGesture → r.fingersWereDown = s.fingersWereDown →
      Reachable env r

/-! ## Reference notions for the MT_SYNC protocol -/

/-- The event is SYN_MT_REPORT (type `EV_SYN`, code 2). -/
def isMtReport (ev : InputEvent) : Prop := ev.type = EV_SYN ∧ ev.code = 2

/-- The event is SYN_REPORT (type `EV_SYN`, code 0). -/
def isSynReport (ev : InputEvent) : Prop := ev.type = EV_SYN ∧ ev.code = 0

/-- The events of the MT_SYNC protocol: ABS_MT_TRACKING_ID, ABS_MT_POSITION_X,
ABS_MT_POSITION_Y, SYN_MT_REPORT and SYN_REPORT. -/
def isMtSyncProtocolEvent (ev : InputEvent) : Prop :=
  isFingerValueEvent ev ∨ isMtReport ev ∨ isSynReport ev

/-- The slot holds tracking id `k` and has been set in the current report. -/
def ReportedAs (k : Int) (f : Emu.FingerInfo) : Prop := f.id = k ∧ f.setThisTime ≠ 0

/-- An MT_SYNC-mode tracker whose slots hold ids 5 and 6, the pending finger
being that of id 6. -/
def trackerTwoFingers : Emu.Tracker :=
  { fingerInfos := { f0 := { Emu.emptyFinger with id := 5 },
                     f1 := { Emu.emptyFinger with id := 6 } },
    useSlots := 0, currentSlot := -1,
    tempFingerInfo := { Emu.emptyFinger with id := 6, rawX := 40, rawY := 50 } }

/-! ## Device loop of the extended-continuation version (SYN_MT_REPORT) -/

namespace Ext

/-- The access `fingerInfos[index]` of the device loop followed by the update
`g` of that element; `none` is the access outside `0..1`. -/
def State.modifyFinger? (s : State) (index : Int) (g : FingerInfo → FingerInfo) :
    Option State :=
  if index = 0 then some { s with f0 := g s.f0 }
  else if index = 1 then some { s with f1 := g s.f1 }
  else none

/-- The guarded block of the SYN_MT_REPORT handling (lines 1557-1595): the slot
gets the id of the pending finger and its calibrated coordinates. The
calibration globals are those of `twofingemu.c`, with the same types;
`screenWidth - x` is an unsigned subtraction stored into an `int`, and
`x > screenWidth` an unsigned comparison. -/
def calibrateSlot (c : Emu.Calib) (tempFingerInfo f : FingerInfo) : FingerInfo :=
  let x0 :=
    if c.calibSwapAxes ≠ 0 then
      Dbl.toInt (Dbl.mul (Dbl.ofInt (toI32 (tempFingerInfo.y - c.calibMinX))) c.calibFactorX)
    else
      Dbl.toInt (Dbl.mul (Dbl.ofInt (toI32 (tempFingerInfo.x - c.calibMinX))) c.calibFactorX)
  let y0 :=
    if c.calibSwapAxes ≠ 0 then
      Dbl.toInt (Dbl.mul (Dbl.ofInt (toI32 (tempFingerInfo.x - c.calibMinY))) c.calibFactorY)
    else
      Dbl.toInt (Dbl.mul (Dbl.ofInt (toI32 (tempFingerInfo.y - c.calibMinY))) c.calibFactorY)
  let x1 := if c.calibSwapX ≠ 0 then toI32 (toU32 ((c.screenWidth : Int) - x0)) else x0
  let y1 := if c.calibSwapY ≠ 0 then toI32 (toU32 ((c.screenHeight : Int) - y0)) else y0
  let x2 := if x1 < 0 then 0 else x1
  let y2 := if y1 < 0 then 0 else y1
  let x3 := if toU32 x2 > (c.screenWidth : Int) then toI32 (c.screenWidth : Int) else x2
  let y3 := if toU32 y2 > (c.screenHeight : Int) then toI32 (c.screenHeight : Int) else y2
  { f with id := tempFingerInfo.id, x := x3, y := y3 }

/-- The handling of an `EV_SYN` event with code 2 (SYN_MT_REPORT) in the
device loop (lines 1552-1598): `index` is the id of the pending finger, the
calibrated write is guarded by `index == 0 || index == 1`, and the write
`fingerInfos[index].down = 1` of line 1597 follows the guarded block. `none` is an
access to `fingerInfos` outside `0..1`. -/
def handleMtReport (c : Emu.Calib) (tempFingerInfo : FingerInfo) (s : State) : Option State :=
  let index := tempFingerInfo.id
  (if index = 0 ∨ index = 1 then s.modifyFinger? index (calibrateSlot c tempFingerInfo)
   else some s).bind
    (fun s1 => s1.modifyFinger? index (fun f => { f with down := 1 }))

end Ext

/-! ## Activation (`twofingemu.c`) -/

namespace Emu

/-- One entry of the output trace of the daemon: a call of `grab`, a call of
`ungrab`, or a direct XTest/Xlib call. -/
inductive Call where
  | grab
  | ungrab
  | x (e : XEvent)
  deriving DecidableEq

/-- The globals of `twofingemu.c` that the activation functions and
`processFingers` read and write, and the trace `out` of the calls made so
far. -/
structure Daemon where
  active : Int
  activateAtRelease : Int
  buttonDown : Int
  fingersDown : Int
  fingersWereDown : Int
  fingerInfos : Fingers
  out : List Call

/-- Modelled from the spec: the effect of one call of `processFingerGesture`,
the recognizer tick of `gestures.c`, which is not among the sources. The
recognizer acts on the daemon through `pressButton`, `releaseButton`,
`movePointer` and `executeAction`: it emits X events and leaves a value of
`buttonDown`, and it may change `fingersDown` (comment of line 450); it writes
neither `active` nor `activateAtRelease` and calls neither `grab` nor `ungrab`
(the focus controller toggles the grab). -/
structure GestureEffect where
  events : List XEvent
  buttonDown : Int
  fingersDown : Int

/-- The function `activate` (lines 157-163). -/
def activate (s : Daemon) : Daemon :=
  let s1 := { s with activateAtRelease := 0 }
  if s1.active = 0 then { s1 with out := s1.out ++ [Call.grab], active := 1 } else s1

/-- The function `deactivate` (lines 166-172). -/
def deactivate (s : Daemon) : Daemon :=
  let s1 := { s with activateAtRelease := 0 }
  if s1.active ≠ 0 then { s1 with active := 0, out := s1.out ++ [Call.ungrab] } else s1

/-- The function `releaseButton` (lines 175-181). -/
def releaseButton (s : Daemon) : Daemon :=
  if s.buttonDown ≠ 0 then
    { s with buttonDown := 0,
             out := s.out ++ [Call.x (XEvent.button 1 false), Call.x XEvent.flush] }
  else s

/-- The block "If we should activate at release, do it" (lines 436-440 and
450-454). -/
def activateAtReleaseCheck (s : Daemon) : Daemon :=
  if s.buttonDown = 0 ∧ s.fingersDown = 0 ∧ s.activateAtRelease ≠ 0 then
    activate (releaseButton s)
  else s

/-- The function `processFingers` (lines 426-455), called with the slots `fs` in
`fingerInfos`; `g` is the effect of its call of `processFingerGesture`. -/
def processFingers (c : Calib) (fs : Fingers) (g : GestureEffect) (s : Daemon) : Daemon :=
  let s1 := activateAtReleaseCheck
    { s with fingerInfos := calibrateSlots c fs, fingersDown := countFingersDown fs }
  if s1.active = 0 then s1
  else
    let s2 := { s1 with
      out := s1.out ++ g.events.map Call.x
      buttonDown := g.buttonDown
      fingersDown := g.fingersDown }
    activateAtReleaseCheck { s2 with fingersWereDown := s2.fingersDown }

/-- The function `leaveWindow` (lines 458-463). -/
def leaveWindow (s : Daemon) : Daemon :=
  if s.active = 0 then { s with activateAtRelease := 1 } else s

/-- The function `enterBlacklistedWindow` (lines 466-471). -/
def enterBlacklistedWindow (s : Daemon) : Daemon :=
  deactivate (releaseButton { s with activateAtRelease := 0 })

/-- One call into the activation machinery: of `activate`, `deactivate`,
`leaveWindow`, `enterBlacklistedWindow`, or of `processFingers` with the slots
the device loop has filled and the effect of the recognizer tick. -/
inductive Op where
  | activate
  | deactivate
  | leaveWindow
  | enterBlacklistedWindow
  | processFingers (fs : Fingers) (g : GestureEffect)

/-- The state after one call. -/
def step (c : Calib) (s : Daemon) : Op → Daemon
  | Op.activate => activate s
  | Op.deactivate => deactivate s
  | Op.leaveWindow => leaveWindow s
  | Op.enterBlacklistedWindow => enterBlacklistedWindow s
  | Op.processFingers fs g => processFingers c fs g s

/-- The state after a sequence of calls. -/
def runOps (c : Calib) (s : Daemon) (ops : List Op) : Daemon := ops.foldl (step c) s

end Emu

/-- The calls of `grab` (`true`) and `ungrab` (`false`) in a trace, in order. -/
def grabCalls : List Emu.Call → List Bool
  | [] => []
  | Emu.Call.grab :: rest => true :: grabCalls rest
  | Emu.Call.ungrab :: rest => false :: grabCalls rest
  | Emu.Call.x _ :: rest => grabCalls rest

/-- The calls strictly alternate and begin with a grab. -/
def AlternatesFromGrab (g : List Bool) : Prop :=
  List.Chain' (fun a b => a ≠ b) g ∧ g.head? ≠ some false

/-- The daemon as `main` starts it: not active, nothing deferred, no finger
seen, nothing emitted. -/
def initDaemon : Emu.Daemon :=
  { active := 0, activateAtRelease := 0, buttonDown := 0, fingersDown := 0,
    fingersWereDown := 0,
    fingerInfos := { f0 := Emu.emptyFinger, f1 := Emu.emptyFinger }, out := [] }

/-- The grab state agrees with the trace: the grab and ungrab calls alternate
from a grab, and `active` is 1 after a grab and 0 otherwise. -/
def GrabInv (s : Emu.Daemon) : Prop :=
  AlternatesFromGrab (grabCalls s.out) ∧
  ((s.active = 1 ∧ (grabCalls s.out).getLast? = some true) ∨
   (s.active = 0 ∧ (grabCalls s.out).getLast? ≠ some true))

/-- The activation invariant: the grab state agrees with the trace, and
`active` and `activateAtRelease` are not both nonzero. -/
def ActivationInv (s : Emu.Daemon) : Prop :=
  GrabInv s ∧ ¬ (s.active ≠ 0 ∧ s.activateAtRelease ≠ 0)

/-! ## Theorems: action executor -/

/-- C1: for an Action of type ButtonPress or KeyPress and any modifier mask,
`executeAction(action, EXECUTEACTION_BOTH)` emits, as its key/button events,
exactly: press of each set modifier in the order Shift, Control, Alt, Super;
press of the main button/key; release of the main button/key; release of each
set modifier in the same order. Both source versions agree. -/
theorem C1_executeAction_both_sequence (a : Action)
    (h : a.actionType = ACTIONTYPE_BUTTONPRESS ∨ a.actionType = ACTIONTYPE_KEYPRESS) :
    keyButtonEvents (Emu.executeAction a EXECUTEACTION_BOTH) = atomicSequence a ∧
    keyButtonEvents (Ext.executeAction a EXECUTEACTION_BOTH) = atomicSequence a := by
  obtain ⟨t, k, m⟩ := a
  have hp : Int.land EXECUTEACTION_BOTH EXECUTEACTION_PRESS ≠ 0 := by decide
  have hr : Int.land EXECUTEACTION_BOTH EXECUTEACTION_RELEASE ≠ 0 := by decide
  simp only at h
  by_cases hm : m = 0
  · subst hm
    have h1 : Int.land 0 MODIFIER_SHIFT = 0 := by decide
    have h2 : Int.land 0 MODIFIER_CONTROL = 0 := by decide
    have h3 : Int.land 0 MODIFIER_ALT = 0 := by decide
    have h4 : Int.land 0 MODIFIER_SUPER = 0 := by decide
    rcases h with h | h <;> subst h <;>
    simp [Emu.executeAction, Ext.executeAction, atomicSequence, modifierKeysyms,
      mainEdge, keyButtonEvents, XEvent.isKeyButton, hp, hr, h1, h2, h3, h4,
      List.filter_cons, ACTIONTYPE_BUTTONPRESS, ACTIONTYPE_KEYPRESS, ACTIONTYPE_NONE]
  · rcases h with h | h <;> subst h <;>
    by_cases h1 : Int.land m MODIFIER_SHIFT = 0 <;>
    by_cases h2 : Int.land m MODIFIER_CONTROL = 0 <;>
    by_cases h3 : Int.land m MODIFIER_ALT = 0 <;>
    by_cases h4 : Int.land m MODIFIER_SUPER = 0 <;>
    simp [Emu.executeAction, Ext.executeAction, atomicSequence, modifierKeysyms,
      mainEdge, keyButtonEvents, XEvent.isKeyButton, hp, hr, hm, h1, h2, h3, h4,
      List.filter_cons, ACTIONTYPE_BUTTONPRESS, ACTIONTYPE_KEYPRESS, ACTIONTYPE_NONE]

/-- Witness for C1: a Control+Shift button-4 action. -/
theorem C1_executeAction_both_sequence_witness :
    keyButtonEvents (Emu.executeAction ⟨ACTIONTYPE_BUTTONPRESS, 4, 3⟩ EXECUTEACTION_BOTH)
      = atomicSequence ⟨ACTIONTYPE_BUTTONPRESS, 4, 3⟩ ∧
    keyButtonEvents (Ext.executeAction ⟨ACTIONTYPE_BUTTONPRESS, 4, 3⟩ EXECUTEACTION_BOTH)
      = atomicSequence ⟨ACTIONTYPE_BUTTONPRESS, 4, 3⟩ :=
  C1_executeAction_both_sequence ⟨ACTIONTYPE_BUTTONPRESS, 4, 3⟩ (Or.inl rfl)

/-- C2: an Action of type `ACTIONTYPE_NONE` makes `executeAction` emit no output
call at all, for every modifier mask, every key/button code and every phase
value (in particular PRESS, RELEASE, BOTH and 0), in both source versions. -/
theorem C2_executeAction_none_silent (keyButton modifier whatToDo : Int) :
    Emu.executeAction ⟨ACTIONTYPE_NONE, keyButton, modifier⟩ whatToDo = [] ∧
    Ext.executeAction ⟨ACTIONTYPE_NONE, keyButton, modifier⟩ whatToDo = [] := by
  simp [Emu.executeAction, Ext.executeAction, ACTIONTYPE_NONE,
    ACTIONTYPE_BUTTONPRESS, ACTIONTYPE_KEYPRESS]

/-! ## Theorems: floating-point rounding -/

theorem roundEven_sub_le (x : ℚ) : |((Dbl.roundEven x : Int) : ℚ) - x| ≤ 1 / 2 := by
  have h1 := Int.floor_le x
  have h2 := Int.lt_floor_add_one x
  unfold Dbl.roundEven
  split_ifs with a b c
  · rw [abs_le]; constructor <;> linarith
  · rw [abs_le]; push_cast; constructor <;> linarith
  · rw [abs_le]; constructor <;> linarith
  · rw [abs_le]; push_cast; constructor <;> linarith

theorem roundEven_eq_of_lt (x : ℚ) (m : Int) (h : |x - m| < 1 / 2) :
    Dbl.roundEven x = m := by
  rw [abs_lt] at h
  have h1 := Int.floor_le x
  have h2 := Int.lt_floor_add_one x
  have hf : ⌊x⌋ = m ∨ ⌊x⌋ = m - 1 := by
    have a : (m : ℚ) - 1 < ⌊x⌋ + 1 := by linarith
    have b : ((⌊x⌋ : Int) : ℚ) < m + 1 := by linarith
    have a' : m - 1 < ⌊x⌋ + 1 := by exact_mod_cast a
    have b' : ⌊x⌋ < m + 1 := by exact_mod_cast b
    omega
  unfold Dbl.roundEven
  rcases hf with e | e
  · have : x - ⌊x⌋ < 1 / 2 := by rw [e]; linarith
    rw [if_pos this, e]
  · have e' : ((⌊x⌋ : Int) : ℚ) = m - 1 := by rw [e]; push_cast; ring
    have n1 : ¬ x - ⌊x⌋ < 1 / 2 := by rw [e']; intro c; linarith
    have n2 : 1 / 2 < x - ⌊x⌋ := by rw [e']; linarith
    rw [if_neg n1, if_pos n2, e]; ring

theorem roundEven_intCast (m : Int) : Dbl.roundEven (m : ℚ) = m :=
  roundEven_eq_of_lt _ m (by simp)

theorem log_two_eq {q : ℚ} {e : Int} (h1 : (2 : ℚ) ^ e ≤ q) (h2 : q < (2 : ℚ) ^ (e + 1)) :
    Int.log 2 q = e := by
  have hq : 0 < q := lt_of_lt_of_le (by positivity) h1
  have a : e ≤ Int.log 2 q := (Int.zpow_le_iff_le_log (by norm_num) hq).1 (by exact_mod_cast h1)
  have b : Int.log 2 q < e + 1 := (Int.lt_zpow_iff_log_lt (by norm_num) hq).1 (by exact_mod_cast h2)
  omega

/-- Evaluation of a rounding in the normal range. -/
theorem roundTo_eq (p emin emax : Int) (q : ℚ) (k m : Int)
    (h1 : (2 : ℚ) ^ (k + (p - 1)) ≤ |q|) (h2 : |q| < (2 : ℚ) ^ (k + (p - 1) + 1))
    (hk : emin ≤ k + (p - 1))
    (hm : |q / 2 ^ k - m| < 1 / 2)
    (ho : |(m : ℚ) * 2 ^ k| < (2 : ℚ) ^ (emax + 1)) :
    Dbl.roundTo p emin emax q = Dbl.fin ((m : ℚ) * 2 ^ k) := by
  have hl : Int.log 2 |q| = k + (p - 1) := log_two_eq h1 h2
  unfold Dbl.roundTo
  simp only [hl, max_eq_left hk, add_sub_cancel_right, roundEven_eq_of_lt _ m hm]
  rw [if_neg (not_le.2 ho)]

/-- The relative error of a rounding in the normal range is at most `2^-p`. -/
theorem roundTo_err (p emin emax : Int) (q : ℚ)
    (h1 : (2 : ℚ) ^ emin ≤ |q|) (h2 : |q| * (1 + 1 / 2 ^ p) < (2 : ℚ) ^ (emax + 1)) :
    ∃ v : ℚ, Dbl.roundTo p emin emax q = Dbl.fin v ∧ |v - q| ≤ |q| / 2 ^ p := by
  have hq : 0 < |q| := lt_of_lt_of_le (by positivity) h1
  have he : emin ≤ Int.log 2 |q| :=
    (Int.zpow_le_iff_le_log (by norm_num) hq).1 (by exact_mod_cast h1)
  have hle : (2 : ℚ) ^ Int.log 2 |q| ≤ |q| := by
    have := Int.zpow_log_le_self (b := 2) (r := |q|) (by norm_num) hq
    exact_mod_cast this
  generalize hk : Int.log 2 |q| - (p - 1) = k
  have hpos : (0 : ℚ) < 2 ^ k := by positivity
  have herr := roundEven_sub_le (q / 2 ^ k)
  have hv : |((Dbl.roundEven (q / 2 ^ k) : Int) : ℚ) * 2 ^ k - q| ≤ |q| / 2 ^ p := by
    have e1 : ((Dbl.roundEven (q / 2 ^ k) : Int) : ℚ) * 2 ^ k - q
        = (((Dbl.roundEven (q / 2 ^ k) : Int) : ℚ) - q / 2 ^ k) * 2 ^ k := by
      field_simp
    rw [e1, abs_mul, abs_of_pos hpos]
    have e2 : (2 : ℚ) ^ k = 2 ^ Int.log 2 |q| * 2 / 2 ^ p := by
      rw [← hk, zpow_sub₀ (by norm_num), zpow_sub₀ (by norm_num), zpow_one]
      field_simp
    calc |((Dbl.roundEven (q / 2 ^ k) : Int) : ℚ) - q / 2 ^ k| * 2 ^ k
        ≤ 1 / 2 * 2 ^ k := by gcongr
      _ = 2 ^ Int.log 2 |q| / 2 ^ p := by rw [e2]; ring
      _ ≤ |q| / 2 ^ p := by gcongr
  refine ⟨((Dbl.roundEven (q / 2 ^ k) : Int) : ℚ) * 2 ^ k, ?_, hv⟩
  unfold Dbl.roundTo
  simp only [max_eq_left he, hk]
  rw [if_neg]
  rw [not_le]
  have : |((Dbl.roundEven (q / 2 ^ k) : Int) : ℚ) * 2 ^ k| ≤ |q| + |q| / 2 ^ p := by
    have := abs_sub_abs_le_abs_sub (((Dbl.roundEven (q / 2 ^ k) : Int) : ℚ) * 2 ^ k) q
    linarith
  have e3 : |q| + |q| / 2 ^ p = |q| * (1 + 1 / 2 ^ p) := by ring
  linarith

theorem roundTo_zero (p emin emax : Int) :
    Dbl.roundTo p emin emax 0 = Dbl.fin 0 := by
  unfold Dbl.roundTo
  have h0 : Dbl.roundEven 0 = 0 := by simpa using roundEven_intCast 0
  simp only [zero_div, h0, Int.cast_zero, zero_mul, abs_zero]
  rw [if_neg]
  rw [not_le]
  positivity

/-- An integer of fewer than `p` bits is a value of the format. -/
theorem roundTo_intCast (p emin emax : Int) (n : Int) (hn : |(n : ℚ)| < 2 ^ p)
    (hemin : emin ≤ 0) (hemax : p ≤ emax + 1) :
    Dbl.roundTo p emin emax (n : ℚ) = Dbl.fin (n : ℚ) := by
  by_cases h0 : n = 0
  · subst h0
    simpa using roundTo_zero p emin emax
  · have hq : 0 < |(n : ℚ)| := abs_pos.2 (by exact_mod_cast h0)
    have h1 : (1 : ℚ) ≤ |(n : ℚ)| := by
      have : (1 : Int) ≤ |n| := Int.one_le_abs h0
      exact_mod_cast this
    have he0 : 0 ≤ Int.log 2 |(n : ℚ)| :=
      (Int.zpow_le_iff_le_log (by norm_num) hq).1 (by simpa using h1)
    have hep : Int.log 2 |(n : ℚ)| < p :=
      (Int.lt_zpow_iff_log_lt (by norm_num) hq).1 (by exact_mod_cast hn)
    obtain ⟨j, hj⟩ : ∃ j : Nat, Int.log 2 |(n : ℚ)| - (p - 1) = -(j : Int) :=
      ⟨(p - 1 - Int.log 2 |(n : ℚ)|).toNat, by omega⟩
    have hdiv : (n : ℚ) / 2 ^ (-(j : Int)) = ((n * 2 ^ j : Int) : ℚ) := by
      rw [zpow_neg, zpow_natCast]
      push_cast
      field_simp
    unfold Dbl.roundTo
    simp only [max_eq_left (le_trans hemin he0), hj, hdiv, roundEven_intCast]
    have hv : ((n * 2 ^ j : Int) : ℚ) * 2 ^ (-(j : Int)) = n := by
      rw [zpow_neg, zpow_natCast]
      push_cast
      field_simp
    rw [hv, if_neg]
    rw [not_le]
    calc |(n : ℚ)| < 2 ^ p := hn
      _ ≤ 2 ^ (emax + 1) := zpow_le_zpow_right₀ (by norm_num) hemax

theorem Dbl.rnd_zero : Dbl.rnd 0 = Dbl.fin 0 := roundTo_zero 53 (-1022) 1023

/-- An `int` is a `double`. -/
theorem Dbl.rnd_intCast (n : Int) (hn : |(n : ℚ)| < 9007199254740992) :
    Dbl.rnd (n : ℚ) = Dbl.fin (n : ℚ) :=
  roundTo_intCast 53 (-1022) 1023 n (by norm_num; exact hn) (by norm_num) (by norm_num)

/-- An integer below `2^24` in magnitude is a `float`. -/
theorem Dbl.rndFloat_intCast (n : Int) (hn : |(n : ℚ)| < 16777216) :
    Dbl.rndFloat (n : ℚ) = Dbl.fin (n : ℚ) :=
  roundTo_intCast 24 (-126) 127 n (by norm_num; exact hn) (by norm_num) (by norm_num)

/-- Evaluation of a rounding to `double`: `m · 2^k` is the value of `rnd q` when
`q` lies in the binade whose unit in the last place is `2^k` and `m` is the
integer nearest to `q / 2^k`. -/
theorem Dbl.rnd_eq (q : ℚ) (k m : Int)
    (h1 : (2 : ℚ) ^ (k + 52) ≤ |q|) (h2 : |q| < (2 : ℚ) ^ (k + 53))
    (hk : -1074 ≤ k) (hk2 : k ≤ 970)
    (hm : |q / 2 ^ k - m| < 1 / 2) :
    Dbl.rnd q = Dbl.fin ((m : ℚ) * 2 ^ k) := by
  have hpos : (0 : ℚ) < 2 ^ k := by positivity
  have hmb : |(m : ℚ)| < 2 ^ (53 : Int) + 1 := by
    have a : |q / 2 ^ k| < 2 ^ (53 : Int) := by
      rw [abs_div, abs_of_pos hpos, div_lt_iff₀ hpos, ← zpow_add₀ (by norm_num)]
      rw [show (53 : Int) + k = k + 53 by ring]
      exact h2
    have b : |(m : ℚ)| ≤ |q / 2 ^ k - m| + |q / 2 ^ k| := by
      have := abs_sub_abs_le_abs_sub (m : ℚ) (q / 2 ^ k)
      rw [abs_sub_comm] at this
      linarith
    linarith
  have ho : |(m : ℚ) * 2 ^ k| < (2 : ℚ) ^ ((1023 : Int) + 1) := by
    rw [abs_mul, abs_of_pos hpos]
    have c1 : (2 : ℚ) ^ k ≤ 2 ^ (970 : Int) := zpow_le_zpow_right₀ (by norm_num) hk2
    calc |(m : ℚ)| * 2 ^ k ≤ (2 ^ (53 : Int) + 1) * 2 ^ (970 : Int) := by
          apply mul_le_mul (le_of_lt hmb) c1 (le_of_lt hpos) (by positivity)
      _ < 2 ^ ((1023 : Int) + 1) := by norm_num
  exact roundTo_eq 53 (-1022) 1023 q k m (by simpa [add_assoc] using h1)
    (by convert h2 using 2; ring) (by omega) hm ho

/-- The same evaluation for a positive `q`, without absolute values. -/
theorem Dbl.rnd_eq_pos (q : ℚ) (k m : Int)
    (h1 : (2 : ℚ) ^ (k + 52) ≤ q) (h2 : q < (2 : ℚ) ^ (k + 53))
    (hk : -1074 ≤ k) (hk2 : k ≤ 970)
    (hlo : (m : ℚ) - 1 / 2 < q / 2 ^ k) (hhi : q / 2 ^ k < (m : ℚ) + 1 / 2) :
    Dbl.rnd q = Dbl.fin ((m : ℚ) * 2 ^ k) := by
  have hq : 0 < q := lt_of_lt_of_le (by positivity) h1
  refine Dbl.rnd_eq q k m ?_ ?_ hk hk2 ?_
  · rwa [abs_of_pos hq]
  · rwa [abs_of_pos hq]
  · rw [abs_lt]; constructor <;> linarith

/-- Rounding of a value half-way between two integers: the even one. -/
theorem roundEven_eq_of_tie (x : ℚ) (m : Int) (hm : m % 2 = 0) (h : |x - m| = 1 / 2) :
    Dbl.roundEven x = m := by
  have h1 := Int.floor_le x
  have h2 := Int.lt_floor_add_one x
  rcases abs_eq (by norm_num : (0 : ℚ) ≤ 1 / 2) |>.1 h with e | e
  · have hx : x = m + 1 / 2 := by linarith
    have hf : ⌊x⌋ = m := by
      rw [Int.floor_eq_iff]
      constructor <;> linarith
    unfold Dbl.roundEven
    rw [hf]
    have n1 : ¬ x - (m : ℚ) < 1 / 2 := by rw [hx]; norm_num
    have n2 : ¬ (1 : ℚ) / 2 < x - m := by rw [hx]; norm_num
    rw [if_neg n1, if_neg n2, if_pos hm]
  · have hx : x = m - 1 / 2 := by linarith
    have hf : ⌊x⌋ = m - 1 := by
      rw [Int.floor_eq_iff]
      push_cast
      constructor <;> linarith
    unfold Dbl.roundEven
    rw [hf]
    have n1 : ¬ x - ((m - 1 : Int) : ℚ) < 1 / 2 := by rw [hx]; push_cast; norm_num
    have n2 : ¬ (1 : ℚ) / 2 < x - ((m - 1 : Int) : ℚ) := by rw [hx]; push_cast; norm_num
    have n3 : ¬ (m - 1) % 2 = 0 := by omega
    rw [if_neg n1, if_neg n2, if_neg n3]
    ring

/-- Evaluation of a rounding to `double` at a tie: a positive `q` half-way
between two neighbouring values goes to the one with the even significand. -/
theorem Dbl.rnd_eq_tie (q : ℚ) (k m : Int)
    (h1 : (2 : ℚ) ^ (k + 52) ≤ q) (h2 : q < (2 : ℚ) ^ (k + 53))
    (hk : -1074 ≤ k) (hk2 : k ≤ 970) (hm : m % 2 = 0)
    (ht : |q / 2 ^ k - m| = 1 / 2) :
    Dbl.rnd q = Dbl.fin ((m : ℚ) * 2 ^ k) := by
  have hq : 0 < q := lt_of_lt_of_le (by positivity) h1
  have habs : |q| = q := abs_of_pos hq
  have hpos : (0 : ℚ) < 2 ^ k := by positivity
  have hl : Int.log 2 |q| = k + 52 := by
    rw [habs]
    exact log_two_eq h1 (by convert h2 using 2; ring)
  have hmb : |(m : ℚ)| < 2 ^ (53 : Int) + 1 := by
    have a : |q / 2 ^ k| < 2 ^ (53 : Int) := by
      rw [abs_div, abs_of_pos hpos, habs, div_lt_iff₀ hpos, ← zpow_add₀ (by norm_num)]
      rw [show (53 : Int) + k = k + 53 by ring]
      exact h2
    have b : |(m : ℚ)| ≤ |q / 2 ^ k - m| + |q / 2 ^ k| := by
      have := abs_sub_abs_le_abs_sub (m : ℚ) (q / 2 ^ k)
      rw [abs_sub_comm] at this
      linarith
    rw [ht] at b
    linarith
  have ho : ¬ (2 : ℚ) ^ ((1023 : Int) + 1) ≤ |(m : ℚ) * 2 ^ k| := by
    rw [not_le, abs_mul, abs_of_pos hpos]
    have c1 : (2 : ℚ) ^ k ≤ 2 ^ (970 : Int) := zpow_le_zpow_right₀ (by norm_num) hk2
    calc |(m : ℚ)| * 2 ^ k ≤ (2 ^ (53 : Int) + 1) * 2 ^ (970 : Int) := by
          apply mul_le_mul (le_of_lt hmb) c1 (le_of_lt hpos) (by positivity)
      _ < 2 ^ ((1023 : Int) + 1) := by norm_num
  unfold Dbl.rnd Dbl.roundTo
  have hk3 : max (k + 52) (-1022) - (53 - 1) = k := by
    rw [max_eq_left (by omega)]
    omega
  simp only [hl, hk3, roundEven_eq_of_tie _ m hm ht]
  rw [if_neg ho]

/-- The relative error of a rounding to `double` in the normal range is at
most `2^-53`. -/
theorem Dbl.rnd_err (q : ℚ) (h1 : (2 : ℚ) ^ (-1022 : Int) ≤ |q|)
    (h2 : |q| ≤ (2 : ℚ) ^ (1023 : Int)) :
    ∃ v : ℚ, Dbl.rnd q = Dbl.fin v ∧ |v - q| ≤ |q| / 9007199254740992 := by
  have h3 : |q| * (1 + 1 / 2 ^ (53 : Int)) < (2 : ℚ) ^ ((1023 : Int) + 1) := by
    have a : |q| * (1 + 1 / 2 ^ (53 : Int)) ≤ 2 ^ (1023 : Int) * (1 + 1 / 2 ^ (53 : Int)) := by
      gcongr
    have b : (2 : ℚ) ^ (1023 : Int) * (1 + 1 / 2 ^ (53 : Int)) < 2 ^ (1023 : Int) * 2 := by
      apply mul_lt_mul_of_pos_left _ (by positivity)
      norm_num
    rw [zpow_add_one₀ (by norm_num)]
    linarith
  obtain ⟨v, e, hv⟩ := roundTo_err 53 (-1022) 1023 q h1 h3
  refine ⟨v, e, ?_⟩
  have : (2 : ℚ) ^ (53 : Int) = 9007199254740992 := by norm_num
  rwa [this] at hv

/-- The same bound for a value of moderate size. -/
theorem Dbl.rnd_err_mid (q : ℚ) (h1 : 1 / 1099511627776 ≤ |q|) (h2 : |q| ≤ 1099511627776) :
    ∃ v : ℚ, Dbl.rnd q = Dbl.fin v ∧ |v - q| ≤ |q| / 9007199254740992 := by
  refine Dbl.rnd_err q (le_trans ?_ h1) (le_trans h2 ?_)
  · have a : (2 : ℚ) ^ (-1022 : Int) ≤ 2 ^ (-40 : Int) :=
      zpow_le_zpow_right₀ (by norm_num) (by norm_num)
    have b : (2 : ℚ) ^ (-40 : Int) = 1 / 1099511627776 := by norm_num
    rw [← b]; exact a
  · have a : (2 : ℚ) ^ (40 : Int) ≤ 2 ^ (1023 : Int) :=
      zpow_le_zpow_right₀ (by norm_num) (by norm_num)
    have b : (2 : ℚ) ^ (40 : Int) = 1099511627776 := by norm_num
    rw [← b]; exact a

/-- A positive value above half the least positive `double` `2^-1074` does not
round to zero: the rounded value is at least `2^-1074`, and it exceeds the
exact one by at most its relative error plus half that least `double`. -/
theorem Dbl.rnd_pos (q : ℚ) (h1 : (2 : ℚ) ^ (-1075 : Int) < q) (h2 : q ≤ (2 : ℚ) ^ (1000 : Int)) :
    ∃ v : ℚ, Dbl.rnd q = Dbl.fin v ∧ (2 : ℚ) ^ (-1074 : Int) ≤ v ∧
      v ≤ q + q / 2 ^ (53 : Int) + 2 ^ (-1075 : Int) := by
  have hq : 0 < q := lt_trans (by positivity) h1
  have habs : |q| = q := abs_of_pos hq
  have hle : (2 : ℚ) ^ Int.log 2 q ≤ q := by
    have := Int.zpow_log_le_self (b := 2) (r := q) (by norm_num) hq
    exact_mod_cast this
  generalize hk : max (Int.log 2 q) (-1022) - (53 - 1) = k
  have hk1 : -1074 ≤ k := by
    have := le_max_right (Int.log 2 q) (-1022)
    omega
  have hpos : (0 : ℚ) < 2 ^ k := by positivity
  have h75 : (2 : ℚ) ^ (-1075 : Int) = 2 ^ (-1074 : Int) / 2 := by
    rw [show (-1075 : Int) = -1074 - 1 by norm_num, zpow_sub₀ (by norm_num), zpow_one]
  -- the unit in the last place
  have hulp : (2 : ℚ) ^ k / 2 ≤ q / 2 ^ (53 : Int) + 2 ^ (-1075 : Int) ∧ 1 / 2 < q / 2 ^ k := by
    by_cases he : Int.log 2 q ≤ -1022
    · have hk2 : k = -1074 := by
        rw [max_eq_right he] at hk
        omega
      rw [hk2]
      constructor
      · rw [h75]
        have : (0 : ℚ) ≤ q / 2 ^ (53 : Int) := by positivity
        linarith
      · rw [lt_div_iff₀ (by positivity)]
        rw [h75] at h1
        linarith
    · have hk2 : k = Int.log 2 q - 52 := by
        rw [max_eq_left (by omega)] at hk
        omega
      have e1 : (2 : ℚ) ^ k = 2 ^ Int.log 2 q / 2 ^ (52 : Int) := by
        rw [hk2, zpow_sub₀ (by norm_num)]
      constructor
      · have e2 : (2 : ℚ) ^ k / 2 = 2 ^ Int.log 2 q / 2 ^ (53 : Int) := by
          rw [e1, show (53 : Int) = 52 + 1 by norm_num, zpow_add₀ (by norm_num), zpow_one]
          field_simp
        rw [e2]
        have : (2 : ℚ) ^ Int.log 2 q / 2 ^ (53 : Int) ≤ q / 2 ^ (53 : Int) := by gcongr
        have : (0 : ℚ) ≤ 2 ^ (-1075 : Int) := by positivity
        linarith
      · rw [lt_div_iff₀ hpos, e1]
        have : (2 : ℚ) ^ Int.log 2 q / 2 ^ (52 : Int) ≤ 2 ^ Int.log 2 q := by
          apply div_le_self (by positivity)
          norm_num
        have : (0 : ℚ) < 2 ^ Int.log 2 q := by positivity
        linarith
  obtain ⟨hu1, hu2⟩ := hulp
  have herr := roundEven_sub_le (q / 2 ^ k)
  rw [abs_le] at herr
  have hm : (1 : ℚ) ≤ (Dbl.roundEven (q / 2 ^ k) : Int) := by
    have : (0 : ℚ) < (Dbl.roundEven (q / 2 ^ k) : Int) := by linarith
    have h0 : 0 < Dbl.roundEven (q / 2 ^ k) := by exact_mod_cast this
    have h1 : 1 ≤ Dbl.roundEven (q / 2 ^ k) := h0
    exact_mod_cast h1
  have hv1 : (2 : ℚ) ^ (-1074 : Int) ≤ (Dbl.roundEven (q / 2 ^ k) : Int) * 2 ^ k := by
    have a : (2 : ℚ) ^ (-1074 : Int) ≤ 2 ^ k := zpow_le_zpow_right₀ (by norm_num) hk1
    have b : (2 : ℚ) ^ k ≤ (Dbl.roundEven (q / 2 ^ k) : Int) * 2 ^ k := by
      nlinarith
    exact le_trans a b
  have hv2 : ((Dbl.roundEven (q / 2 ^ k) : Int) : ℚ) * 2 ^ k
      ≤ q + q / 2 ^ (53 : Int) + 2 ^ (-1075 : Int) := by
    have a : ((Dbl.roundEven (q / 2 ^ k) : Int) : ℚ) * 2 ^ k ≤ (q / 2 ^ k + 1 / 2) * 2 ^ k := by
      apply mul_le_mul_of_nonneg_right _ (le_of_lt hpos)
      linarith
    have b : (q / 2 ^ k + 1 / 2) * 2 ^ k = q + 2 ^ k / 2 := by
      field_simp
      ring
    rw [b] at a
    linarith
  refine ⟨_, ?_, hv1, hv2⟩
  unfold Dbl.rnd Dbl.roundTo
  simp only [habs, hk]
  rw [if_neg]
  rw [not_le]
  have hv0 : (0 : ℚ) ≤ (Dbl.roundEven (q / 2 ^ k) : Int) * 2 ^ k :=
    le_trans (by positivity) hv1
  rw [abs_of_nonneg hv0]
  have c1 : q / 2 ^ (53 : Int) ≤ q := div_le_self (le_of_lt hq) (by norm_num)
  have c2 : (2 : ℚ) ^ (-1075 : Int) ≤ 2 ^ (1000 : Int) :=
    zpow_le_zpow_right₀ (by norm_num) (by norm_num)
  have c3 : (2 : ℚ) ^ ((1023 : Int) + 1) = 2 ^ (1000 : Int) * 2 ^ (24 : Int) := by
    rw [← zpow_add₀ (by norm_num)]
    norm_num
  have c4 : (2 : ℚ) ^ (24 : Int) = 16777216 := by norm_num
  have c5 : (0 : ℚ) < 2 ^ (1000 : Int) := by positivity
  rw [c3, c4]
  linarith

theorem Dbl.toInt_floor (q : ℚ) (h0 : 0 ≤ q) (h1 : ⌊q⌋ < 2147483648) :
    Dbl.toInt (Dbl.fin q) = ⌊q⌋ := by
  have hnum : 0 ≤ q.num := Rat.num_nonneg.mpr h0
  have hfl : q.num / (q.den : Int) = ⌊q⌋ := Rat.floor_def.symm
  have hk : 0 ≤ ⌊q⌋ := Int.floor_nonneg.mpr h0
  unfold Dbl.toInt
  simp only
  rw [Int.tdiv_eq_ediv hnum (by positivity), hfl, if_pos ⟨by omega, h1⟩]

/-- The cast `(int) v` of a non-negative value between `n` and `n + 1`. -/
theorem Dbl.toInt_between (v : ℚ) (n : Int) (h0 : 0 ≤ n) (hn : n < 2147483648)
    (h1 : (n : ℚ) ≤ v) (h2 : v < (n : ℚ) + 1) : Dbl.toInt (Dbl.fin v) = n := by
  have hf : ⌊v⌋ = n := Int.floor_eq_iff.2 ⟨h1, h2⟩
  have hv : (0 : ℚ) ≤ v := le_trans (by exact_mod_cast h0) h1
  rw [Dbl.toInt_floor v hv (by rw [hf]; exact hn), hf]

/-! ## Theorems: calibration -/

theorem Dbl.toInt_range (d : Dbl) : -2147483648 ≤ d.toInt ∧ d.toInt < 2147483648 := by
  cases d <;> simp only [Dbl.toInt]
  · split_ifs with h
    · exact h
    · omega
  all_goals omega

theorem clamp_bounds (sw : Nat) (x1 : Int) (h : -2147483648 ≤ x1 ∧ x1 < 2147483648) :
    0 ≤ (if toU32 (if x1 < 0 then 0 else x1) > (sw : Int) then toI32 (sw : Int)
          else (if x1 < 0 then 0 else x1)) ∧
    (if toU32 (if x1 < 0 then 0 else x1) > (sw : Int) then toI32 (sw : Int)
          else (if x1 < 0 then 0 else x1)) ≤ (sw : Int) := by
  unfold toU32 toI32
  split_ifs <;> omega

theorem toI32_range (x : Int) : -2147483648 ≤ toI32 x ∧ toI32 x < 2147483648 := by
  unfold toI32; omega

/-- C3: for every calibration state, every screen size and every raw input, the
calibrated coordinates produced by `calibrate` satisfy `0 ≤ x ≤ screenWidth`
and `0 ≤ y ≤ screenHeight`; the unsigned subtraction and the unsigned
comparisons of the C code are taken modulo `2^32`. -/
theorem C3_calibrate_within_screen (c : Emu.Calib) (f : Emu.FingerInfo) :
    0 ≤ (Emu.calibrate c f).x ∧ (Emu.calibrate c f).x ≤ (c.screenWidth : Int) ∧
    0 ≤ (Emu.calibrate c f).y ∧ (Emu.calibrate c f).y ≤ (c.screenHeight : Int) := by
  simp only [Emu.calibrate]
  refine ⟨?_, ?_, ?_, ?_⟩
  · refine (clamp_bounds c.screenWidth _ ?_).1
    split_ifs <;> first | exact toI32_range _ | exact Dbl.toInt_range _
  · refine (clamp_bounds c.screenWidth _ ?_).2
    split_ifs <;> first | exact toI32_range _ | exact Dbl.toInt_range _
  · refine (clamp_bounds c.screenHeight _ ?_).1
    split_ifs <;> first | exact toI32_range _ | exact Dbl.toInt_range _
  · refine (clamp_bounds c.screenHeight _ ?_).2
    split_ifs <;> first | exact toI32_range _ | exact Dbl.toInt_range _

theorem Dbl.toInt_fin_intCast (n : Int) (h : -2147483648 ≤ n ∧ n < 2147483648) :
    Dbl.toInt (Dbl.fin (n : ℚ)) = n := by
  simp only [Dbl.toInt, Rat.num_intCast, Rat.den_intCast, Nat.cast_one, Int.tdiv_one]
  rw [if_pos h]

/-- The factor `W / (double) d` that `setScreenSize` stores for a screen size
`W` and a raw span `d` is finite and within a relative error of `2^-53` of the
exact quotient. -/
theorem calib_factor (W d : Int) (hd : d ≠ 0) (hdr : isI32 d) (hW : 0 < W ∧ W < 2147483648) :
    ∃ f : ℚ, Dbl.div (Dbl.ofInt W) (Dbl.ofInt d) = Dbl.fin f ∧
      |f - (W : ℚ) / d| ≤ |(W : ℚ) / d| / 9007199254740992 := by
  have hq : (d : ℚ) ≠ 0 := by exact_mod_cast hd
  have hd1 : (1 : ℚ) ≤ |(d : ℚ)| := by
    have : (1 : Int) ≤ |d| := Int.one_le_abs hd
    exact_mod_cast this
  have hd2 : |(d : ℚ)| ≤ 2147483648 := by
    unfold isI32 at hdr
    have : |d| ≤ 2147483648 := by rw [abs_le]; omega
    exact_mod_cast this
  have hW1 : (1 : ℚ) ≤ W := by exact_mod_cast hW.1
  have hW2 : (W : ℚ) ≤ 2147483648 := by exact_mod_cast (le_of_lt hW.2)
  have hpos : (0 : ℚ) < |(d : ℚ)| := by linarith
  have ha : |(W : ℚ) / d| = W / |(d : ℚ)| := by
    rw [abs_div, abs_of_pos (by linarith : (0 : ℚ) < W)]
  simp only [Dbl.ofInt, Dbl.div, if_neg hq]
  apply Dbl.rnd_err_mid
  · rw [ha, le_div_iff₀ hpos]
    linarith
  · rw [ha, div_le_iff₀ hpos]
    nlinarith

/-- The product of the raw span with the stored factor, as `calibrate` computes
it for the upper raw extreme, is a finite value less than one away from the
screen size. -/
theorem factor_times_span (W d : Int) (hd : d ≠ 0) (hdr : isI32 d)
    (hW : 0 < W ∧ W < 2147483648) :
    ∃ v : ℚ, Dbl.mul (Dbl.ofInt d) (Dbl.div (Dbl.ofInt W) (Dbl.ofInt d)) = Dbl.fin v ∧
      (W : ℚ) - 1 < v ∧ v < (W : ℚ) + 1 := by
  obtain ⟨f, ef, hf⟩ := calib_factor W d hd hdr hW
  have hq : (d : ℚ) ≠ 0 := by exact_mod_cast hd
  have hW1 : (1 : ℚ) ≤ W := by exact_mod_cast hW.1
  have hW2 : (W : ℚ) ≤ 2147483648 := by exact_mod_cast (le_of_lt hW.2)
  have hpos : (0 : ℚ) < |(d : ℚ)| := abs_pos.2 hq
  -- the exact product is within `W · 2^-53` of `W`
  have hp : |(d : ℚ) * f - W| ≤ (W : ℚ) / 9007199254740992 := by
    have e1 : (d : ℚ) * f - W = d * (f - (W : ℚ) / d) := by field_simp; ring
    have e2 : |(d : ℚ)| * (|(W : ℚ) / d| / 9007199254740992) = (W : ℚ) / 9007199254740992 := by
      rw [abs_div, abs_of_pos (by linarith : (0 : ℚ) < W)]
      field_simp
      ring
    rw [e1, abs_mul, ← e2]
    exact mul_le_mul_of_nonneg_left hf (le_of_lt hpos)
  rw [abs_le] at hp
  have hq1 : (1 : ℚ) / 2 ≤ (d : ℚ) * f := by linarith
  have hq2 : (d : ℚ) * f ≤ 2 * (W : ℚ) := by linarith
  have hq0 : |(d : ℚ) * f| = d * f := abs_of_pos (by linarith)
  obtain ⟨v, ev, hv⟩ := Dbl.rnd_err_mid ((d : ℚ) * f) (by rw [hq0]; linarith)
    (by rw [hq0]; linarith)
  rw [hq0, abs_le] at hv
  refine ⟨v, ?_, ?_, ?_⟩
  · rw [ef]
    simp only [Dbl.ofInt, Dbl.mul]
    exact ev
  · linarith
  · linarith

/-- The upper raw extreme is sent to the screen size or to one pixel less. -/
theorem calib_upper (W d : Int) (hd : d ≠ 0) (hdr : isI32 d) (hW : 0 < W ∧ W < 2147483648) :
    Dbl.toInt (Dbl.mul (Dbl.ofInt d) (Dbl.div (Dbl.ofInt W) (Dbl.ofInt d))) = W ∨
    Dbl.toInt (Dbl.mul (Dbl.ofInt d) (Dbl.div (Dbl.ofInt W) (Dbl.ofInt d))) = W - 1 := by
  obtain ⟨v, ev, h1, h2⟩ := factor_times_span W d hd hdr hW
  rw [ev]
  by_cases hv : (W : ℚ) ≤ v
  · left
    exact Dbl.toInt_between v W (by omega) hW.2 hv h2
  · right
    refine Dbl.toInt_between v (W - 1) (by omega) (by omega) ?_ ?_
    · push_cast; linarith
    · push_cast; linarith

/-- The lower raw extreme is sent to 0. -/
theorem calib_lower (W d : Int) (hd : d ≠ 0) (hdr : isI32 d) (hW : 0 < W ∧ W < 2147483648) :
    Dbl.toInt (Dbl.mul (Dbl.ofInt 0) (Dbl.div (Dbl.ofInt W) (Dbl.ofInt d))) = 0 := by
  obtain ⟨f, ef, -⟩ := calib_factor W d hd hdr hW
  rw [ef]
  simp only [Dbl.ofInt, Dbl.mul, Int.cast_zero, zero_mul, Dbl.rnd_zero]
  exact Dbl.toInt_between 0 0 (by omega) (by omega) (by norm_num) (by norm_num)

theorem axis_corner (W : Int) (hW : 0 < W ∧ W < 2147483648) (swap : Nat) (x0 : Int)
    (hx : x0 = 0 ∨ x0 = W ∨ x0 = W - 1) :
    (if toU32 (if (if swap ≠ 0 then toI32 (toU32 (W - x0)) else x0) < 0 then 0
                else (if swap ≠ 0 then toI32 (toU32 (W - x0)) else x0)) > W
      then toI32 W
      else (if (if swap ≠ 0 then toI32 (toU32 (W - x0)) else x0) < 0 then 0
                else (if swap ≠ 0 then toI32 (toU32 (W - x0)) else x0)))
      = (if swap ≠ 0 then W - x0 else x0) := by
  unfold toU32 toI32
  rcases hx with hx | hx | hx <;> subst hx <;> split_ifs <;> omega

theorem toU32_toNat_cast (W : Int) (hW : 0 < W ∧ W < 2147483648) :
    (((toU32 W).toNat : Nat) : Int) = W := by
  unfold toU32; omega

theorem toI32_span_ne_zero (lo hi : Int) (hlo : isI32 lo) (hhi : isI32 hi) (h : lo < hi) :
    toI32 (hi - lo) ≠ 0 := by
  unfold isI32 at hlo hhi
  unfold toI32; omega

theorem toI32_isI32 (x : Int) : isI32 (toI32 x) := by
  unfold isI32 toI32; omega

theorem calibrate_extreme_x (c : Emu.Calib) (f : Emu.FingerInfo) (W H : Int)
    (hminX : isI32 c.calibMinX) (hmaxX : isI32 c.calibMaxX)
    (hX : c.calibMaxX > c.calibMinX) (hY : c.calibMaxY ≠ c.calibMinY)
    (hW : 0 < W ∧ W < 2147483648) :
    (Emu.calibrate (Emu.setScreenSize c W H) (rawExtreme c f c.calibMinX c.calibMinY)).x
      = (if c.calibSwapX ≠ 0 then W else 0) ∧
    ((Emu.calibrate (Emu.setScreenSize c W H) (rawExtreme c f c.calibMaxX c.calibMaxY)).x
      = (if c.calibSwapX ≠ 0 then 0 else W) ∨
     (Emu.calibrate (Emu.setScreenSize c W H) (rawExtreme c f c.calibMaxX c.calibMaxY)).x
      = (if c.calibSwapX ≠ 0 then 1 else W - 1)) := by
  have hne : c.calibMaxX ≠ c.calibMinX ∧ c.calibMaxY ≠ c.calibMinY := ⟨by omega, hY⟩
  have hd := toI32_span_ne_zero _ _ hminX hmaxX hX
  have hdr := toI32_isI32 (c.calibMaxX - c.calibMinX)
  have hc := toU32_toNat_cast W hW
  have e0 : toI32 (c.calibMinX - c.calibMinX) = 0 := by unfold toI32; omega
  constructor
  · have key := axis_corner W hW c.calibSwapX 0 (Or.inl rfl)
    by_cases hs : c.calibSwapAxes = 0 <;>
    simp only [Emu.calibrate, Emu.setScreenSize, if_pos hne, rawExtreme, hs, ne_eq,
      not_true_eq_false, not_false_eq_true, if_true, if_false, hc, e0,
      calib_lower W _ hd hdr hW] <;>
    rw [key] <;> simp
  · rcases calib_upper W _ hd hdr hW with hu | hu
    · left
      have key := axis_corner W hW c.calibSwapX W (Or.inr (Or.inl rfl))
      by_cases hs : c.calibSwapAxes = 0 <;>
      simp only [Emu.calibrate, Emu.setScreenSize, if_pos hne, rawExtreme, hs, ne_eq,
        not_true_eq_false, not_false_eq_true, if_true, if_false, hc, hu] <;>
      rw [key] <;> simp
    · right
      have key := axis_corner W hW c.calibSwapX (W - 1) (Or.inr (Or.inr rfl))
      by_cases hs : c.calibSwapAxes = 0 <;>
      simp only [Emu.calibrate, Emu.setScreenSize, if_pos hne, rawExtreme, hs, ne_eq,
        not_true_eq_false, not_false_eq_true, if_true, if_false, hc, hu] <;>
      rw [key] <;> simp

theorem calibrate_extreme_y (c : Emu.Calib) (f : Emu.FingerInfo) (W H : Int)
    (hminY : isI32 c.calibMinY) (hmaxY : isI32 c.calibMaxY)
    (hX : c.calibMaxX ≠ c.calibMinX) (hY : c.calibMaxY > c.calibMinY)
    (hH : 0 < H ∧ H < 2147483648) :
    (Emu.calibrate (Emu.setScreenSize c W H) (rawExtreme c f c.calibMinX c.calibMinY)).y
      = (if c.calibSwapY ≠ 0 then H else 0) ∧
    ((Emu.calibrate (Emu.setScreenSize c W H) (rawExtreme c f c.calibMaxX c.calibMaxY)).y
      = (if c.calibSwapY ≠ 0 then 0 else H) ∨
     (Emu.calibrate (Emu.setScreenSize c W H) (rawExtreme c f c.calibMaxX c.calibMaxY)).y
      = (if c.calibSwapY ≠ 0 then 1 else H - 1)) := by
  have hne : c.calibMaxX ≠ c.calibMinX ∧ c.calibMaxY ≠ c.calibMinY := ⟨hX, by omega⟩
  have hd := toI32_span_ne_zero _ _ hminY hmaxY hY
  have hdr := toI32_isI32 (c.calibMaxY - c.calibMinY)
  have hc := toU32_toNat_cast H hH
  have e0 : toI32 (c.calibMinY - c.calibMinY) = 0 := by unfold toI32; omega
  constructor
  · have key := axis_corner H hH c.calibSwapY 0 (Or.inl rfl)
    by_cases hs : c.calibSwapAxes = 0 <;>
    simp only [Emu.calibrate, Emu.setScreenSize, if_pos hne, rawExtreme, hs, ne_eq,
      not_true_eq_false, not_false_eq_true, if_true, if_false, hc, e0,
      calib_lower H _ hd hdr hH] <;>
    rw [key] <;> simp
  · rcases calib_upper H _ hd hdr hH with hu | hu
    · left
      have key := axis_corner H hH c.calibSwapY H (Or.inr (Or.inl rfl))
      by_cases hs : c.calibSwapAxes = 0 <;>
      simp only [Emu.calibrate, Emu.setScreenSize, if_pos hne, rawExtreme, hs, ne_eq,
        not_true_eq_false, not_false_eq_true, if_true, if_false, hc, hu] <;>
      rw [key] <;> simp
    · right
      have key := axis_corner H hH c.calibSwapY (H - 1) (Or.inr (Or.inr rfl))
      by_cases hs : c.calibSwapAxes = 0 <;>
      simp only [Emu.calibrate, Emu.setScreenSize, if_pos hne, rawExtreme, hs, ne_eq,
        not_true_eq_false, not_false_eq_true, if_true, if_false, hc, hu] <;>
      rw [key] <;> simp

/-- The `double` product of `calibrate` for the upper raw extreme of the span
`1074` on a screen `1920` wide: the factor is the `double` nearest to
`1920 / 1074`, and `1074` times it rounds to `1920 - 2^-42`. -/
theorem calib_product_1074 :
    Dbl.toInt (Dbl.mul (Dbl.ofInt 1074) (Dbl.div (Dbl.ofInt 1920) (Dbl.ofInt 1074))) = 1919 := by
  have hf : Dbl.rnd (1920 / 1074) = Dbl.fin (8051127825466808 / 4503599627370496) := by
    rw [Dbl.rnd_eq_pos (1920 / 1074) (-52) 8051127825466808 (by norm_num) (by norm_num)
      (by norm_num) (by norm_num) (by norm_num) (by norm_num)]
    norm_num
  have hp : Dbl.rnd (1074 * (8051127825466808 / 4503599627370496))
      = Dbl.fin (8444249301319679 / 4398046511104) := by
    rw [Dbl.rnd_eq_pos (1074 * (8051127825466808 / 4503599627370496)) (-42) 8444249301319679
      (by norm_num) (by norm_num) (by norm_num) (by norm_num) (by norm_num) (by norm_num)]
    norm_num
  have hd : ¬ ((1074 : Int) : ℚ) = 0 := by norm_num
  simp only [Dbl.ofInt, Dbl.div, if_neg hd, Dbl.mul]
  push_cast
  rw [hf]
  simp only
  rw [hp]
  exact Dbl.toInt_between _ 1919 (by norm_num) (by norm_num) (by norm_num) (by norm_num)

/-- The same product for the span `4280` on a screen `1080` high. -/
theorem calib_product_4280 :
    Dbl.toInt (Dbl.mul (Dbl.ofInt 4280) (Dbl.div (Dbl.ofInt 1080) (Dbl.ofInt 4280))) = 1079 := by
  have hf : Dbl.rnd (1080 / 4280) = Dbl.fin (4545689343514145 / 18014398509481984) := by
    rw [Dbl.rnd_eq_pos (1080 / 4280) (-54) 4545689343514145 (by norm_num) (by norm_num)
      (by norm_num) (by norm_num) (by norm_num) (by norm_num)]
    norm_num
  have hp : Dbl.rnd (4280 * (4545689343514145 / 18014398509481984))
      = Dbl.fin (4749890231992319 / 4398046511104) := by
    rw [Dbl.rnd_eq_pos (4280 * (4545689343514145 / 18014398509481984)) (-42) 4749890231992319
      (by norm_num) (by norm_num) (by norm_num) (by norm_num) (by norm_num) (by norm_num)]
    norm_num
  have hd : ¬ ((4280 : Int) : ℚ) = 0 := by norm_num
  simp only [Dbl.ofInt, Dbl.div, if_neg hd, Dbl.mul]
  push_cast
  rw [hf]
  simp only
  rw [hp]
  exact Dbl.toInt_between _ 1079 (by norm_num) (by norm_num) (by norm_num) (by norm_num)

/-- The same product for the span `49` on a screen one pixel wide:
`49 * (1 / 49.0)` is the `double` just below 1. -/
theorem calib_product_49 :
    Dbl.toInt (Dbl.mul (Dbl.ofInt 49) (Dbl.div (Dbl.ofInt 1) (Dbl.ofInt 49))) = 0 := by
  have hf : Dbl.rnd (1 / 49) = Dbl.fin (5882252574524729 / 288230376151711744) := by
    rw [Dbl.rnd_eq_pos (1 / 49) (-58) 5882252574524729 (by norm_num) (by norm_num)
      (by norm_num) (by norm_num) (by norm_num) (by norm_num)]
    norm_num
  have hp : Dbl.rnd (49 * (5882252574524729 / 288230376151711744))
      = Dbl.fin (9007199254740991 / 9007199254740992) := by
    rw [Dbl.rnd_eq_pos (49 * (5882252574524729 / 288230376151711744)) (-53) 9007199254740991
      (by norm_num) (by norm_num) (by norm_num) (by norm_num) (by norm_num) (by norm_num)]
    norm_num
  have hd : ¬ ((49 : Int) : ℚ) = 0 := by norm_num
  simp only [Dbl.ofInt, Dbl.div, if_neg hd, Dbl.mul]
  push_cast
  rw [hf]
  simp only
  rw [hp]
  exact Dbl.toInt_between _ 0 (by norm_num) (by norm_num) (by norm_num) (by norm_num)

/-- The product for the swapped-axes example: raw offset `50`, span `100`,
screen `1000`. -/
theorem calib_product_50 :
    Dbl.toInt (Dbl.mul (Dbl.ofInt 50) (Dbl.div (Dbl.ofInt 1000) (Dbl.ofInt 100))) = 500 := by
  have hf : Dbl.rnd (1000 / 100) = Dbl.fin 10 := by
    have := Dbl.rnd_intCast 10 (by norm_num)
    norm_num at this ⊢
    exact this
  have hp : Dbl.rnd (50 * 10) = Dbl.fin 500 := by
    have := Dbl.rnd_intCast 500 (by norm_num)
    norm_num at this ⊢
    exact this
  have hd : ¬ ((100 : Int) : ℚ) = 0 := by norm_num
  simp only [Dbl.ofInt, Dbl.div, if_neg hd, Dbl.mul]
  push_cast
  rw [hf]
  simp only
  rw [hp]
  exact Dbl.toInt_between _ 500 (by norm_num) (by norm_num) (by norm_num) (by norm_num)

/-- On a screen of width 0 the factor is 0 and every product is 0. -/
theorem calib_product_zero (n : Int) :
    Dbl.toInt (Dbl.mul (Dbl.ofInt n) (Dbl.div (Dbl.ofInt 0) (Dbl.ofInt 100))) = 0 := by
  have hd : ¬ ((100 : Int) : ℚ) = 0 := by norm_num
  simp only [Dbl.ofInt, Dbl.div, if_neg hd, Dbl.mul, Int.cast_zero, zero_div, Dbl.rnd_zero,
    mul_zero]
  exact Dbl.toInt_between _ 0 (by norm_num) (by norm_num) (by norm_num) (by norm_num)

/-- The x coordinate that `calibrate` computes without axis swap and without
inversion. -/
theorem calibrate_x_plain (c : Emu.Calib) (f : Emu.FingerInfo) (ha : c.calibSwapAxes = 0)
    (hx : c.calibSwapX = 0) (x0 : Int)
    (h0 : Dbl.toInt (Dbl.mul (Dbl.ofInt (toI32 (f.rawX - c.calibMinX))) c.calibFactorX) = x0)
    (hr : 0 ≤ x0 ∧ x0 ≤ (c.screenWidth : Int) ∧ x0 < 4294967296) :
    (Emu.calibrate c f).x = x0 := by
  simp only [Emu.calibrate, ha, hx, ne_eq, not_true_eq_false, if_false, h0]
  unfold toU32 toI32
  split_ifs <;> omega

/-- The y coordinate that `calibrate` computes without axis swap and without
inversion. -/
theorem calibrate_y_plain (c : Emu.Calib) (f : Emu.FingerInfo) (ha : c.calibSwapAxes = 0)
    (hy : c.calibSwapY = 0) (y0 : Int)
    (h0 : Dbl.toInt (Dbl.mul (Dbl.ofInt (toI32 (f.rawY - c.calibMinY))) c.calibFactorY) = y0)
    (hr : 0 ≤ y0 ∧ y0 ≤ (c.screenHeight : Int) ∧ y0 < 4294967296) :
    (Emu.calibrate c f).y = y0 := by
  simp only [Emu.calibrate, ha, hy, ne_eq, not_true_eq_false, if_false, h0]
  unfold toU32 toI32
  split_ifs <;> omega

/-- C4 (as stated, refuted), four instances. With X range `0..100`, Y range
`50..150`, `calibSwapAxes` set and a `1000 x 1000` screen, `calibrate` sends
the raw extreme point `(calibMinX, calibMinY) = (0, 50)` to `x = 500`, neither
`0` nor the screen width. Without axis swap and on a screen of width `0`, both
raw extreme points are sent to `x = 0`. With the ranges `0..1074` and `0..4280`
on a `1920 x 1080` screen the factors are rounded quotients, and the upper raw
extreme `(1074, 4280)` is sent to `(1919, 1079)`, one pixel short of the
corner. With the range `0..49` on a screen one pixel wide both raw extreme
points are sent to `x = 0`. -/
theorem C4_counterexample_swapped_axes :
    ((Emu.calibrate (Emu.setScreenSize calibSwapped 1000 1000)
        { fingerZero with rawX := calibSwapped.calibMinX, rawY := calibSwapped.calibMinY }).x = 500 ∧
     ¬ ((Emu.calibrate (Emu.setScreenSize calibSwapped 1000 1000)
        { fingerZero with rawX := calibSwapped.calibMinX, rawY := calibSwapped.calibMinY }).x = 0 ∨
       (Emu.calibrate (Emu.setScreenSize calibSwapped 1000 1000)
        { fingerZero with rawX := calibSwapped.calibMinX, rawY := calibSwapped.calibMinY }).x = 1000)) ∧
    ((Emu.calibrate (Emu.setScreenSize { calibSwapped with calibSwapAxes := 0 } 0 1000)
        { fingerZero with rawX := 0, rawY := 50 }).x = 0 ∧
     (Emu.calibrate (Emu.setScreenSize { calibSwapped with calibSwapAxes := 0 } 0 1000)
        { fingerZero with rawX := 100, rawY := 150 }).x = 0) ∧
    ((Emu.calibrate (Emu.setScreenSize calibPanel 1920 1080)
        { fingerZero with rawX := calibPanel.calibMaxX, rawY := calibPanel.calibMaxY }).x = 1919 ∧
     (Emu.calibrate (Emu.setScreenSize calibPanel 1920 1080)
        { fingerZero with rawX := calibPanel.calibMaxX, rawY := calibPanel.calibMaxY }).y = 1079) ∧
    ((Emu.calibrate (Emu.setScreenSize calibNarrow 1 1)
        { fingerZero with rawX := calibNarrow.calibMinX, rawY := calibNarrow.calibMinY }).x = 0 ∧
     (Emu.calibrate (Emu.setScreenSize calibNarrow 1 1)
        { fingerZero with rawX := calibNarrow.calibMaxX, rawY := calibNarrow.calibMaxY }).x = 0) := by
  have h : (Emu.calibrate (Emu.setScreenSize calibSwapped 1000 1000)
        { fingerZero with rawX := calibSwapped.calibMinX, rawY := calibSwapped.calibMinY }).x = 500 := by
    have e := calib_product_50
    simp only [Emu.calibrate, Emu.setScreenSize, calibSwapped, fingerZero]
    norm_num [toI32, toU32, e]
  refine ⟨⟨h, ?_⟩, ⟨?_, ?_⟩, ⟨?_, ?_⟩, ?_, ?_⟩
  · rw [h]
    decide
  · exact calibrate_x_plain _ _ rfl rfl 0 (calib_product_zero _) (by decide)
  · exact calibrate_x_plain _ _ rfl rfl 0 (calib_product_zero _) (by decide)
  · exact calibrate_x_plain _ _ rfl rfl 1919 calib_product_1074 (by decide)
  · exact calibrate_y_plain _ _ rfl rfl 1079 calib_product_4280 (by decide)
  · refine calibrate_x_plain _ _ rfl rfl 0 ?_ (by decide)
    have := calib_lower 1 49 (by decide) (by decide) (by decide)
    exact this
  · exact calibrate_x_plain _ _ rfl rfl 0 calib_product_49 (by decide)

/-- C4 (amended): with `int` calibration bounds `calibMaxX > calibMinX`,
`calibMaxY > calibMinY`, a `W x H` screen whose width and height are positive
`int` values (`0 < W, H < 2^31`) and the factors computed by `setScreenSize`
in `double` arithmetic, for every combination of `calibSwapX`, `calibSwapY`
and `calibSwapAxes`, `calibrate` maps the two raw extreme points to within one
pixel of two opposite corners of the screen: the lower extreme exactly to
`x = 0` (to `x = W` under `calibSwapX`), the upper extreme to `x = W` or
`x = W - 1` (to `x = 0` or `x = 1` under `calibSwapX`), and likewise in `y`
with `H` and `calibSwapY`; on a screen at least two pixels wide and high the
two results differ in both coordinates. The raw extreme points are
`(calibMinX, calibMinY)` and `(calibMaxX, calibMaxY)` when `calibSwapAxes` is
unset, and `(rawX, rawY) = (calibMinY, calibMinX)` and `(calibMaxY, calibMaxX)`
when it is set. -/
theorem C4_extremes_map_to_corners (c : Emu.Calib) (f : Emu.FingerInfo) (W H : Int)
    (hminX : isI32 c.calibMinX) (hmaxX : isI32 c.calibMaxX)
    (hminY : isI32 c.calibMinY) (hmaxY : isI32 c.calibMaxY)
    (hX : c.calibMaxX > c.calibMinX) (hY : c.calibMaxY > c.calibMinY)
    (hW : 0 < W ∧ W < 2147483648) (hH : 0 < H ∧ H < 2147483648) :
    (Emu.calibrate (Emu.setScreenSize c W H) (rawExtreme c f c.calibMinX c.calibMinY)).x
      = (if c.calibSwapX ≠ 0 then W else 0) ∧
    (Emu.calibrate (Emu.setScreenSize c W H) (rawExtreme c f c.calibMinX c.calibMinY)).y
      = (if c.calibSwapY ≠ 0 then H else 0) ∧
    ((Emu.calibrate (Emu.setScreenSize c W H) (rawExtreme c f c.calibMaxX c.calibMaxY)).x
      = (if c.calibSwapX ≠ 0 then 0 else W) ∨
     (Emu.calibrate (Emu.setScreenSize c W H) (rawExtreme c f c.calibMaxX c.calibMaxY)).x
      = (if c.calibSwapX ≠ 0 then 1 else W - 1)) ∧
    ((Emu.calibrate (Emu.setScreenSize c W H) (rawExtreme c f c.calibMaxX c.calibMaxY)).y
      = (if c.calibSwapY ≠ 0 then 0 else H) ∨
     (Emu.calibrate (Emu.setScreenSize c W H) (rawExtreme c f c.calibMaxX c.calibMaxY)).y
      = (if c.calibSwapY ≠ 0 then 1 else H - 1)) ∧
    (2 ≤ W →
      (Emu.calibrate (Emu.setScreenSize c W H) (rawExtreme c f c.calibMinX c.calibMinY)).x ≠
        (Emu.calibrate (Emu.setScreenSize c W H) (rawExtreme c f c.calibMaxX c.calibMaxY)).x) ∧
    (2 ≤ H →
      (Emu.calibrate (Emu.setScreenSize c W H) (rawExtreme c f c.calibMinX c.calibMinY)).y ≠
        (Emu.calibrate (Emu.setScreenSize c W H) (rawExtreme c f c.calibMaxX c.calibMaxY)).y) := by
  obtain ⟨x1, x2⟩ := calibrate_extreme_x c f W H hminX hmaxX hX (by omega) hW
  obtain ⟨y1, y2⟩ := calibrate_extreme_y c f W H hminY hmaxY (by omega) hY hH
  refine ⟨x1, y1, x2, y2, fun h2 => ?_, fun h2 => ?_⟩
  · rw [x1]
    rcases x2 with e | e <;> rw [e] <;> split_ifs <;> omega
  · rw [y1]
    rcases y2 with e | e <;> rw [e] <;> split_ifs <;> omega

/-- Witness for C4: the panel `0..1074 x 0..4280` on a `1920 x 1080` screen. -/
theorem C4_extremes_map_to_corners_witness :
    (Emu.calibrate (Emu.setScreenSize calibPanel 1920 1080)
        (rawExtreme calibPanel fingerZero 0 0)).x = 0 ∧
    ((Emu.calibrate (Emu.setScreenSize calibPanel 1920 1080)
        (rawExtreme calibPanel fingerZero 1074 4280)).x = 1920 ∨
     (Emu.calibrate (Emu.setScreenSize calibPanel 1920 1080)
        (rawExtreme calibPanel fingerZero 1074 4280)).x = 1919) ∧
    (Emu.calibrate (Emu.setScreenSize calibPanel 1920 1080)
        (rawExtreme calibPanel fingerZero 0 0)).x ≠
      (Emu.calibrate (Emu.setScreenSize calibPanel 1920 1080)
        (rawExtreme calibPanel fingerZero 1074 4280)).x :=
  have h := C4_extremes_map_to_corners calibPanel fingerZero 1920 1080
    (by decide) (by decide) (by decide) (by decide) (by decide) (by decide)
    (by decide) (by decide)
  ⟨h.1, h.2.2.1, h.2.2.2.2.1 (by decide)⟩

/-! ## Theorems: touch tracker -/

section TrackerTheorems

open Emu

@[simp] theorem calibrate_id (c : Calib) (f : FingerInfo) : (calibrate c f).id = f.id := rfl
@[simp] theorem calibrate_rawX (c : Calib) (f : FingerInfo) : (calibrate c f).rawX = f.rawX := rfl
@[simp] theorem calibrate_rawY (c : Calib) (f : FingerInfo) : (calibrate c f).rawY = f.rawY := rfl
@[simp] theorem calibrate_setThisTime (c : Calib) (f : FingerInfo) :
    (calibrate c f).setThisTime = f.setThisTime := rfl

theorem lookupSlot_index (fs : Fingers) (id : Int) :
    (lookupSlot fs id).2 = -1 ∨ (lookupSlot fs id).2 = 0 ∨ (lookupSlot fs id).2 = 1 := by
  simp only [lookupSlot, findSlotById, claimEmptySlot]
  split_ifs <;> simp

theorem lookupSlot_ids (fs : Fingers) (id : Int) :
    ((lookupSlot fs id).1.f0.id = fs.f0.id ∧ (lookupSlot fs id).1.f1.id = fs.f1.id) ∨
    (fs.f0.id = -1 ∧ (lookupSlot fs id).1.f0.id = id ∧
      (lookupSlot fs id).1.f1.id = fs.f1.id ∧ fs.f1.id ≠ id) ∨
    (fs.f1.id = -1 ∧ (lookupSlot fs id).1.f1.id = id ∧
      (lookupSlot fs id).1.f0.id = fs.f0.id ∧ fs.f0.id ≠ id) := by
  simp only [lookupSlot, findSlotById, claimEmptySlot]
  split_ifs <;> simp_all

theorem modify?_ids (fs fs' : Fingers) (i : Int) (g : FingerInfo → FingerInfo)
    (hg : ∀ f, (g f).id = f.id) (h : fs.modify? i g = some fs') :
    fs'.f0.id = fs.f0.id ∧ fs'.f1.id = fs.f1.id := by
  unfold Fingers.modify? at h
  split_ifs at h <;> simp at h <;> subst h <;> simp [hg]

theorem handleMtSync_ids (s s' : Tracker) (h : handleMtSync s = some s') :
    (s'.fingerInfos.f0.id = s.fingerInfos.f0.id ∧ s'.fingerInfos.f1.id = s.fingerInfos.f1.id) ∨
    (s.fingerInfos.f0.id = -1 ∧ s'.fingerInfos.f0.id = s.tempFingerInfo.id ∧
      s'.fingerInfos.f1.id = s.fingerInfos.f1.id ∧ s.fingerInfos.f1.id ≠ s.tempFingerInfo.id) ∨
    (s.fingerInfos.f1.id = -1 ∧ s'.fingerInfos.f1.id = s.tempFingerInfo.id ∧
      s'.fingerInfos.f0.id = s.fingerInfos.f0.id ∧ s.fingerInfos.f0.id ≠ s.tempFingerInfo.id) := by
  unfold handleMtSync at h
  have hl := lookupSlot_ids s.fingerInfos s.tempFingerInfo.id
  simp only at h
  generalize lookupSlot s.fingerInfos s.tempFingerInfo.id = r at h hl
  split_ifs at h
  · simp only [Option.some.injEq] at h; subst h; simp
  · simp only [Option.map_eq_some'] at h
    obtain ⟨fs, hfs, rfl⟩ := h
    obtain ⟨a, b⟩ := modify?_ids _ _ _ _ (fun _ => by simp) hfs
    simp only [a, b]; exact hl
  · simp only [Option.some.injEq] at h; subst h; exact hl

theorem handleSynReport_ids (c : Calib) (s : Tracker) :
    ((handleSynReport c s).fingerInfos.f0.id = s.fingerInfos.f0.id ∨
      (handleSynReport c s).fingerInfos.f0.id = -1) ∧
    ((handleSynReport c s).fingerInfos.f1.id = s.fingerInfos.f1.id ∨
      (handleSynReport c s).fingerInfos.f1.id = -1) := by
  simp only [handleSynReport, calibrateSlots, clearUnset]
  split_ifs <;> simp

theorem writeCurrent_ids (s s' : Tracker) (g : FingerInfo → FingerInfo)
    (h : writeCurrent s g = some s') (hg : ∀ f, (g f).id = f.id) :
    s'.fingerInfos.f0.id = s.fingerInfos.f0.id ∧ s'.fingerInfos.f1.id = s.fingerInfos.f1.id := by
  unfold writeCurrent at h
  split_ifs at h
  · simp only [Option.map_eq_some'] at h
    obtain ⟨fs, hfs, rfl⟩ := h
    exact modify?_ids _ _ _ _ hg hfs
  · simp only [Option.some.injEq] at h; subst h; simp
  · simp only [Option.some.injEq] at h; subst h; simp

theorem writeCurrent_mtsync (s s' : Tracker) (g : FingerInfo → FingerInfo)
    (hu : s.useSlots = 0) (h : writeCurrent s g = some s') :
    s'.fingerInfos = s.fingerInfos := by
  unfold writeCurrent at h
  simp [hu] at h
  subst h; simp

theorem writeCurrent_mode (s s' : Tracker) (g : FingerInfo → FingerInfo)
    (h : writeCurrent s g = some s') : s'.useSlots = s.useSlots ∧ s'.currentSlot = s.currentSlot := by
  unfold writeCurrent at h
  split_ifs at h
  · simp only [Option.map_eq_some'] at h
    obtain ⟨fs, hfs, rfl⟩ := h
    simp
  · simp only [Option.some.injEq] at h; subst h; simp
  · simp only [Option.some.injEq] at h; subst h; simp

theorem writeCurrent_id_step (s s' : Tracker) (ev : InputEvent) (hw : isSlotIdWrite s ev ∨ s.useSlots = 0)
    (h : writeCurrent s (fun f => { f with id := ev.value }) = some s') : IdStep s s' ev := by
  unfold writeCurrent at h
  split_ifs at h with hu hc
  · simp only [Option.map_eq_some'] at h
    obtain ⟨fs, hfs, rfl⟩ := h
    have hw' : isSlotIdWrite s ev := by
      rcases hw with hw | hw
      · exact hw
      · exact absurd hw hu
    unfold Fingers.modify? at hfs
    split_ifs at hfs with c0 c1
    · simp only [Option.some.injEq] at hfs; subst hfs
      exact Or.inr (Or.inr (Or.inr (Or.inl ⟨hw', c0, rfl, rfl⟩)))
    · simp only [Option.some.injEq] at hfs; subst hfs
      exact Or.inr (Or.inr (Or.inr (Or.inr ⟨hw', c1, rfl, rfl⟩)))
  · simp only [Option.some.injEq] at h; subst h
    exact Or.inl ⟨Or.inl rfl, Or.inl rfl⟩
  · simp only [Option.some.injEq] at h; subst h
    exact Or.inl ⟨Or.inl rfl, Or.inl rfl⟩

theorem handleEvent_cases (c : Calib) (s : Tracker) (ev : InputEvent) :
    (ev.type = EV_SYN ∧ ev.code = 2 ∧ handleEvent c s ev = handleMtSync s) ∨
    (ev.type = EV_SYN ∧ ev.code = 0 ∧ handleEvent c s ev = some (handleSynReport c s)) ∨
    (handleEvent c s ev = some s) ∨
    (ev.type ≠ EV_SYN ∧ ev.code = 47 ∧ handleEvent c s ev = some { s with
        useSlots := if s.useSlots = 0 then 1 else s.useSlots
        currentSlot := if ev.value < 0 ∨ ev.value > 1 then -1 else ev.value }) ∨
    (ev.type ≠ EV_SYN ∧ ev.code = 57 ∧
      handleEvent c s ev = writeCurrent s (fun f => { f with id := ev.value })) ∨
    (ev.type ≠ EV_SYN ∧ ev.code = 53 ∧
      handleEvent c s ev = writeCurrent s (fun f => { f with rawX := ev.value })) ∨
    (ev.type ≠ EV_SYN ∧ ev.code = 54 ∧
      handleEvent c s ev = writeCurrent s (fun f => { f with rawY := ev.value })) := by
  by_cases hsyn : ev.type = EV_SYN
  · by_cases h2 : 2 = ev.code
    · refine Or.inl ⟨hsyn, h2.symm, ?_⟩
      simp only [handleEvent, if_pos hsyn, if_pos h2]
    · by_cases h0 : 0 = ev.code
      · refine Or.inr (Or.inl ⟨hsyn, h0.symm, ?_⟩)
        simp only [handleEvent, if_pos hsyn, if_neg h2, if_pos h0]
      · refine Or.inr (Or.inr (Or.inl ?_))
        simp only [handleEvent, if_pos hsyn, if_neg h2, if_neg h0]
  · by_cases hmsc : ev.type = EV_MSC ∧ (ev.code = MSC_RAW ∨ ev.code = MSC_SCAN)
    · refine Or.inr (Or.inr (Or.inl ?_))
      simp only [handleEvent, if_neg hsyn, if_pos hmsc]
    · by_cases h47 : ev.code = 47
      · refine Or.inr (Or.inr (Or.inr (Or.inl ⟨hsyn, h47, ?_⟩)))
        simp only [handleEvent, if_neg hsyn, if_neg hmsc, if_pos h47]
      · by_cases c57 : ev.code = 57
        · have n53 : ev.code ≠ 53 := by omega
          have n54 : ev.code ≠ 54 := by omega
          refine Or.inr (Or.inr (Or.inr (Or.inr (Or.inl ⟨hsyn, c57, ?_⟩))))
          simp only [handleEvent, if_neg hsyn, if_neg hmsc, if_neg h47, if_pos c57, if_neg n53,
            if_neg n54]
          cases writeCurrent s (fun f => { f with id := ev.value }) <;> rfl
        · by_cases c53 : ev.code = 53
          · have n54 : ev.code ≠ 54 := by omega
            refine Or.inr (Or.inr (Or.inr (Or.inr (Or.inr (Or.inl ⟨hsyn, c53, ?_⟩)))))
            simp only [handleEvent, if_neg hsyn, if_neg hmsc, if_neg h47, if_neg c57, if_pos c53,
              if_neg n54, Option.some_bind]
            cases writeCurrent s (fun f => { f with rawX := ev.value }) <;> rfl
          · by_cases c54 : ev.code = 54
            · refine Or.inr (Or.inr (Or.inr (Or.inr (Or.inr (Or.inr ⟨hsyn, c54, ?_⟩)))))
              simp only [handleEvent, if_neg hsyn, if_neg hmsc, if_neg h47, if_neg c57,
                if_neg c53, if_pos c54, Option.some_bind]
            · refine Or.inr (Or.inr (Or.inl ?_))
              simp only [handleEvent, if_neg hsyn, if_neg hmsc, if_neg h47, if_neg c57,
                if_neg c53, if_neg c54, Option.some_bind]

theorem handleEvent_id_step (c : Calib) (s s' : Tracker) (ev : InputEvent)
    (h : handleEvent c s ev = some s') : IdStep s s' ev := by
  rcases handleEvent_cases c s ev with ⟨_, _, e⟩ | ⟨_, _, e⟩ | e | ⟨_, _, e⟩ | ⟨hsyn, c57, e⟩ |
    ⟨_, _, e⟩ | ⟨_, _, e⟩ <;> rw [e] at h
  · rcases handleMtSync_ids s s' h with a | a | a
    · exact Or.inl ⟨Or.inl a.1, Or.inl a.2⟩
    · exact Or.inr (Or.inl a)
    · exact Or.inr (Or.inr (Or.inl a))
  · simp only [Option.some.injEq] at h; subst h
    exact Or.inl (handleSynReport_ids c s)
  · simp only [Option.some.injEq] at h; subst h
    exact Or.inl ⟨Or.inl rfl, Or.inl rfl⟩
  · simp only [Option.some.injEq] at h; subst h
    exact Or.inl ⟨Or.inl rfl, Or.inl rfl⟩
  · by_cases hu : s.useSlots = 0
    · exact writeCurrent_id_step s s' ev (Or.inr hu) h
    · exact writeCurrent_id_step s s' ev (Or.inl ⟨hsyn, c57, hu⟩) h
  · obtain ⟨a, b⟩ := writeCurrent_ids _ _ _ h (fun _ => rfl)
    exact Or.inl ⟨Or.inl a, Or.inl b⟩
  · obtain ⟨a, b⟩ := writeCurrent_ids _ _ _ h (fun _ => rfl)
    exact Or.inl ⟨Or.inl a, Or.inl b⟩

/-- A tracking-id event handled in slot mode is the write of its value into
the current slot. -/
theorem handleEvent_slotIdWrite (c : Calib) (s : Tracker) (ev : InputEvent)
    (hw : isSlotIdWrite s ev) :
    handleEvent c s ev = writeCurrent s (fun f => { f with id := ev.value }) := by
  obtain ⟨hsyn, c57, -⟩ := hw
  have hmsc : ¬ (ev.type = EV_MSC ∧ (ev.code = MSC_RAW ∨ ev.code = MSC_SCAN)) := by
    rintro ⟨-, h | h⟩ <;> rw [c57] at h <;> revert h <;> decide
  have h47 : ev.code ≠ 47 := by omega
  have n53 : ev.code ≠ 53 := by omega
  have n54 : ev.code ≠ 54 := by omega
  simp only [handleEvent, if_neg hsyn, if_neg hmsc, if_neg h47, if_pos c57, if_neg n53,
    if_neg n54]
  cases writeCurrent s (fun f => { f with id := ev.value }) <;> rfl

/-- What a tracking-id event handled in slot mode stores. -/
theorem slotIdWrite_stores (c : Calib) (s s' : Tracker) (ev : InputEvent)
    (hw : isSlotIdWrite s ev) (h : handleEvent c s ev = some s') :
    (s.currentSlot = 0 →
      s'.fingerInfos.f0.id = ev.value ∧ s'.fingerInfos.f1.id = s.fingerInfos.f1.id) ∧
    (s.currentSlot = 1 →
      s'.fingerInfos.f1.id = ev.value ∧ s'.fingerInfos.f0.id = s.fingerInfos.f0.id) ∧
    (s.currentSlot = -1 → s'.fingerInfos = s.fingerInfos) := by
  rw [handleEvent_slotIdWrite c s ev hw] at h
  have hu : s.useSlots ≠ 0 := hw.2.2
  unfold writeCurrent at h
  rw [if_pos hu] at h
  refine ⟨fun h0 => ?_, fun h1 => ?_, fun hm => ?_⟩
  · rw [if_pos (by rw [h0]; decide), h0] at h
    simp only [Fingers.modify?, if_true, Option.map_some', Option.some.injEq] at h
    subst h
    exact ⟨rfl, rfl⟩
  · rw [if_pos (by rw [h1]; decide), h1] at h
    simp only [Fingers.modify?, one_ne_zero, if_false, if_true, Option.map_some',
      Option.some.injEq] at h
    subst h
    exact ⟨rfl, rfl⟩
  · rw [if_neg (by rw [hm]; decide)] at h
    simp only [Option.some.injEq] at h
    subst h
    rfl

/-- A slot that held an id and holds another one after the event is empty, or
the event was a slot-mode tracking-id event for that slot. -/
theorem IdStep_keeps_or_empties (s s' : Tracker) (ev : InputEvent) (h : IdStep s s' ev) :
    (s.fingerInfos.f0.id ≠ -1 → s'.fingerInfos.f0.id ≠ s.fingerInfos.f0.id →
      s'.fingerInfos.f0.id = -1 ∨
        (isSlotIdWrite s ev ∧ s.currentSlot = 0 ∧ s'.fingerInfos.f0.id = ev.value)) ∧
    (s.fingerInfos.f1.id ≠ -1 → s'.fingerInfos.f1.id ≠ s.fingerInfos.f1.id →
      s'.fingerInfos.f1.id = -1 ∨
        (isSlotIdWrite s ev ∧ s.currentSlot = 1 ∧ s'.fingerInfos.f1.id = ev.value)) := by
  rcases h with ⟨a, b⟩ | ⟨a, _, b, _⟩ | ⟨a, _, b, _⟩ | ⟨a, a0, a1, a2⟩ | ⟨a, a0, a1, a2⟩
  · constructor
    · intro _ h2; rcases a with a | a
      · exact absurd a h2
      · exact Or.inl a
    · intro _ h2; rcases b with b | b
      · exact absurd b h2
      · exact Or.inl b
  · exact ⟨fun h1 _ => absurd a h1, fun _ h2 => absurd b h2⟩
  · exact ⟨fun _ h2 => absurd b h2, fun h1 _ => absurd a h1⟩
  · exact ⟨fun _ _ => Or.inr ⟨a, a0, a1⟩, fun _ h2 => absurd a2 h2⟩
  · exact ⟨fun _ h2 => absurd a2 h2, fun _ _ => Or.inr ⟨a, a0, a1⟩⟩

/-- C5 (as stated, refuted): in slot mode, from the initial state, the events
"tracking id 5" and then "tracking id 7" change slot 0 directly from id 5 to
id 7. -/
theorem C5_counterexample_slot_mode_overwrite :
    ∃ s s', runEvents calibSwapped (initTracker emptyFinger) [⟨EV_ABS, 57, 5⟩] = some s ∧
      handleEvent calibSwapped s ⟨EV_ABS, 57, 7⟩ = some s' ∧
      s.fingerInfos.f0.id = 5 ∧ s'.fingerInfos.f0.id = 7 :=
  ⟨_, _, rfl, rfl, rfl, rfl⟩

/-- C5 (amended): for every tracker state (hence at every point of every event
sequence processed from the initial state) and every event: if a slot holds an
id `k ≠ -1` before the event and a different id after it, then the id after
the event is `-1`, unless the event is a tracking-id event (code 57) handled
in slot mode with that slot as the current slot. Such an event stores its
value in the current slot whatever the slot held (the value may be `-1` or
another non-empty id) and leaves the other slot's id as it was; with no
current slot (`currentSlot = -1`) it changes no slot. -/
theorem C5_slot_id_changes_only_to_empty (c : Calib) (ev : InputEvent) (s s' : Tracker)
    (hstep : handleEvent c s ev = some s') :
    (s.fingerInfos.f0.id ≠ -1 → s'.fingerInfos.f0.id ≠ s.fingerInfos.f0.id →
      s'.fingerInfos.f0.id = -1 ∨
        (isSlotIdWrite s ev ∧ s.currentSlot = 0 ∧ s'.fingerInfos.f0.id = ev.value)) ∧
    (s.fingerInfos.f1.id ≠ -1 → s'.fingerInfos.f1.id ≠ s.fingerInfos.f1.id →
      s'.fingerInfos.f1.id = -1 ∨
        (isSlotIdWrite s ev ∧ s.currentSlot = 1 ∧ s'.fingerInfos.f1.id = ev.value)) ∧
    (isSlotIdWrite s ev →
      (s.currentSlot = 0 →
        s'.fingerInfos.f0.id = ev.value ∧ s'.fingerInfos.f1.id = s.fingerInfos.f1.id) ∧
      (s.currentSlot = 1 →
        s'.fingerInfos.f1.id = ev.value ∧ s'.fingerInfos.f0.id = s.fingerInfos.f0.id) ∧
      (s.currentSlot = -1 → s'.fingerInfos = s.fingerInfos)) :=
  ⟨(IdStep_keeps_or_empties s s' ev (handleEvent_id_step c s s' ev hstep)).1,
   (IdStep_keeps_or_empties s s' ev (handleEvent_id_step c s s' ev hstep)).2,
   fun hw => slotIdWrite_stores c s s' ev hw hstep⟩

/-- Witness for C5: in MT_SYNC mode with ids 5 and 6 in the slots and no
finger reported since the last SYN_REPORT, a SYN_REPORT event changes both ids,
to `-1`. -/
theorem C5_slot_id_changes_only_to_empty_witness :
    ∃ s', handleEvent calibSwapped trackerThirdFinger ⟨EV_SYN, 0, 0⟩ = some s' ∧
      trackerThirdFinger.fingerInfos.f0.id = 5 ∧ s'.fingerInfos.f0.id = -1 ∧
      trackerThirdFinger.fingerInfos.f1.id = 6 ∧ s'.fingerInfos.f1.id = -1 ∧
      ((trackerThirdFinger.fingerInfos.f0.id ≠ -1 →
        s'.fingerInfos.f0.id ≠ trackerThirdFinger.fingerInfos.f0.id →
        s'.fingerInfos.f0.id = -1 ∨
          (isSlotIdWrite trackerThirdFinger ⟨EV_SYN, 0, 0⟩ ∧ trackerThirdFinger.currentSlot = 0 ∧
            s'.fingerInfos.f0.id = (⟨EV_SYN, 0, 0⟩ : InputEvent).value)) ∧
      (trackerThirdFinger.fingerInfos.f1.id ≠ -1 →
        s'.fingerInfos.f1.id ≠ trackerThirdFinger.fingerInfos.f1.id →
        s'.fingerInfos.f1.id = -1 ∨
          (isSlotIdWrite trackerThirdFinger ⟨EV_SYN, 0, 0⟩ ∧ trackerThirdFinger.currentSlot = 1 ∧
            s'.fingerInfos.f1.id = (⟨EV_SYN, 0, 0⟩ : InputEvent).value))) :=
  ⟨_, rfl, rfl, rfl, rfl, rfl,
    (C5_slot_id_changes_only_to_empty calibSwapped ⟨EV_SYN, 0, 0⟩ trackerThirdFinger _ rfl).1,
    (C5_slot_id_changes_only_to_empty calibSwapped ⟨EV_SYN, 0, 0⟩ trackerThirdFinger _ rfl).2.1⟩

theorem IdStep_distinct (s s' : Tracker) (ev : InputEvent) (h : IdStep s s' ev)
    (hd : DistinctIds s.fingerInfos) (hw : writesDuplicateId s ev = false) :
    DistinctIds s'.fingerInfos := by
  unfold DistinctIds at *
  simp only [writesDuplicateId, decide_eq_false_iff_not] at hw
  intro n0 n1 e
  rcases h with ⟨a, b⟩ | ⟨_, a1, a2, a3⟩ | ⟨_, a1, a2, a3⟩ | ⟨w, cs, a1, a2⟩ | ⟨w, cs, a1, a2⟩
  · rcases a with a | a
    · rcases b with b | b
      · rw [a, b] at e; rw [a] at n0; rw [b] at n1
        exact hd n0 n1 e
      · exact n1 b
    · exact n0 a
  · rw [a1, a2] at e; exact a3 e.symm
  · rw [a1, a2] at e; exact a3 e
  · apply hw
    refine ⟨w.1, w.2.1, w.2.2, ?_, Or.inl ⟨cs, ?_⟩⟩
    · rw [← a1]; exact n0
    · rw [← a2, ← a1]; exact e.symm
  · apply hw
    refine ⟨w.1, w.2.1, w.2.2, ?_, Or.inr ⟨cs, ?_⟩⟩
    · rw [← a1]; exact n1
    · rw [← a2, ← a1]; exact e

theorem runEvents_distinct (c : Calib) (evs : List InputEvent) :
    ∀ s s' : Tracker, DistinctIds s.fingerInfos → noDuplicateWrites c s evs = true →
      runEvents c s evs = some s' → DistinctIds s'.fingerInfos := by
  induction evs with
  | nil =>
    intro s s' hd _ hrun
    simp only [runEvents, Option.some.injEq] at hrun
    subst hrun; exact hd
  | cons ev rest ih =>
    intro s s' hd hg hrun
    simp only [runEvents, Option.bind_eq_some] at hrun
    obtain ⟨s1, h1, h2⟩ := hrun
    simp only [noDuplicateWrites, h1, Bool.and_eq_true, Bool.not_eq_true'] at hg
    exact ih s1 s' (IdStep_distinct s s1 ev (handleEvent_id_step c s s1 ev h1) hd hg.1) hg.2 h2

/-- C6 (as stated, refuted): in slot mode, from the initial state, the events
"tracking id 5", "slot 1", "tracking id 5" leave both slots non-empty with the
same tracking id 5. -/
theorem C6_counterexample_same_id_in_both_slots :
    ∃ s, runEvents calibSwapped (initTracker emptyFinger)
        [⟨EV_ABS, 57, 5⟩, ⟨EV_ABS, 47, 1⟩, ⟨EV_ABS, 57, 5⟩] = some s ∧
      s.fingerInfos.f0.id = 5 ∧ s.fingerInfos.f1.id = 5 :=
  ⟨_, rfl, rfl, rfl⟩

/-- C6 (amended): for every sequence of events processed from the initial state
in which no slot-mode tracking-id event stores, in the current slot, a
non-empty id that the other slot holds at that moment, the two slots hold
different tracking ids whenever both are non-empty. -/
theorem C6_distinct_ids_unless_duplicate_write (c : Calib) (temp : FingerInfo)
    (evs : List InputEvent) (s : Tracker)
    (hguard : noDuplicateWrites c (initTracker temp) evs = true)
    (hrun : runEvents c (initTracker temp) evs = some s) :
    s.fingerInfos.f0.id ≠ -1 → s.fingerInfos.f1.id ≠ -1 →
      s.fingerInfos.f0.id ≠ s.fingerInfos.f1.id :=
  runEvents_distinct c evs (initTracker temp) s (fun h => absurd rfl h) hguard hrun

/-- Witness for C6: "tracking id 5", "slot 1", "tracking id 6". -/
theorem C6_distinct_ids_unless_duplicate_write_witness :
    ({ fingerInfos := { f0 := { emptyFinger with id := 5 }, f1 := { emptyFinger with id := 6 } },
       useSlots := 1, currentSlot := 1, tempFingerInfo := emptyFinger } : Tracker).fingerInfos.f0.id
      ≠
    ({ fingerInfos := { f0 := { emptyFinger with id := 5 }, f1 := { emptyFinger with id := 6 } },
       useSlots := 1, currentSlot := 1, tempFingerInfo := emptyFinger } : Tracker).fingerInfos.f1.id :=
  C6_distinct_ids_unless_duplicate_write calibSwapped emptyFinger
    [⟨EV_ABS, 57, 5⟩, ⟨EV_ABS, 47, 1⟩, ⟨EV_ABS, 57, 6⟩]
    { fingerInfos := { f0 := { emptyFinger with id := 5 }, f1 := { emptyFinger with id := 6 } },
      useSlots := 1, currentSlot := 1, tempFingerInfo := emptyFinger }
    (by decide) rfl (by decide) (by decide)

theorem handleMtSync_third_finger (s : Tracker) (hu : s.useSlots = 0)
    (h0 : s.fingerInfos.f0.id ≠ -1) (h1 : s.fingerInfos.f1.id ≠ -1)
    (t0 : s.fingerInfos.f0.id ≠ s.tempFingerInfo.id)
    (t1 : s.fingerInfos.f1.id ≠ s.tempFingerInfo.id) : handleMtSync s = some s := by
  have hl : lookupSlot s.fingerInfos s.tempFingerInfo.id = (s.fingerInfos, -1) := by
    simp only [lookupSlot, findSlotById, claimEmptySlot, if_neg t0, if_neg t1, if_neg h0,
      if_neg h1, if_true]
  obtain ⟨fs, us, cs, t⟩ := s
  simp only at hu hl
  subst hu
  simp only [handleMtSync, ne_eq, not_true_eq_false, if_false, hl, if_true]

theorem writeCurrent_masked (s : Tracker) (g : FingerInfo → FingerInfo)
    (hu : s.useSlots ≠ 0) (hc : s.currentSlot = -1) : writeCurrent s g = some s := by
  simp only [writeCurrent, if_pos hu, hc, ne_eq, not_true_eq_false, if_false]

theorem handleEvent_masked (c : Calib) (s : Tracker) (ev : InputEvent)
    (hu : s.useSlots ≠ 0) (hc : s.currentSlot = -1) (hev : isFingerValueEvent ev) :
    handleEvent c s ev = some s := by
  obtain ⟨ht, hcode⟩ := hev
  have hsyn : ev.type ≠ EV_SYN := by rw [ht]; decide
  rcases handleEvent_cases c s ev with ⟨a, _⟩ | ⟨a, _⟩ | e | ⟨_, a, _⟩ | ⟨_, _, e⟩ |
    ⟨_, _, e⟩ | ⟨_, _, e⟩
  · exact absurd a hsyn
  · exact absurd a hsyn
  · exact e
  · omega
  · rw [e]; exact writeCurrent_masked s _ hu hc
  · rw [e]; exact writeCurrent_masked s _ hu hc
  · rw [e]; exact writeCurrent_masked s _ hu hc

theorem runEvents_masked (c : Calib) (evs : List InputEvent) (s : Tracker)
    (hu : s.useSlots ≠ 0) (hc : s.currentSlot = -1)
    (hev : ∀ e ∈ evs, isFingerValueEvent e) : runEvents c s evs = some s := by
  induction evs with
  | nil => rfl
  | cons ev rest ih =>
    simp only [runEvents, handleEvent_masked c s ev hu hc (hev ev (List.mem_cons_self _ _)),
      Option.some_bind]
    exact ih (fun e he => hev e (List.mem_cons_of_mem _ he))


theorem handleMtSync_useSlots (s s' : Tracker) (h : handleMtSync s = some s') :
    s'.useSlots = 0 := by
  unfold handleMtSync at h
  simp only at h
  generalize lookupSlot s.fingerInfos s.tempFingerInfo.id = r at h
  split_ifs at h with hu
  · simp only [Option.some.injEq] at h; subst h; rfl
  · simp only [Option.map_eq_some'] at h
    obtain ⟨fs, _, rfl⟩ := h
    simp only; omega
  · simp only [Option.some.injEq] at h; subst h
    simp only; omega

theorem handleEvent_keeps_mask (c : Calib) (s s' : Tracker) (ev : InputEvent)
    (hJ : s.useSlots ≠ 0 → s.currentSlot = -1) (hne : ¬ isSlotEvent ev)
    (h : handleEvent c s ev = some s') : s'.useSlots ≠ 0 → s'.currentSlot = -1 := by
  rcases handleEvent_cases c s ev with ⟨_, _, e⟩ | ⟨_, _, e⟩ | e | ⟨a, b, _⟩ | ⟨_, _, e⟩ |
    ⟨_, _, e⟩ | ⟨_, _, e⟩
  · rw [e] at h
    intro hu; exact absurd (handleMtSync_useSlots s s' h) hu
  · rw [e] at h
    simp only [Option.some.injEq] at h; subst h
    simp only [handleSynReport]
    split_ifs <;> exact hJ
  · rw [e] at h
    simp only [Option.some.injEq] at h; subst h; exact hJ
  · exact absurd ⟨a, b⟩ hne
  · rw [e] at h
    obtain ⟨m1, m2⟩ := writeCurrent_mode _ _ _ h
    rw [m1, m2]; exact hJ
  · rw [e] at h
    obtain ⟨m1, m2⟩ := writeCurrent_mode _ _ _ h
    rw [m1, m2]; exact hJ
  · rw [e] at h
    obtain ⟨m1, m2⟩ := writeCurrent_mode _ _ _ h
    rw [m1, m2]; exact hJ

theorem runEvents_keeps_mask (c : Calib) (evs : List InputEvent) :
    ∀ s s' : Tracker, (s.useSlots ≠ 0 → s.currentSlot = -1) → (∀ e ∈ evs, ¬ isSlotEvent e) →
      runEvents c s evs = some s' → (s'.useSlots ≠ 0 → s'.currentSlot = -1) := by
  induction evs with
  | nil =>
    intro s s' hJ _ h
    simp only [runEvents, Option.some.injEq] at h
    subst h; exact hJ
  | cons ev rest ih =>
    intro s s' hJ hne h
    simp only [runEvents, Option.bind_eq_some] at h
    obtain ⟨s1, h1, h2⟩ := h
    exact ih s1 s' (handleEvent_keeps_mask c s s1 ev hJ (hne ev (List.mem_cons_self _ _)) h1)
      (fun e he => hne e (List.mem_cons_of_mem _ he)) h2

theorem handleEvent_finger_under_mask (c : Calib) (s : Tracker) (ev : InputEvent)
    (hJ : s.useSlots ≠ 0 → s.currentSlot = -1) (hev : isFingerValueEvent ev) :
    ∃ s', handleEvent c s ev = some s' ∧ s'.fingerInfos = s.fingerInfos := by
  by_cases hu : s.useSlots = 0
  · obtain ⟨ht, hcode⟩ := hev
    have hsyn : ev.type ≠ EV_SYN := by rw [ht]; decide
    have hw : ∀ g, ∃ s', writeCurrent s g = some s' ∧ s'.fingerInfos = s.fingerInfos := by
      intro g
      exact ⟨{ s with tempFingerInfo := g s.tempFingerInfo },
        by simp only [writeCurrent, hu, ne_eq, not_true_eq_false, if_false], rfl⟩
    rcases handleEvent_cases c s ev with ⟨a, _⟩ | ⟨a, _⟩ | e | ⟨_, a, _⟩ | ⟨_, _, e⟩ |
      ⟨_, _, e⟩ | ⟨_, _, e⟩
    · exact absurd a hsyn
    · exact absurd a hsyn
    · exact ⟨s, e, rfl⟩
    · omega
    · rw [e]; exact hw _
    · rw [e]; exact hw _
    · rw [e]; exact hw _
  · exact ⟨s, handleEvent_masked c s ev hu (hJ hu) hev, rfl⟩

/-- C7: a third finger never alters the two slots.
(a) In MT_SYNC mode (`useSlots = 0`), when both slots are non-empty and neither
holds `tempFingerInfo.id`, an MT_SYNC event (`EV_SYN`, code 2) leaves the whole
tracker state, in particular `id`, `rawX`, `rawY` and `setThisTime` of both
slots, unchanged.
(b) After an ABS_MT_SLOT event whose value is outside `0..1`, every sequence of
ABS_MT_TRACKING_ID / ABS_MT_POSITION_X / ABS_MT_POSITION_Y events is processed
without changing `fingerInfos`; and whatever events the loop does not treat as
ABS_MT_SLOT come in between, each later tracking-id or position event still
leaves `fingerInfos` as it finds it. -/
theorem C7_third_finger_dropped (c : Calib) :
    (∀ (s : Tracker) (ev : InputEvent), ev.type = EV_SYN → ev.code = 2 → s.useSlots = 0 →
      s.fingerInfos.f0.id ≠ -1 → s.fingerInfos.f1.id ≠ -1 →
      s.fingerInfos.f0.id ≠ s.tempFingerInfo.id → s.fingerInfos.f1.id ≠ s.tempFingerInfo.id →
      handleEvent c s ev = some s) ∧
    (∀ (s : Tracker) (slotEv : InputEvent) (evs : List InputEvent),
      slotEv.type = EV_ABS → slotEv.code = 47 → (slotEv.value < 0 ∨ slotEv.value > 1) →
      (∀ e ∈ evs, isFingerValueEvent e) →
      ∃ s1 s2, handleEvent c s slotEv = some s1 ∧ runEvents c s1 evs = some s2 ∧
        s1.fingerInfos = s.fingerInfos ∧ s2.fingerInfos = s.fingerInfos) ∧
    (∀ (s s1 s2 : Tracker) (slotEv ev : InputEvent) (evs : List InputEvent),
      slotEv.type = EV_ABS → slotEv.code = 47 → (slotEv.value < 0 ∨ slotEv.value > 1) →
      handleEvent c s slotEv = some s1 →
      (∀ e ∈ evs, ¬ isSlotEvent e) → runEvents c s1 evs = some s2 →
      isFingerValueEvent ev →
      ∃ s3, handleEvent c s2 ev = some s3 ∧ s3.fingerInfos = s2.fingerInfos) := by
  have slotStep : ∀ (s : Tracker) (slotEv : InputEvent), slotEv.type = EV_ABS →
      slotEv.code = 47 → (slotEv.value < 0 ∨ slotEv.value > 1) →
      handleEvent c s slotEv = some { s with
        useSlots := if s.useSlots = 0 then 1 else s.useSlots
        currentSlot := -1 } := by
    intro s slotEv ht hcode hv
    have hsyn : slotEv.type ≠ EV_SYN := by rw [ht]; decide
    have hmsc : ¬ (slotEv.type = EV_MSC ∧ (slotEv.code = MSC_RAW ∨ slotEv.code = MSC_SCAN)) := by
      intro h
      rw [ht] at h
      exact absurd h.1 (by decide)
    simp only [handleEvent, if_neg hsyn, if_neg hmsc, if_pos hcode, if_pos hv]
  refine ⟨?_, ?_, ?_⟩
  · intro s ev ht hcode hu h0 h1 t0 t1
    rcases handleEvent_cases c s ev with ⟨_, _, e⟩ | ⟨_, a, _⟩ | e | ⟨a, _⟩ | ⟨a, _⟩ |
      ⟨a, _⟩ | ⟨a, _⟩
    · rw [e]; exact handleMtSync_third_finger s hu h0 h1 t0 t1
    · omega
    · exact e
    · exact absurd ht a
    · exact absurd ht a
    · exact absurd ht a
    · exact absurd ht a
  · intro s slotEv evs ht hcode hv hevs
    refine ⟨_, _, slotStep s slotEv ht hcode hv, runEvents_masked c evs _ ?_ ?_ hevs, rfl, rfl⟩
    · simp only; split_ifs <;> omega
    · rfl
  · intro s s1 s2 slotEv ev evs ht hcode hv h1 hne hrun hev
    rw [slotStep s slotEv ht hcode hv] at h1
    simp only [Option.some.injEq] at h1
    subst h1
    exact handleEvent_finger_under_mask c s2 ev
      (runEvents_keeps_mask c evs _ s2 (fun _ => rfl) hne hrun) hev

/-- Witness for C7: with slots holding ids 5 and 6, a finger with id 9 is
dropped at MT_SYNC; after "slot 2" the events of that slot are dropped, one by
one and as a sequence. -/
theorem C7_third_finger_dropped_witness :
    handleEvent calibSwapped trackerThirdFinger ⟨EV_SYN, 2, 0⟩ = some trackerThirdFinger ∧
    (∃ s1 s2, handleEvent calibSwapped trackerWithId5 ⟨EV_ABS, 47, 2⟩ = some s1 ∧
      runEvents calibSwapped s1 [⟨EV_ABS, 57, 9⟩, ⟨EV_ABS, 53, 40⟩, ⟨EV_ABS, 54, 50⟩] = some s2 ∧
      s1.fingerInfos = trackerWithId5.fingerInfos ∧ s2.fingerInfos = trackerWithId5.fingerInfos) ∧
    (∃ s3, handleEvent calibSwapped { trackerWithId5 with currentSlot := -1 } ⟨EV_ABS, 57, 9⟩
        = some s3 ∧
      s3.fingerInfos = ({ trackerWithId5 with currentSlot := -1 } : Tracker).fingerInfos) :=
  ⟨(C7_third_finger_dropped calibSwapped).1 trackerThirdFinger ⟨EV_SYN, 2, 0⟩ rfl rfl rfl
      (by decide) (by decide) (by decide) (by decide),
   (C7_third_finger_dropped calibSwapped).2.1 trackerWithId5 ⟨EV_ABS, 47, 2⟩
      [⟨EV_ABS, 57, 9⟩, ⟨EV_ABS, 53, 40⟩, ⟨EV_ABS, 54, 50⟩] rfl rfl (by decide) (by decide),
   (C7_third_finger_dropped calibSwapped).2.2 trackerWithId5
      { trackerWithId5 with currentSlot := -1 } { trackerWithId5 with currentSlot := -1 }
      ⟨EV_ABS, 47, 2⟩ ⟨EV_ABS, 57, 9⟩ [⟨EV_ABS, 53, 40⟩] rfl rfl (by decide) rfl
      (by decide) rfl (by decide)⟩

theorem writeCurrent_total (s : Tracker) (g : FingerInfo → FingerInfo) (h : SlotInRange s) :
    ∃ s', writeCurrent s g = some s' ∧ SlotInRange s' := by
  unfold SlotInRange at h
  by_cases hu : s.useSlots ≠ 0
  · rcases h with h | h | h
    · exact ⟨s, by simp only [writeCurrent, if_pos hu, h, ne_eq, not_true_eq_false, if_false],
        Or.inl h⟩
    · refine ⟨{ s with fingerInfos := { s.fingerInfos with f0 := g s.fingerInfos.f0 } }, ?_,
        Or.inr (Or.inl h)⟩
      simp [writeCurrent, hu, h, Fingers.modify?]
    · refine ⟨{ s with fingerInfos := { s.fingerInfos with f1 := g s.fingerInfos.f1 } }, ?_,
        Or.inr (Or.inr h)⟩
      simp [writeCurrent, hu, h, Fingers.modify?]
  · exact ⟨{ s with tempFingerInfo := g s.tempFingerInfo },
      by simp only [writeCurrent, if_neg hu], h⟩

theorem modify?_total (fs : Fingers) (i : Int) (g : FingerInfo → FingerInfo)
    (h : i = 0 ∨ i = 1) : ∃ fs', fs.modify? i g = some fs' := by
  rcases h with h | h <;> subst h <;> exact ⟨_, rfl⟩

theorem handleMtSync_total (s : Tracker) (h : SlotInRange s) :
    ∃ s', handleMtSync s = some s' ∧ SlotInRange s' := by
  by_cases hu : s.useSlots ≠ 0
  · exact ⟨{ s with useSlots := 0, currentSlot := -1 },
      by simp only [handleMtSync, if_pos hu], Or.inl rfl⟩
  · have hi := lookupSlot_index s.fingerInfos s.tempFingerInfo.id
    simp only [handleMtSync, if_neg hu]
    generalize lookupSlot s.fingerInfos s.tempFingerInfo.id = r at hi
    by_cases hne : r.2 ≠ -1
    · obtain ⟨fs', hfs⟩ := modify?_total r.1 r.2 (fun f =>
        { f with setThisTime := 1, rawX := s.tempFingerInfo.rawX,
                 rawY := s.tempFingerInfo.rawY }) (by omega)
      rw [if_pos hne, hfs]
      exact ⟨_, rfl, h⟩
    · rw [if_neg hne]
      exact ⟨_, rfl, h⟩

theorem handleEvent_total (c : Calib) (s : Tracker) (ev : InputEvent) (h : SlotInRange s) :
    ∃ s', handleEvent c s ev = some s' ∧ SlotInRange s' := by
  rcases handleEvent_cases c s ev with ⟨_, _, e⟩ | ⟨_, _, e⟩ | e | ⟨_, _, e⟩ | ⟨_, _, e⟩ |
    ⟨_, _, e⟩ | ⟨_, _, e⟩ <;> rw [e]
  · exact handleMtSync_total s h
  · refine ⟨_, rfl, ?_⟩
    unfold SlotInRange at *
    simp only [handleSynReport]
    split_ifs <;> exact h
  · exact ⟨_, rfl, h⟩
  · refine ⟨_, rfl, ?_⟩
    unfold SlotInRange
    simp only
    split_ifs <;> omega
  · exact writeCurrent_total s _ h
  · exact writeCurrent_total s _ h
  · exact writeCurrent_total s _ h

theorem runEvents_total (c : Calib) (evs : List InputEvent) :
    ∀ s : Tracker, SlotInRange s → ∃ s', runEvents c s evs = some s' ∧ SlotInRange s' := by
  induction evs with
  | nil => intro s h; exact ⟨s, rfl, h⟩
  | cons ev rest ih =>
    intro s h
    obtain ⟨s1, h1, hr1⟩ := handleEvent_total c s ev h
    obtain ⟨s2, h2, hr2⟩ := ih s1 hr1
    exact ⟨s2, by simp only [runEvents, h1, Option.some_bind, h2], hr2⟩

/-- C8: for every sequence of evdev events, with arbitrary values, processed
from the initial state, the event loop never indexes `fingerInfos` outside
`0..1` (the run yields a state, not the out-of-range outcome) and `currentSlot`
is `-1`, `0` or `1` afterwards; as every prefix of a sequence is a sequence,
this holds at every point of the run. -/
theorem C8_slot_index_in_range (c : Calib) (temp : FingerInfo) (evs : List InputEvent) :
    ∃ s, runEvents c (initTracker temp) evs = some s ∧
      (s.currentSlot = -1 ∨ s.currentSlot = 0 ∨ s.currentSlot = 1) :=
  runEvents_total c evs (initTracker temp) (Or.inr (Or.inl rfl))

/-! ### The MT_SYNC protocol -/

/-- The handling of SYN_MT_REPORT in MT_SYNC mode, by the slot the lookup
finds: the slot holding the pending id, else the first empty slot, else none. -/
theorem handleMtSync_eq (s : Tracker) (hu : s.useSlots = 0) :
    handleMtSync s = some
      (if s.fingerInfos.f0.id = s.tempFingerInfo.id then
        { s with fingerInfos := { s.fingerInfos with
            f0 := { s.fingerInfos.f0 with
              setThisTime := 1, rawX := s.tempFingerInfo.rawX, rawY := s.tempFingerInfo.rawY } } }
      else if s.fingerInfos.f1.id = s.tempFingerInfo.id then
        { s with fingerInfos := { s.fingerInfos with
            f1 := { s.fingerInfos.f1 with
              setThisTime := 1, rawX := s.tempFingerInfo.rawX, rawY := s.tempFingerInfo.rawY } } }
      else if s.fingerInfos.f0.id = -1 then
        { s with fingerInfos := { s.fingerInfos with
            f0 := { s.fingerInfos.f0 with
              id := s.tempFingerInfo.id, setThisTime := 1, rawX := s.tempFingerInfo.rawX,
              rawY := s.tempFingerInfo.rawY } } }
      else if s.fingerInfos.f1.id = -1 then
        { s with fingerInfos := { s.fingerInfos with
            f1 := { s.fingerInfos.f1 with
              id := s.tempFingerInfo.id, setThisTime := 1, rawX := s.tempFingerInfo.rawX,
              rawY := s.tempFingerInfo.rawY } } }
      else s) := by
  have hu' : ¬ s.useSlots ≠ 0 := by simp [hu]
  unfold handleMtSync
  rw [if_neg hu']
  by_cases h0 : s.fingerInfos.f0.id = s.tempFingerInfo.id
  · have hl : lookupSlot s.fingerInfos s.tempFingerInfo.id = (s.fingerInfos, 0) := by
      simp [lookupSlot, findSlotById, h0]
    simp only [hl, if_pos h0]
    simp [Fingers.modify?]
  · by_cases h1 : s.fingerInfos.f1.id = s.tempFingerInfo.id
    · have hl : lookupSlot s.fingerInfos s.tempFingerInfo.id = (s.fingerInfos, 1) := by
        simp [lookupSlot, findSlotById, h0, h1]
      simp only [hl, if_neg h0, if_pos h1]
      simp [Fingers.modify?]
    · by_cases e0 : s.fingerInfos.f0.id = -1
      · have hl : lookupSlot s.fingerInfos s.tempFingerInfo.id =
            ({ s.fingerInfos with f0 := { s.fingerInfos.f0 with id := s.tempFingerInfo.id } }, 0) := by
          have ht : ¬ (-1 = s.tempFingerInfo.id) := by rw [← e0]; exact h0
          simp [lookupSlot, findSlotById, claimEmptySlot, h0, h1, e0, ht]
        simp only [hl, if_neg h0, if_neg h1, if_pos e0]
        simp [Fingers.modify?]
      · by_cases e1 : s.fingerInfos.f1.id = -1
        · have hl : lookupSlot s.fingerInfos s.tempFingerInfo.id =
              ({ s.fingerInfos with f1 := { s.fingerInfos.f1 with id := s.tempFingerInfo.id } },
                1) := by
            have ht : ¬ (-1 = s.tempFingerInfo.id) := by rw [← e1]; exact h1
            simp [lookupSlot, findSlotById, claimEmptySlot, h0, h1, e0, e1, ht]
          simp only [hl, if_neg h0, if_neg h1, if_neg e0, if_pos e1]
          simp [Fingers.modify?]
        · have hl : lookupSlot s.fingerInfos s.tempFingerInfo.id = (s.fingerInfos, -1) := by
            simp [lookupSlot, findSlotById, claimEmptySlot, h0, h1, e0, e1]
          simp only [hl, if_neg h0, if_neg h1, if_neg e0, if_neg e1]
          simp

/-- In MT_SYNC mode a SYN_MT_REPORT leaves the mode and the pending finger,
marks the slot that holds the pending id and leaves a marked slot marked. -/
theorem handleMtSync_mtsync (s : Tracker) (hu : s.useSlots = 0) :
    ∃ s', handleMtSync s = some s' ∧ s'.useSlots = 0 ∧ s'.tempFingerInfo = s.tempFingerInfo ∧
      (∀ k, k ≠ -1 → ReportedAs k s.fingerInfos.f0 → ReportedAs k s'.fingerInfos.f0) ∧
      (∀ k, k ≠ -1 → ReportedAs k s.fingerInfos.f1 → ReportedAs k s'.fingerInfos.f1) ∧
      (s.fingerInfos.f0.id = s.tempFingerInfo.id → s.tempFingerInfo.id ≠ -1 →
        ReportedAs s.tempFingerInfo.id s'.fingerInfos.f0) ∧
      (s.fingerInfos.f1.id = s.tempFingerInfo.id → s.tempFingerInfo.id ≠ -1 →
        s.fingerInfos.f0.id ≠ s.tempFingerInfo.id →
        ReportedAs s.tempFingerInfo.id s'.fingerInfos.f1) := by
  refine ⟨_, handleMtSync_eq s hu, ?_⟩
  unfold ReportedAs
  by_cases h0 : s.fingerInfos.f0.id = s.tempFingerInfo.id
  · rw [if_pos h0]
    refine ⟨hu, rfl, ?_, ?_, ?_, ?_⟩
    · intro k _ hk; exact ⟨hk.1, by simp⟩
    · intro k _ hk; exact hk
    · intro _ _; exact ⟨h0, by simp⟩
    · intro _ _ c; exact absurd h0 c
  · rw [if_neg h0]
    by_cases h1 : s.fingerInfos.f1.id = s.tempFingerInfo.id
    · rw [if_pos h1]
      refine ⟨hu, rfl, ?_, ?_, ?_, ?_⟩
      · intro k _ hk; exact hk
      · intro k _ hk; exact ⟨hk.1, by simp⟩
      · intro c; exact absurd c h0
      · intro _ _ _; exact ⟨h1, by simp⟩
    · rw [if_neg h1]
      by_cases e0 : s.fingerInfos.f0.id = -1
      · rw [if_pos e0]
        refine ⟨hu, rfl, ?_, ?_, ?_, ?_⟩
        · intro k hk1 hk; exact absurd (hk.1.symm.trans e0) hk1
        · intro k _ hk; exact hk
        · intro c; exact absurd c h0
        · intro c; exact absurd c h1
      · rw [if_neg e0]
        by_cases e1 : s.fingerInfos.f1.id = -1
        · rw [if_pos e1]
          refine ⟨hu, rfl, ?_, ?_, ?_, ?_⟩
          · intro k _ hk; exact hk
          · intro k hk1 hk; exact absurd (hk.1.symm.trans e1) hk1
          · intro c; exact absurd c h0
          · intro c; exact absurd c h1
        · rw [if_neg e1]
          refine ⟨hu, rfl, ?_, ?_, ?_, ?_⟩
          · intro k _ hk; exact hk
          · intro k _ hk; exact hk
          · intro c; exact absurd c h0
          · intro c; exact absurd c h1

theorem handleEvent_fingerValue (c : Calib) (s : Tracker) (ev : InputEvent)
    (hu : s.useSlots = 0) (hev : isFingerValueEvent ev) :
    ∃ t, handleEvent c s ev = some { s with tempFingerInfo := t } := by
  obtain ⟨ht, hc⟩ := hev
  have hsyn : ¬ ev.type = EV_SYN := by rw [ht]; decide
  have hmsc : ¬ (ev.type = EV_MSC ∧ (ev.code = MSC_RAW ∨ ev.code = MSC_SCAN)) := by
    rw [ht]; rintro ⟨h, _⟩; revert h; decide
  have h47 : ¬ ev.code = 47 := by omega
  have hu' : ¬ s.useSlots ≠ 0 := by simp [hu]
  have hw : ∀ (u : Tracker) (g : Emu.FingerInfo → Emu.FingerInfo), u.useSlots = 0 →
      writeCurrent u g = some { u with tempFingerInfo := g u.tempFingerInfo } := by
    intro u g h
    unfold writeCurrent
    rw [if_neg (by simp [h])]
  unfold handleEvent
  rw [if_neg hsyn, if_neg hmsc, if_neg h47]
  rcases hc with c57 | c53 | c54
  · have n53 : ¬ ev.code = 53 := by omega
    have n54 : ¬ ev.code = 54 := by omega
    rw [if_pos c57, hw s _ hu]
    simp only [Option.some_bind, if_neg n53, if_neg n54]
    exact ⟨_, rfl⟩
  · have n57 : ¬ ev.code = 57 := by omega
    have n54 : ¬ ev.code = 54 := by omega
    rw [if_neg n57]
    simp only [Option.some_bind, if_pos c53, if_neg n54]
    rw [hw s _ hu]
    exact ⟨_, rfl⟩
  · have n57 : ¬ ev.code = 57 := by omega
    have n53 : ¬ ev.code = 53 := by omega
    rw [if_neg n57]
    simp only [Option.some_bind, if_neg n53, if_pos c54]
    rw [hw s _ hu]
    exact ⟨_, rfl⟩

theorem handleEvent_mtReport (c : Calib) (s : Tracker) (ev : InputEvent) (hev : isMtReport ev) :
    handleEvent c s ev = handleMtSync s := by
  unfold handleEvent
  rw [if_pos hev.1, if_pos hev.2.symm]

theorem handleEvent_synReport (c : Calib) (s : Tracker) (ev : InputEvent)
    (hev : isSynReport ev) : handleEvent c s ev = some (handleSynReport c s) := by
  unfold handleEvent
  rw [if_pos hev.1, if_neg (by rw [hev.2]; decide), if_pos hev.2.symm]

/-- One event of the MT_SYNC protocol in MT_SYNC mode is handled without an
access outside the two slots, leaves the mode and keeps the ids distinct. -/
theorem handleEvent_mtsync (c : Calib) (s : Tracker) (ev : InputEvent)
    (hu : s.useSlots = 0) (hev : isMtSyncProtocolEvent ev) :
    ∃ s', handleEvent c s ev = some s' ∧ s'.useSlots = 0 ∧
      (DistinctIds s.fingerInfos → DistinctIds s'.fingerInfos) := by
  have hw : writesDuplicateId s ev = false := by
    simp [writesDuplicateId, hu]
  have hex : ∃ s', handleEvent c s ev = some s' ∧ s'.useSlots = 0 := by
    rcases hev with h | h | h
    · obtain ⟨t, e⟩ := handleEvent_fingerValue c s ev hu h
      exact ⟨_, e, hu⟩
    · obtain ⟨s', e, hu', -⟩ := handleMtSync_mtsync s hu
      exact ⟨s', by rw [handleEvent_mtReport c s ev h, e], hu'⟩
    · refine ⟨_, handleEvent_synReport c s ev h, ?_⟩
      unfold handleSynReport
      simp only [hu, if_true]
  obtain ⟨s', e, hu'⟩ := hex
  exact ⟨s', e, hu', fun hd => IdStep_distinct s s' ev (handleEvent_id_step c s s' ev e) hd hw⟩

theorem runEvents_mtsync (c : Calib) (evs : List InputEvent) : ∀ s : Tracker,
    s.useSlots = 0 → DistinctIds s.fingerInfos → (∀ ev ∈ evs, isMtSyncProtocolEvent ev) →
    ∃ s', runEvents c s evs = some s' ∧ s'.useSlots = 0 ∧ DistinctIds s'.fingerInfos := by
  induction evs with
  | nil => intro s hu hd _; exact ⟨s, rfl, hu, hd⟩
  | cons ev rest ih =>
    intro s hu hd hall
    obtain ⟨s1, e1, hu1, hd1⟩ := handleEvent_mtsync c s ev hu (hall ev (List.mem_cons_self _ _))
    obtain ⟨s', e2, hu2, hd2⟩ := ih s1 hu1 (hd1 hd)
      (fun x hx => hall x (List.mem_cons_of_mem _ hx))
    exact ⟨s', by simp only [runEvents, e1, Option.some_bind]; exact e2, hu2, hd2⟩

/-- Events between a SYN_MT_REPORT and the SYN_REPORT of its report leave a
marked slot marked; the SYN_REPORT keeps the id of a marked slot. -/
theorem runEvents_reported (c : Calib) (k : Int) (hk : k ≠ -1) (syn : InputEvent)
    (hsyn : isSynReport syn) (mid : List InputEvent) : ∀ s : Tracker, s.useSlots = 0 →
    (∀ ev ∈ mid, isFingerValueEvent ev ∨ isMtReport ev) →
    ∃ s', runEvents c s (mid ++ [syn]) = some s' ∧
      (ReportedAs k s.fingerInfos.f0 → s'.fingerInfos.f0.id = k) ∧
      (ReportedAs k s.fingerInfos.f1 → s'.fingerInfos.f1.id = k) := by
  induction mid with
  | nil =>
    intro s hu _
    refine ⟨handleSynReport c s, ?_, ?_, ?_⟩
    · simp only [List.nil_append, runEvents, handleEvent_synReport c s syn hsyn,
        Option.some_bind]
    · intro hr
      unfold handleSynReport calibrateSlots clearUnset
      simp only [hu, if_true, if_pos hr.2]
      split_ifs <;> simp [hr.1]
    · intro hr
      unfold handleSynReport calibrateSlots clearUnset
      simp only [hu, if_true, if_pos hr.2]
      split_ifs <;> simp [hr.1]
  | cons ev rest ih =>
    intro s hu hall
    have hstep : ∃ s1, handleEvent c s ev = some s1 ∧ s1.useSlots = 0 ∧
        (ReportedAs k s.fingerInfos.f0 → ReportedAs k s1.fingerInfos.f0) ∧
        (ReportedAs k s.fingerInfos.f1 → ReportedAs k s1.fingerInfos.f1) := by
      rcases hall ev (List.mem_cons_self _ _) with h | h
      · obtain ⟨t, e⟩ := handleEvent_fingerValue c s ev hu h
        exact ⟨_, e, hu, fun hr => hr, fun hr => hr⟩
      · obtain ⟨s1, e, hu1, -, k0, k1, -, -⟩ := handleMtSync_mtsync s hu
        exact ⟨s1, by rw [handleEvent_mtReport c s ev h, e], hu1, k0 k hk, k1 k hk⟩
    obtain ⟨s1, e1, hu1, r0, r1⟩ := hstep
    obtain ⟨s', e2, q0, q1⟩ := ih s1 hu1 (fun x hx => hall x (List.mem_cons_of_mem _ hx))
    refine ⟨s', ?_, fun hr => q0 (r0 hr), fun hr => q1 (r1 hr)⟩
    simp only [List.cons_append, runEvents, e1, Option.some_bind]
    exact e2

/-- C27: in MT_SYNC mode (`useSlots = 0`) of the tracker, from any state whose
two slots do not hold the same non-empty id, every sequence of
ABS_MT_TRACKING_ID, ABS_MT_POSITION_X, ABS_MT_POSITION_Y, SYN_MT_REPORT and
SYN_REPORT events is processed (without an access outside the two slots),
stays in MT_SYNC mode and ends in a state whose slots are not both non-empty
with equal ids. And a slot holding an id `k` (other than the empty mark `-1`)
that is reported by a SYN_MT_REPORT with `tempFingerInfo.id = k` holds `k`
after the SYN_REPORT that ends the report, whatever tracking-id, position and
SYN_MT_REPORT events lie between. -/
theorem C27_mtsync_ids (c : Calib) (s : Tracker) (hu : s.useSlots = 0)
    (hd : DistinctIds s.fingerInfos) :
    (∀ evs : List InputEvent, (∀ ev ∈ evs, isMtSyncProtocolEvent ev) →
      ∃ s', runEvents c s evs = some s' ∧ s'.useSlots = 0 ∧
        ¬ (s'.fingerInfos.f0.id ≠ -1 ∧ s'.fingerInfos.f1.id ≠ -1
          ∧ s'.fingerInfos.f0.id = s'.fingerInfos.f1.id)) ∧
    (∀ (k : Int) (report syn : InputEvent) (mid : List InputEvent), k ≠ -1 →
      s.tempFingerInfo.id = k → isMtReport report → isSynReport syn →
      (∀ ev ∈ mid, isFingerValueEvent ev ∨ isMtReport ev) →
      ∃ s', runEvents c s (report :: (mid ++ [syn])) = some s' ∧
        (s.fingerInfos.f0.id = k → s'.fingerInfos.f0.id = k) ∧
        (s.fingerInfos.f1.id = k → s'.fingerInfos.f1.id = k)) := by
  constructor
  · intro evs hall
    obtain ⟨s', e, hu', hd'⟩ := runEvents_mtsync c evs s hu hd hall
    exact ⟨s', e, hu', fun h => hd' h.1 h.2.1 h.2.2⟩
  · intro k report syn mid hk ht hrep hsyn hmid
    obtain ⟨s1, e1, hu1, -, -, -, m0, m1⟩ := handleMtSync_mtsync s hu
    rw [ht] at m0 m1
    obtain ⟨s', e2, q0, q1⟩ := runEvents_reported c k hk syn hsyn mid s1 hu1 hmid
    refine ⟨s', ?_, fun h0 => q0 (m0 h0 hk), fun h1 => q1 (m1 h1 hk ?_)⟩
    · simp only [runEvents, handleEvent_mtReport c s report hrep, e1, Option.some_bind]
      exact e2
    · intro h0
      exact hd (by rw [h0]; exact hk) (by rw [h1]; exact hk) (h0.trans h1.symm)

/-- Witness for C27: slots with ids 5 and 6; id 6 is reported, then id 5, then
the report ends. -/
theorem C27_mtsync_ids_witness :
    (∀ evs : List InputEvent, (∀ ev ∈ evs, isMtSyncProtocolEvent ev) →
      ∃ s', runEvents calibSwapped trackerTwoFingers evs = some s' ∧ s'.useSlots = 0 ∧
        ¬ (s'.fingerInfos.f0.id ≠ -1 ∧ s'.fingerInfos.f1.id ≠ -1
          ∧ s'.fingerInfos.f0.id = s'.fingerInfos.f1.id)) ∧
    (∀ (k : Int) (report syn : InputEvent) (mid : List InputEvent), k ≠ -1 →
      trackerTwoFingers.tempFingerInfo.id = k → isMtReport report → isSynReport syn →
      (∀ ev ∈ mid, isFingerValueEvent ev ∨ isMtReport ev) →
      ∃ s', runEvents calibSwapped trackerTwoFingers (report :: (mid ++ [syn])) = some s' ∧
        (trackerTwoFingers.fingerInfos.f0.id = k → s'.fingerInfos.f0.id = k) ∧
        (trackerTwoFingers.fingerInfos.f1.id = k → s'.fingerInfos.f1.id = k)) :=
  C27_mtsync_ids calibSwapped trackerTwoFingers rfl (fun _ _ => by decide)

end TrackerTheorems

/-! ## Theorems: gesture recognizer -/

section RecognizerTheorems

open Ext

theorem activateAtReleaseCheck_active (s : State) (h : s.active ≠ 0) :
    activateAtReleaseCheck s = s ∨ activateAtReleaseCheck s = { s with activateAtRelease := 0 } := by
  unfold activateAtReleaseCheck
  by_cases hc : s.buttonDown = 0 ∧ s.fingersDown = 0 ∧ s.activateAtRelease ≠ 0
  · right
    rw [if_pos hc]
    have hb0 : ¬ s.buttonDown ≠ 0 := by simp [hc.1]
    simp only [releaseButton, if_neg hb0, activate, if_neg h]
  · left; rw [if_neg hc]

theorem continuationMask_idle (s : State) (hi : s.ignoreFingersUp = 0) :
    continuationMask s = s := by
  simp only [continuationMask, hi, ne_eq, not_true_eq_false, if_false]

theorem processFingers_twoFingersUp (env : Env) (fuel : Nat) (s : State)
    (hi : s.ignoreFingersUp = 0)
    (hact : (activateAtReleaseCheck s).active ≠ 0)
    (hf : (activateAtReleaseCheck s).fingersDown = 0)
    (h2 : (activateAtReleaseCheck s).hadTwoFingersOn = 1) :
    processFingers env fuel s = (twoFingersUp env (activateAtReleaseCheck s)).map finishTick := by
  unfold processFingers
  rw [continuationMask_idle s hi, if_neg hact]
  generalize activateAtReleaseCheck s = t at hact hf h2
  have hst : stopEasingOnNewTouch t = t := by
    simp only [stopEasingOnNewTouch, hf, ne_eq, not_true_eq_false, false_and, OfNat.zero_ne_ofNat,
      or_self, if_false]
  rw [hst]
  simp only [gestureBranch, hf, h2, OfNat.zero_ne_ofNat, one_ne_zero, false_and, if_false,
    lt_self_iff_false, and_self, if_true]

theorem calledActions_append (a b : List Call) :
    calledActions (a ++ b) = calledActions a ++ calledActions b := by
  induction a with
  | nil => rfl
  | cons c rest ih => cases c <;> simp [calledActions, ih]

theorem tapIfQuiet_spec (env : Env) (t : State)
    (hg : t.amPerformingGesture = GESTURE_NONE ∨ t.amPerformingGesture = GESTURE_UNDECIDED)
    (hc : env.clickmode = 0 ∨ env.clickmode = 1 ∨ env.clickmode = 2) :
    ∃ new, tapIfQuiet env t = some { t with out := t.out ++ new } ∧
      calledActions new =
        (if Dbl.lt t.maxDist (Dbl.ofInt 10) = true
          then [(effectiveTapAction env t, EXECUTEACTION_BOTH)] else []) ∧
      (∀ c ∈ new, isButton1Call c = false) := by
  unfold tapIfQuiet
  by_cases hq : Dbl.lt t.maxDist (Dbl.ofInt 10) = true
  · rw [if_pos ⟨hg, hq⟩, if_pos hq]
    rcases hc with hc | hc | hc
    · refine ⟨[Call.x (XEvent.motion t.f0.x t.f0.y), Call.x XEvent.flush,
        Call.action (effectiveTapAction env t) EXECUTEACTION_BOTH], ?_, ?_, ?_⟩
      · by_cases hti : t.currentProfile.tapInherit = 0 <;>
          simp [hc, State.emit, effectiveTapAction, hti]
      · simp [calledActions]
      · intro c hcm
        simp only [List.mem_cons, List.mem_singleton, List.not_mem_nil, or_false] at hcm
        rcases hcm with rfl | rfl | rfl <;> rfl
    · refine ⟨[Call.x (XEvent.motion t.f1.x t.f1.y), Call.x XEvent.flush,
        Call.action (effectiveTapAction env t) EXECUTEACTION_BOTH], ?_, ?_, ?_⟩
      · by_cases hti : t.currentProfile.tapInherit = 0 <;>
          simp [hc, State.emit, effectiveTapAction, hti]
      · simp [calledActions]
      · intro c hcm
        simp only [List.mem_cons, List.mem_singleton, List.not_mem_nil, or_false] at hcm
        rcases hcm with rfl | rfl | rfl <;> rfl
    · refine ⟨[Call.x (XEvent.motion t.gestureStartCenterX t.gestureStartCenterY),
        Call.x XEvent.flush, Call.action (effectiveTapAction env t) EXECUTEACTION_BOTH], ?_, ?_, ?_⟩
      · by_cases hti : t.currentProfile.tapInherit = 0 <;>
          simp [hc, State.emit, effectiveTapAction, hti]
      · simp [calledActions]
      · intro c hcm
        simp only [List.mem_cons, List.mem_singleton, List.not_mem_nil, or_false] at hcm
        rcases hcm with rfl | rfl | rfl <;> rfl
  · have hn : ¬ ((t.amPerformingGesture = GESTURE_NONE ∨ t.amPerformingGesture = GESTURE_UNDECIDED)
        ∧ Dbl.lt t.maxDist (Dbl.ofInt 10) = true) := fun h => hq h.2
    rw [if_neg hn, if_neg hq]
    exact ⟨[], by simp, rfl, by simp⟩

theorem finishTick_active (u : State) (h : u.active ≠ 0) :
    (finishTick u).out = u.out ∧ (finishTick u).amPerformingGesture = u.amPerformingGesture := by
  unfold finishTick
  simp only
  generalize hv : ({ (if u.fingersDown = 0 then { u with hadTwoFingersOn := 0 } else u) with
    fingersWereDown := (if u.fingersDown = 0 then { u with hadTwoFingersOn := 0 } else u).fingersDown }
      : State) = v
  have hva : v.active ≠ 0 := by
    rw [← hv]; simp only; split_ifs <;> exact h
  have hvo : v.out = u.out := by
    rw [← hv]; simp only; split_ifs <;> rfl
  have hvg : v.amPerformingGesture = u.amPerformingGesture := by
    rw [← hv]; simp only; split_ifs <;> rfl
  rcases activateAtReleaseCheck_active v hva with e | e <;> rw [e]
  · exact ⟨hvo, hvg⟩
  · exact ⟨hvo, hvg⟩

/-- C9: in an active recognizer state with `hadTwoFingersOn = 1`,
`ignoreFingersUp = 0`, `fingersDown = 0` and the gesture `None` or `Undecided`
(and `clickmode` one of the three values `main` assigns), the tick returns. If
`maxDist < 10` it executes exactly one Action, the tap Action (of
`defaultProfile` when `tapInherit`, else of `currentProfile`) with phase BOTH;
otherwise it executes no Action. In both cases it emits no direct button-1
event and `amPerformingGesture` is `GESTURE_NONE` afterwards. -/
theorem C9_tap_iff_quiescence (env : Env) (fuel : Nat) (s : State)
    (hact : s.active ≠ 0) (h2 : s.hadTwoFingersOn = 1) (hi : s.ignoreFingersUp = 0)
    (hf : s.fingersDown = 0)
    (hg : s.amPerformingGesture = GESTURE_NONE ∨ s.amPerformingGesture = GESTURE_UNDECIDED)
    (hc : env.clickmode = 0 ∨ env.clickmode = 1 ∨ env.clickmode = 2) :
    ∃ s' new, processFingers env fuel s = some s' ∧ s'.out = s.out ++ new ∧
      calledActions new =
        (if Dbl.lt s.maxDist (Dbl.ofInt 10) = true
          then [(effectiveTapAction env s, EXECUTEACTION_BOTH)] else []) ∧
      (∀ c ∈ new, isButton1Call c = false) ∧
      s'.amPerformingGesture = GESTURE_NONE := by
  have key : ∀ t : State, t.active ≠ 0 → t.hadTwoFingersOn = 1 → t.fingersDown = 0 →
      (t.amPerformingGesture = GESTURE_NONE ∨ t.amPerformingGesture = GESTURE_UNDECIDED) →
      t.out = s.out → t.maxDist = s.maxDist → t.currentProfile = s.currentProfile →
      ∃ s' new, (twoFingersUp env t).map finishTick = some s' ∧ s'.out = s.out ++ new ∧
        calledActions new =
          (if Dbl.lt s.maxDist (Dbl.ofInt 10) = true
            then [(effectiveTapAction env s, EXECUTEACTION_BOTH)] else []) ∧
        (∀ c ∈ new, isButton1Call c = false) ∧
        s'.amPerformingGesture = GESTURE_NONE := by
    intro t ta _ _ tg tout tmax tprof
    obtain ⟨new, e, hca, hb⟩ := tapIfQuiet_spec env t tg hc
    have hns : ¬ (t.amPerformingGesture = GESTURE_SCROLL ∧ ¬ (t.easingActive ≠ 0)) := by
      rintro ⟨a, _⟩
      rcases tg with tg | tg <;> rw [tg] at a <;> exact absurd a (by decide)
    have hnc : ¬ (t.amPerformingGesture ≠ GESTURE_NONE ∧ t.amPerformingGesture ≠ GESTURE_UNDECIDED
        ∧ ¬ (t.dontStartContinuation ≠ 0)) := by
      rintro ⟨a, b, _⟩
      rcases tg with tg | tg
      · exact a tg
      · exact b tg
    have hft := finishTick_active
      { t with out := t.out ++ new, amPerformingGesture := GESTURE_NONE } ta
    refine ⟨finishTick { t with out := t.out ++ new, amPerformingGesture := GESTURE_NONE }, new,
      ?_, ?_, ?_, hb, ?_⟩
    · simp only [twoFingersUp, if_neg hns, if_neg hnc, e, Option.map_some']
    · rw [hft.1, ← tout]
    · rw [hca, tmax]
      simp only [effectiveTapAction, tprof]
    · rw [hft.2]
  have hpf := processFingers_twoFingersUp env fuel s hi
  rcases activateAtReleaseCheck_active s hact with e | e <;> rw [e] at hpf
  · rw [hpf hact hf h2]
    exact key s hact h2 hf hg rfl rfl rfl
  · rw [hpf hact hf h2]
    exact key _ hact h2 hf hg rfl rfl rfl

/-- Witness for C9: the undecided state after a motionless two-finger touch. -/
theorem C9_tap_iff_quiescence_witness :
    ∃ s' new, processFingers demoEnv 0 tapState = some s' ∧ s'.out = tapState.out ++ new ∧
      calledActions new =
        (if Dbl.lt tapState.maxDist (Dbl.ofInt 10) = true
          then [(effectiveTapAction demoEnv tapState, EXECUTEACTION_BOTH)] else []) ∧
      (∀ c ∈ new, isButton1Call c = false) ∧
      s'.amPerformingGesture = GESTURE_NONE :=
  C9_tap_iff_quiescence demoEnv 0 tapState (by decide) (by decide) (by decide) (by decide)
    (by decide) (by decide)



theorem checkGesture_scroll (env : Env) (s : State) (hg : s.amPerformingGesture = GESTURE_SCROLL) :
    ∃ m, checkGesture env s = checkGestureScroll env { s with maxDist := m } := by
  unfold checkGesture
  simp only
  split_ifs with h1 h2 h3
  all_goals first
    | exact absurd (h2.1.symm.trans hg) (by decide)
    | exact absurd (h3.1.symm.trans hg) (by decide)
    | exact absurd hg h4
    | exact absurd hg h5
    | exact absurd hg h3
    | exact ⟨_, rfl⟩

theorem checkGestureScroll_right (env : Env) (t : State)
    (hh : effectiveHscrollStep env t.currentProfile ≥ 1)
    (hv : effectiveVscrollStep env t.currentProfile ≥ 1)
    (hx : t.currentCenterX - t.gestureStartCenterX > effectiveHscrollStep env t.currentProfile) :
    checkGestureScroll env t =
      ({ t with
          easingDirectionX := 1
          lastLastScrollXIntv := t.lastScrollXIntv
          lastScrollXIntv := toI32 (toU64 (t.fairlyCurrentTime - t.lastScrollXTime))
          lastScrollXTime := t.fairlyCurrentTime
          out := t.out ++
            [Call.action (effectiveScrollRightAction env t.currentProfile) EXECUTEACTION_BOTH]
          gestureStartCenterX :=
            t.gestureStartCenterX + effectiveHscrollStep env t.currentProfile }, 1) := by
  unfold effectiveHscrollStep at hh hx
  unfold effectiveVscrollStep at hv
  have h0 : ¬ ((if t.currentProfile.scrollInherit ≠ 0 then env.defaultProfile.hscrollStep
        else t.currentProfile.hscrollStep) = 0 ∨
      (if t.currentProfile.scrollInherit ≠ 0 then env.defaultProfile.vscrollStep
        else t.currentProfile.vscrollStep) = 0) := by omega
  simp only [checkGestureScroll, if_neg h0, if_pos hx, effectiveHscrollStep,
    effectiveScrollRightAction, State.emit]
  split_ifs <;> rfl

theorem checkGestureScroll_rest (env : Env) (t : State)
    (hx1 : t.currentCenterX - t.gestureStartCenterX ≤ effectiveHscrollStep env t.currentProfile)
    (hx2 : - effectiveHscrollStep env t.currentProfile ≤ t.currentCenterX - t.gestureStartCenterX)
    (hy1 : t.currentCenterY - t.gestureStartCenterY ≤ effectiveVscrollStep env t.currentProfile)
    (hy2 : - effectiveVscrollStep env t.currentProfile
      ≤ t.currentCenterY - t.gestureStartCenterY) :
    checkGestureScroll env t = (t, 0) := by
  unfold effectiveHscrollStep at hx1 hx2
  unfold effectiveVscrollStep at hy1 hy2
  simp only [checkGestureScroll]
  split_ifs <;> first | rfl | omega
theorem scrollRightSteps_small (x h : Int) (hx : x ≤ h) : scrollRightSteps x h = 0 := by
  unfold scrollRightSteps
  split_ifs with h1
  · have : (x - 1) / h = 0 := Int.ediv_eq_zero_of_lt (by omega) (by omega)
    rw [this]; rfl
  · rfl

theorem scrollRightSteps_succ (x h : Int) (hh : 1 ≤ h) (hx : h < x) :
    scrollRightSteps x h = scrollRightSteps (x - h) h + 1 := by
  unfold scrollRightSteps
  have h1 : x ≥ 1 := by omega
  have h2 : x - h ≥ 1 := by omega
  rw [if_pos h1, if_pos h2]
  have e : (x - 1) / h = (x - h - 1) / h + 1 := by
    have := Int.add_mul_ediv_right (x - h - 1) 1 (show h ≠ 0 by omega)
    rw [← this]; congr 1; ring
  have nn : 0 ≤ (x - h - 1) / h := Int.ediv_nonneg (by omega) (by omega)
  rw [e]
  omega

theorem scrollRightSteps_anchor (d h : Int) (hh : 1 ≤ h) (hd : 0 ≤ d) :
    h * (scrollRightSteps d h : Int) ≤ d ∧ (1 ≤ d → h * (scrollRightSteps d h : Int) < d) := by
  unfold scrollRightSteps
  split_ifs with h1
  · have nn : 0 ≤ (d - 1) / h := Int.ediv_nonneg (by omega) (by omega)
    have le : (d - 1) / h * h ≤ d - 1 := Int.ediv_mul_le _ (by omega)
    rw [Int.toNat_of_nonneg nn]
    constructor
    · nlinarith
    · intro _; nlinarith
  · simp only [Int.Nat.cast_ofNat_Int, mul_zero]
    exact ⟨hd, fun h2 => absurd h2 h1⟩

theorem scrollRightSteps_add (g0 c c2 h : Int) (hh : 1 ≤ h) (h1 : g0 ≤ c) (h2 : c ≤ c2) :
    scrollRightSteps (c2 - g0) h =
      scrollRightSteps (c - g0) h
        + scrollRightSteps (c2 - (g0 + h * (scrollRightSteps (c - g0) h : Int))) h := by
  by_cases hc : c - g0 ≥ 1
  · have hanc := (scrollRightSteps_anchor (c - g0) h hh (by omega)).2 hc
    unfold scrollRightSteps at hanc ⊢
    rw [if_pos hc] at hanc ⊢
    have nn : 0 ≤ (c - g0 - 1) / h := Int.ediv_nonneg (by omega) (by omega)
    rw [Int.toNat_of_nonneg nn] at hanc ⊢
    have hc2 : c2 - g0 ≥ 1 := by omega
    have hc3 : c2 - (g0 + h * ((c - g0 - 1) / h)) ≥ 1 := by omega
    rw [if_pos hc2, if_pos hc3]
    have e : (c2 - (g0 + h * ((c - g0 - 1) / h)) - 1) / h
        = (c2 - g0 - 1) / h - (c - g0 - 1) / h := by
      have := Int.add_mul_ediv_right (c2 - (g0 + h * ((c - g0 - 1) / h)) - 1)
        ((c - g0 - 1) / h) (show h ≠ 0 by omega)
      have e2 : c2 - (g0 + h * ((c - g0 - 1) / h)) - 1 + (c - g0 - 1) / h * h = c2 - g0 - 1 := by
        ring
      rw [e2] at this
      omega
    have mono : (c - g0 - 1) / h ≤ (c2 - g0 - 1) / h :=
      Int.ediv_le_ediv (by omega) (by omega)
    rw [e]
    omega
  · have e0 : c - g0 = 0 := by omega
    have z : scrollRightSteps (c - g0) h = 0 := by
      unfold scrollRightSteps; rw [if_neg hc]
    rw [z]
    simp

theorem scroll_loop (env : Env) (n : Nat) : ∀ (s : State),
    s.amPerformingGesture = GESTURE_SCROLL →
    effectiveHscrollStep env s.currentProfile ≥ 1 →
    effectiveVscrollStep env s.currentProfile ≥ 1 →
    s.currentCenterY - s.gestureStartCenterY ≤ effectiveVscrollStep env s.currentProfile →
    - effectiveVscrollStep env s.currentProfile ≤ s.currentCenterY - s.gestureStartCenterY →
    - effectiveHscrollStep env s.currentProfile ≤ s.currentCenterX - s.gestureStartCenterX →
    s.currentCenterX - s.gestureStartCenterX
      ≤ effectiveHscrollStep env s.currentProfile * ((n : Int) + 1) →
    ∀ fuel, n + 1 ≤ fuel →
    ∃ s', checkGestureLoop env fuel s = some s' ∧ ScrollFrame s s' ∧
      s'.gestureStartCenterX = s.gestureStartCenterX
        + effectiveHscrollStep env s.currentProfile
          * (scrollRightSteps (s.currentCenterX - s.gestureStartCenterX)
              (effectiveHscrollStep env s.currentProfile) : Int) ∧
      s'.out = s.out ++ List.replicate
        (scrollRightSteps (s.currentCenterX - s.gestureStartCenterX)
          (effectiveHscrollStep env s.currentProfile))
        (Call.action (effectiveScrollRightAction env s.currentProfile) EXECUTEACTION_BOTH) := by
  induction n with
  | zero =>
    intro s hg hh hv hy1 hy2 hlo hhi fuel hfuel
    obtain ⟨f, rfl⟩ : ∃ f, fuel = f + 1 := ⟨fuel - 1, by omega⟩
    obtain ⟨m, hm⟩ := checkGesture_scroll env s hg
    have hsmall : s.currentCenterX - s.gestureStartCenterX
        ≤ effectiveHscrollStep env s.currentProfile := by
      simpa using hhi
    have hrest := checkGestureScroll_rest env { s with maxDist := m } hsmall hlo hy1 hy2
    refine ⟨{ s with maxDist := m }, ?_, ?_, ?_, ?_⟩
    · simp only [checkGestureLoop, hm, hrest, ne_eq, not_true_eq_false, if_false]
    · exact ⟨rfl, rfl, rfl, rfl, rfl, rfl, rfl, rfl, rfl, rfl, rfl⟩
    · rw [scrollRightSteps_small _ _ hsmall]; simp
    · rw [scrollRightSteps_small _ _ hsmall]; simp
  | succ n ih =>
    intro s hg hh hv hy1 hy2 hlo hhi fuel hfuel
    obtain ⟨f, rfl⟩ : ∃ f, fuel = f + 1 := ⟨fuel - 1, by omega⟩
    obtain ⟨m, hm⟩ := checkGesture_scroll env s hg
    by_cases hx : s.currentCenterX - s.gestureStartCenterX
        > effectiveHscrollStep env s.currentProfile
    · have hright := checkGestureScroll_right env { s with maxDist := m } hh hv hx
      have hstep : checkGestureLoop env (f + 1) s
          = checkGestureLoop env f (checkGesture env s).1 := by
        simp only [checkGestureLoop, hm, hright, ne_eq, one_ne_zero, not_false_eq_true, if_true]
      rw [hstep, hm, hright]
      simp only
      have hhi2 : s.currentCenterX - (s.gestureStartCenterX
            + effectiveHscrollStep env s.currentProfile)
          ≤ effectiveHscrollStep env s.currentProfile * ((n : Int) + 1) := by
        push_cast at hhi
        nlinarith
      obtain ⟨s', e, fr, ha, ho⟩ := ih
        { s with
          maxDist := m
          easingDirectionX := 1
          lastLastScrollXIntv := s.lastScrollXIntv
          lastScrollXIntv := toI32 (toU64 (s.fairlyCurrentTime - s.lastScrollXTime))
          lastScrollXTime := s.fairlyCurrentTime
          out := s.out ++
            [Call.action (effectiveScrollRightAction env s.currentProfile) EXECUTEACTION_BOTH]
          gestureStartCenterX :=
            s.gestureStartCenterX + effectiveHscrollStep env s.currentProfile }
        hg hh hv hy1 hy2 (by simp only; omega) hhi2 f (by omega)
      refine ⟨s', e, fr, ?_, ?_⟩
      · rw [ha]
        simp only
        rw [scrollRightSteps_succ _ _ hh hx]
        have : s.currentCenterX - (s.gestureStartCenterX
            + effectiveHscrollStep env s.currentProfile)
            = s.currentCenterX - s.gestureStartCenterX
              - effectiveHscrollStep env s.currentProfile := by ring
        rw [this]
        push_cast
        ring
      · rw [ho]
        simp only
        rw [scrollRightSteps_succ _ _ hh hx]
        have : s.currentCenterX - (s.gestureStartCenterX
            + effectiveHscrollStep env s.currentProfile)
            = s.currentCenterX - s.gestureStartCenterX
              - effectiveHscrollStep env s.currentProfile := by ring
        rw [this, List.append_assoc, List.replicate_succ]
        simp
    · have hsmall : s.currentCenterX - s.gestureStartCenterX
          ≤ effectiveHscrollStep env s.currentProfile := by omega
      have hrest := checkGestureScroll_rest env { s with maxDist := m } hsmall hlo hy1 hy2
      refine ⟨{ s with maxDist := m }, ?_, ?_, ?_, ?_⟩
      · simp only [checkGestureLoop, hm, hrest, ne_eq, not_true_eq_false, if_false]
      · exact ⟨rfl, rfl, rfl, rfl, rfl, rfl, rfl, rfl, rfl, rfl, rfl⟩
      · rw [scrollRightSteps_small _ _ hsmall]; simp
      · rw [scrollRightSteps_small _ _ hsmall]; simp

theorem TickFrame.refl (s : State) : TickFrame s s :=
  ⟨rfl, rfl, rfl, rfl, rfl, rfl, rfl, rfl, rfl, rfl, [], by simp, rfl⟩

theorem TickFrame.trans {a b c : State} (h1 : TickFrame a b) (h2 : TickFrame b c) :
    TickFrame a c := by
  obtain ⟨a1, a2, a3, a4, a5, a6, a7, a8, a9, a10, p1, o1, q1⟩ := h1
  obtain ⟨b1, b2, b3, b4, b5, b6, b7, b8, b9, b10, p2, o2, q2⟩ := h2
  refine ⟨b1.trans a1, b2.trans a2, b3.trans a3, b4.trans a4, b5.trans a5, b6.trans a6,
    b7.trans a7, b8.trans a8, b9.trans a9, b10.trans a10, p1 ++ p2, ?_, ?_⟩
  · rw [o2, o1, List.append_assoc]
  · rw [calledActions_append, q1, q2]; rfl

theorem continuationMask_real (s : State) (hfd : s.fingersDown ≠ 0) :
    TickFrame s (continuationMask s) ∧ fingersOnlyPretended s = false := by
  constructor
  · unfold continuationMask
    split_ifs
    · exact ⟨rfl, rfl, rfl, rfl, rfl, rfl, rfl, rfl, rfl, rfl, [], by simp, rfl⟩
    · exact TickFrame.refl s
  · simp [fingersOnlyPretended, hfd]

theorem activateAtReleaseCheck_down (s : State) (hfd : s.fingersDown ≠ 0) :
    activateAtReleaseCheck s = s := by
  unfold activateAtReleaseCheck
  rw [if_neg]
  rintro ⟨_, h, _⟩
  exact hfd h

theorem stopEasingOnNewTouch_frame (s : State) : TickFrame s (stopEasingOnNewTouch s) := by
  unfold stopEasingOnNewTouch stopEasingThread
  simp only [State.emit]
  split_ifs
  · exact ⟨rfl, rfl, rfl, rfl, rfl, rfl, rfl, rfl, rfl, rfl, [Call.stopEasingThread], rfl, rfl⟩
  · exact ⟨rfl, rfl, rfl, rfl, rfl, rfl, rfl, rfl, rfl, rfl, [Call.stopEasingThread], rfl, rfl⟩
  · exact TickFrame.refl s

theorem gestureBranch_twoOn (env : Env) (fuel : Nat) (w : State)
    (hfd : w.fingersDown = 1 ∨ w.fingersDown = 2) (h2 : w.hadTwoFingersOn = 1) :
    gestureBranch env fuel false w = twoFingersOn env fuel w := by
  unfold gestureBranch
  have h1 : ¬ (w.fingersDown = 2 ∧ w.hadTwoFingersOn = 0) := by omega
  have h3 : w.fingersDown > 0 ∧ w.hadTwoFingersOn = 1 := by omega
  rw [if_neg h1, if_pos h3, if_pos rfl]

theorem twoFingersOn_center (env : Env) (fuel : Nat) (w : State) (c cy : Int)
    (hc : (w.fingersDown = 2 ∧ Int.tdiv (w.f0.x + w.f1.x) 2 = c
            ∧ Int.tdiv (w.f0.y + w.f1.y) 2 = cy) ∨
          (w.fingersDown = 1 ∧
            ((w.f1.down ≠ 0 ∧ w.f1.x = c ∧ w.f1.y = cy) ∨
             (w.f1.down = 0 ∧ w.f0.down ≠ 0 ∧ w.f0.x = c ∧ w.f0.y = cy)))) :
    ∃ v, twoFingersOn env fuel w = checkGestureLoop env fuel v ∧ TickFrame w v ∧
      v.currentCenterX = c ∧ v.currentCenterY = cy := by
  unfold twoFingersOn
  simp only [State.emit]
  rcases hc with ⟨h2, hx, hy⟩ | ⟨h1, ⟨hd, hx, hy⟩ | ⟨hd1, hd0, hx, hy⟩⟩
  · rw [if_pos h2]
    split_ifs
    · exact ⟨_, rfl, ⟨rfl, rfl, rfl, rfl, rfl, rfl, rfl, rfl, rfl, rfl, _, rfl, rfl⟩, hx, hy⟩
    · exact ⟨_, rfl, ⟨rfl, rfl, rfl, rfl, rfl, rfl, rfl, rfl, rfl, rfl, [], by simp, rfl⟩, hx, hy⟩
  · have hn2 : ¬ w.fingersDown = 2 := by omega
    rw [if_neg hn2]
    split_ifs <;>
    first
      | exact ⟨_, rfl, ⟨rfl, rfl, rfl, rfl, rfl, rfl, rfl, rfl, rfl, rfl, _, rfl, rfl⟩, hx, hy⟩
      | exact ⟨_, rfl, ⟨rfl, rfl, rfl, rfl, rfl, rfl, rfl, rfl, rfl, rfl, [], by simp, rfl⟩, hx, hy⟩
  · have hn2 : ¬ w.fingersDown = 2 := by omega
    rw [if_neg hn2]
    split_ifs <;>
    first
      | exact ⟨_, rfl, ⟨rfl, rfl, rfl, rfl, rfl, rfl, rfl, rfl, rfl, rfl, _, rfl, rfl⟩, hx, hy⟩
      | exact ⟨_, rfl, ⟨rfl, rfl, rfl, rfl, rfl, rfl, rfl, rfl, rfl, rfl, [], by simp, rfl⟩, hx, hy⟩
      | (exfalso; simp_all)

theorem finishTick_down (u : State) (hfd : u.fingersDown ≠ 0) :
    finishTick u = { u with fingersWereDown := u.fingersDown } := by
  unfold finishTick
  rw [if_neg hfd]
  exact activateAtReleaseCheck_down _ hfd

theorem deviceTick_scroll (env : Env) (s : State) (inp : TickInput) (c cy : Int)
    (hact : s.active ≠ 0) (h2 : s.hadTwoFingersOn = 1)
    (hg : s.amPerformingGesture = GESTURE_SCROLL)
    (hh : effectiveHscrollStep env s.currentProfile ≥ 1)
    (hv : effectiveVscrollStep env s.currentProfile ≥ 1)
    (hcen : inp.hasCenter c cy)
    (hy1 : cy - s.gestureStartCenterY ≤ effectiveVscrollStep env s.currentProfile)
    (hy2 : - effectiveVscrollStep env s.currentProfile ≤ cy - s.gestureStartCenterY)
    (hlo : - effectiveHscrollStep env s.currentProfile ≤ c - s.gestureStartCenterX)
    (fuel : Nat) (hfuel : (c - s.gestureStartCenterX).toNat + 1 ≤ fuel) :
    ∃ s', deviceTick env fuel s inp = some s' ∧ s'.active = s.active ∧
      s'.hadTwoFingersOn = 1 ∧ s'.amPerformingGesture = GESTURE_SCROLL ∧
      s'.gestureStartCenterY = s.gestureStartCenterY ∧ s'.currentProfile = s.currentProfile ∧
      s'.gestureStartCenterX = s.gestureStartCenterX + effectiveHscrollStep env s.currentProfile
        * (scrollRightSteps (c - s.gestureStartCenterX)
            (effectiveHscrollStep env s.currentProfile) : Int) ∧
      ∃ new, s'.out = s.out ++ new ∧ calledActions new = List.replicate
        (scrollRightSteps (c - s.gestureStartCenterX) (effectiveHscrollStep env s.currentProfile))
        (effectiveScrollRightAction env s.currentProfile, EXECUTEACTION_BOTH) := by
  unfold deviceTick processFingers
  generalize hu : ({ s with
    f0 := inp.f0, f1 := inp.f1, fingersDown := inp.fingersDown,
    fairlyCurrentTime := inp.time } : State) = u
  have u0 : u.f0 = inp.f0 := by rw [← hu]
  have u1 : u.f1 = inp.f1 := by rw [← hu]
  have ufd : u.fingersDown = inp.fingersDown := by rw [← hu]
  have fr0 : TickFrame s { u with f0 := s.f0, f1 := s.f1, fingersDown := s.fingersDown } := by
    rw [← hu]
    exact ⟨rfl, rfl, rfl, rfl, rfl, rfl, rfl, rfl, rfl, rfl, [], by simp, rfl⟩
  obtain ⟨-, -, -, s4, s5, s6, s7, s8, s9, s10, p0, o0, q0⟩ := fr0
  simp only at s4 s5 s6 s7 s8 s9 s10 o0
  have hfd : u.fingersDown = 1 ∨ u.fingersDown = 2 := by
    rw [ufd]
    rcases hcen with ⟨a, _⟩ | ⟨a, _⟩
    · exact Or.inr a
    · exact Or.inl a
  obtain ⟨fr1, hp⟩ := continuationMask_real u (by omega)
  have hm : (continuationMask u).fingersDown ≠ 0 := by rw [fr1.2.2.1]; omega
  rw [activateAtReleaseCheck_down _ hm, hp]
  have fr2 := stopEasingOnNewTouch_frame (continuationMask u)
  have fr12 := fr1.trans fr2
  generalize stopEasingOnNewTouch (continuationMask u) = w at fr2 fr12
  obtain ⟨w0, w1, w2, w3, w4, w5, w6, w7, w8, w9, pw, ow, qw⟩ := fr12
  have hma : ¬ (continuationMask u).active = 0 := by rw [fr1.2.2.2.1, s4]; exact hact
  rw [if_neg hma, gestureBranch_twoOn env fuel w (by rw [w2]; exact hfd) (by rw [w4, s5, h2])]
  have hcw : (w.fingersDown = 2 ∧ Int.tdiv (w.f0.x + w.f1.x) 2 = c
            ∧ Int.tdiv (w.f0.y + w.f1.y) 2 = cy) ∨
          (w.fingersDown = 1 ∧
            ((w.f1.down ≠ 0 ∧ w.f1.x = c ∧ w.f1.y = cy) ∨
             (w.f1.down = 0 ∧ w.f0.down ≠ 0 ∧ w.f0.x = c ∧ w.f0.y = cy))) := by
    rw [w0, w1, w2, u0, u1, ufd]; exact hcen
  obtain ⟨v, ev, ⟨v0, v1, v2, v3, v4, v5, v6, v7, v8, v9, pv, ov, qv⟩, vcx, vcy⟩ :=
    twoFingersOn_center env fuel w c cy hcw
  have vp : v.currentProfile = s.currentProfile := by rw [v8, w8, s9]
  have vg : v.amPerformingGesture = GESTURE_SCROLL := by rw [v5, w5, s6, hg]
  have vx : v.gestureStartCenterX = s.gestureStartCenterX := by rw [v6, w6, s7]
  have vy : v.gestureStartCenterY = s.gestureStartCenterY := by rw [v7, w7, s8]
  have hbound : c - s.gestureStartCenterX ≤ effectiveHscrollStep env s.currentProfile
      * (((c - s.gestureStartCenterX).toNat : Int) + 1) := by
    have := Int.self_le_toNat (c - s.gestureStartCenterX)
    nlinarith
  obtain ⟨s1, e1, ⟨f1, f2, f3, f4, f5, f6, f7, f8, f9, f10, f11⟩, ha, ho⟩ :=
    scroll_loop env (c - s.gestureStartCenterX).toNat v vg (by rw [vp]; exact hh)
      (by rw [vp]; exact hv) (by rw [vp, vcy, vy]; exact hy1) (by rw [vp, vcy, vy]; exact hy2)
      (by rw [vp, vcx, vx]; exact hlo) (by rw [vp, vcx, vx]; exact hbound) fuel hfuel
  rw [vp, vcx, vx] at ha ho
  have hs1fd : s1.fingersDown ≠ 0 := by rw [f8, v2, w2]; omega
  refine ⟨{ s1 with fingersWereDown := s1.fingersDown }, ?_, ?_, ?_, ?_, ?_, ?_, ha, ?_⟩
  · rw [ev, e1, Option.map_some', finishTick_down _ hs1fd]
  · show s1.active = s.active
    rw [f1, v3, w3, s4]
  · show s1.hadTwoFingersOn = 1
    rw [f2, v4, w4, s5, h2]
  · show s1.amPerformingGesture = GESTURE_SCROLL
    rw [f3, vg]
  · show s1.gestureStartCenterY = s.gestureStartCenterY
    rw [f4, vy]
  · show s1.currentProfile = s.currentProfile
    rw [f7, vp]
  · refine ⟨p0 ++ pw ++ pv ++ List.replicate
      (scrollRightSteps (c - s.gestureStartCenterX) (effectiveHscrollStep env s.currentProfile))
      (Call.action (effectiveScrollRightAction env s.currentProfile) EXECUTEACTION_BOTH), ?_, ?_⟩
    · show s1.out = _
      rw [ho, ov, ow, o0]
      simp only [List.append_assoc]
    · rw [calledActions_append, calledActions_append, calledActions_append, q0, qw, qv]
      simp only [List.nil_append]
      generalize scrollRightSteps (c - s.gestureStartCenterX)
        (effectiveHscrollStep env s.currentProfile) = k
      induction k with
      | zero => rfl
      | succ k ih => simp only [List.replicate_succ, calledActions, ih]

theorem chain_le_getLastD (xs : List Int) : ∀ a : Int, List.Chain (· ≤ ·) a xs →
    a ≤ xs.getLastD a := by
  induction xs with
  | nil => intro a _; exact le_refl a
  | cons x rest ih =>
    intro a h
    rw [List.chain_cons] at h
    have := ih x h.2
    cases rest with
    | nil => simpa using h.1
    | cons y r => simp only [List.getLastD_cons] at this ⊢; omega

theorem replicate_actions_add (a : Action × Int) (m n : Nat) :
    List.replicate m a ++ List.replicate n a = List.replicate (m + n) a := by
  rw [List.replicate_add]

theorem runTicks_scroll (env : Env) (p : Profile) (g0 gy : Int) (base : List Call)
    (hh : effectiveHscrollStep env p ≥ 1) (hv : effectiveVscrollStep env p ≥ 1)
    (ticks : List TickInput) :
    ∀ (pts : List (Int × Int)) (s : State) (c : Int),
      s.active ≠ 0 → s.hadTwoFingersOn = 1 → s.amPerformingGesture = GESTURE_SCROLL →
      s.gestureStartCenterY = gy → s.currentProfile = p → g0 ≤ c →
      s.gestureStartCenterX
        = g0 + effectiveHscrollStep env p * (scrollRightSteps (c - g0) (effectiveHscrollStep env p) : Int) →
      (∃ new, s.out = base ++ new ∧ calledActions new = List.replicate
        (scrollRightSteps (c - g0) (effectiveHscrollStep env p))
        (effectiveScrollRightAction env p, EXECUTEACTION_BOTH)) →
      List.Forall₂ (fun inp pt => TickInput.hasCenter inp pt.1 pt.2) ticks pts →
      (∀ pt ∈ pts, pt.2 - gy ≤ effectiveVscrollStep env p ∧ - effectiveVscrollStep env p ≤ pt.2 - gy) →
      List.Chain (· ≤ ·) c (pts.map Prod.fst) →
      ∀ fuel, ((pts.map Prod.fst).getLastD c - g0).toNat + 1 ≤ fuel →
      ∃ s', runTicks env fuel s ticks = some s' ∧
        ∃ new, s'.out = base ++ new ∧ calledActions new = List.replicate
          (scrollRightSteps ((pts.map Prod.fst).getLastD c - g0) (effectiveHscrollStep env p))
          (effectiveScrollRightAction env p, EXECUTEACTION_BOTH) := by
  induction ticks with
  | nil =>
    intro pts s c _ _ _ _ _ _ _ hout hcen _ _ fuel _
    cases hcen
    exact ⟨s, rfl, hout⟩
  | cons inp rest ih =>
    intro pts s c hact h2 hg hgy hp hc hgx hout hcen hys hchain fuel hfuel
    cases hcen with
    | cons hpt hrest =>
      rename_i pt pts'
      simp only [List.map_cons, List.chain_cons] at hchain
      obtain ⟨hcx, hchain'⟩ := hchain
      have hlast := chain_le_getLastD _ _ hchain'
      have hlast_eq : ((pt :: pts').map Prod.fst).getLastD c
          = (pts'.map Prod.fst).getLastD pt.1 := by
        simp only [List.map_cons, List.getLastD_cons]
      rw [hlast_eq] at hfuel ⊢
      obtain ⟨anc, _⟩ := scrollRightSteps_anchor (c - g0) (effectiveHscrollStep env p) hh
        (by omega)
      have enn : 0 ≤ effectiveHscrollStep env p
          * (scrollRightSteps (c - g0) (effectiveHscrollStep env p) : Int) :=
        mul_nonneg (by omega) (Int.ofNat_nonneg _)
      obtain ⟨hy1, hy2⟩ := hys pt (List.mem_cons_self _ _)
      obtain ⟨new0, ho0, hq0⟩ := hout
      obtain ⟨s1, e1, a1, t1, g1, y1, p1, x1, new1, o1, q1⟩ :=
        deviceTick_scroll env s inp pt.1 pt.2 hact h2 hg (by rw [hp]; exact hh)
          (by rw [hp]; exact hv) hpt (by rw [hp, hgy]; exact hy1) (by rw [hp, hgy]; exact hy2)
          (by rw [hp, hgx]; omega) fuel (by rw [hgx]; omega)
      rw [hp, hgx] at x1 q1
      have hadd := scrollRightSteps_add g0 c pt.1 (effectiveHscrollStep env p) hh hc hcx
      obtain ⟨s2, e2, hfin⟩ := ih pts' s1 pt.1 (by rw [a1]; exact hact) t1 g1 (by rw [y1, hgy])
        (by rw [p1, hp]) (by omega)
        (by rw [x1, hadd]; push_cast; ring)
        ⟨new0 ++ new1, by rw [o1, ho0, List.append_assoc], by
          rw [calledActions_append, hq0, q1, hadd, replicate_actions_add]⟩
        hrest (fun q hq => hys q (List.mem_cons_of_mem _ hq)) hchain' fuel hfuel
      exact ⟨s2, by simp only [runTicks, e1, Option.some_bind, e2], hfin⟩

/-- C10 (as stated, refuted): in Scroll mode with `hscrollStep = vscrollStep = 50`
and the gesture start centre at `(0, 500)`,
(a) one tick that moves the centre to `(50, 500)`, a displacement `d = 50`,
executes no `scrollRightAction`, while `⌊50 / 50⌋ = 1`;
(b) the ticks with centres `(120, 500)`, `(0, 500)`, `(120, 500)`, which never
move left of the start and end at `d = 120`, execute `scrollRightAction` three
times, while `⌊120 / 50⌋ = 2`. -/
theorem C10_counterexample_strict_threshold :
    ((runTicks demoEnv 5 scrollState [scrollTick 50]).map
        (fun s => countBoth (buttonAction 7) s.out) = some 0 ∧ (50 : Int) / 50 = 1) ∧
    ((runTicks demoEnv 5 scrollState [scrollTick 120, scrollTick 0, scrollTick 120]).map
        (fun s => countBoth (buttonAction 7) s.out) = some 3 ∧ (120 : Int) / 50 = 2) := by
  decide

/-- C10 (amended): in Scroll mode with effective `hscrollStep ≥ 1` and
`vscrollStep ≥ 1`, for every sequence of ticks with real fingers whose centre
points stay within one `vscrollStep` of `gestureStartCenterY` and whose `x`
never decreases, starting at or right of the `gestureStartCenterX` held at the
start and ending at displacement `d ≥ 0` from it: every tick returns (given
`d + 1` calls of `checkGesture`), the Actions executed over the sequence are
executions of `scrollRightAction` with phase BOTH only, and their number is
`⌈d / hscrollStep⌉ - 1` when `d ≥ 1` and `0` when `d = 0`. -/
theorem C10_scroll_right_count (env : Env) (s : State) (ticks : List TickInput)
    (pts : List (Int × Int))
    (hact : s.active ≠ 0) (h2 : s.hadTwoFingersOn = 1)
    (hg : s.amPerformingGesture = GESTURE_SCROLL)
    (hh : effectiveHscrollStep env s.currentProfile ≥ 1)
    (hv : effectiveVscrollStep env s.currentProfile ≥ 1)
    (hcen : List.Forall₂ (fun inp pt => TickInput.hasCenter inp pt.1 pt.2) ticks pts)
    (hys : ∀ pt ∈ pts, pt.2 - s.gestureStartCenterY ≤ effectiveVscrollStep env s.currentProfile
      ∧ - effectiveVscrollStep env s.currentProfile ≤ pt.2 - s.gestureStartCenterY)
    (hmono : List.Chain (· ≤ ·) s.gestureStartCenterX (pts.map Prod.fst))
    (fuel : Nat)
    (hfuel : ((pts.map Prod.fst).getLastD s.gestureStartCenterX
      - s.gestureStartCenterX).toNat + 1 ≤ fuel) :
    ∃ s' new, runTicks env fuel s ticks = some s' ∧ s'.out = s.out ++ new ∧
      calledActions new = List.replicate
        (scrollRightSteps
          ((pts.map Prod.fst).getLastD s.gestureStartCenterX - s.gestureStartCenterX)
          (effectiveHscrollStep env s.currentProfile))
        (effectiveScrollRightAction env s.currentProfile, EXECUTEACTION_BOTH) := by
  have h0 : scrollRightSteps (s.gestureStartCenterX - s.gestureStartCenterX)
      (effectiveHscrollStep env s.currentProfile) = 0 := by
    rw [sub_self]; rfl
  obtain ⟨s', e, new, o, q⟩ := runTicks_scroll env s.currentProfile s.gestureStartCenterX
    s.gestureStartCenterY s.out hh hv ticks pts s s.gestureStartCenterX hact h2 hg rfl rfl
    (le_refl _) (by rw [h0]; simp) ⟨[], by simp, by rw [h0]; rfl⟩ hcen hys hmono fuel hfuel
  exact ⟨s', new, e, o, q⟩

/-- Witness for C10: the centre moves right by 120 in three ticks
(40, 80, 120) with step 50, as in the spec's scroll scenario; two
`scrollRightAction` executions. -/
theorem C10_scroll_right_count_witness :
    ∃ s' new, runTicks demoEnv 121 scrollState [scrollTick 40, scrollTick 80, scrollTick 120]
        = some s' ∧ s'.out = scrollState.out ++ new ∧
      calledActions new = List.replicate
        (scrollRightSteps
          (([((40 : Int), (500 : Int)), (80, 500), (120, 500)].map Prod.fst).getLastD
              scrollState.gestureStartCenterX - scrollState.gestureStartCenterX)
          (effectiveHscrollStep demoEnv scrollState.currentProfile))
        (effectiveScrollRightAction demoEnv scrollState.currentProfile, EXECUTEACTION_BOTH) :=
  C10_scroll_right_count demoEnv scrollState [scrollTick 40, scrollTick 80, scrollTick 120]
    [(40, 500), (80, 500), (120, 500)] (by decide) (by decide) (by decide) (by decide)
    (by decide)
    (List.Forall₂.cons (Or.inl ⟨rfl, by decide, by decide⟩)
      (List.Forall₂.cons (Or.inl ⟨rfl, by decide, by decide⟩)
        (List.Forall₂.cons (Or.inl ⟨rfl, by decide, by decide⟩) List.Forall₂.nil)))
    (by decide)
    (List.Chain.cons (by decide) (List.Chain.cons (by decide)
      (List.Chain.cons (by decide) List.Chain.nil)))
    121 (by decide)

/-! ### Classification priority -/

theorem withMaxDist_frame (env : Env) (s : State) :
    ∃ m, withMaxDist env s = { s with maxDist := m } := by
  unfold withMaxDist
  split_ifs
  · exact ⟨_, rfl⟩
  · exact ⟨s.maxDist, rfl⟩


theorem checkGesture_undecided (env : Env) (s : State)
    (hg : s.amPerformingGesture = GESTURE_UNDECIDED) (hf : s.fingersDown = 2) :
    checkGesture env s =
      (checkGestureUndecided env (withMaxDist env s) (currentDistOf env s)
        (currentAngleOf env s) (moveDistOf env s)).getD (withMaxDist env s, 0) := by
  have hns : ¬ GESTURE_UNDECIDED = GESTURE_SCROLL := by decide
  have hnz : ¬ GESTURE_UNDECIDED = GESTURE_ZOOM := by decide
  have hnr : ¬ GESTURE_UNDECIDED = GESTURE_ROTATE := by decide
  unfold checkGesture withMaxDist currentDistOf moveDistOf currentAngleOf
  simp only
  by_cases h1 : (env.sqrt
      ((s.currentCenterX - s.gestureStartCenterX) * (s.currentCenterX - s.gestureStartCenterX) +
        (s.currentCenterY - s.gestureStartCenterY) * (s.currentCenterY - s.gestureStartCenterY))).gt
        s.maxDist = true ∧ s.fingersDown = 2
  · have e1 : ¬ s.amPerformingGesture = GESTURE_SCROLL := by rw [hg]; decide
    have e2 : ¬ s.amPerformingGesture = GESTURE_ZOOM := by rw [hg]; decide
    have e3 : ¬ s.amPerformingGesture = GESTURE_ROTATE := by rw [hg]; decide
    simp only [if_pos h1]
    simp only [if_pos (⟨hg, hf⟩ : s.amPerformingGesture = GESTURE_UNDECIDED ∧ s.fingersDown = 2),
      if_neg e1, if_neg e2, if_neg e3]
    cases checkGestureUndecided env _ _ _ _ <;> rfl
  · have e1 : ¬ s.amPerformingGesture = GESTURE_SCROLL := by rw [hg]; decide
    have e2 : ¬ s.amPerformingGesture = GESTURE_ZOOM := by rw [hg]; decide
    have e3 : ¬ s.amPerformingGesture = GESTURE_ROTATE := by rw [hg]; decide
    simp only [if_neg h1]
    simp only [if_pos (⟨hg, hf⟩ : s.amPerformingGesture = GESTURE_UNDECIDED ∧ s.fingersDown = 2),
      if_neg e1, if_neg e2, if_neg e3]
    cases checkGestureUndecided env _ _ _ _ <;> rfl

theorem checkGestureUndecided_scroll (env : Env) (t : State) (cd ca md : Dbl)
    (h : Dbl.toInt md > effectiveScrollMinDistance env t.currentProfile) :
    ∃ r, checkGestureUndecided env t cd ca md = some (r, 1) ∧
      r.amPerformingGesture = GESTURE_SCROLL := by
  unfold effectiveScrollMinDistance at h
  unfold checkGestureUndecided
  simp only
  rw [if_pos h]
  split_ifs <;> exact ⟨_, rfl, rfl⟩

theorem checkGestureUndecided_zoom (env : Env) (t : State) (cd ca md : Dbl)
    (h : ¬ Dbl.toInt md > effectiveScrollMinDistance env t.currentProfile)
    (hz : cAbs (Dbl.toInt (Dbl.sub (Dbl.ofInt (Dbl.toInt cd)) t.gestureStartDist))
      > effectiveZoomMinDistance env t.currentProfile) :
    checkGestureUndecided env t cd ca md = some ({ t with amPerformingGesture := GESTURE_ZOOM }, 1) := by
  unfold effectiveScrollMinDistance at h
  unfold effectiveZoomMinDistance at hz
  unfold checkGestureUndecided
  simp only
  rw [if_neg h, if_pos hz]

theorem checkGestureUndecided_rotate (env : Env) (t : State) (cd ca md : Dbl)
    (h : ¬ Dbl.toInt md > effectiveScrollMinDistance env t.currentProfile)
    (hz : ¬ cAbs (Dbl.toInt (Dbl.sub (Dbl.ofInt (Dbl.toInt cd)) t.gestureStartDist))
      > effectiveZoomMinDistance env t.currentProfile)
    (hr : Dbl.gt (Dbl.ofInt (cAbs (Dbl.toInt (rotatedByOf ca t.gestureStartAngle))))
        (effectiveRotateMinAngle env t.currentProfile) = true
      ∧ Dbl.toInt cd > effectiveRotateMinDistance env t.currentProfile) :
    checkGestureUndecided env t cd ca md
      = some ({ t with amPerformingGesture := GESTURE_ROTATE }, 1) := by
  unfold effectiveScrollMinDistance at h
  unfold effectiveZoomMinDistance at hz
  unfold effectiveRotateMinAngle effectiveRotateMinDistance rotatedByOf at hr
  unfold checkGestureUndecided
  simp only at hr ⊢
  rw [if_neg h, if_neg hz, if_pos hr]

theorem checkGestureUndecided_none (env : Env) (t : State) (cd ca md : Dbl)
    (h : ¬ Dbl.toInt md > effectiveScrollMinDistance env t.currentProfile)
    (hz : ¬ cAbs (Dbl.toInt (Dbl.sub (Dbl.ofInt (Dbl.toInt cd)) t.gestureStartDist))
      > effectiveZoomMinDistance env t.currentProfile)
    (hr : ¬ (Dbl.gt (Dbl.ofInt (cAbs (Dbl.toInt (rotatedByOf ca t.gestureStartAngle))))
        (effectiveRotateMinAngle env t.currentProfile) = true
      ∧ Dbl.toInt cd > effectiveRotateMinDistance env t.currentProfile)) :
    checkGestureUndecided env t cd ca md = none := by
  unfold effectiveScrollMinDistance at h
  unfold effectiveZoomMinDistance at hz
  unfold effectiveRotateMinAngle effectiveRotateMinDistance rotatedByOf at hr
  unfold checkGestureUndecided
  simp only at hr ⊢
  rw [if_neg h, if_neg hz, if_neg hr]

/-- C11: a call of `checkGesture` with the gesture undecided and two fingers
down makes the gesture Scroll when the scroll test is met, whatever the zoom
and rotate tests say; else Zoom when the zoom test is met, whatever the rotate
test says; else Rotate when the rotate test is met; else it stays Undecided.
The call returns 1 in the first three cases and 0 in the last. -/
theorem C11_classification_priority (env : Env) (s : State)
    (hg : s.amPerformingGesture = GESTURE_UNDECIDED) (hf : s.fingersDown = 2) :
    (checkGesture env s).1.amPerformingGesture =
      (if scrollTest env s then GESTURE_SCROLL
       else if zoomTest env s then GESTURE_ZOOM
       else if rotateTest env s then GESTURE_ROTATE
       else GESTURE_UNDECIDED) ∧
    (checkGesture env s).2 =
      (if scrollTest env s ∨ zoomTest env s ∨ rotateTest env s then 1 else 0) := by
  obtain ⟨m, hm⟩ := withMaxDist_frame env s
  rw [checkGesture_undecided env s hg hf, hm]
  by_cases hs : scrollTest env s
  · obtain ⟨r, hr, hrg⟩ := checkGestureUndecided_scroll env { s with maxDist := m }
      (currentDistOf env s) (currentAngleOf env s) (moveDistOf env s) hs
    rw [hr, if_pos hs, if_pos (Or.inl hs)]
    exact ⟨hrg, rfl⟩
  · by_cases hz : zoomTest env s
    · rw [checkGestureUndecided_zoom env { s with maxDist := m } _ _ _ hs hz, if_neg hs,
        if_pos hz, if_pos (Or.inr (Or.inl hz))]
      exact ⟨rfl, rfl⟩
    · by_cases hr : rotateTest env s
      · rw [checkGestureUndecided_rotate env { s with maxDist := m } _ _ _ hs hz hr, if_neg hs,
          if_neg hz, if_pos hr, if_pos (Or.inr (Or.inr hr))]
        exact ⟨rfl, rfl⟩
      · rw [checkGestureUndecided_none env { s with maxDist := m } _ _ _ hs hz hr, if_neg hs,
          if_neg hz, if_neg hr, if_neg (by tauto)]
        exact ⟨hg, rfl⟩

/-- Witness for C11: a state in which the scroll test and the zoom test are
both met; the gesture becomes Scroll. -/
theorem C11_classification_priority_witness :
    (checkGesture demoEnv undecidedState).1.amPerformingGesture =
      (if scrollTest demoEnv undecidedState then GESTURE_SCROLL
       else if zoomTest demoEnv undecidedState then GESTURE_ZOOM
       else if rotateTest demoEnv undecidedState then GESTURE_ROTATE
       else GESTURE_UNDECIDED) ∧
    (checkGesture demoEnv undecidedState).2 =
      (if scrollTest demoEnv undecidedState ∨ zoomTest demoEnv undecidedState
          ∨ rotateTest demoEnv undecidedState then 1 else 0) :=
  C11_classification_priority demoEnv undecidedState (by decide) (by decide)

/-! ### Easing cutoff -/

/-- The `double` constant `1.15`. -/
theorem rnd_115 : Dbl.rnd (115 / 100) = Dbl.fin (5179139571476070 / 4503599627370496) := by
  rw [Dbl.rnd_eq_pos (115 / 100) (-52) 5179139571476070 (by norm_num) (by norm_num)
    (by norm_num) (by norm_num) (by norm_num) (by norm_num)]
  norm_num

/-- The interval update on `1..10^6`: the `int` is a `float`, and the product
with the `double` `1.15` is rounded with a relative error of at most `2^-53`
before the cast truncates it. -/
theorem easingNextInterval_spec (n : Int) (h1 : 1 ≤ n) (h2 : n ≤ 1000000) :
    ∃ v : ℚ, easingNextInterval n = ⌊v⌋ ∧
      |v - n * (5179139571476070 / 4503599627370496)|
        ≤ n * (5179139571476070 / 4503599627370496) / 9007199254740992 := by
  have hn1 : (1 : ℚ) ≤ n := by exact_mod_cast h1
  have hn2 : (n : ℚ) ≤ 1000000 := by exact_mod_cast h2
  have hf : Dbl.rndFloat (n : ℚ) = Dbl.fin (n : ℚ) :=
    Dbl.rndFloat_intCast n (by rw [abs_of_pos (by linarith)]; linarith)
  have hq0 : |(n : ℚ) * (5179139571476070 / 4503599627370496)|
      = n * (5179139571476070 / 4503599627370496) := abs_of_pos (by positivity)
  obtain ⟨v, ev, hv⟩ := Dbl.rnd_err_mid ((n : ℚ) * (5179139571476070 / 4503599627370496))
    (by rw [hq0]; linarith) (by rw [hq0]; linarith)
  rw [hq0] at hv
  refine ⟨v, ?_, hv⟩
  rw [abs_le] at hv
  have hv0 : 0 ≤ v := by linarith
  have hv1 : v < 2147483648 := by linarith
  unfold easingNextInterval
  rw [hf, rnd_115]
  simp only [Dbl.mul]
  rw [ev]
  refine Dbl.toInt_floor v hv0 ?_
  have : ⌊v⌋ < (2147483648 : Int) := Int.floor_lt.2 (by exact_mod_cast hv1)
  exact this

/-- For a start interval in `1..6` the truncating update returns the interval
itself. -/
theorem easingNextInterval_small (x : Int) (h1 : 1 ≤ x) (h6 : x ≤ 6) :
    easingNextInterval x = x := by
  obtain ⟨v, e, hv⟩ := easingNextInterval_spec x h1 (by omega)
  have hn1 : (1 : ℚ) ≤ x := by exact_mod_cast h1
  have hn2 : (x : ℚ) ≤ 6 := by exact_mod_cast h6
  rw [abs_le] at hv
  rw [e, Int.floor_eq_iff]
  constructor <;> linarith

/-- For an interval in `7..200` the update adds at least 1 and at most 15%. -/
theorem easingNextInterval_grow (x : Int) (h7 : 7 ≤ x) (h200 : x ≤ 200) :
    x + 1 ≤ easingNextInterval x ∧ ((easingNextInterval x : Int) : ℚ) ≤ x * (23 / 20) := by
  obtain ⟨v, e, hv⟩ := easingNextInterval_spec x (by omega) (by omega)
  have hn1 : (7 : ℚ) ≤ x := by exact_mod_cast h7
  have hn2 : (x : ℚ) ≤ 200 := by exact_mod_cast h200
  rw [abs_le] at hv
  rw [e]
  constructor
  · rw [Int.le_floor]
    push_cast
    linarith
  · have h1 : ((⌊v⌋ : Int) : ℚ) ≤ v := Int.floor_le v
    have h2 : ((⌊v⌋ * 20 : Int) : ℚ) < ((x * 23 + 1 : Int) : ℚ) := by
      push_cast
      linarith
    have h3 : ⌊v⌋ * 20 < x * 23 + 1 := by exact_mod_cast h2
    have h4 : ⌊v⌋ * 20 ≤ x * 23 := by omega
    have h5 : ((⌊v⌋ * 20 : Int) : ℚ) ≤ ((x * 23 : Int) : ℚ) := by exact_mod_cast h4
    push_cast at h5
    linarith

/-- The update of 199 is 228. -/
theorem easingNextInterval_199 : easingNextInterval 199 = 228 := by
  obtain ⟨v, e, hv⟩ := easingNextInterval_spec 199 (by decide) (by decide)
  rw [abs_le] at hv
  rw [e, Int.floor_eq_iff]
  push_cast at hv ⊢
  constructor <;> linarith

/-- Where `n · 1.15` is an integer the rounding decides: `100 · 1.15` in
`double` arithmetic is the `double` just below 115, and `200 · 1.15` the one
just below 230. -/
theorem easingNextInterval_rounds_down :
    easingNextInterval 100 = 114 ∧ easingNextInterval 200 = 229 := by
  have f100 : Dbl.rndFloat ((100 : Int) : ℚ) = Dbl.fin ((100 : Int) : ℚ) :=
    Dbl.rndFloat_intCast 100 (by norm_num)
  have f200 : Dbl.rndFloat ((200 : Int) : ℚ) = Dbl.fin ((200 : Int) : ℚ) :=
    Dbl.rndFloat_intCast 200 (by norm_num)
  have p100 : Dbl.rnd (((100 : Int) : ℚ) * (5179139571476070 / 4503599627370496))
      = Dbl.fin (8092405580431359 / 70368744177664) := by
    rw [Dbl.rnd_eq_pos _ (-46) 8092405580431359
      (by norm_num) (by norm_num) (by norm_num) (by norm_num) (by norm_num) (by norm_num)]
    norm_num
  have p200 : Dbl.rnd (((200 : Int) : ℚ) * (5179139571476070 / 4503599627370496))
      = Dbl.fin (8092405580431359 / 35184372088832) := by
    rw [Dbl.rnd_eq_pos _ (-45) 8092405580431359
      (by norm_num) (by norm_num) (by norm_num) (by norm_num) (by norm_num) (by norm_num)]
    norm_num
  constructor
  · unfold easingNextInterval
    rw [f100, rnd_115]
    simp only [Dbl.mul]
    rw [p100]
    exact Dbl.toInt_between _ 114 (by norm_num) (by norm_num) (by norm_num) (by norm_num)
  · unfold easingNextInterval
    rw [f200, rnd_115]
    simp only [Dbl.mul]
    rw [p200]
    exact Dbl.toInt_between _ 229 (by norm_num) (by norm_num) (by norm_num) (by norm_num)

/-! The update at the multiples of 20, where `x · 1.15` is an integer. -/

theorem easingNextInterval_at_20 : easingNextInterval 20 = 23 := by
  have hf : Dbl.rndFloat ((20 : Int) : ℚ) = Dbl.fin ((20 : Int) : ℚ) :=
    Dbl.rndFloat_intCast 20 (by norm_num)
  have hp : Dbl.rnd (((20 : Int) : ℚ) * (5179139571476070 / 4503599627370496))
      = Dbl.fin (23) := by
    rw [Dbl.rnd_eq_tie _ (-48) 6473924464345088 (by norm_num) (by norm_num) (by norm_num) (by norm_num)
      (by decide) (by
        have e : (((20 : Int) : ℚ) * (5179139571476070 / 4503599627370496)) / 2 ^ (-48 : Int)
            - ((6473924464345088 : Int) : ℚ) = -(1 / 2) := by norm_num
        rw [e]
        norm_num)]
    norm_num
  unfold easingNextInterval
  rw [hf, rnd_115]
  simp only [Dbl.mul]
  rw [hp]
  exact Dbl.toInt_between _ 23 (by norm_num) (by norm_num) (by norm_num) (by norm_num)

theorem easingNextInterval_at_40 : easingNextInterval 40 = 46 := by
  have hf : Dbl.rndFloat ((40 : Int) : ℚ) = Dbl.fin ((40 : Int) : ℚ) :=
    Dbl.rndFloat_intCast 40 (by norm_num)
  have hp : Dbl.rnd (((40 : Int) : ℚ) * (5179139571476070 / 4503599627370496))
      = Dbl.fin (46) := by
    rw [Dbl.rnd_eq_tie _ (-47) 6473924464345088 (by norm_num) (by norm_num) (by norm_num) (by norm_num)
      (by decide) (by
        have e : (((40 : Int) : ℚ) * (5179139571476070 / 4503599627370496)) / 2 ^ (-47 : Int)
            - ((6473924464345088 : Int) : ℚ) = -(1 / 2) := by norm_num
        rw [e]
        norm_num)]
    norm_num
  unfold easingNextInterval
  rw [hf, rnd_115]
  simp only [Dbl.mul]
  rw [hp]
  exact Dbl.toInt_between _ 46 (by norm_num) (by norm_num) (by norm_num) (by norm_num)

theorem easingNextInterval_at_60 : easingNextInterval 60 = 69 := by
  have hf : Dbl.rndFloat ((60 : Int) : ℚ) = Dbl.fin ((60 : Int) : ℚ) :=
    Dbl.rndFloat_intCast 60 (by norm_num)
  have hp : Dbl.rnd (((60 : Int) : ℚ) * (5179139571476070 / 4503599627370496))
      = Dbl.fin (69) := by
    rw [Dbl.rnd_eq_pos _ (-46) 4855443348258816 (by norm_num) (by norm_num) (by norm_num) (by norm_num)
      (by norm_num) (by norm_num)]
    norm_num
  unfold easingNextInterval
  rw [hf, rnd_115]
  simp only [Dbl.mul]
  rw [hp]
  exact Dbl.toInt_between _ 69 (by norm_num) (by norm_num) (by norm_num) (by norm_num)

theorem easingNextInterval_at_80 : easingNextInterval 80 = 92 := by
  have hf : Dbl.rndFloat ((80 : Int) : ℚ) = Dbl.fin ((80 : Int) : ℚ) :=
    Dbl.rndFloat_intCast 80 (by norm_num)
  have hp : Dbl.rnd (((80 : Int) : ℚ) * (5179139571476070 / 4503599627370496))
      = Dbl.fin (92) := by
    rw [Dbl.rnd_eq_tie _ (-46) 6473924464345088 (by norm_num) (by norm_num) (by norm_num) (by norm_num)
      (by decide) (by
        have e : (((80 : Int) : ℚ) * (5179139571476070 / 4503599627370496)) / 2 ^ (-46 : Int)
            - ((6473924464345088 : Int) : ℚ) = -(1 / 2) := by norm_num
        rw [e]
        norm_num)]
    norm_num
  unfold easingNextInterval
  rw [hf, rnd_115]
  simp only [Dbl.mul]
  rw [hp]
  exact Dbl.toInt_between _ 92 (by norm_num) (by norm_num) (by norm_num) (by norm_num)

theorem easingNextInterval_at_120 : easingNextInterval 120 = 138 := by
  have hf : Dbl.rndFloat ((120 : Int) : ℚ) = Dbl.fin ((120 : Int) : ℚ) :=
    Dbl.rndFloat_intCast 120 (by norm_num)
  have hp : Dbl.rnd (((120 : Int) : ℚ) * (5179139571476070 / 4503599627370496))
      = Dbl.fin (138) := by
    rw [Dbl.rnd_eq_pos _ (-45) 4855443348258816 (by norm_num) (by norm_num) (by norm_num) (by norm_num)
      (by norm_num) (by norm_num)]
    norm_num
  unfold easingNextInterval
  rw [hf, rnd_115]
  simp only [Dbl.mul]
  rw [hp]
  exact Dbl.toInt_between _ 138 (by norm_num) (by norm_num) (by norm_num) (by norm_num)

theorem easingNextInterval_at_140 : easingNextInterval 140 = 161 := by
  have hf : Dbl.rndFloat ((140 : Int) : ℚ) = Dbl.fin ((140 : Int) : ℚ) :=
    Dbl.rndFloat_intCast 140 (by norm_num)
  have hp : Dbl.rnd (((140 : Int) : ℚ) * (5179139571476070 / 4503599627370496))
      = Dbl.fin (161) := by
    rw [Dbl.rnd_eq_pos _ (-45) 5664683906301952 (by norm_num) (by norm_num) (by norm_num) (by norm_num)
      (by norm_num) (by norm_num)]
    norm_num
  unfold easingNextInterval
  rw [hf, rnd_115]
  simp only [Dbl.mul]
  rw [hp]
  exact Dbl.toInt_between _ 161 (by norm_num) (by norm_num) (by norm_num) (by norm_num)

theorem easingNextInterval_at_160 : easingNextInterval 160 = 184 := by
  have hf : Dbl.rndFloat ((160 : Int) : ℚ) = Dbl.fin ((160 : Int) : ℚ) :=
    Dbl.rndFloat_intCast 160 (by norm_num)
  have hp : Dbl.rnd (((160 : Int) : ℚ) * (5179139571476070 / 4503599627370496))
      = Dbl.fin (184) := by
    rw [Dbl.rnd_eq_tie _ (-45) 6473924464345088 (by norm_num) (by norm_num) (by norm_num) (by norm_num)
      (by decide) (by
        have e : (((160 : Int) : ℚ) * (5179139571476070 / 4503599627370496)) / 2 ^ (-45 : Int)
            - ((6473924464345088 : Int) : ℚ) = -(1 / 2) := by norm_num
        rw [e]
        norm_num)]
    norm_num
  unfold easingNextInterval
  rw [hf, rnd_115]
  simp only [Dbl.mul]
  rw [hp]
  exact Dbl.toInt_between _ 184 (by norm_num) (by norm_num) (by norm_num) (by norm_num)

theorem easingNextInterval_at_180 : easingNextInterval 180 = 206 := by
  have hf : Dbl.rndFloat ((180 : Int) : ℚ) = Dbl.fin ((180 : Int) : ℚ) :=
    Dbl.rndFloat_intCast 180 (by norm_num)
  have hp : Dbl.rnd (((180 : Int) : ℚ) * (5179139571476070 / 4503599627370496))
      = Dbl.fin (7283165022388223 / 35184372088832) := by
    rw [Dbl.rnd_eq_pos _ (-45) 7283165022388223 (by norm_num) (by norm_num) (by norm_num) (by norm_num)
      (by norm_num) (by norm_num)]
    norm_num
  unfold easingNextInterval
  rw [hf, rnd_115]
  simp only [Dbl.mul]
  rw [hp]
  exact Dbl.toInt_between _ 206 (by norm_num) (by norm_num) (by norm_num) (by norm_num)

/-- Where `x · 1.15` is no integer the update is its truncation: the two
roundings move the product by less than the distance `1/20` to the next
integer. -/
theorem easingNextInterval_plain (x : Int) (h1 : 1 ≤ x) (h2 : x ≤ 1000000) (h : x % 20 ≠ 0) :
    easingNextInterval x = x * 23 / 20 := by
  obtain ⟨v, e, hv⟩ := easingNextInterval_spec x h1 h2
  have hn1 : (1 : ℚ) ≤ x := by exact_mod_cast h1
  have hn2 : (x : ℚ) ≤ 1000000 := by exact_mod_cast h2
  have hr1 : 1 ≤ x * 23 - x * 23 / 20 * 20 := by omega
  have hr2 : x * 23 - x * 23 / 20 * 20 ≤ 19 := by omega
  have hq1 : (1 : ℚ) ≤ (x : ℚ) * 23 - ((x * 23 / 20 : Int) : ℚ) * 20 := by exact_mod_cast hr1
  have hq2 : (x : ℚ) * 23 - ((x * 23 / 20 : Int) : ℚ) * 20 ≤ 19 := by exact_mod_cast hr2
  rw [abs_le] at hv
  rw [e, Int.floor_eq_iff]
  constructor <;> linarith

/-- The interval update on `7..200`. -/
theorem easingNextInterval_table (x : Int) (h7 : 7 ≤ x) (h200 : x ≤ 200) :
    easingNextInterval x = easingTable x := by
  by_cases hm : x % 20 = 0
  · have hx : x = 20 ∨ x = 40 ∨ x = 60 ∨ x = 80 ∨ x = 100 ∨ x = 120 ∨ x = 140 ∨ x = 160 ∨
        x = 180 ∨ x = 200 := by omega
    rcases hx with rfl | rfl | rfl | rfl | rfl | rfl | rfl | rfl | rfl | rfl
    · rw [easingNextInterval_at_20]; decide
    · rw [easingNextInterval_at_40]; decide
    · rw [easingNextInterval_at_60]; decide
    · rw [easingNextInterval_at_80]; decide
    · rw [easingNextInterval_rounds_down.1]; decide
    · rw [easingNextInterval_at_120]; decide
    · rw [easingNextInterval_at_140]; decide
    · rw [easingNextInterval_at_160]; decide
    · rw [easingNextInterval_at_180]; decide
    · rw [easingNextInterval_rounds_down.2]; decide
  · rw [easingNextInterval_plain x (by omega) (by omega) hm]
    unfold easingTable
    rw [if_neg (by omega)]
    omega

set_option maxRecDepth 100000 in
/-- For every start interval in `7..200` the step count is within 4 of the
exponent of the cutoff formula. -/
theorem stepCount_near_formula : ∀ i : Fin 194, stepCountNearFormula ((i.val : Int) + 7) = true := by
  decide

theorem easingActions_frame (p : Profile) (s : State) :
    ∃ o, easingActions p s = { s with out := o } := by
  unfold easingActions State.emit
  simp only
  split_ifs <;> exact ⟨_, rfl⟩

theorem easingStep_stopEasing (env : Env) (s : State) :
    (easingStep env s).stopEasing = s.stopEasing := by
  unfold easingStep
  split_ifs
  · obtain ⟨o, ho⟩ := easingActions_frame env.defaultProfile s
    rw [ho]
  · obtain ⟨o, ho⟩ := easingActions_frame s.easingProfile s
    rw [ho]

theorem easingStep_iterate_stopEasing (env : Env) (m : Nat) (s : State) :
    ((easingStep env)^[m] s).stopEasing = s.stopEasing := by
  induction m generalizing s with
  | zero => rfl
  | succ m ih => rw [Function.iterate_succ_apply, ih, easingStep_stopEasing]

/-- The easing loop parks after exactly `m` further steps when the `m`-th
iterate of the interval update is the first to exceed the cutoff. -/
theorem easingLoop_spec (env : Env) (m : Nat) : ∀ (fuel : Nat) (s : State) (x : Int) (k : Nat),
    m < fuel → s.stopEasing = 0 → (∀ j < m, easingNextInterval^[j] x ≤ 200) →
    200 < easingNextInterval^[m] x →
    easingLoop env fuel s x k = some (easingPark ((easingStep env)^[m] s), k + m) := by
  induction m with
  | zero =>
    intro fuel s x k hf _ _ hgt
    obtain ⟨f, rfl⟩ : ∃ f, fuel = f + 1 := ⟨fuel - 1, by omega⟩
    have hc : s.stopEasing ≠ 0 ∨ x > MAX_EASING_INTERVAL := Or.inr hgt
    simp only [easingLoop, if_pos hc, Function.iterate_zero, id_eq, Nat.add_zero]
  | succ m ih =>
    intro fuel s x k hf hs hle hgt
    obtain ⟨f, rfl⟩ : ∃ f, fuel = f + 1 := ⟨fuel - 1, by omega⟩
    have hx : x ≤ 200 := hle 0 (Nat.succ_pos m)
    have hc : ¬ (s.stopEasing ≠ 0 ∨ x > MAX_EASING_INTERVAL) := by
      intro h
      rcases h with h | h
      · exact h hs
      · have : (200 : Int) < x := h
        omega
    have hs2 : (easingStep env s).stopEasing = 0 := by rw [easingStep_stopEasing, hs]
    have hle2 : ∀ j < m, easingNextInterval^[j] (easingNextInterval x) ≤ 200 := by
      intro j hj
      have := hle (j + 1) (Nat.succ_lt_succ hj)
      rwa [Function.iterate_succ_apply] at this
    have hgt2 : 200 < easingNextInterval^[m] (easingNextInterval x) := by
      rwa [Function.iterate_succ_apply] at hgt
    have := ih f (easingStep env s) (easingNextInterval x) (k + 1) (by omega) hs2 hle2 hgt2
    rw [easingLoop, if_neg hc, this, Function.iterate_succ_apply]
    congr 2
    omega

/-- While the interval update leaves `x` unchanged and no stop is requested,
the easing loop does not park. -/
theorem easingLoop_stuck (env : Env) (x : Int) (hx : x ≤ 200) (hfix : easingNextInterval x = x)
    (fuel : Nat) : ∀ (s : State) (k : Nat), s.stopEasing = 0 →
    easingLoop env fuel s x k = none := by
  induction fuel with
  | zero => intro s k _; rfl
  | succ fuel ih =>
    intro s k hs
    have hc : ¬ (s.stopEasing ≠ 0 ∨ x > MAX_EASING_INTERVAL) := by
      intro h
      rcases h with h | h
      · exact h hs
      · have : (200 : Int) < x := h
        omega
    rw [easingLoop, if_neg hc, hfix]
    exact ih _ _ (by rw [easingStep_stopEasing, hs])

theorem easingStepCount_big (fuel : Nat) (y : Int) (h : 200 < y) : easingStepCount fuel y = 0 := by
  cases fuel with
  | zero => rfl
  | succ f => simp only [easingStepCount, if_pos h]

/-- From a start interval in `7..200` the update reaches the cutoff: there is a
least `m ≥ 1` whose iterate exceeds 200; it is at most `201 - x`, that iterate
is at most `x · 1.15^m`, and `m` is the step count by the table of the
update. -/
theorem easing_reaches_cutoff (d : Nat) : ∀ x : Int, 7 ≤ x → x ≤ 200 → (200 - x).toNat ≤ d →
    ∃ m : Nat, 1 ≤ m ∧ m ≤ d + 1 ∧ 200 < easingNextInterval^[m] x ∧
      (∀ j < m, easingNextInterval^[j] x ≤ 200) ∧
      ((easingNextInterval^[m] x : Int) : ℚ) ≤ x * (23 / 20) ^ m ∧
      ∀ fuel, m ≤ fuel → easingStepCount fuel x = m := by
  induction d with
  | zero =>
    intro x h7 h200 hd
    obtain ⟨hup, hq⟩ := easingNextInterval_grow x h7 h200
    refine ⟨1, le_refl 1, le_refl 1, ?_, ?_, ?_, ?_⟩
    · rw [Function.iterate_one]; omega
    · intro j hj
      have : j = 0 := by omega
      subst this
      simpa using h200
    · rw [Function.iterate_one, pow_one]; exact hq
    · intro fuel hf
      obtain ⟨f, rfl⟩ : ∃ f, fuel = f + 1 := ⟨fuel - 1, by omega⟩
      simp only [easingStepCount, if_neg (not_lt.2 h200), ← easingNextInterval_table x h7 h200]
      rw [easingStepCount_big f _ (by omega)]
  | succ d ih =>
    intro x h7 h200 hd
    obtain ⟨hup, hq⟩ := easingNextInterval_grow x h7 h200
    by_cases hbig : 200 < easingNextInterval x
    · refine ⟨1, le_refl 1, by omega, ?_, ?_, ?_, ?_⟩
      · rw [Function.iterate_one]; exact hbig
      · intro j hj
        have : j = 0 := by omega
        subst this
        simpa using h200
      · rw [Function.iterate_one, pow_one]; exact hq
      · intro fuel hf
        obtain ⟨f, rfl⟩ : ∃ f, fuel = f + 1 := ⟨fuel - 1, by omega⟩
        simp only [easingStepCount, if_neg (not_lt.2 h200), ← easingNextInterval_table x h7 h200]
        rw [easingStepCount_big f _ hbig]
    · obtain ⟨m, hm1, hmd, hgt, hle, hb, hcount⟩ :=
        ih (easingNextInterval x) (by omega) (by omega) (by omega)
      refine ⟨m + 1, by omega, by omega, ?_, ?_, ?_, ?_⟩
      · rw [Function.iterate_succ_apply]; exact hgt
      · intro j hj
        cases j with
        | zero => simpa using h200
        | succ j =>
          rw [Function.iterate_succ_apply]
          exact hle j (by omega)
      · rw [Function.iterate_succ_apply]
        calc ((easingNextInterval^[m] (easingNextInterval x) : Int) : ℚ)
            ≤ ((easingNextInterval x : Int) : ℚ) * (23 / 20) ^ m := hb
          _ ≤ (x * (23 / 20)) * (23 / 20) ^ m := by
              apply mul_le_mul_of_nonneg_right hq
              positivity
          _ = x * (23 / 20) ^ (m + 1) := by ring
      · intro fuel hf
        obtain ⟨f, rfl⟩ : ∃ f, fuel = f + 1 := ⟨fuel - 1, by omega⟩
        simp only [easingStepCount, if_neg (not_lt.2 h200), ← easingNextInterval_table x h7 h200]
        rw [hcount f (by omega)]

/-- The number of easing steps from a start interval in `7..200` lies between
the exponent `n` of the cutoff formula and `n + 4`. -/
theorem steps_near_formula (I : Int) (hI : 7 ≤ I ∧ I ≤ 200) (m n : Nat)
    (hcount : easingStepCount 201 I = m) (hm : (200 : ℚ) < I * (23 / 20) ^ m)
    (hn : IsCutoffExponent I n) : n ≤ m ∧ m ≤ n + 4 := by
  obtain ⟨hn1, hn2⟩ := hn
  have hI0 : (0 : ℚ) < I := by
    have : (0 : Int) < I := by omega
    exact_mod_cast this
  constructor
  · by_contra hc
    have := hn2 m (by omega)
    linarith
  · by_contra hc
    have h5 : 5 ≤ m := by omega
    have hk := stepCount_near_formula ⟨(I - 7).toNat, by omega⟩
    have hIv : (((I - 7).toNat : Nat) : Int) + 7 = I := by omega
    simp only [hIv] at hk
    unfold stepCountNearFormula at hk
    rw [hcount, decide_eq_true_eq] at hk
    rcases hk with hk | hk
    · omega
    · have hq : ((I * 23 ^ (m - 5) : Int) : ℚ) < ((200 * 20 ^ (m - 5) : Int) : ℚ) := by
        exact_mod_cast hk
      push_cast at hq
      have h20 : (0 : ℚ) < 20 ^ (m - 5) := by positivity
      have hlt : (I : ℚ) * (23 / 20) ^ (m - 5) < 200 := by
        rw [div_pow, mul_div_assoc', div_lt_iff₀ h20]
        exact hq
      have hmono : ((23 : ℚ) / 20) ^ n ≤ (23 / 20) ^ (m - 5) :=
        pow_le_pow_right₀ (by norm_num) (by omega)
      have : (I : ℚ) * (23 / 20) ^ n ≤ I * (23 / 20) ^ (m - 5) :=
        mul_le_mul_of_nonneg_left hmono (le_of_lt hI0)
      linarith

theorem cutoffExponent_one : IsCutoffExponent 1 38 := by
  constructor
  · norm_num
  · intro k hk
    have h1 : ((23 : ℚ) / 20) ^ k ≤ (23 / 20) ^ 37 :=
      pow_le_pow_right₀ (by norm_num) (by omega)
    have h2 : ((23 : ℚ) / 20) ^ 37 < 200 := by norm_num
    push_cast
    linarith

/-- C12 (as stated, refuted): started with `easingInterval = 199` the worker
parks after one easing step, while the least `n` with `199 · 1.15^n ≥ 200` is
`1` and the claim promises `n + 1 = 2` steps. Started with `easingInterval = 1`
the claim promises `38 + 1` steps, but the truncation leaves `nextInterval = 1`
and the worker has not parked after 40 passes of its loop. -/
theorem C12_counterexample_truncated_interval :
    ((∃ st, easingThreadFunction demoEnv 2 (easingState 199) = some (st, 1)) ∧
      IsCutoffExponent 199 1 ∧ (1 : Nat) ≠ 1 + 1) ∧
    (easingThreadFunction demoEnv 40 (easingState 1) = none ∧ IsCutoffExponent 1 38) := by
  refine ⟨⟨?_, ?_, by decide⟩, ?_, cutoffExponent_one⟩
  · have h := easingLoop_spec demoEnv 1 2 (easingState 199) 199 0 (by decide) rfl
      (by
        intro j hj
        have : j = 0 := by omega
        subst this
        simp)
      (by rw [Function.iterate_one, easingNextInterval_199]; decide)
    exact ⟨_, h⟩
  · constructor
    · norm_num
    · intro k hk
      have : k = 0 := by omega
      subst this
      norm_num
  · exact easingLoop_stuck demoEnv 1 (by decide)
      (easingNextInterval_small 1 (by decide) (by decide)) 40 _ 0 rfl

/-- C12 (amended): for a start interval `I` with `7 ≤ I ≤ 200` and no stop
request, the easing worker, newly started or woken up, executes exactly `m`
easing steps before it parks, where `m ≥ 1` is the least natural number for
which the `m`-fold update `x ↦ (int)((float) x · 1.15)` of `I`, computed in
floating point as line 1084 computes it, exceeds `MAX_EASING_INTERVAL = 200`;
for that `m`, `I · 1.15^m > 200` and `m ≤ 201 - I`, and `m` lies between `n`
and `n + 4`, where `n` is the exponent of the cutoff formula (the least
natural number with `I · 1.15^n ≥ 200`). -/
theorem C12_easing_cutoff (env : Env) (s : State) (I : Int)
    (hI : 7 ≤ I ∧ I ≤ 200) (hint : s.easingInterval = I) (hstop : s.stopEasing = 0) :
    ∃ m : Nat, 1 ≤ m ∧
      (∀ fuel, m < fuel →
        easingThreadFunction env fuel s = some (easingPark ((easingStep env)^[m] s), m)) ∧
      (∀ fuel, m ≤ fuel →
        easingWokenUp env fuel s =
          some (easingPark ((easingStep env)^[m] { s with easingWakeup := 0, easingActive := 1 }),
            m)) ∧
      200 < easingNextInterval^[m] I ∧ (∀ j < m, easingNextInterval^[j] I ≤ 200) ∧
      (200 : ℚ) < I * (23 / 20) ^ m ∧ (m : Int) ≤ 201 - I ∧
      ∀ n : Nat, IsCutoffExponent I n → n ≤ m ∧ m ≤ n + 4 := by
  subst hint
  obtain ⟨m, hm1, hmd, hgt, hle, hb, hcount⟩ :=
    easing_reaches_cutoff (200 - s.easingInterval).toNat s.easingInterval hI.1 hI.2 (le_refl _)
  have hform : (200 : ℚ) < s.easingInterval * (23 / 20) ^ m := by
    have h1 : ((200 : Int) : ℚ) < ((easingNextInterval^[m] s.easingInterval : Int) : ℚ) := by
      exact_mod_cast hgt
    push_cast at h1
    linarith
  refine ⟨m, hm1, ?_, ?_, hgt, hle, hform, by omega, ?_⟩
  · intro fuel hf
    have := easingLoop_spec env m fuel s s.easingInterval 0 hf hstop hle hgt
    rw [Nat.zero_add] at this
    exact this
  · intro fuel hf
    obtain ⟨n, rfl⟩ : ∃ n, m = n + 1 := ⟨m - 1, by omega⟩
    have hs2 : (easingStep env { s with easingWakeup := 0, easingActive := 1 }).stopEasing = 0 := by
      rw [easingStep_stopEasing]; exact hstop
    have hle2 : ∀ j < n, easingNextInterval^[j] (easingNextInterval s.easingInterval) ≤ 200 := by
      intro j hj
      have := hle (j + 1) (Nat.succ_lt_succ hj)
      rwa [Function.iterate_succ_apply] at this
    have hgt2 : 200 < easingNextInterval^[n] (easingNextInterval s.easingInterval) := by
      rwa [Function.iterate_succ_apply] at hgt
    have := easingLoop_spec env n fuel _ (easingNextInterval s.easingInterval) 1 (by omega)
      hs2 hle2 hgt2
    unfold easingWokenUp
    rw [this, Function.iterate_succ_apply]
    congr 2
    omega
  · intro n hn
    exact steps_near_formula s.easingInterval hI m n (hcount 201 (by omega)) hform hn

/-- Witness for C12: started with `easingInterval = 150` (steps at 150, 172
and 197; then 226 exceeds the cutoff). -/
theorem C12_easing_cutoff_witness :
    ∃ m : Nat, 1 ≤ m ∧
      (∀ fuel, m < fuel →
        easingThreadFunction demoEnv fuel (easingState 150)
          = some (easingPark ((easingStep demoEnv)^[m] (easingState 150)), m)) ∧
      (∀ fuel, m ≤ fuel →
        easingWokenUp demoEnv fuel (easingState 150) =
          some (easingPark ((easingStep demoEnv)^[m]
            { easingState 150 with easingWakeup := 0, easingActive := 1 }), m)) ∧
      200 < easingNextInterval^[m] 150 ∧ (∀ j < m, easingNextInterval^[j] 150 ≤ 200) ∧
      (200 : ℚ) < (150 : Int) * (23 / 20) ^ m ∧ (m : Int) ≤ 201 - 150 ∧
      ∀ n : Nat, IsCutoffExponent 150 n → n ≤ m ∧ m ≤ n + 4 :=
  C12_easing_cutoff demoEnv (easingState 150) 150 (by decide) rfl rfl

/-! ### Continuation -/

theorem releaseScrollBrace_core (env : Env) (s : State) :
    coreOf (releaseScrollBrace env s) = coreOf s ∧
    (releaseScrollBrace env s).out = s.out ++
      [Call.action (effectiveScrollBraceAction env s.currentProfile) EXECUTEACTION_RELEASE] := by
  unfold releaseScrollBrace effectiveScrollBraceAction State.emit
  simp only
  split_ifs <;> exact ⟨rfl, rfl⟩

theorem compensateIntervals_core (s : State) :
    coreOf (compensateIntervals s) = coreOf s ∧ (compensateIntervals s).out = s.out := by
  unfold compensateIntervals
  simp only
  split_ifs <;> exact ⟨rfl, rfl⟩

theorem cancelStoppedY_core (s : State) :
    coreOf (cancelStoppedY s) = coreOf s ∧ (cancelStoppedY s).out = s.out := by
  unfold cancelStoppedY
  split_ifs <;> exact ⟨rfl, rfl⟩

theorem cancelStoppedX_core (s : State) :
    coreOf (cancelStoppedX s) = coreOf s ∧ (cancelStoppedX s).out = s.out := by
  unfold cancelStoppedX
  split_ifs <;> exact ⟨rfl, rfl⟩

theorem dropSlowerAxis_core (s : State) :
    coreOf (dropSlowerAxis s) = coreOf s ∧ (dropSlowerAxis s).out = s.out := by
  unfold dropSlowerAxis
  split_ifs <;> exact ⟨rfl, rfl⟩

theorem setEasingInterval_core (s : State) :
    coreOf (setEasingInterval s) = coreOf s ∧ (setEasingInterval s).out = s.out := by
  unfold setEasingInterval
  split_ifs <;> exact ⟨rfl, rfl⟩

theorem startEasingThread_core (s : State) :
    coreOf (startEasingThread s) = coreOf s ∧
    (startEasingThread s).out = s.out ++ [Call.startEasingThread] := by
  unfold startEasingThread State.emit
  simp only
  split_ifs <;> exact ⟨rfl, rfl⟩

theorem startEasingIfEligible_core (s : State) :
    coreOf (startEasingIfEligible s) = coreOf s ∧
    ((startEasingIfEligible s).out = s.out ∨
      (startEasingIfEligible s).out = s.out ++ [Call.startEasingThread]) := by
  unfold startEasingIfEligible
  split_ifs
  · refine ⟨?_, Or.inr ?_⟩
    · rw [(startEasingThread_core _).1, (setEasingInterval_core _).1, (dropSlowerAxis_core _).1]
    · rw [(startEasingThread_core _).2, (setEasingInterval_core _).2, (dropSlowerAxis_core _).2]
  · exact ⟨rfl, Or.inl rfl⟩

/-- The easing-start block of the branch `TWO_FINGERS_UP` executes one Action,
the scroll brace with phase RELEASE, and leaves the recognizer's own variables
unchanged. -/
theorem startEasingAfterScroll_core (env : Env) (s : State) :
    coreOf (startEasingAfterScroll env s) = coreOf s ∧
    ∃ new, (startEasingAfterScroll env s).out = s.out ++ new ∧
      calledActions new =
        [(effectiveScrollBraceAction env s.currentProfile, EXECUTEACTION_RELEASE)] ∧
      Call.startContinuation ∉ new := by
  unfold startEasingAfterScroll
  have h1 := releaseScrollBrace_core env s
  have h2 := compensateIntervals_core (releaseScrollBrace env s)
  have h3 := cancelStoppedY_core (compensateIntervals (releaseScrollBrace env s))
  have h4 := cancelStoppedX_core (cancelStoppedY (compensateIntervals (releaseScrollBrace env s)))
  have h5 := startEasingIfEligible_core
    (cancelStoppedX (cancelStoppedY (compensateIntervals (releaseScrollBrace env s))))
  refine ⟨by rw [h5.1, h4.1, h3.1, h2.1, h1.1], ?_⟩
  rcases h5.2 with e | e
  · refine ⟨[Call.action (effectiveScrollBraceAction env s.currentProfile) EXECUTEACTION_RELEASE],
      by rw [e, h4.2, h3.2, h2.2, h1.2], rfl, by simp⟩
  · refine ⟨[Call.action (effectiveScrollBraceAction env s.currentProfile) EXECUTEACTION_RELEASE,
      Call.startEasingThread], by rw [e, h4.2, h3.2, h2.2, h1.2]; simp, rfl, by simp⟩

theorem finishTick_up (u : State) (ha : u.active ≠ 0) (hf : u.fingersDown = 0) :
    ∃ ar, finishTick u =
      { u with hadTwoFingersOn := 0, fingersWereDown := 0, activateAtRelease := ar } := by
  have hv : finishTick u
      = activateAtReleaseCheck { u with hadTwoFingersOn := 0, fingersWereDown := 0 } := by
    unfold finishTick
    simp only [if_pos hf]
    rw [hf]
  rw [hv]
  rcases activateAtReleaseCheck_active
    { u with hadTwoFingersOn := 0, fingersWereDown := 0 } ha with e | e
  · exact ⟨u.activateAtRelease, by rw [e]⟩
  · exact ⟨0, by rw [e]⟩

theorem twoFingersUp_timeout (env : Env) (t : State)
    (ha : t.active ≠ 0) (hf : t.fingersDown = 0) (hd : t.dontStartContinuation = 1)
    (hg : t.amPerformingGesture = GESTURE_SCROLL ∨ t.amPerformingGesture = GESTURE_ZOOM
      ∨ t.amPerformingGesture = GESTURE_ROTATE) :
    ∃ s1 new ar, (twoFingersUp env t).map finishTick =
        some { s1 with amPerformingGesture := GESTURE_NONE, hadTwoFingersOn := 0,
                       fingersWereDown := 0, activateAtRelease := ar } ∧
      coreOf s1 = coreOf t ∧ s1.out = t.out ++ new ∧ Call.startContinuation ∉ new ∧
      calledActions new =
        (if t.amPerformingGesture = GESTURE_SCROLL ∧ t.easingActive = 0 then
          [(effectiveScrollBraceAction env t.currentProfile, EXECUTEACTION_RELEASE)] else []) := by
  have hex : ∃ s1, (if t.amPerformingGesture = GESTURE_SCROLL ∧ ¬ (t.easingActive ≠ 0) then
        startEasingAfterScroll env t else t) = s1 ∧ coreOf s1 = coreOf t ∧
      ∃ new, s1.out = t.out ++ new ∧ Call.startContinuation ∉ new ∧
        calledActions new =
          (if t.amPerformingGesture = GESTURE_SCROLL ∧ t.easingActive = 0 then
            [(effectiveScrollBraceAction env t.currentProfile, EXECUTEACTION_RELEASE)]
           else []) := by
    by_cases hc : t.amPerformingGesture = GESTURE_SCROLL ∧ ¬ (t.easingActive ≠ 0)
    · obtain ⟨h1, new, h2, h3, h4⟩ := startEasingAfterScroll_core env t
      have hc2 : t.amPerformingGesture = GESTURE_SCROLL ∧ t.easingActive = 0 :=
        ⟨hc.1, not_not.mp hc.2⟩
      exact ⟨_, if_pos hc, h1, new, h2, h4, by rw [if_pos hc2]; exact h3⟩
    · have hc2 : ¬ (t.amPerformingGesture = GESTURE_SCROLL ∧ t.easingActive = 0) :=
        fun h => hc ⟨h.1, not_not.mpr h.2⟩
      exact ⟨_, if_neg hc, rfl, [], by simp, by simp, by rw [if_neg hc2]; rfl⟩
  obtain ⟨s1, hs1, hcore, new, hout, hnsc, hca⟩ := hex
  have g1 : s1.amPerformingGesture = t.amPerformingGesture :=
    congrArg GestureCore.amPerformingGesture hcore
  have d1 : s1.dontStartContinuation = 1 :=
    (congrArg GestureCore.dontStartContinuation hcore).trans hd
  have a1 : s1.active ≠ 0 := by
    rw [show s1.active = t.active from congrArg GestureCore.active hcore]; exact ha
  have f1 : s1.fingersDown = 0 := (congrArg GestureCore.fingersDown hcore).trans hf
  have hnc : ¬ (s1.amPerformingGesture ≠ GESTURE_NONE ∧ s1.amPerformingGesture ≠ GESTURE_UNDECIDED
      ∧ ¬ (s1.dontStartContinuation ≠ 0)) := by
    rintro ⟨_, _, c⟩
    exact c (by rw [d1]; decide)
  have hnt : ¬ ((s1.amPerformingGesture = GESTURE_NONE ∨ s1.amPerformingGesture = GESTURE_UNDECIDED)
      ∧ Dbl.lt s1.maxDist (Dbl.ofInt 10) = true) := by
    rintro ⟨c, _⟩
    rw [g1] at c
    rcases hg with h | h | h <;> rw [h] at c <;> revert c <;> decide
  obtain ⟨ar, hfin⟩ := finishTick_up { s1 with amPerformingGesture := GESTURE_NONE } a1 f1
  refine ⟨s1, new, ar, ?_, hcore, hout, hnsc, hca⟩
  unfold twoFingersUp
  simp only
  rw [hs1, if_neg hnc]
  unfold tapIfQuiet
  rw [if_neg hnt]
  simp only [Option.map_some']
  rw [hfin]

/-- C13: when the continuation worker finds `ignoreFingersUp` still set after
its sleep, it calls `processFingers` once, with `fingersDown = 0`,
`ignoreFingersUp = 0` and `dontStartContinuation = 1`. In an active state with
`hadTwoFingersOn = 1` and the gesture Scroll, Zoom or Rotate that tick returns,
does not call `startContinuation`, executes no Action with phase BOTH (so no tap
Action; the only Action it may execute is the scroll brace with phase RELEASE),
and ends with `amPerformingGesture = GESTURE_NONE`, `hadTwoFingersOn = 0` and
`fingersWereDown = 0`; `dontStartContinuation` is 0 afterwards. -/
theorem C13_continuation_failure (env : Env) (fuel : Nat) (s : State)
    (hi : s.ignoreFingersUp ≠ 0) (ha : s.active ≠ 0) (h2 : s.hadTwoFingersOn = 1)
    (hg : s.amPerformingGesture = GESTURE_SCROLL ∨ s.amPerformingGesture = GESTURE_ZOOM
      ∨ s.amPerformingGesture = GESTURE_ROTATE) :
    continuationTimeout env fuel s =
      (processFingers env fuel
        { s with ignoreFingersUp := 0, fingersDown := 0, dontStartContinuation := 1 }).map
        (fun s1 => { s1 with dontStartContinuation := 0 }) ∧
    ∃ s' new, continuationTimeout env fuel s = some s' ∧ s'.out = s.out ++ new ∧
      Call.startContinuation ∉ new ∧
      calledActions new =
        (if s.amPerformingGesture = GESTURE_SCROLL ∧ s.easingActive = 0 then
          [(effectiveScrollBraceAction env s.currentProfile, EXECUTEACTION_RELEASE)] else []) ∧
      (∀ a, (a, EXECUTEACTION_BOTH) ∉ calledActions new) ∧
      s'.amPerformingGesture = GESTURE_NONE ∧ s'.hadTwoFingersOn = 0 ∧ s'.fingersWereDown = 0 ∧
      s'.dontStartContinuation = 0 ∧ s'.ignoreFingersUp = 0 := by
  have hct : continuationTimeout env fuel s =
      (processFingers env fuel
        { s with ignoreFingersUp := 0, fingersDown := 0, dontStartContinuation := 1 }).map
        (fun s1 => { s1 with dontStartContinuation := 0 }) := by
    unfold continuationTimeout
    rw [if_pos hi]
  refine ⟨hct, ?_⟩
  rw [hct]
  have key : ∀ t : State, t.active ≠ 0 → t.fingersDown = 0 → t.dontStartContinuation = 1 →
      t.amPerformingGesture = s.amPerformingGesture → t.easingActive = s.easingActive →
      t.currentProfile = s.currentProfile → t.out = s.out → t.ignoreFingersUp = 0 →
      ∃ s' new, ((twoFingersUp env t).map finishTick).map
          (fun s1 => { s1 with dontStartContinuation := 0 }) = some s' ∧
        s'.out = s.out ++ new ∧ Call.startContinuation ∉ new ∧
        calledActions new =
          (if s.amPerformingGesture = GESTURE_SCROLL ∧ s.easingActive = 0 then
            [(effectiveScrollBraceAction env s.currentProfile, EXECUTEACTION_RELEASE)]
           else []) ∧
        (∀ a, (a, EXECUTEACTION_BOTH) ∉ calledActions new) ∧
        s'.amPerformingGesture = GESTURE_NONE ∧ s'.hadTwoFingersOn = 0 ∧
        s'.fingersWereDown = 0 ∧ s'.dontStartContinuation = 0 ∧ s'.ignoreFingersUp = 0 := by
    intro t ta tf td tg te tp tout ti
    obtain ⟨s1, new, ar, hmap, hcore, hout, hnsc, hca⟩ :=
      twoFingersUp_timeout env t ta tf td (by rw [tg]; exact hg)
    rw [tg, te, tp] at hca
    refine ⟨_, new, by rw [hmap]; rfl, ?_, hnsc, hca, ?_, rfl, rfl, rfl, rfl, ?_⟩
    · show s1.out = s.out ++ new
      rw [hout, tout]
    · intro a hmem
      rw [hca] at hmem
      split_ifs at hmem
      · simp only [List.mem_singleton, Prod.mk.injEq] at hmem
        exact absurd hmem.2 (by decide)
      · simp at hmem
    · show s1.ignoreFingersUp = 0
      exact (congrArg GestureCore.ignoreFingersUp hcore).trans ti
  have hpf := processFingers_twoFingersUp env fuel
    { s with ignoreFingersUp := 0, fingersDown := 0, dontStartContinuation := 1 } rfl
  rcases activateAtReleaseCheck_active
    { s with ignoreFingersUp := 0, fingersDown := 0, dontStartContinuation := 1 } ha
    with e | e <;> rw [e] at hpf
  · rw [hpf ha rfl h2]
    exact key _ ha rfl rfl rfl rfl rfl rfl rfl
  · rw [hpf ha rfl h2]
    exact key _ ha rfl rfl rfl rfl rfl rfl rfl

/-- Witness for C13: the timeout of the continuation after a Scroll gesture. -/
theorem C13_continuation_failure_witness :
    continuationTimeout demoEnv 0 continuedScrollState =
      (processFingers demoEnv 0
        { continuedScrollState with
          ignoreFingersUp := 0, fingersDown := 0, dontStartContinuation := 1 }).map
        (fun s1 => { s1 with dontStartContinuation := 0 }) ∧
    ∃ s' new, continuationTimeout demoEnv 0 continuedScrollState = some s' ∧
      s'.out = continuedScrollState.out ++ new ∧
      Call.startContinuation ∉ new ∧
      calledActions new =
        (if continuedScrollState.amPerformingGesture = GESTURE_SCROLL
            ∧ continuedScrollState.easingActive = 0 then
          [(effectiveScrollBraceAction demoEnv continuedScrollState.currentProfile,
            EXECUTEACTION_RELEASE)] else []) ∧
      (∀ a, (a, EXECUTEACTION_BOTH) ∉ calledActions new) ∧
      s'.amPerformingGesture = GESTURE_NONE ∧ s'.hadTwoFingersOn = 0 ∧ s'.fingersWereDown = 0 ∧
      s'.dontStartContinuation = 0 ∧ s'.ignoreFingersUp = 0 :=
  C13_continuation_failure demoEnv 0 continuedScrollState (by decide) (by decide) (by decide)
    (by decide)
/-- C15 (the code departs from the claim): from the idle state, a two-finger
scroll of 40 pixels ends with a TWO_UP tick that releases the scroll brace and
starts the continuation; no easing starts, so `easingActive` stays 0. With no
finger returning, the continuation-timeout tick runs the branch
`TWO_FINGERS_UP` again and executes the scroll-brace Action with phase RELEASE
a second time. After a scroll with two steps the first TWO_UP tick starts the
easing worker (as a new thread, which leaves `easingActive = 0`), and the
timeout tick releases the brace again and calls `startEasingThread` again. -/
theorem C15_brace_released_twice :
    (((runTicks dragEnv 3 idleState shortScrollTicks).map
        (fun s => (calledActions s.out, s.easingActive, s.continuationWakeup, s.fingersDown))
      = some ([(buttonAction 2, EXECUTEACTION_PRESS), (buttonAction 2, EXECUTEACTION_RELEASE)],
          0, 1, 1)) ∧
    (((runTicks dragEnv 3 idleState shortScrollTicks).bind
        (fun s => continuationTimeout dragEnv 0 (continuationWake s))).map
        (fun s => calledActions s.out)
      = some [(buttonAction 2, EXECUTEACTION_PRESS), (buttonAction 2, EXECUTEACTION_RELEASE),
          (buttonAction 2, EXECUTEACTION_RELEASE)])) ∧
    (((runTicks dragEnv 5 idleState easedScrollTicks).map
        (fun s => (calledActions s.out, countEasingStarts s.out, s.easingActive, s.easingInterval))
      = some ([(buttonAction 2, EXECUTEACTION_PRESS), (buttonAction 7, EXECUTEACTION_BOTH),
          (buttonAction 7, EXECUTEACTION_BOTH), (buttonAction 2, EXECUTEACTION_RELEASE)],
          1, 0, 20)) ∧
    (((runTicks dragEnv 5 idleState easedScrollTicks).bind
        (fun s => continuationTimeout dragEnv 0 (continuationWake s))).map
        (fun s => (calledActions s.out, countEasingStarts s.out))
      = some ([(buttonAction 2, EXECUTEACTION_PRESS), (buttonAction 7, EXECUTEACTION_BOTH),
          (buttonAction 7, EXECUTEACTION_BOTH), (buttonAction 2, EXECUTEACTION_RELEASE),
          (buttonAction 2, EXECUTEACTION_RELEASE)], 2))) := by
  decide

/-! ### The tick with real fingers during a gesture -/

theorem continuationMask_down (u : State) (hfd : u.fingersDown ≠ 0) :
    coreOf (continuationMask u) = coreOf { u with ignoreFingersUp := 0 } ∧
    startOf (continuationMask u) = startOf u ∧ (continuationMask u).out = u.out ∧
    (continuationMask u).easingThreadActive = u.easingThreadActive ∧
    fingersOnlyPretended u = false := by
  refine ⟨?_, ?_, ?_, ?_, by simp [fingersOnlyPretended, hfd]⟩
  all_goals unfold continuationMask
  · by_cases hi : u.ignoreFingersUp ≠ 0
    · rw [if_pos hi, if_neg hfd]
    · rw [if_neg hi]
      have : u.ignoreFingersUp = 0 := not_not.mp hi
      simp only [coreOf, this]
  · split_ifs <;> rfl
  · split_ifs <;> rfl
  · split_ifs <;> rfl

theorem stopEasingOnNewTouch_core (s : State) :
    coreOf (stopEasingOnNewTouch s) = coreOf s ∧ startOf (stopEasingOnNewTouch s) = startOf s ∧
    ∃ pre, (stopEasingOnNewTouch s).out = s.out ++ pre ∧ calledActions pre = [] := by
  unfold stopEasingOnNewTouch stopEasingThread
  simp only [State.emit]
  split_ifs
  · exact ⟨rfl, rfl, [Call.stopEasingThread], rfl, rfl⟩
  · exact ⟨rfl, rfl, [Call.stopEasingThread], rfl, rfl⟩
  · exact ⟨rfl, rfl, [], by simp, rfl⟩

/-- A tick with one or two real fingers in an active state with
`hadTwoFingersOn = 1` takes the branch `TWO_FINGERS_ON`, entered with
`ignoreFingersUp = 0`. -/
theorem processFingers_twoOn (env : Env) (u : State)
    (ha : u.active ≠ 0) (h2 : u.hadTwoFingersOn = 1)
    (hfd : u.fingersDown = 1 ∨ u.fingersDown = 2) :
    ∃ w pre, (∀ fuel, processFingers env fuel u = (twoFingersOn env fuel w).map finishTick) ∧
      coreOf w = coreOf { u with ignoreFingersUp := 0 } ∧ startOf w = startOf u ∧
      w.out = u.out ++ pre ∧ calledActions pre = [] := by
  have hne : u.fingersDown ≠ 0 := by omega
  obtain ⟨c1, c2, c3, -, c5⟩ := continuationMask_down u hne
  have hmfd : (continuationMask u).fingersDown ≠ 0 := by
    rw [show (continuationMask u).fingersDown = u.fingersDown from
      congrArg GestureCore.fingersDown c1]
    exact hne
  have hma : ¬ (continuationMask u).active = 0 := by
    rw [show (continuationMask u).active = u.active from congrArg GestureCore.active c1]
    exact ha
  obtain ⟨d1, d2, pre, d3, d4⟩ := stopEasingOnNewTouch_core (continuationMask u)
  have hw : coreOf (stopEasingOnNewTouch (continuationMask u))
      = coreOf { u with ignoreFingersUp := 0 } := d1.trans c1
  refine ⟨stopEasingOnNewTouch (continuationMask u), pre, ?_, hw, d2.trans c2, by rw [d3, c3], d4⟩
  intro fuel
  unfold processFingers
  rw [activateAtReleaseCheck_down _ hmfd, if_neg hma, c5]
  rw [gestureBranch_twoOn env fuel _
    (by rw [show (stopEasingOnNewTouch (continuationMask u)).fingersDown = u.fingersDown from
          congrArg GestureCore.fingersDown hw]; exact hfd)
    (by rw [show (stopEasingOnNewTouch (continuationMask u)).hadTwoFingersOn = u.hadTwoFingersOn
          from congrArg GestureCore.hadTwoFingersOn hw]; exact h2)]

/-- The branch `TWO_FINGERS_ON` enters the gesture loop after it has set the
current centre; with two fingers down that is their midpoint. -/
theorem twoFingersOn_entry (env : Env) (w : State) :
    ∃ v pre cx cy, (∀ fuel, twoFingersOn env fuel w = checkGestureLoop env fuel v) ∧
      coreOf v = coreOf { w with currentCenterX := cx, currentCenterY := cy } ∧
      startOf v = startOf w ∧ v.out = w.out ++ pre ∧ calledActions pre = [] ∧
      (w.fingersDown = 2 → cx = Int.tdiv (w.f0.x + w.f1.x) 2
        ∧ cy = Int.tdiv (w.f0.y + w.f1.y) 2) := by
  unfold twoFingersOn
  simp only [State.emit]
  by_cases h2 : w.fingersDown = 2
  · rw [if_pos h2]
    split_ifs
    · exact ⟨_, _, _, _, fun _ => rfl, rfl, rfl, rfl, rfl, fun _ => ⟨rfl, rfl⟩⟩
    · exact ⟨_, [], _, _, fun _ => rfl, rfl, rfl, by simp, rfl, fun _ => ⟨rfl, rfl⟩⟩
  · rw [if_neg h2]
    split_ifs <;>
    first
      | exact ⟨_, _, _, _, fun _ => rfl, rfl, rfl, rfl, rfl, fun h => absurd h h2⟩
      | exact ⟨_, [], _, _, fun _ => rfl, rfl, rfl, by simp, rfl, fun h => absurd h h2⟩

/-! ### The `switch` of `checkGesture` and the zoom loop -/

theorem withMaxDist_core (env : Env) (u : State) :
    coreOf (withMaxDist env u) = coreOf u ∧ (withMaxDist env u).out = u.out ∧
    (withMaxDist env u).gestureStartDist = u.gestureStartDist ∧
    (withMaxDist env u).gestureStartCenterX = u.gestureStartCenterX ∧
    (withMaxDist env u).gestureStartCenterY = u.gestureStartCenterY ∧
    (withMaxDist env u).gestureStartAngle = u.gestureStartAngle ∧
    (u.fingersDown ≠ 2 → (withMaxDist env u).maxDist = u.maxDist) := by
  unfold withMaxDist
  split_ifs with h
  · exact ⟨rfl, rfl, rfl, rfl, rfl, rfl, fun hn => absurd h.2 hn⟩
  · exact ⟨rfl, rfl, rfl, rfl, rfl, rfl, fun _ => rfl⟩

/-- A call of `checkGesture` that does not enter the classification block goes
to the `switch` with `maxDist` updated. -/
theorem checkGesture_switch (env : Env) (u : State)
    (h : ¬ (u.amPerformingGesture = GESTURE_UNDECIDED ∧ u.fingersDown = 2)) :
    checkGesture env u =
      if u.amPerformingGesture = GESTURE_SCROLL then checkGestureScroll env (withMaxDist env u)
      else if u.amPerformingGesture = GESTURE_ZOOM then
        checkGestureZoom env (withMaxDist env u) (currentDistOf env u)
      else if u.amPerformingGesture = GESTURE_ROTATE then
        checkGestureRotate env (withMaxDist env u) (currentAngleOf env u)
      else (withMaxDist env u, 0) := by
  unfold checkGesture withMaxDist currentDistOf moveDistOf currentAngleOf
  simp only
  by_cases h1 : (env.sqrt
      ((u.currentCenterX - u.gestureStartCenterX) * (u.currentCenterX - u.gestureStartCenterX) +
        (u.currentCenterY - u.gestureStartCenterY) * (u.currentCenterY - u.gestureStartCenterY))).gt
        u.maxDist = true ∧ u.fingersDown = 2
  · simp only [if_pos h1]
    simp only [if_neg h]
  · simp only [if_neg h1]
    simp only [if_neg h]

/-- A call in Zoom mode whose test `zoomedBy > zoomStep` succeeds executes the
zoom-in Action, multiplies the reference distance by the zoom step and
returns 1. -/
theorem checkGestureZoom_in (env : Env) (t : State) (c : Dbl)
    (hgt : Dbl.gt (Dbl.div c t.gestureStartDist) (effectiveZoomStep env t.currentProfile) = true) :
    checkGestureZoom env t c =
      ({ t with
          out := t.out ++
            [Call.action (effectiveZoomInAction env t.currentProfile) EXECUTEACTION_BOTH]
          gestureStartDist :=
            Dbl.mul t.gestureStartDist (effectiveZoomStep env t.currentProfile) }, 1) := by
  unfold effectiveZoomStep at hgt
  unfold checkGestureZoom effectiveZoomInAction effectiveZoomStep
  simp only [hgt, if_true, State.emit]
  split_ifs <;> rfl

/-- A call in Zoom mode both of whose tests fail changes nothing and
returns 0. -/
theorem checkGestureZoom_rest (env : Env) (t : State) (c : Dbl)
    (hgt : Dbl.gt (Dbl.div c t.gestureStartDist) (effectiveZoomStep env t.currentProfile) = false)
    (hlt : Dbl.lt (Dbl.div c t.gestureStartDist)
      (Dbl.div (Dbl.ofInt 1) (effectiveZoomStep env t.currentProfile)) = false) :
    checkGestureZoom env t c = (t, 0) := by
  unfold effectiveZoomStep at hgt hlt
  unfold checkGestureZoom
  simp only [hgt, hlt, if_false, Bool.false_eq_true]

theorem checkGesture_zoom (env : Env) (u : State) (hg : u.amPerformingGesture = GESTURE_ZOOM) :
    checkGesture env u = checkGestureZoom env (withMaxDist env u) (currentDistOf env u) := by
  have h1 : ¬ (u.amPerformingGesture = GESTURE_UNDECIDED ∧ u.fingersDown = 2) := by
    rw [hg]; rintro ⟨h, _⟩; revert h; decide
  have h2 : ¬ u.amPerformingGesture = GESTURE_SCROLL := by rw [hg]; decide
  rw [checkGesture_switch env u h1, if_neg h2, if_pos hg]

/-- What the zoom loop leaves unchanged. -/
theorem zoom_step_frame (env : Env) (u t : State) (o : List Call) (g : Dbl)
    (ht : t = withMaxDist env u) :
    coreOf ({ t with out := o, gestureStartDist := g } : State) = coreOf u ∧
    (u.fingersDown ≠ 2 → ({ t with out := o, gestureStartDist := g } : State).maxDist = u.maxDist) ∧
    currentDistOf env ({ t with out := o, gestureStartDist := g } : State) = currentDistOf env u := by
  obtain ⟨h1, -, -, -, -, -, h7⟩ := withMaxDist_core env u
  rw [← ht] at h1 h7
  refine ⟨h1, h7, ?_⟩
  have e0 : t.f0 = u.f0 := congrArg GestureCore.f0 h1
  have e1 : t.f1 = u.f1 := congrArg GestureCore.f1 h1
  simp only [currentDistOf, e0, e1]

theorem zoomInDist_succ (z : Dbl) (n : Nat) (g : Dbl) :
    zoomInDist z (n + 1) g = zoomInDist z n (Dbl.mul g z) := by
  unfold zoomInDist
  rw [Function.iterate_succ_apply]

/-- The zoom loop while the fingers are further apart than the reference
distance allows: `n` zoom-in steps when the test `zoomedBy > zoomStep` succeeds
for the first `n` reference distances and both tests fail for the next one. -/
theorem zoomIn_loop (env : Env) (c z : Dbl) (n : Nat) :
    ∀ (fuel : Nat) (u : State), n < fuel → u.amPerformingGesture = GESTURE_ZOOM →
    effectiveZoomStep env u.currentProfile = z → currentDistOf env u = c →
    (∀ i < n, Dbl.gt (Dbl.div c (zoomInDist z i u.gestureStartDist)) z = true) →
    Dbl.gt (Dbl.div c (zoomInDist z n u.gestureStartDist)) z = false →
    Dbl.lt (Dbl.div c (zoomInDist z n u.gestureStartDist)) (Dbl.div (Dbl.ofInt 1) z) = false →
    ∃ u', checkGestureLoop env fuel u = some u' ∧ coreOf u' = coreOf u ∧
      u'.gestureStartDist = zoomInDist z n u.gestureStartDist ∧
      u'.out = u.out ++ List.replicate n
        (Call.action (effectiveZoomInAction env u.currentProfile) EXECUTEACTION_BOTH) ∧
      (u.fingersDown ≠ 2 → u'.maxDist = u.maxDist) := by
  induction n with
  | zero =>
    intro fuel u hf hg hz hc _ hstop hnout
    obtain ⟨f, rfl⟩ : ∃ f, fuel = f + 1 := ⟨fuel - 1, by omega⟩
    obtain ⟨w1, w2, w3, -, -, -, w7⟩ := withMaxDist_core env u
    have hp : (withMaxDist env u).currentProfile = u.currentProfile :=
      congrArg GestureCore.currentProfile w1
    have hcg : checkGesture env u = (withMaxDist env u, 0) := by
      rw [checkGesture_zoom env u hg, hc]
      exact checkGestureZoom_rest env _ c (by rw [w3, hp, hz]; exact hstop)
        (by rw [w3, hp, hz]; exact hnout)
    refine ⟨withMaxDist env u, ?_, w1, ?_, ?_, w7⟩
    · simp only [checkGestureLoop, hcg, ne_eq, not_true_eq_false, if_false]
    · rw [w3]; rfl
    · rw [w2]; simp
  | succ n ih =>
    intro fuel u hf hg hz hc hin hstop hnout
    obtain ⟨f, rfl⟩ : ∃ f, fuel = f + 1 := ⟨fuel - 1, by omega⟩
    obtain ⟨w1, w2, w3, -, -, -, w7⟩ := withMaxDist_core env u
    have hp : (withMaxDist env u).currentProfile = u.currentProfile :=
      congrArg GestureCore.currentProfile w1
    have h0 : Dbl.gt (Dbl.div c u.gestureStartDist) z = true := hin 0 (Nat.succ_pos n)
    have hcg : checkGesture env u =
        ({ withMaxDist env u with
            out := (withMaxDist env u).out ++
              [Call.action (effectiveZoomInAction env (withMaxDist env u).currentProfile)
                EXECUTEACTION_BOTH]
            gestureStartDist := Dbl.mul (withMaxDist env u).gestureStartDist
              (effectiveZoomStep env (withMaxDist env u).currentProfile) }, 1) := by
      rw [checkGesture_zoom env u hg, hc]
      exact checkGestureZoom_in env _ c (by rw [w3, hp, hz]; exact h0)
    have fr := zoom_step_frame env u (withMaxDist env u)
      ((withMaxDist env u).out ++
        [Call.action (effectiveZoomInAction env (withMaxDist env u).currentProfile)
          EXECUTEACTION_BOTH])
      (Dbl.mul (withMaxDist env u).gestureStartDist
        (effectiveZoomStep env (withMaxDist env u).currentProfile)) rfl
    generalize hv : ({ withMaxDist env u with
            out := (withMaxDist env u).out ++
              [Call.action (effectiveZoomInAction env (withMaxDist env u).currentProfile)
                EXECUTEACTION_BOTH]
            gestureStartDist := Dbl.mul (withMaxDist env u).gestureStartDist
              (effectiveZoomStep env (withMaxDist env u).currentProfile) } : State) = v at hcg fr
    obtain ⟨fr1, fr2, fr3⟩ := fr
    have hvd : v.gestureStartDist = Dbl.mul u.gestureStartDist z := by
      rw [← hv]
      show Dbl.mul (withMaxDist env u).gestureStartDist
        (effectiveZoomStep env (withMaxDist env u).currentProfile) = _
      rw [w3, hp, hz]
    have hvo : v.out = (withMaxDist env u).out ++
        [Call.action (effectiveZoomInAction env (withMaxDist env u).currentProfile)
          EXECUTEACTION_BOTH] := by rw [← hv]
    have hp2 : v.currentProfile = u.currentProfile := congrArg GestureCore.currentProfile fr1
    have hg2 : v.amPerformingGesture = u.amPerformingGesture :=
      congrArg GestureCore.amPerformingGesture fr1
    have hfd2 : v.fingersDown = u.fingersDown := congrArg GestureCore.fingersDown fr1
    obtain ⟨u', e, k1, k2, k3, k4⟩ := ih f v (by omega) (hg2.trans hg)
      (by rw [hp2]; exact hz) (fr3.trans hc)
      (by
        intro i hi
        rw [hvd, ← zoomInDist_succ]
        exact hin (i + 1) (by omega))
      (by rw [hvd, ← zoomInDist_succ]; exact hstop)
      (by rw [hvd, ← zoomInDist_succ]; exact hnout)
    refine ⟨u', ?_, k1.trans fr1, ?_, ?_, fun h => (k4 (by rw [hfd2]; exact h)).trans (fr2 h)⟩
    · rw [checkGestureLoop, hcg]
      simp only [ne_eq, one_ne_zero, not_false_eq_true, if_true]
      exact e
    · rw [k2, hvd, ← zoomInDist_succ]
    · rw [k3, hvo, hp2, hp, w2, List.replicate_succ]
      simp

/-- With the reference distance 0 and the fingers apart the quotient
`currentDist / gestureStartDist` is `+∞`: the call executes the zoom-in Action,
leaves the reference distance `0 · zoomStep = 0` and returns 1. -/
theorem checkGestureZoom_stuck (env : Env) (t : State) (c z : ℚ)
    (hd : t.gestureStartDist = Dbl.fin 0) (hc0 : 0 < c)
    (hz : effectiveZoomStep env t.currentProfile = Dbl.fin z) :
    checkGestureZoom env t (Dbl.fin c) =
      ({ t with
          out := t.out ++
            [Call.action (effectiveZoomInAction env t.currentProfile) EXECUTEACTION_BOTH]
          gestureStartDist := Dbl.fin 0 }, 1) := by
  have hgt : Dbl.gt (Dbl.div (Dbl.fin c) t.gestureStartDist)
      (effectiveZoomStep env t.currentProfile) = true := by
    rw [hd, hz]
    simp [Dbl.gt, Dbl.div, Dbl.signedInf, Dbl.lt, ne_of_gt hc0, hc0]
  rw [checkGestureZoom_in env t (Dbl.fin c) hgt, hd, hz]
  simp only [Dbl.mul, zero_mul, Dbl.rnd_zero]

/-- With the reference distance 0 and the fingers apart, every call of
`checkGesture` in Zoom mode returns 1: the gesture loop does not end. -/
theorem zoom_stuck (env : Env) (c z : ℚ) (hc0 : 0 < c) (fuel : Nat) :
    ∀ u : State, u.amPerformingGesture = GESTURE_ZOOM → u.gestureStartDist = Dbl.fin 0 →
    effectiveZoomStep env u.currentProfile = Dbl.fin z → currentDistOf env u = Dbl.fin c →
    checkGestureLoop env fuel u = none := by
  induction fuel with
  | zero => intro u _ _ _ _; rfl
  | succ f ih =>
    intro u hg hd hz hc
    obtain ⟨w1, w2, w3, -, -, -, w7⟩ := withMaxDist_core env u
    have hp : (withMaxDist env u).currentProfile = u.currentProfile :=
      congrArg GestureCore.currentProfile w1
    have hcg : checkGesture env u =
        ({ withMaxDist env u with
            out := (withMaxDist env u).out ++
              [Call.action (effectiveZoomInAction env (withMaxDist env u).currentProfile)
                EXECUTEACTION_BOTH]
            gestureStartDist := Dbl.fin 0 }, 1) := by
      rw [checkGesture_zoom env u hg, hc]
      exact checkGestureZoom_stuck env _ c z (by rw [w3, hd]) hc0 (by rw [hp, hz])
    have fr := zoom_step_frame env u (withMaxDist env u)
      ((withMaxDist env u).out ++
        [Call.action (effectiveZoomInAction env (withMaxDist env u).currentProfile)
          EXECUTEACTION_BOTH]) (Dbl.fin 0) rfl
    generalize hv : ({ withMaxDist env u with
            out := (withMaxDist env u).out ++
              [Call.action (effectiveZoomInAction env (withMaxDist env u).currentProfile)
                EXECUTEACTION_BOTH]
            gestureStartDist := Dbl.fin 0 } : State) = v at hcg fr
    obtain ⟨fr1, -, fr3⟩ := fr
    have hvd : v.gestureStartDist = Dbl.fin 0 := by rw [← hv]
    have hp2 : v.currentProfile = u.currentProfile := congrArg GestureCore.currentProfile fr1
    have hg2 : v.amPerformingGesture = u.amPerformingGesture :=
      congrArg GestureCore.amPerformingGesture fr1
    rw [checkGestureLoop, hcg]
    simp only [ne_eq, one_ne_zero, not_false_eq_true, if_true]
    exact ih v (hg2.trans hg) hvd (by rw [hp2]; exact hz) (fr3.trans hc)

theorem calledActions_replicate (a : Action) (w : Int) (n : Nat) :
    calledActions (List.replicate n (Call.action a w)) = List.replicate n (a, w) := by
  induction n with
  | zero => rfl
  | succ k ih => simp only [List.replicate_succ, calledActions, ih]

/-- A tick that starts undecided with two fingers, an unmoved centre (scroll
test not met) and a finger distance that meets the zoom test is classified as
Zoom by the first call of `checkGesture`; the loop goes on in Zoom mode with
the reference distance unchanged and nothing executed so far. -/
theorem deviceTick_zoom_entry (env : Env) (s : State) (inp : TickInput) (c : Dbl)
    (ha : s.active ≠ 0) (h2 : s.hadTwoFingersOn = 1)
    (hg : s.amPerformingGesture = GESTURE_UNDECIDED) (hfd : inp.fingersDown = 2)
    (hcx : Int.tdiv (inp.f0.x + inp.f1.x) 2 = s.gestureStartCenterX)
    (hcy : Int.tdiv (inp.f0.y + inp.f1.y) 2 = s.gestureStartCenterY)
    (hs : ¬ Dbl.toInt (env.sqrt 0) > effectiveScrollMinDistance env s.currentProfile)
    (hc : env.sqrt ((inp.f1.x - inp.f0.x) * (inp.f1.x - inp.f0.x)
      + (inp.f1.y - inp.f0.y) * (inp.f1.y - inp.f0.y)) = c)
    (hzt : cAbs (Dbl.toInt (Dbl.sub (Dbl.ofInt (Dbl.toInt c)) s.gestureStartDist))
      > effectiveZoomMinDistance env s.currentProfile) :
    ∃ v2 pre,
      (∀ f, deviceTick env (f + 1) s inp = (checkGestureLoop env f v2).map finishTick) ∧
      deviceTick env 0 s inp = none ∧
      v2.amPerformingGesture = GESTURE_ZOOM ∧ v2.gestureStartDist = s.gestureStartDist ∧
      v2.currentProfile = s.currentProfile ∧ v2.fingersDown = 2 ∧
      currentDistOf env v2 = c ∧ v2.out = s.out ++ pre ∧ calledActions pre = [] := by
  unfold deviceTick
  generalize hu : ({ s with
    f0 := inp.f0, f1 := inp.f1, fingersDown := inp.fingersDown,
    fairlyCurrentTime := inp.time } : State) = u
  have ua : u.active ≠ 0 := by rw [← hu]; exact ha
  have u2 : u.hadTwoFingersOn = 1 := by rw [← hu]; exact h2
  have ufd : u.fingersDown = 2 := by rw [← hu]; exact hfd
  obtain ⟨w, pre, ew, wcore, wstart, wout, wq⟩ := processFingers_twoOn env u ua u2 (Or.inr ufd)
  obtain ⟨v, pre2, cx, cy, ev, vcore, vstart, vout, vq, vcen⟩ := twoFingersOn_entry env w
  have wfd : w.fingersDown = 2 := by
    rw [show w.fingersDown = u.fingersDown from congrArg GestureCore.fingersDown wcore]
    exact ufd
  have w0 : w.f0 = inp.f0 := by
    rw [show w.f0 = u.f0 from congrArg GestureCore.f0 wcore, ← hu]
  have w1 : w.f1 = inp.f1 := by
    rw [show w.f1 = u.f1 from congrArg GestureCore.f1 wcore, ← hu]
  obtain ⟨ecx, ecy⟩ := vcen wfd
  rw [w0, w1] at ecx ecy
  have vfd : v.fingersDown = 2 :=
    (show v.fingersDown = w.fingersDown from congrArg GestureCore.fingersDown vcore).trans wfd
  have v0 : v.f0 = inp.f0 :=
    (show v.f0 = w.f0 from congrArg GestureCore.f0 vcore).trans w0
  have v1 : v.f1 = inp.f1 :=
    (show v.f1 = w.f1 from congrArg GestureCore.f1 vcore).trans w1
  have vg : v.amPerformingGesture = GESTURE_UNDECIDED := by
    rw [show v.amPerformingGesture = w.amPerformingGesture from
      congrArg GestureCore.amPerformingGesture vcore,
      show w.amPerformingGesture = u.amPerformingGesture from
      congrArg GestureCore.amPerformingGesture wcore, ← hu]
    exact hg
  have vp : v.currentProfile = s.currentProfile := by
    rw [show v.currentProfile = w.currentProfile from congrArg GestureCore.currentProfile vcore,
      show w.currentProfile = u.currentProfile from congrArg GestureCore.currentProfile wcore,
      ← hu]
  have vccx : v.currentCenterX = cx := congrArg GestureCore.currentCenterX vcore
  have vccy : v.currentCenterY = cy := congrArg GestureCore.currentCenterY vcore
  have vsx : v.gestureStartCenterX = s.gestureStartCenterX := by
    rw [show v.gestureStartCenterX = w.gestureStartCenterX from
      congrArg GestureStart.gestureStartCenterX vstart,
      show w.gestureStartCenterX = u.gestureStartCenterX from
      congrArg GestureStart.gestureStartCenterX wstart, ← hu]
  have vsy : v.gestureStartCenterY = s.gestureStartCenterY := by
    rw [show v.gestureStartCenterY = w.gestureStartCenterY from
      congrArg GestureStart.gestureStartCenterY vstart,
      show w.gestureStartCenterY = u.gestureStartCenterY from
      congrArg GestureStart.gestureStartCenterY wstart, ← hu]
  have vsd : v.gestureStartDist = s.gestureStartDist := by
    rw [show v.gestureStartDist = w.gestureStartDist from
      congrArg GestureStart.gestureStartDist vstart,
      show w.gestureStartDist = u.gestureStartDist from
      congrArg GestureStart.gestureStartDist wstart, ← hu]
  have vmove : moveDistOf env v = env.sqrt 0 := by
    simp only [moveDistOf, vccx, vccy, vsx, vsy, ecx, ecy, hcx, hcy, sub_self, mul_zero, add_zero]
  have vcur : currentDistOf env v = c := by
    simp only [currentDistOf, v0, v1]
    exact hc
  obtain ⟨m1, m2, m3, -, -, -, -⟩ := withMaxDist_core env v
  have tp : (withMaxDist env v).currentProfile = s.currentProfile :=
    (show (withMaxDist env v).currentProfile = v.currentProfile from
      congrArg GestureCore.currentProfile m1).trans vp
  have hcg : checkGesture env v =
      ({ withMaxDist env v with amPerformingGesture := GESTURE_ZOOM }, 1) := by
    rw [checkGesture_undecided env v vg vfd,
      checkGestureUndecided_zoom env (withMaxDist env v) _ _ _
        (by rw [vmove, tp]; exact hs) (by rw [vcur, m3, vsd, tp]; exact hzt)]
    rfl
  generalize hv2 : ({ withMaxDist env v with amPerformingGesture := GESTURE_ZOOM } : State) = v2
    at hcg
  have v2core : coreOf v2 = coreOf { v with amPerformingGesture := GESTURE_ZOOM } := by
    rw [← hv2]
    have := m1
    simp only [coreOf] at this ⊢
    simp only [GestureCore.mk.injEq] at this ⊢
    tauto
  have v2g : v2.amPerformingGesture = GESTURE_ZOOM := by rw [← hv2]
  have v2d : v2.gestureStartDist = s.gestureStartDist := by rw [← hv2]; exact m3.trans vsd
  have v2p : v2.currentProfile = s.currentProfile := by rw [← hv2]; exact tp
  have v2o : v2.out = v.out := by rw [← hv2]; exact m2
  have v2fd : v2.fingersDown = 2 := by
    rw [show v2.fingersDown = v.fingersDown from congrArg GestureCore.fingersDown v2core]
    exact vfd
  have v2c : currentDistOf env v2 = c := by
    have e0 : v2.f0 = v.f0 := congrArg GestureCore.f0 v2core
    have e1 : v2.f1 = v.f1 := congrArg GestureCore.f1 v2core
    rw [← vcur]
    simp only [currentDistOf, e0, e1]
  refine ⟨v2, pre ++ pre2, ?_, ?_, v2g, v2d, v2p, v2fd, v2c, ?_, ?_⟩
  · intro f
    rw [ew, ev, checkGestureLoop, hcg]
    simp only [ne_eq, one_ne_zero, not_false_eq_true, if_true]
  · rw [ew, ev]
    rfl
  · rw [v2o, vout, wout, ← hu]
    simp only [List.append_assoc]
  · rw [calledActions_append, wq, vq]
    rfl

/-- A tick that starts undecided with an unmoved centre and a finger distance
that meets the zoom test makes `n` zoom-in steps when the test
`zoomedBy > zoomStep` succeeds for the first `n` reference distances and both
tests fail for the next one. -/
theorem deviceTick_zoom_in (env : Env) (s : State) (inp : TickInput) (c : Dbl) (n : Nat)
    (ha : s.active ≠ 0) (h2 : s.hadTwoFingersOn = 1)
    (hg : s.amPerformingGesture = GESTURE_UNDECIDED) (hfd : inp.fingersDown = 2)
    (hcx : Int.tdiv (inp.f0.x + inp.f1.x) 2 = s.gestureStartCenterX)
    (hcy : Int.tdiv (inp.f0.y + inp.f1.y) 2 = s.gestureStartCenterY)
    (hs : ¬ Dbl.toInt (env.sqrt 0) > effectiveScrollMinDistance env s.currentProfile)
    (hc : env.sqrt ((inp.f1.x - inp.f0.x) * (inp.f1.x - inp.f0.x)
      + (inp.f1.y - inp.f0.y) * (inp.f1.y - inp.f0.y)) = c)
    (hzt : cAbs (Dbl.toInt (Dbl.sub (Dbl.ofInt (Dbl.toInt c)) s.gestureStartDist))
      > effectiveZoomMinDistance env s.currentProfile)
    (hin : ∀ i < n, Dbl.gt
      (Dbl.div c (zoomInDist (effectiveZoomStep env s.currentProfile) i s.gestureStartDist))
      (effectiveZoomStep env s.currentProfile) = true)
    (hstop : Dbl.gt
      (Dbl.div c (zoomInDist (effectiveZoomStep env s.currentProfile) n s.gestureStartDist))
      (effectiveZoomStep env s.currentProfile) = false)
    (hnout : Dbl.lt
      (Dbl.div c (zoomInDist (effectiveZoomStep env s.currentProfile) n s.gestureStartDist))
      (Dbl.div (Dbl.ofInt 1) (effectiveZoomStep env s.currentProfile)) = false) :
    ∀ fuel, n + 1 < fuel → ∃ s' new, deviceTick env fuel s inp = some s' ∧
      s'.amPerformingGesture = GESTURE_ZOOM ∧ s'.out = s.out ++ new ∧
      calledActions new = List.replicate n
        (effectiveZoomInAction env s.currentProfile, EXECUTEACTION_BOTH) ∧
      s'.gestureStartDist
        = zoomInDist (effectiveZoomStep env s.currentProfile) n s.gestureStartDist := by
  intro fuel hfuel
  obtain ⟨f, rfl⟩ : ∃ f, fuel = f + 1 := ⟨fuel - 1, by omega⟩
  obtain ⟨v2, pre, e1, -, v2g, v2d, v2p, v2fd, v2c, v2o, pq⟩ :=
    deviceTick_zoom_entry env s inp c ha h2 hg hfd hcx hcy hs hc hzt
  obtain ⟨u', e, k1, k2, k3, -⟩ := zoomIn_loop env c (effectiveZoomStep env s.currentProfile) n f
    v2 (by omega) v2g (by rw [v2p]) v2c (by rw [v2d]; exact hin) (by rw [v2d]; exact hstop)
    (by rw [v2d]; exact hnout)
  have ufd2 : u'.fingersDown ≠ 0 := by
    rw [show u'.fingersDown = v2.fingersDown from congrArg GestureCore.fingersDown k1, v2fd]
    decide
  refine ⟨{ u' with fingersWereDown := u'.fingersDown },
    pre ++ List.replicate n
      (Call.action (effectiveZoomInAction env s.currentProfile) EXECUTEACTION_BOTH), ?_, ?_, ?_,
    ?_, ?_⟩
  · rw [e1 f, e, Option.map_some', finishTick_down _ ufd2]
  · show u'.amPerformingGesture = GESTURE_ZOOM
    exact (congrArg GestureCore.amPerformingGesture k1).trans v2g
  · show u'.out = _
    rw [k3, v2o, v2p]
    simp only [List.append_assoc]
  · rw [calledActions_append, pq, calledActions_replicate]
    rfl
  · show u'.gestureStartDist = _
    rw [k2, v2d]

/-- The difference of two `int` values is computed without rounding. -/
theorem Dbl.sub_intCast (a b : Int) (h : |((a - b : Int) : ℚ)| < 9007199254740992) :
    Dbl.sub (Dbl.ofInt a) (Dbl.fin (b : ℚ)) = Dbl.fin ((a - b : Int) : ℚ) := by
  simp only [Dbl.sub, Dbl.ofInt, Dbl.neg, Dbl.add]
  rw [← Dbl.rnd_intCast (a - b) h]
  congr 1
  push_cast
  ring

/-- The value `5404319552844595 / 2^52` is the `double` nearest to `1.2`. -/
theorem rnd_six_fifths : Dbl.rnd (6 / 5) = Dbl.fin (5404319552844595 / 4503599627370496) := by
  rw [Dbl.rnd_eq_pos (6 / 5) (-52) 5404319552844595 (by norm_num) (by norm_num)
    (by norm_num) (by norm_num) (by norm_num) (by norm_num)]
  norm_num

theorem pinch_div_0 : Dbl.div (Dbl.fin 150) (Dbl.fin 100) = Dbl.fin (3 / 2) := by
  have hd : ¬ ((100 : ℚ) = 0) := by norm_num
  simp only [Dbl.div, if_neg hd]
  rw [Dbl.rnd_eq_pos (150 / 100) (-52) 6755399441055744 (by norm_num) (by norm_num)
    (by norm_num) (by norm_num) (by norm_num) (by norm_num)]
  norm_num

/-- `100 * 1.2` in `double` arithmetic is `120`. -/
theorem pinch_mul_1 :
    Dbl.mul (Dbl.fin 100) (Dbl.fin (5404319552844595 / 4503599627370496)) = Dbl.fin 120 := by
  simp only [Dbl.mul]
  rw [Dbl.rnd_eq_pos _ (-46) 8444249301319680 (by norm_num) (by norm_num)
    (by norm_num) (by norm_num) (by norm_num) (by norm_num)]
  norm_num

theorem pinch_div_1 : Dbl.div (Dbl.fin 150) (Dbl.fin 120) = Dbl.fin (5 / 4) := by
  have hd : ¬ ((120 : ℚ) = 0) := by norm_num
  simp only [Dbl.div, if_neg hd]
  rw [Dbl.rnd_eq_pos (150 / 120) (-52) 5629499534213120 (by norm_num) (by norm_num)
    (by norm_num) (by norm_num) (by norm_num) (by norm_num)]
  norm_num

/-- `120 * 1.2` in `double` arithmetic is `144`. -/
theorem pinch_mul_2 :
    Dbl.mul (Dbl.fin 120) (Dbl.fin (5404319552844595 / 4503599627370496)) = Dbl.fin 144 := by
  simp only [Dbl.mul]
  rw [Dbl.rnd_eq_pos _ (-45) 5066549580791808 (by norm_num) (by norm_num)
    (by norm_num) (by norm_num) (by norm_num) (by norm_num)]
  norm_num

theorem pinch_div_2 :
    ∃ w : ℚ, Dbl.div (Dbl.fin 150) (Dbl.fin 144) = Dbl.fin w ∧ 1 < w ∧ w < 11 / 10 := by
  have hd : ¬ ((144 : ℚ) = 0) := by norm_num
  obtain ⟨w, e, hw⟩ := Dbl.rnd_err_mid (150 / 144) (by norm_num [le_abs]) (by norm_num [abs_le])
  have ha : |(150 : ℚ) / 144| = 150 / 144 := abs_of_pos (by norm_num)
  rw [ha, abs_le] at hw
  refine ⟨w, ?_, ?_, ?_⟩
  · simp only [Dbl.div, if_neg hd]
    exact e
  · linarith
  · linarith

/-- The bound `1 / zoomStep` of the zoom-out test for `zoomStep = 1.2`. -/
theorem pinch_inv :
    ∃ u : ℚ, Dbl.div (Dbl.ofInt 1) (Dbl.fin (5404319552844595 / 4503599627370496)) = Dbl.fin u ∧
      u < 9 / 10 := by
  have hd : ¬ ((5404319552844595 : ℚ) / 4503599627370496 = 0) := by norm_num
  obtain ⟨u, e, hu⟩ := Dbl.rnd_err_mid (1 / (5404319552844595 / 4503599627370496))
    (by norm_num [le_abs]) (by norm_num [abs_le])
  have ha : |(1 : ℚ) / (5404319552844595 / 4503599627370496)|
      = 1 / (5404319552844595 / 4503599627370496) := abs_of_pos (by norm_num)
  rw [ha, abs_le] at hu
  refine ⟨u, ?_, ?_⟩
  · simp only [Dbl.div, Dbl.ofInt, if_neg hd, Int.cast_one]
    exact e
  · have : (1 : ℚ) / (5404319552844595 / 4503599627370496) < 84 / 100 := by norm_num
    linarith

theorem pinch_div_144 :
    ∃ w : ℚ, Dbl.div (Dbl.fin 144) (Dbl.fin 100) = Dbl.fin w ∧ 14 / 10 < w := by
  have hd : ¬ ((100 : ℚ) = 0) := by norm_num
  obtain ⟨w, e, hw⟩ := Dbl.rnd_err_mid (144 / 100) (by norm_num [le_abs]) (by norm_num [abs_le])
  have ha : |(144 : ℚ) / 100| = 144 / 100 := abs_of_pos (by norm_num)
  rw [ha, abs_le] at hw
  refine ⟨w, ?_, ?_⟩
  · simp only [Dbl.div, if_neg hd]
    exact e
  · linarith

/-- `144 / 120` in `double` arithmetic is the `double` `1.2` itself. -/
theorem pinch_div_144_120 :
    Dbl.div (Dbl.fin 144) (Dbl.fin 120) = Dbl.fin (5404319552844595 / 4503599627370496) := by
  have hd : ¬ ((120 : ℚ) = 0) := by norm_num
  simp only [Dbl.div, if_neg hd]
  rw [Dbl.rnd_eq_pos (144 / 120) (-52) 5404319552844595 (by norm_num) (by norm_num)
    (by norm_num) (by norm_num) (by norm_num) (by norm_num)]
  norm_num

/-- The zoom test `abs((int) currentDist - gestureStartDist) > zoomMinDistance`
of the pinch examples: `c - 100 > 20` for an `int` distance `c` in `121..1000`. -/
theorem pinch_zoom_test (c : Int) (h1 : 121 ≤ c) (h2 : c ≤ 1000) :
    cAbs (Dbl.toInt (Dbl.sub (Dbl.ofInt (Dbl.toInt (Dbl.fin (c : ℚ)))) pinchState.gestureStartDist))
      > effectiveZoomMinDistance pinchEnv pinchState.currentProfile := by
  have e1 : Dbl.toInt (Dbl.fin (c : ℚ)) = c := Dbl.toInt_fin_intCast c (by omega)
  have hb : |((c - 100 : Int) : ℚ)| < 9007199254740992 := by
    have : |c - 100| < 9007199254740992 := by rw [abs_lt]; omega
    exact_mod_cast this
  have e2 : Dbl.sub (Dbl.ofInt c) (Dbl.fin ((100 : Int) : ℚ)) = Dbl.fin ((c - 100 : Int) : ℚ) :=
    Dbl.sub_intCast c 100 hb
  have e3 : Dbl.toInt (Dbl.fin ((c - 100 : Int) : ℚ)) = c - 100 :=
    Dbl.toInt_fin_intCast (c - 100) (by omega)
  have e4 : pinchState.gestureStartDist = Dbl.fin ((100 : Int) : ℚ) := by
    show Dbl.fin 100 = _
    norm_num
  rw [e1, e4, e2, e3]
  show cAbs (c - 100) > 20
  unfold cAbs
  split_ifs <;> omega

/-- The reference distances of the pinch example: `100`, `120`, `144`. -/
theorem pinch_dists :
    zoomInDist (Dbl.fin (5404319552844595 / 4503599627370496)) 1 (Dbl.fin 100) = Dbl.fin 120 ∧
    zoomInDist (Dbl.fin (5404319552844595 / 4503599627370496)) 2 (Dbl.fin 100) = Dbl.fin 144 := by
  unfold zoomInDist
  simp only [Function.iterate_succ, Function.iterate_zero, Function.comp_apply, id_eq,
    pinch_mul_1, pinch_mul_2, and_self]

/-- The pinch example of the claim (reference distance 100, fingers 150 apart,
zoom step 1.2): the zoom-in test succeeds at the reference distances 100 and
120. -/
theorem pinch_in_tests : ∀ i < 2, Dbl.gt
    (Dbl.div (Dbl.fin ((150 : Int) : ℚ))
      (zoomInDist (effectiveZoomStep pinchEnv pinchState.currentProfile) i
        pinchState.gestureStartDist))
    (effectiveZoomStep pinchEnv pinchState.currentProfile) = true := by
  have hz : effectiveZoomStep pinchEnv pinchState.currentProfile
      = Dbl.fin (5404319552844595 / 4503599627370496) := rfl
  have hd : pinchState.gestureStartDist = Dbl.fin 100 := rfl
  have h150 : ((150 : Int) : ℚ) = 150 := by norm_num
  intro i hi
  rw [hz, hd, h150]
  have hi2 : i = 0 ∨ i = 1 := by omega
  rcases hi2 with rfl | rfl
  · show Dbl.gt (Dbl.div (Dbl.fin 150) (Dbl.fin 100)) _ = true
    rw [pinch_div_0]
    simp only [Dbl.gt, Dbl.lt, decide_eq_true_eq]
    norm_num
  · rw [pinch_dists.1, pinch_div_1]
    simp only [Dbl.gt, Dbl.lt, decide_eq_true_eq]
    norm_num

/-- In the pinch example the zoom-in test fails at the reference distance 144. -/
theorem pinch_stop_test : Dbl.gt
    (Dbl.div (Dbl.fin ((150 : Int) : ℚ))
      (zoomInDist (effectiveZoomStep pinchEnv pinchState.currentProfile) 2
        pinchState.gestureStartDist))
    (effectiveZoomStep pinchEnv pinchState.currentProfile) = false := by
  obtain ⟨w, ew, hw1, hw2⟩ := pinch_div_2
  have hz : effectiveZoomStep pinchEnv pinchState.currentProfile
      = Dbl.fin (5404319552844595 / 4503599627370496) := rfl
  have hd : pinchState.gestureStartDist = Dbl.fin 100 := rfl
  have h150 : ((150 : Int) : ℚ) = 150 := by norm_num
  rw [hz, hd, pinch_dists.2, h150, ew]
  simp only [Dbl.gt, Dbl.lt, decide_eq_false_iff_not, not_lt]
  have : (5404319552844595 : ℚ) / 4503599627370496 ≥ 11 / 10 := by norm_num
  linarith

/-- In the pinch example the zoom-out test fails at the reference distance
144. -/
theorem pinch_out_test : Dbl.lt
    (Dbl.div (Dbl.fin ((150 : Int) : ℚ))
      (zoomInDist (effectiveZoomStep pinchEnv pinchState.currentProfile) 2
        pinchState.gestureStartDist))
    (Dbl.div (Dbl.ofInt 1) (effectiveZoomStep pinchEnv pinchState.currentProfile)) = false := by
  obtain ⟨w, ew, hw1, hw2⟩ := pinch_div_2
  obtain ⟨u, eu, hu⟩ := pinch_inv
  have hz : effectiveZoomStep pinchEnv pinchState.currentProfile
      = Dbl.fin (5404319552844595 / 4503599627370496) := rfl
  have hd : pinchState.gestureStartDist = Dbl.fin 100 := rfl
  have h150 : ((150 : Int) : ℚ) = 150 := by norm_num
  rw [hz, hd, pinch_dists.2, h150, ew, eu]
  simp only [Dbl.lt, decide_eq_false_iff_not, not_lt]
  linarith

/-- The tick of the pinch example: two zoom-in steps, and
`gestureStartDist = 144`. -/
theorem pinch_150 :
    ∃ s' new, deviceTick pinchEnv 4 pinchState pinchTick = some s' ∧
      s'.amPerformingGesture = GESTURE_ZOOM ∧ s'.out = pinchState.out ++ new ∧
      calledActions new = List.replicate 2
        (effectiveZoomInAction pinchEnv pinchState.currentProfile, EXECUTEACTION_BOTH) ∧
      s'.gestureStartDist = Dbl.fin 144 := by
  have hz : effectiveZoomStep pinchEnv pinchState.currentProfile
      = Dbl.fin (5404319552844595 / 4503599627370496) := rfl
  have hd : pinchState.gestureStartDist = Dbl.fin 100 := rfl
  obtain ⟨s', new, e, g, o, q, dist⟩ := deviceTick_zoom_in pinchEnv pinchState pinchTick
    (Dbl.fin ((150 : Int) : ℚ)) 2 (by decide) rfl rfl rfl (by decide) (by decide) (by decide)
    (by decide) (pinch_zoom_test 150 (by decide) (by decide))
    pinch_in_tests pinch_stop_test pinch_out_test 4 (by decide)
  refine ⟨s', new, e, g, o, q, ?_⟩
  rw [dist, hz, hd, pinch_dists.2]

/-- With the fingers 144 apart the first quotient `144 / 100` exceeds the
`double` `1.2`, and the second, `144 / 120`, is that `double` itself: one
zoom-in step, and `gestureStartDist = 120`. -/
theorem pinch_144 :
    ∃ s' new, deviceTick pinchEnv 3 pinchState pinchTick144 = some s' ∧
      s'.amPerformingGesture = GESTURE_ZOOM ∧ s'.out = pinchState.out ++ new ∧
      calledActions new = List.replicate 1
        (effectiveZoomInAction pinchEnv pinchState.currentProfile, EXECUTEACTION_BOTH) ∧
      s'.gestureStartDist = Dbl.fin 120 := by
  obtain ⟨w, ew, hw1⟩ := pinch_div_144
  obtain ⟨u, eu, hu⟩ := pinch_inv
  have hz : effectiveZoomStep pinchEnv pinchState.currentProfile
      = Dbl.fin (5404319552844595 / 4503599627370496) := rfl
  have hd : pinchState.gestureStartDist = Dbl.fin 100 := rfl
  have h144 : ((144 : Int) : ℚ) = 144 := by norm_num
  obtain ⟨s', new, e, g, o, q, dist⟩ := deviceTick_zoom_in pinchEnv pinchState pinchTick144
    (Dbl.fin ((144 : Int) : ℚ)) 1 (by decide) rfl rfl rfl (by decide) (by decide) (by decide)
    (by decide) (pinch_zoom_test 144 (by decide) (by decide))
    (by
      intro i hi
      have hi2 : i = 0 := by omega
      subst hi2
      rw [hz, hd]
      show Dbl.gt (Dbl.div (Dbl.fin ((144 : Int) : ℚ)) (Dbl.fin 100)) _ = true
      rw [h144, ew]
      simp only [Dbl.gt, Dbl.lt, decide_eq_true_eq]
      have : (5404319552844595 : ℚ) / 4503599627370496 < 14 / 10 := by norm_num
      linarith)
    (by
      rw [hz, hd, pinch_dists.1, h144, pinch_div_144_120]
      simp only [Dbl.gt, Dbl.lt, decide_eq_false_iff_not, not_lt, le_refl])
    (by
      rw [hz, hd, pinch_dists.1, h144, pinch_div_144_120, eu]
      simp only [Dbl.lt, decide_eq_false_iff_not, not_lt]
      have : (5404319552844595 : ℚ) / 4503599627370496 ≥ 9 / 10 := by norm_num
      linarith)
    3 (by decide)
  refine ⟨s', new, e, g, o, q, ?_⟩
  rw [dist, hz, hd, pinch_dists.1]

/-- C20 (as stated, refuted): the claim's own example. From the undecided state
with `gestureStartDist = 100` and `zoomStep = 1.2`, the tick with an unmoved
centre and the fingers 150 apart (zoom test met, `150 / 100 > 1.2`) executes
`zoomInAction` twice and leaves `gestureStartDist = 144`, not once and 120:
after the first step `150 / 120 = 1.25` still exceeds 1.2. -/
theorem C20_counterexample_two_steps :
    ∃ s', deviceTick pinchEnv 4 pinchState pinchTick = some s' ∧
      s'.amPerformingGesture = GESTURE_ZOOM ∧
      calledActions s'.out =
        [(pinchProfile.zoomInAction, EXECUTEACTION_BOTH),
         (pinchProfile.zoomInAction, EXECUTEACTION_BOTH)] ∧
      s'.gestureStartDist = Dbl.fin 144 ∧ s'.gestureStartDist ≠ Dbl.fin 120 := by
  obtain ⟨s', new, e, g, o, q, dist⟩ := pinch_150
  refine ⟨s', e, g, ?_, dist, ?_⟩
  · rw [o, calledActions_append, q]
    rfl
  · rw [dist]
    intro h
    injection h with h
    norm_num at h

/-- C20 (amended): in an active state with `hadTwoFingersOn = 1` and the
gesture undecided, a tick with two fingers whose centre has not moved (scroll
test not met) and whose distance `c` meets the zoom test returns, classifies
the gesture as Zoom and executes `zoomInAction` with phase BOTH exactly `n`
times, where `n` counts the successes of the test
`c / gestureStartDist > zoomStep` in `double` arithmetic: it succeeds for the
reference distances `d, d·s, …, d·s^(n-1)` (each product rounded) and fails
for `d·s^n`, where the zoom-out test fails too. No other Action is executed
and `gestureStartDist` is the `n`-fold rounded product `d·s^n` afterwards.
With `c / d > s` as in the claim `n ≥ 1`, and `n = 1` only if `c / (d·s) > s`
fails. -/
theorem C20_zoom_in_steps (env : Env) (s : State) (inp : TickInput) (c : Dbl) (n : Nat)
    (ha : s.active ≠ 0) (h2 : s.hadTwoFingersOn = 1)
    (hg : s.amPerformingGesture = GESTURE_UNDECIDED) (hfd : inp.fingersDown = 2)
    (hcx : Int.tdiv (inp.f0.x + inp.f1.x) 2 = s.gestureStartCenterX)
    (hcy : Int.tdiv (inp.f0.y + inp.f1.y) 2 = s.gestureStartCenterY)
    (hs : ¬ Dbl.toInt (env.sqrt 0) > effectiveScrollMinDistance env s.currentProfile)
    (hc : env.sqrt ((inp.f1.x - inp.f0.x) * (inp.f1.x - inp.f0.x)
      + (inp.f1.y - inp.f0.y) * (inp.f1.y - inp.f0.y)) = c)
    (hzt : cAbs (Dbl.toInt (Dbl.sub (Dbl.ofInt (Dbl.toInt c)) s.gestureStartDist))
      > effectiveZoomMinDistance env s.currentProfile)
    (hin : ∀ i < n, Dbl.gt
      (Dbl.div c (zoomInDist (effectiveZoomStep env s.currentProfile) i s.gestureStartDist))
      (effectiveZoomStep env s.currentProfile) = true)
    (hstop : Dbl.gt
      (Dbl.div c (zoomInDist (effectiveZoomStep env s.currentProfile) n s.gestureStartDist))
      (effectiveZoomStep env s.currentProfile) = false)
    (hnout : Dbl.lt
      (Dbl.div c (zoomInDist (effectiveZoomStep env s.currentProfile) n s.gestureStartDist))
      (Dbl.div (Dbl.ofInt 1) (effectiveZoomStep env s.currentProfile)) = false) :
    ∀ fuel, n + 1 < fuel → ∃ s' new, deviceTick env fuel s inp = some s' ∧
      s'.amPerformingGesture = GESTURE_ZOOM ∧ s'.out = s.out ++ new ∧
      calledActions new = List.replicate n
        (effectiveZoomInAction env s.currentProfile, EXECUTEACTION_BOTH) ∧
      s'.gestureStartDist
        = zoomInDist (effectiveZoomStep env s.currentProfile) n s.gestureStartDist :=
  deviceTick_zoom_in env s inp c n ha h2 hg hfd hcx hcy hs hc hzt hin hstop hnout

/-- Witness for C20: reference distance 100, fingers 150 apart, zoom step 1.2:
two zoom-in steps. -/
theorem C20_zoom_in_steps_witness :
    ∃ s' new, deviceTick pinchEnv 4 pinchState pinchTick = some s' ∧
      s'.amPerformingGesture = GESTURE_ZOOM ∧ s'.out = pinchState.out ++ new ∧
      calledActions new = List.replicate 2
        (effectiveZoomInAction pinchEnv pinchState.currentProfile, EXECUTEACTION_BOTH) ∧
      s'.gestureStartDist
        = zoomInDist (effectiveZoomStep pinchEnv pinchState.currentProfile) 2
            pinchState.gestureStartDist :=
  C20_zoom_in_steps pinchEnv pinchState pinchTick (Dbl.fin ((150 : Int) : ℚ)) 2 (by decide) rfl
    rfl rfl (by decide) (by decide) (by decide) (by decide)
    (pinch_zoom_test 150 (by decide) (by decide)) pinch_in_tests pinch_stop_test pinch_out_test
    4 (by decide)

/-- The zoom test after `touchTogether`: the reference distance is 0 and the
fingers are 300 apart. -/
theorem spread_zoom_test :
    cAbs (Dbl.toInt (Dbl.sub (Dbl.ofInt (Dbl.toInt (Dbl.fin ((300 : Int) : ℚ))))
      (Dbl.fin ((0 : Int) : ℚ)))) > 100 := by
  have e1 : Dbl.toInt (Dbl.fin ((300 : Int) : ℚ)) = 300 := Dbl.toInt_fin_intCast 300 (by decide)
  have e2 : Dbl.sub (Dbl.ofInt 300) (Dbl.fin ((0 : Int) : ℚ)) = Dbl.fin ((300 - 0 : Int) : ℚ) :=
    Dbl.sub_intCast 300 0 (by norm_num)
  have e3 : Dbl.toInt (Dbl.fin ((300 - 0 : Int) : ℚ)) = 300 :=
    Dbl.toInt_fin_intCast (300 - 0) (by decide)
  rw [e1, e2, e3]
  decide

/-- C18 (the code departs from the claim): two fingers that touch at the same
point leave `gestureStartDist = 0` (line 531) with the gesture undecided. When
they then spread 300 apart around the same centre, the tick classifies the
gesture as Zoom and stays in `while (checkGesture());`: the quotient
`currentDist / gestureStartDist` of line 866 is `+∞`, every call executes the
zoom-in Action, multiplies the reference distance `0` by `zoomStep = 1.2` and
returns 1, so the tick has not returned after any number of calls. The same
holds for the loop entered in Zoom mode with the reference distance 0. -/
theorem C18_zoom_loop_hangs_at_zero_distance :
    (∃ s1, runTicks demoEnv 0 idleState [touchTogether] = some s1 ∧
      s1.gestureStartDist = Dbl.fin 0 ∧ s1.amPerformingGesture = GESTURE_UNDECIDED ∧
      effectiveZoomStep demoEnv s1.currentProfile
        = Dbl.fin (5404319552844595 / 4503599627370496) ∧
      ∀ fuel, deviceTick demoEnv fuel s1 spreadTick = none) ∧
    (zoomStuckState.gestureStartDist = Dbl.fin 0 ∧
      ¬ ∃ n s', checkGestureLoop demoEnv n zoomStuckState = some s') := by
  constructor
  · have hs : (runTicks demoEnv 0 idleState [touchTogether]).isSome = true := by decide
    obtain ⟨s1, h1⟩ := Option.isSome_iff_exists.1 hs
    have a1 : s1.active ≠ 0 := by
      have : (runTicks demoEnv 0 idleState [touchTogether]).map (fun s => s.active) = some 1 := by
        decide
      rw [h1] at this
      simp only [Option.map_some', Option.some.injEq] at this
      rw [this]; decide
    have a2 : s1.hadTwoFingersOn = 1 := by
      have : (runTicks demoEnv 0 idleState [touchTogether]).map (fun s => s.hadTwoFingersOn)
          = some 1 := by decide
      rw [h1] at this
      simpa using this
    have a3 : s1.amPerformingGesture = GESTURE_UNDECIDED := by
      have : (runTicks demoEnv 0 idleState [touchTogether]).map (fun s => s.amPerformingGesture)
          = some GESTURE_UNDECIDED := by decide
      rw [h1] at this
      simpa using this
    have a4 : s1.gestureStartCenterX = 250 ∧ s1.gestureStartCenterY = 100 := by
      have : (runTicks demoEnv 0 idleState [touchTogether]).map
          (fun s => (s.gestureStartCenterX, s.gestureStartCenterY)) = some (250, 100) := by decide
      rw [h1] at this
      simpa using this
    have a5 : s1.gestureStartDist = Dbl.fin ((0 : Int) : ℚ) := by
      have : (runTicks demoEnv 0 idleState [touchTogether]).map (fun s => s.gestureStartDist)
          = some (Dbl.fin ((0 : Int) : ℚ)) := by decide
      rw [h1] at this
      simpa using this
    have a6 : s1.currentProfile = demoProfile := by
      have : (runTicks demoEnv 0 idleState [touchTogether]).map (fun s => s.currentProfile)
          = some demoProfile := rfl
      rw [h1] at this
      simpa using this
    have a5' : s1.gestureStartDist = Dbl.fin 0 := by rw [a5]; norm_num
    obtain ⟨v2, pre, e1, e0, v2g, v2d, v2p, -, v2c, -, -⟩ :=
      deviceTick_zoom_entry demoEnv s1 spreadTick (Dbl.fin ((300 : Int) : ℚ)) a1 a2 a3 rfl
        (by rw [a4.1]; decide) (by rw [a4.2]; decide) (by rw [a6]; decide) (by decide)
        (by rw [a5, a6]; exact spread_zoom_test)
    refine ⟨s1, h1, a5', a3, by rw [a6]; rfl, fun fuel => ?_⟩
    cases fuel with
    | zero => exact e0
    | succ f =>
      rw [e1 f, zoom_stuck demoEnv 300 (5404319552844595 / 4503599627370496) (by norm_num) f v2
        v2g (by rw [v2d]; exact a5') (by rw [v2p, a6]; rfl) (by rw [v2c]; norm_num)]
      rfl
  · refine ⟨rfl, ?_⟩
    rintro ⟨n, s', h⟩
    have hc : currentDistOf demoEnv zoomStuckState = Dbl.fin 300 := by decide
    rw [zoom_stuck demoEnv 300 (5404319552844595 / 4503599627370496) (by norm_num) n
      zoomStuckState rfl rfl rfl hc] at h
    exact Option.noConfusion h

/-! ### The gesture loop with the gesture decided -/

theorem checkGestureScroll_core (env : Env) (t : State) :
    coreOf (checkGestureScroll env t).1 = coreOf t ∧
    (checkGestureScroll env t).1.maxDist = t.maxDist := by
  unfold checkGestureScroll State.emit
  simp only
  split_ifs <;> exact ⟨rfl, rfl⟩

theorem checkGestureZoom_core (env : Env) (t : State) (cd : Dbl) :
    coreOf (checkGestureZoom env t cd).1 = coreOf t ∧
    (checkGestureZoom env t cd).1.maxDist = t.maxDist := by
  unfold checkGestureZoom State.emit
  simp only
  split_ifs <;> exact ⟨rfl, rfl⟩

theorem checkGestureRotate_core (env : Env) (t : State) (ca : Dbl) :
    coreOf (checkGestureRotate env t ca).1 = coreOf t ∧
    (checkGestureRotate env t ca).1.maxDist = t.maxDist ∧
    (checkGestureRotate env t ca).2 = 0 := by
  unfold checkGestureRotate State.emit
  simp only
  split_ifs <;> exact ⟨rfl, rfl, rfl⟩

/-- A call of `checkGesture` that finds the gesture Scroll, Zoom or Rotate
leaves the variables of `GestureCore` unchanged, and `maxDist` too unless two
fingers are down. -/
theorem checkGesture_decided_core (env : Env) (u : State)
    (hg : u.amPerformingGesture = GESTURE_SCROLL ∨ u.amPerformingGesture = GESTURE_ZOOM
      ∨ u.amPerformingGesture = GESTURE_ROTATE) :
    coreOf (checkGesture env u).1 = coreOf u ∧
    (u.fingersDown ≠ 2 → (checkGesture env u).1.maxDist = u.maxDist) := by
  have h1 : ¬ (u.amPerformingGesture = GESTURE_UNDECIDED ∧ u.fingersDown = 2) := by
    rintro ⟨h, _⟩
    rcases hg with g | g | g <;> rw [g] at h <;> revert h <;> decide
  obtain ⟨w1, -, -, -, -, -, w7⟩ := withMaxDist_core env u
  rw [checkGesture_switch env u h1]
  split_ifs with a b c
  · obtain ⟨k1, k2⟩ := checkGestureScroll_core env (withMaxDist env u)
    exact ⟨k1.trans w1, fun h => k2.trans (w7 h)⟩
  · obtain ⟨k1, k2⟩ := checkGestureZoom_core env (withMaxDist env u) (currentDistOf env u)
    exact ⟨k1.trans w1, fun h => k2.trans (w7 h)⟩
  · obtain ⟨k1, k2, -⟩ := checkGestureRotate_core env (withMaxDist env u) (currentAngleOf env u)
    exact ⟨k1.trans w1, fun h => k2.trans (w7 h)⟩
  · exact ⟨w1, w7⟩

theorem checkGestureLoop_decided_core (env : Env) (fuel : Nat) : ∀ (u u' : State),
    (u.amPerformingGesture = GESTURE_SCROLL ∨ u.amPerformingGesture = GESTURE_ZOOM
      ∨ u.amPerformingGesture = GESTURE_ROTATE) →
    checkGestureLoop env fuel u = some u' →
    coreOf u' = coreOf u ∧ (u.fingersDown ≠ 2 → u'.maxDist = u.maxDist) := by
  induction fuel with
  | zero => intro u u' _ h; exact Option.noConfusion h
  | succ f ih =>
    intro u u' hg h
    obtain ⟨k1, k2⟩ := checkGesture_decided_core env u hg
    rw [checkGestureLoop] at h
    split_ifs at h with hr
    · have hg2 : (checkGesture env u).1.amPerformingGesture = GESTURE_SCROLL
          ∨ (checkGesture env u).1.amPerformingGesture = GESTURE_ZOOM
          ∨ (checkGesture env u).1.amPerformingGesture = GESTURE_ROTATE := by
        rw [show (checkGesture env u).1.amPerformingGesture = u.amPerformingGesture from
          congrArg GestureCore.amPerformingGesture k1]
        exact hg
      obtain ⟨j1, j2⟩ := ih _ u' hg2 h
      have hfd : (checkGesture env u).1.fingersDown = u.fingersDown :=
        congrArg GestureCore.fingersDown k1
      exact ⟨j1.trans k1, fun hn => (j2 (by rw [hfd]; exact hn)).trans (k2 hn)⟩
    · injection h with h
      rw [← h]
      exact ⟨k1, k2⟩

theorem rotate_loop_ends (env : Env) (fuel : Nat) (u : State)
    (hg : u.amPerformingGesture = GESTURE_ROTATE) :
    ∃ u', checkGestureLoop env (fuel + 1) u = some u' := by
  have h1 : ¬ (u.amPerformingGesture = GESTURE_UNDECIDED ∧ u.fingersDown = 2) := by
    rw [hg]; rintro ⟨h, _⟩; revert h; decide
  have h2 : ¬ u.amPerformingGesture = GESTURE_SCROLL := by rw [hg]; decide
  have h3 : ¬ u.amPerformingGesture = GESTURE_ZOOM := by rw [hg]; decide
  have hr : (checkGesture env u).2 = 0 := by
    rw [checkGesture_switch env u h1, if_neg h2, if_neg h3, if_pos hg]
    exact (checkGestureRotate_core env _ _).2.2
  refine ⟨(checkGesture env u).1, ?_⟩
  rw [checkGestureLoop, if_neg (by rw [hr]; decide)]

/-- One call of `checkGesture` in Scroll mode with non-negative steps either
returns 0 or brings the reference centre nearer to the current centre. -/
theorem checkGestureScroll_progress (env : Env) (t : State)
    (hh : 0 ≤ effectiveHscrollStep env t.currentProfile)
    (hv : 0 ≤ effectiveVscrollStep env t.currentProfile) :
    (checkGestureScroll env t).2 = 0 ∨
    ((t.currentCenterX - (checkGestureScroll env t).1.gestureStartCenterX).natAbs
      + (t.currentCenterY - (checkGestureScroll env t).1.gestureStartCenterY).natAbs
      < (t.currentCenterX - t.gestureStartCenterX).natAbs
        + (t.currentCenterY - t.gestureStartCenterY).natAbs) := by
  unfold effectiveHscrollStep at hh
  unfold effectiveVscrollStep at hv
  unfold checkGestureScroll State.emit
  simp only
  split_ifs at hh hv ⊢ <;> first
    | (left; rfl)
    | (right; simp only; omega)

theorem scroll_loop_ends (env : Env) (n : Nat) : ∀ (fuel : Nat) (u : State), n < fuel →
    u.amPerformingGesture = GESTURE_SCROLL →
    0 ≤ effectiveHscrollStep env u.currentProfile →
    0 ≤ effectiveVscrollStep env u.currentProfile →
    (u.currentCenterX - u.gestureStartCenterX).natAbs
      + (u.currentCenterY - u.gestureStartCenterY).natAbs ≤ n →
    ∃ u', checkGestureLoop env fuel u = some u' := by
  induction n with
  | zero =>
    intro fuel u hf hg hh hv hm
    obtain ⟨f, rfl⟩ : ∃ f, fuel = f + 1 := ⟨fuel - 1, by omega⟩
    have h1 : ¬ (u.amPerformingGesture = GESTURE_UNDECIDED ∧ u.fingersDown = 2) := by
      rw [hg]; rintro ⟨h, _⟩; revert h; decide
    obtain ⟨w1, -, -, w4, w5, -, -⟩ := withMaxDist_core env u
    have tp : (withMaxDist env u).currentProfile = u.currentProfile :=
      congrArg GestureCore.currentProfile w1
    have tx : (withMaxDist env u).currentCenterX = u.currentCenterX :=
      congrArg GestureCore.currentCenterX w1
    have ty : (withMaxDist env u).currentCenterY = u.currentCenterY :=
      congrArg GestureCore.currentCenterY w1
    have hcg : checkGesture env u = checkGestureScroll env (withMaxDist env u) := by
      rw [checkGesture_switch env u h1, if_pos hg]
    rcases checkGestureScroll_progress env (withMaxDist env u) (by rw [tp]; exact hh)
      (by rw [tp]; exact hv) with h0 | hlt
    · refine ⟨(checkGesture env u).1, ?_⟩
      rw [checkGestureLoop, if_neg (by rw [hcg, h0]; decide)]
    · rw [tx, ty, w4, w5] at hlt
      omega
  | succ n ih =>
    intro fuel u hf hg hh hv hm
    obtain ⟨f, rfl⟩ : ∃ f, fuel = f + 1 := ⟨fuel - 1, by omega⟩
    have h1 : ¬ (u.amPerformingGesture = GESTURE_UNDECIDED ∧ u.fingersDown = 2) := by
      rw [hg]; rintro ⟨h, _⟩; revert h; decide
    obtain ⟨w1, -, -, w4, w5, -, -⟩ := withMaxDist_core env u
    have tp : (withMaxDist env u).currentProfile = u.currentProfile :=
      congrArg GestureCore.currentProfile w1
    have tx : (withMaxDist env u).currentCenterX = u.currentCenterX :=
      congrArg GestureCore.currentCenterX w1
    have ty : (withMaxDist env u).currentCenterY = u.currentCenterY :=
      congrArg GestureCore.currentCenterY w1
    have hcg : checkGesture env u = checkGestureScroll env (withMaxDist env u) := by
      rw [checkGesture_switch env u h1, if_pos hg]
    obtain ⟨k1, -⟩ := checkGestureScroll_core env (withMaxDist env u)
    by_cases hr : (checkGesture env u).2 = 0
    · refine ⟨(checkGesture env u).1, ?_⟩
      rw [checkGestureLoop, if_neg (by rw [hr]; decide)]
    · rcases checkGestureScroll_progress env (withMaxDist env u) (by rw [tp]; exact hh)
        (by rw [tp]; exact hv) with h0 | hlt
      · exact absurd (by rw [hcg]; exact h0) hr
      · rw [tx, ty, w4, w5] at hlt
        have c1 := k1.trans w1
        have np : (checkGestureScroll env (withMaxDist env u)).1.currentProfile
            = u.currentProfile := congrArg GestureCore.currentProfile c1
        have ng : (checkGestureScroll env (withMaxDist env u)).1.amPerformingGesture
            = u.amPerformingGesture := congrArg GestureCore.amPerformingGesture c1
        have nx : (checkGestureScroll env (withMaxDist env u)).1.currentCenterX
            = u.currentCenterX := congrArg GestureCore.currentCenterX c1
        have ny : (checkGestureScroll env (withMaxDist env u)).1.currentCenterY
            = u.currentCenterY := congrArg GestureCore.currentCenterY c1
        obtain ⟨u', e⟩ := ih f (checkGestureScroll env (withMaxDist env u)).1 (by omega)
          (ng.trans hg) (by rw [np]; exact hh) (by rw [np]; exact hv)
          (by rw [nx, ny]; omega)
        refine ⟨u', ?_⟩
        rw [checkGestureLoop, if_pos hr, hcg]
        exact e

/-- A tick with one or two real fingers in an active state with
`hadTwoFingersOn = 1` is the gesture loop, entered with `ignoreFingersUp = 0`
and the current centre set, followed by the end of `processFingers`. -/
theorem deviceTick_resume (env : Env) (s : State) (inp : TickInput)
    (ha : s.active ≠ 0) (h2 : s.hadTwoFingersOn = 1)
    (hfd : inp.fingersDown = 1 ∨ inp.fingersDown = 2) :
    ∃ w v cx cy,
      (∀ fuel, deviceTick env fuel s inp = (twoFingersOn env fuel w).map finishTick) ∧
      (∀ fuel, twoFingersOn env fuel w = checkGestureLoop env fuel v) ∧
      coreOf w = coreOf { s with
        f0 := inp.f0, f1 := inp.f1, fingersDown := inp.fingersDown,
        fairlyCurrentTime := inp.time, ignoreFingersUp := 0 } ∧
      coreOf v = coreOf { s with
        f0 := inp.f0, f1 := inp.f1, fingersDown := inp.fingersDown,
        fairlyCurrentTime := inp.time, ignoreFingersUp := 0,
        currentCenterX := cx, currentCenterY := cy } ∧
      startOf v = startOf s := by
  obtain ⟨w, pre, ew, wcore, wstart, -, -⟩ := processFingers_twoOn env
    { s with
      f0 := inp.f0, f1 := inp.f1, fingersDown := inp.fingersDown,
      fairlyCurrentTime := inp.time } ha h2 hfd
  obtain ⟨v, pre2, cx, cy, ev, vcore, vstart, -, -, -⟩ := twoFingersOn_entry env w
  refine ⟨w, v, cx, cy, fun fuel => ew fuel, ev, wcore, ?_, vstart.trans wstart⟩
  rw [vcore]
  simp only [coreOf, GestureCore.mk.injEq] at wcore ⊢
  simp only [wcore, and_self]

/-- A call in Zoom mode whose zoom-in test fails and whose zoom-out test
succeeds executes the zoom-out Action, divides the reference distance by the
zoom step and returns 1. -/
theorem checkGestureZoom_out (env : Env) (t : State) (c : Dbl)
    (hgt : Dbl.gt (Dbl.div c t.gestureStartDist) (effectiveZoomStep env t.currentProfile) = false)
    (hlt : Dbl.lt (Dbl.div c t.gestureStartDist)
      (Dbl.div (Dbl.ofInt 1) (effectiveZoomStep env t.currentProfile)) = true) :
    checkGestureZoom env t c =
      ({ t with
          out := t.out ++
            [Call.action (effectiveZoomOutAction env t.currentProfile) EXECUTEACTION_BOTH]
          gestureStartDist :=
            Dbl.div t.gestureStartDist (effectiveZoomStep env t.currentProfile) }, 1) := by
  unfold effectiveZoomStep at hgt hlt
  unfold checkGestureZoom effectiveZoomOutAction effectiveZoomStep
  simp only [hgt, hlt, if_true, if_false, Bool.false_eq_true, State.emit]
  split_ifs <;> rfl

/-- Division of a positive reference distance by a zoom step between 1.19 and
2 gives a positive reference distance again: the quotient does not round to
zero, because half the least positive `double` is not reached. -/
theorem zoomOut_dist (g z : ℚ) (hg1 : (2 : ℚ) ^ (-1074 : Int) ≤ g)
    (hg2 : g ≤ (2 : ℚ) ^ (1000 : Int)) (hz1 : 119 / 100 ≤ z) (hz2 : z < 2) :
    ∃ g2 : ℚ, Dbl.div (Dbl.fin g) (Dbl.fin z) = Dbl.fin g2 ∧
      (2 : ℚ) ^ (-1074 : Int) ≤ g2 ∧ g2 ≤ (2 : ℚ) ^ (1000 : Int) := by
  have hz0 : 0 < z := by linarith
  have hg0 : 0 < g := lt_of_lt_of_le (by positivity) hg1
  have h75 : (2 : ℚ) ^ (-1075 : Int) = 2 ^ (-1074 : Int) / 2 := by
    rw [show (-1075 : Int) = -1074 - 1 by norm_num, zpow_sub₀ (by norm_num), zpow_one]
  have hq1 : (2 : ℚ) ^ (-1075 : Int) < g / z := by
    rw [lt_div_iff₀ hz0, h75]
    have hP : (0 : ℚ) < 2 ^ (-1074 : Int) := by positivity
    calc (2 : ℚ) ^ (-1074 : Int) / 2 * z < 2 ^ (-1074 : Int) / 2 * 2 :=
          mul_lt_mul_of_pos_left hz2 (by positivity)
      _ = 2 ^ (-1074 : Int) := by ring
      _ ≤ g := hg1
  have hq2 : g / z ≤ 100 / 119 * g := by
    rw [div_le_iff₀ hz0]
    nlinarith
  have hG : (0 : ℚ) < 2 ^ (1000 : Int) := by positivity
  obtain ⟨v, e, hv1, hv2⟩ := Dbl.rnd_pos (g / z) hq1 (by linarith)
  refine ⟨v, ?_, hv1, ?_⟩
  · simp only [Dbl.div, if_neg (ne_of_gt hz0)]
    exact e
  · have c1 : g / z / 2 ^ (53 : Int) ≤ g / z / 8 := by
      apply div_le_div_of_nonneg_left (by positivity) (by norm_num) (by norm_num)
    have c2 : (2 : ℚ) ^ (-1075 : Int) ≤ 2 ^ (1000 : Int) / 32 := by
      have : (2 : ℚ) ^ (1000 : Int) / 32 = 2 ^ (995 : Int) := by
        rw [show (995 : Int) = 1000 - 5 by norm_num, zpow_sub₀ (by norm_num)]
        norm_num
      rw [this]
      exact zpow_le_zpow_right₀ (by norm_num) (by norm_num)
    linarith

/-- With the two touch points at the same place (current distance 0), a
positive reference distance and a zoom step between 1.19 and 2, every call of
`checkGesture` in Zoom mode executes the zoom-out Action, divides the
reference distance and returns 1: the gesture loop does not end. -/
theorem zoomOut_stuck (env : Env) (z : ℚ) (hz1 : 119 / 100 ≤ z) (hz2 : z < 2) (fuel : Nat) :
    ∀ (u : State) (g : ℚ), u.amPerformingGesture = GESTURE_ZOOM →
    u.gestureStartDist = Dbl.fin g → (2 : ℚ) ^ (-1074 : Int) ≤ g → g ≤ (2 : ℚ) ^ (1000 : Int) →
    effectiveZoomStep env u.currentProfile = Dbl.fin z → currentDistOf env u = Dbl.fin 0 →
    checkGestureLoop env fuel u = none := by
  have hz0 : 0 < z := by linarith
  induction fuel with
  | zero => intro u g _ _ _ _ _ _; rfl
  | succ f ih =>
    intro u g hg hd hg1 hg2 hz hc
    have hg0 : 0 < g := lt_of_lt_of_le (by positivity) hg1
    obtain ⟨w1, w2, w3, -, -, -, w7⟩ := withMaxDist_core env u
    have hp : (withMaxDist env u).currentProfile = u.currentProfile :=
      congrArg GestureCore.currentProfile w1
    obtain ⟨g2, eg, hg21, hg22⟩ := zoomOut_dist g z hg1 hg2 hz1 hz2
    have hq : Dbl.div (Dbl.fin 0) (Dbl.fin g) = Dbl.fin 0 := by
      simp only [Dbl.div, if_neg (ne_of_gt hg0), zero_div, Dbl.rnd_zero]
    obtain ⟨r, er, hr⟩ : ∃ r : ℚ, Dbl.div (Dbl.ofInt 1) (Dbl.fin z) = Dbl.fin r ∧ 0 < r := by
      have ha : |(1 : ℚ) / z| = 1 / z := abs_of_pos (by positivity)
      have hb1 : (1 : ℚ) / 2 ≤ 1 / z := by
        rw [div_le_div_iff₀ (by norm_num) hz0]
        linarith
      have hb2 : (1 : ℚ) / z ≤ 1 := by
        rw [div_le_one hz0]
        linarith
      obtain ⟨r, er, hr⟩ := Dbl.rnd_err_mid (1 / z) (by rw [ha]; linarith) (by rw [ha]; linarith)
      rw [ha, abs_le] at hr
      refine ⟨r, ?_, by linarith⟩
      simp only [Dbl.div, Dbl.ofInt, if_neg (ne_of_gt hz0), Int.cast_one]
      exact er
    have hcg : checkGesture env u =
        ({ withMaxDist env u with
            out := (withMaxDist env u).out ++
              [Call.action (effectiveZoomOutAction env (withMaxDist env u).currentProfile)
                EXECUTEACTION_BOTH]
            gestureStartDist := Dbl.div (withMaxDist env u).gestureStartDist
              (effectiveZoomStep env (withMaxDist env u).currentProfile) }, 1) := by
      rw [checkGesture_zoom env u hg, hc]
      refine checkGestureZoom_out env _ (Dbl.fin 0) ?_ ?_
      · rw [w3, hd, hp, hz, hq]
        simp only [Dbl.gt, Dbl.lt, decide_eq_false_iff_not, not_lt]
        exact le_of_lt hz0
      · rw [w3, hd, hp, hz, hq, er]
        simp only [Dbl.lt, decide_eq_true_eq]
        exact hr
    have fr := zoom_step_frame env u (withMaxDist env u)
      ((withMaxDist env u).out ++
        [Call.action (effectiveZoomOutAction env (withMaxDist env u).currentProfile)
          EXECUTEACTION_BOTH])
      (Dbl.div (withMaxDist env u).gestureStartDist
        (effectiveZoomStep env (withMaxDist env u).currentProfile)) rfl
    generalize hv : ({ withMaxDist env u with
            out := (withMaxDist env u).out ++
              [Call.action (effectiveZoomOutAction env (withMaxDist env u).currentProfile)
                EXECUTEACTION_BOTH]
            gestureStartDist := Dbl.div (withMaxDist env u).gestureStartDist
              (effectiveZoomStep env (withMaxDist env u).currentProfile) } : State) = v at hcg fr
    obtain ⟨fr1, -, fr3⟩ := fr
    have hvd : v.gestureStartDist = Dbl.fin g2 := by
      rw [← hv]
      show Dbl.div (withMaxDist env u).gestureStartDist
        (effectiveZoomStep env (withMaxDist env u).currentProfile) = _
      rw [w3, hd, hp, hz, eg]
    have hp2 : v.currentProfile = u.currentProfile := congrArg GestureCore.currentProfile fr1
    have hg2' : v.amPerformingGesture = u.amPerformingGesture :=
      congrArg GestureCore.amPerformingGesture fr1
    rw [checkGestureLoop, hcg]
    simp only [ne_eq, one_ne_zero, not_false_eq_true, if_true]
    exact ih v g2 (hg2'.trans hg) hvd hg21 hg22 (by rw [hp2]; exact hz) (fr3.trans hc)

/-- In an active state with `hadTwoFingersOn = 1` and the gesture Scroll, Zoom
or Rotate, a tick with one or two real fingers takes the branch
`TWO_FINGERS_ON` with `ignoreFingersUp` cleared; when it returns,
`ignoreFingersUp = 0`, the gesture and `hadTwoFingersOn = 1` are as before,
`maxDist` is unchanged when `fingersDown = 1`, and the continuation worker,
finding `ignoreFingersUp = 0` after its sleep, leaves the state as it is. The
tick returns in Rotate mode, and in Scroll mode when the scroll steps are not
negative. -/
theorem resumed_tick (env : Env) (s : State) (inp : TickInput)
    (ha : s.active ≠ 0) (h2 : s.hadTwoFingersOn = 1)
    (hg : s.amPerformingGesture = GESTURE_SCROLL ∨ s.amPerformingGesture = GESTURE_ZOOM
      ∨ s.amPerformingGesture = GESTURE_ROTATE)
    (hfd : inp.fingersDown = 1 ∨ inp.fingersDown = 2) :
    (∃ w, (∀ fuel, deviceTick env fuel s inp = (twoFingersOn env fuel w).map finishTick) ∧
      w.ignoreFingersUp = 0 ∧ w.amPerformingGesture = s.amPerformingGesture) ∧
    (∀ fuel s', deviceTick env fuel s inp = some s' →
      s'.ignoreFingersUp = 0 ∧ s'.amPerformingGesture = s.amPerformingGesture ∧
      s'.hadTwoFingersOn = 1 ∧ (inp.fingersDown = 1 → s'.maxDist = s.maxDist) ∧
      ∀ fuel2, continuationTimeout env fuel2 s' = some s') ∧
    (s.amPerformingGesture = GESTURE_ROTATE →
      ∀ fuel, 1 ≤ fuel → ∃ s', deviceTick env fuel s inp = some s') ∧
    (s.amPerformingGesture = GESTURE_SCROLL → 0 ≤ effectiveHscrollStep env s.currentProfile →
      0 ≤ effectiveVscrollStep env s.currentProfile →
      ∃ n : Nat, ∀ fuel, n < fuel → ∃ s', deviceTick env fuel s inp = some s') := by
  obtain ⟨w, v, cx, cy, ew, ev, wcore, vcore, vstart⟩ := deviceTick_resume env s inp ha h2 hfd
  have vg : v.amPerformingGesture = s.amPerformingGesture :=
    congrArg GestureCore.amPerformingGesture vcore
  have vfd : v.fingersDown = inp.fingersDown := congrArg GestureCore.fingersDown vcore
  have vp : v.currentProfile = s.currentProfile := congrArg GestureCore.currentProfile vcore
  have hret : ∀ fuel u', checkGestureLoop env fuel v = some u' →
      deviceTick env fuel s inp = some { u' with fingersWereDown := u'.fingersDown } := by
    intro fuel u' e
    obtain ⟨k1, -⟩ := checkGestureLoop_decided_core env fuel v u' (by rw [vg]; exact hg) e
    have ufd : u'.fingersDown ≠ 0 := by
      rw [show u'.fingersDown = v.fingersDown from congrArg GestureCore.fingersDown k1, vfd]
      omega
    rw [ew fuel, ev fuel, e, Option.map_some', finishTick_down _ ufd]
  refine ⟨⟨w, ew, congrArg GestureCore.ignoreFingersUp wcore,
    congrArg GestureCore.amPerformingGesture wcore⟩, ?_, ?_, ?_⟩
  · intro fuel s' h
    rw [ew fuel, ev fuel] at h
    cases e : checkGestureLoop env fuel v with
    | none => rw [e] at h; exact Option.noConfusion h
    | some u' =>
      obtain ⟨k1, k2⟩ := checkGestureLoop_decided_core env fuel v u' (by rw [vg]; exact hg) e
      have ufd : u'.fingersDown ≠ 0 := by
        rw [show u'.fingersDown = v.fingersDown from congrArg GestureCore.fingersDown k1, vfd]
        omega
      rw [e, Option.map_some', finishTick_down _ ufd] at h
      injection h with h
      have c1 := k1.trans vcore
      have i0 : s'.ignoreFingersUp = 0 := by
        rw [← h]
        exact congrArg GestureCore.ignoreFingersUp c1
      refine ⟨i0, ?_, ?_, ?_, ?_⟩
      · rw [← h]
        exact congrArg GestureCore.amPerformingGesture c1
      · rw [← h]
        exact (congrArg GestureCore.hadTwoFingersOn c1).trans h2
      · intro h1
        rw [← h]
        show u'.maxDist = s.maxDist
        rw [k2 (by rw [vfd, h1]; decide)]
        exact congrArg GestureStart.maxDist vstart
      · intro fuel2
        unfold continuationTimeout
        rw [if_neg (by rw [i0]; decide)]
  · intro hr fuel hf
    obtain ⟨f, rfl⟩ : ∃ f, fuel = f + 1 := ⟨fuel - 1, by omega⟩
    obtain ⟨u', e⟩ := rotate_loop_ends env f v (vg.trans hr)
    exact ⟨_, hret _ u' e⟩
  · intro hsc hh hv
    refine ⟨(v.currentCenterX - v.gestureStartCenterX).natAbs
      + (v.currentCenterY - v.gestureStartCenterY).natAbs, fun fuel hf => ?_⟩
    obtain ⟨u', e⟩ := scroll_loop_ends env _ fuel v hf (vg.trans hsc) (by rw [vp]; exact hh)
      (by rw [vp]; exact hv) (le_refl _)
    exact ⟨_, hret _ u' e⟩

/-- C14 (the code departs from the claim): the continuation is running after
a Zoom gesture (`ignoreFingersUp = 1`, `hadTwoFingersOn = 1`, reference
distance 100, zoom step 1.2) and one finger comes back at the point that the
other slot still holds. The tick clears `ignoreFingersUp` and takes the branch
`TWO_FINGERS_ON`, but it does not return: the current distance is 0, so
`zoomedBy = 0 < 1 / zoomStep` in every call of `checkGesture`; each call
executes the zoom-out Action, divides the reference distance, which stays
positive, and returns 1. The post-state that the claim describes is never
reached. -/
theorem C14_resumed_zoom_tick_hangs :
    (continuedZoomState.active ≠ 0 ∧ continuedZoomState.ignoreFingersUp = 1 ∧
      continuedZoomState.hadTwoFingersOn = 1 ∧
      continuedZoomState.amPerformingGesture = GESTURE_ZOOM ∧ returnTick.fingersDown = 1) ∧
    (∃ w, (∀ fuel, deviceTick demoEnv fuel continuedZoomState returnTick
          = (twoFingersOn demoEnv fuel w).map finishTick) ∧
      w.ignoreFingersUp = 0 ∧ w.amPerformingGesture = GESTURE_ZOOM) ∧
    ∀ fuel, deviceTick demoEnv fuel continuedZoomState returnTick = none := by
  obtain ⟨w, v, cx, cy, ew, ev, wcore, vcore, vstart⟩ :=
    deviceTick_resume demoEnv continuedZoomState returnTick (by decide) rfl (Or.inl rfl)
  refine ⟨⟨by decide, rfl, rfl, rfl, rfl⟩,
    ⟨w, ew, congrArg GestureCore.ignoreFingersUp wcore,
      congrArg GestureCore.amPerformingGesture wcore⟩, fun fuel => ?_⟩
  have vg : v.amPerformingGesture = GESTURE_ZOOM :=
    congrArg GestureCore.amPerformingGesture vcore
  have vp : v.currentProfile = demoProfile := congrArg GestureCore.currentProfile vcore
  have vd : v.gestureStartDist = Dbl.fin 100 := congrArg GestureStart.gestureStartDist vstart
  have v0 : v.f0 = returnTick.f0 := congrArg GestureCore.f0 vcore
  have v1 : v.f1 = returnTick.f1 := congrArg GestureCore.f1 vcore
  have vc : currentDistOf demoEnv v = Dbl.fin 0 := by
    have : currentDistOf demoEnv v = Dbl.fin ((0 : Int) : ℚ) := by
      simp only [currentDistOf, v0, v1]
      decide
    rw [this]
    norm_num
  have h1 : (2 : ℚ) ^ (-1074 : Int) ≤ 100 := by
    have : (2 : ℚ) ^ (-1074 : Int) ≤ 2 ^ (0 : Int) :=
      zpow_le_zpow_right₀ (by norm_num) (by norm_num)
    rw [zpow_zero] at this
    linarith
  have h2 : (100 : ℚ) ≤ 2 ^ (1000 : Int) := by
    have : (2 : ℚ) ^ (7 : Int) ≤ 2 ^ (1000 : Int) :=
      zpow_le_zpow_right₀ (by norm_num) (by norm_num)
    have e : (2 : ℚ) ^ (7 : Int) = 128 := by norm_num
    rw [e] at this
    linarith
  rw [ew fuel, ev fuel, zoomOut_stuck demoEnv (5404319552844595 / 4503599627370496)
    (by norm_num) (by norm_num) fuel v 100 vg vd h1 h2 (by rw [vp]; rfl) vc]
  rfl

/-! ### Profile inheritance -/

theorem checkGestureScroll_inherit (env : Env) (t : State) (p q : Profile)
    (hp : p.scrollInherit ≠ 0) (hq : ScrollFromDefault env q) :
    checkGestureScroll env { t with currentProfile := p } =
      ({ (checkGestureScroll env { t with currentProfile := q }).1 with currentProfile := p },
        (checkGestureScroll env { t with currentProfile := q }).2) := by
  unfold checkGestureScroll State.emit
  by_cases hf : q.scrollInherit ≠ 0
  · simp only [if_pos hp, if_pos hf]
    split_ifs <;> rfl
  · rcases hq with hq | ⟨-, e2, e3, -, e5, e6, e7, e8⟩
    · exact absurd hq hf
    · simp only [if_pos hp, if_neg hf, e2, e3, e5, e6, e7, e8]
      split_ifs <;> rfl

theorem checkGestureZoom_inherit (env : Env) (t : State) (cd : Dbl) (p q : Profile)
    (hp : p.zoomInherit ≠ 0) (hq : ZoomFromDefault env q) :
    checkGestureZoom env { t with currentProfile := p } cd =
      ({ (checkGestureZoom env { t with currentProfile := q } cd).1 with currentProfile := p },
        (checkGestureZoom env { t with currentProfile := q } cd).2) := by
  unfold checkGestureZoom State.emit
  by_cases hf : q.zoomInherit ≠ 0
  · simp only [if_pos hp, if_pos hf]
    split_ifs <;> rfl
  · rcases hq with hq | ⟨-, e2, e3, e4⟩
    · exact absurd hq hf
    · simp only [if_pos hp, if_neg hf, e2, e3, e4]
      split_ifs <;> rfl

theorem checkGestureRotate_inherit (env : Env) (t : State) (ca : Dbl) (p q : Profile)
    (hp : p.rotateInherit ≠ 0) (hq : RotateFromDefault env q) :
    checkGestureRotate env { t with currentProfile := p } ca =
      ({ (checkGestureRotate env { t with currentProfile := q } ca).1 with currentProfile := p },
        (checkGestureRotate env { t with currentProfile := q } ca).2) := by
  unfold checkGestureRotate State.emit
  by_cases hf : q.rotateInherit ≠ 0
  · simp only [if_pos hp, if_pos hf]
    split_ifs <;> rfl
  · rcases hq with hq | ⟨-, -, e3, e4, e5⟩
    · exact absurd hq hf
    · simp only [if_pos hp, if_neg hf, e3, e4, e5]
      split_ifs <;> rfl

theorem checkGestureUndecided_inherit (env : Env) (t : State) (cd ca md : Dbl) (p q : Profile)
    (hp : p.scrollInherit ≠ 0 ∧ p.zoomInherit ≠ 0 ∧ p.rotateInherit ≠ 0)
    (hs : ScrollFromDefault env q) (hz : ZoomFromDefault env q) (hr : RotateFromDefault env q) :
    checkGestureUndecided env { t with currentProfile := p } cd ca md =
      (checkGestureUndecided env { t with currentProfile := q } cd ca md).map
        (fun r => ({ r.1 with currentProfile := p }, r.2)) := by
  have e1 : (if q.scrollInherit ≠ 0 then env.defaultProfile.scrollMinDistance
      else q.scrollMinDistance) = env.defaultProfile.scrollMinDistance := by
    rcases hs with h | h
    · rw [if_pos h]
    · split_ifs
      · rfl
      · exact h.1
  have e2 : (if q.zoomInherit ≠ 0 then env.defaultProfile.zoomMinDistance
      else q.zoomMinDistance) = env.defaultProfile.zoomMinDistance := by
    rcases hz with h | h
    · rw [if_pos h]
    · split_ifs
      · rfl
      · exact h.1
  have e3 : (if q.rotateInherit ≠ 0 then env.defaultProfile.rotateMinDistance
      else q.rotateMinDistance) = env.defaultProfile.rotateMinDistance := by
    rcases hr with h | h
    · rw [if_pos h]
    · split_ifs
      · rfl
      · exact h.1
  have e4 : (if q.rotateInherit ≠ 0 then env.defaultProfile.rotateMinAngle
      else q.rotateMinAngle) = env.defaultProfile.rotateMinAngle := by
    rcases hr with h | h
    · rw [if_pos h]
    · split_ifs
      · rfl
      · exact h.2.1
  unfold checkGestureUndecided State.emit
  simp only [if_pos hp.1, if_pos hp.2.1, if_pos hp.2.2, e1, e2, e3, e4]
  by_cases hf : q.scrollInherit ≠ 0
  · simp only [if_pos hf]
    split_ifs <;> rfl
  · rcases hs with hs | ⟨-, -, -, e5, -⟩
    · exact absurd hs hf
    · simp only [if_neg hf, e5]
      split_ifs <;> rfl

theorem withMaxDist_profile (env : Env) (s : State) (p : Profile) :
    withMaxDist env { s with currentProfile := p }
      = { withMaxDist env s with currentProfile := p } := by
  unfold withMaxDist moveDistOf
  simp only
  split_ifs <;> rfl

/-- The result of `checkGesture` under an all-inheriting profile `p` is that
under any profile `q` whose gesture parameters are those of `defaultProfile`,
up to the variable `currentProfile` itself. -/
theorem checkGesture_inherit (env : Env) (s : State) (p q : Profile)
    (hp : p.scrollInherit ≠ 0 ∧ p.zoomInherit ≠ 0 ∧ p.rotateInherit ≠ 0)
    (hs : ScrollFromDefault env q) (hz : ZoomFromDefault env q) (hr : RotateFromDefault env q) :
    checkGesture env { s with currentProfile := p } =
      ({ (checkGesture env { s with currentProfile := q }).1 with currentProfile := p },
        (checkGesture env { s with currentProfile := q }).2) := by
  by_cases hu : s.amPerformingGesture = GESTURE_UNDECIDED ∧ s.fingersDown = 2
  · have hP : checkGesture env { s with currentProfile := p } =
        (checkGestureUndecided env { withMaxDist env s with currentProfile := p }
          (currentDistOf env s) (currentAngleOf env s) (moveDistOf env s)).getD
          ({ withMaxDist env s with currentProfile := p }, 0) := by
      rw [checkGesture_undecided env { s with currentProfile := p } hu.1 hu.2,
        withMaxDist_profile]
      rfl
    have hQ : checkGesture env { s with currentProfile := q } =
        (checkGestureUndecided env { withMaxDist env s with currentProfile := q }
          (currentDistOf env s) (currentAngleOf env s) (moveDistOf env s)).getD
          ({ withMaxDist env s with currentProfile := q }, 0) := by
      rw [checkGesture_undecided env { s with currentProfile := q } hu.1 hu.2,
        withMaxDist_profile]
      rfl
    rw [hP, hQ, checkGestureUndecided_inherit env (withMaxDist env s) _ _ _ p q hp hs hz hr]
    cases checkGestureUndecided env { withMaxDist env s with currentProfile := q }
      (currentDistOf env s) (currentAngleOf env s) (moveDistOf env s) <;> rfl
  · have hP : checkGesture env { s with currentProfile := p } =
        if s.amPerformingGesture = GESTURE_SCROLL then
          checkGestureScroll env { withMaxDist env s with currentProfile := p }
        else if s.amPerformingGesture = GESTURE_ZOOM then
          checkGestureZoom env { withMaxDist env s with currentProfile := p }
            (currentDistOf env s)
        else if s.amPerformingGesture = GESTURE_ROTATE then
          checkGestureRotate env { withMaxDist env s with currentProfile := p }
            (currentAngleOf env s)
        else ({ withMaxDist env s with currentProfile := p }, 0) := by
      rw [checkGesture_switch env { s with currentProfile := p } hu, withMaxDist_profile]
      rfl
    have hQ : checkGesture env { s with currentProfile := q } =
        if s.amPerformingGesture = GESTURE_SCROLL then
          checkGestureScroll env { withMaxDist env s with currentProfile := q }
        else if s.amPerformingGesture = GESTURE_ZOOM then
          checkGestureZoom env { withMaxDist env s with currentProfile := q }
            (currentDistOf env s)
        else if s.amPerformingGesture = GESTURE_ROTATE then
          checkGestureRotate env { withMaxDist env s with currentProfile := q }
            (currentAngleOf env s)
        else ({ withMaxDist env s with currentProfile := q }, 0) := by
      rw [checkGesture_switch env { s with currentProfile := q } hu, withMaxDist_profile]
      rfl
    rw [hP, hQ]
    split_ifs
    · exact checkGestureScroll_inherit env (withMaxDist env s) p q hp.1 hs
    · exact checkGestureZoom_inherit env (withMaxDist env s) (currentDistOf env s) p q hp.2.1 hz
    · exact checkGestureRotate_inherit env (withMaxDist env s) (currentAngleOf env s) p q
        hp.2.2 hr
    · rfl

/-- C17: for every state and every profile `p` with `scrollInherit`,
`zoomInherit` and `rotateInherit` set, `checkGesture` run with
`currentProfile = p` returns the same value and leaves the same state (the
trace of executed Actions included), up to the variable `currentProfile`
itself, as `checkGesture` run with `p`'s scroll, zoom and rotate thresholds,
steps and Actions replaced by those of `defaultProfile`; and any two such
profiles give the same result, so `p`'s own values have no influence. -/
theorem C17_inherit_reads_default (env : Env) (s : State) (p : Profile)
    (hp : p.scrollInherit ≠ 0 ∧ p.zoomInherit ≠ 0 ∧ p.rotateInherit ≠ 0) :
    ((checkGesture env { s with currentProfile := p }).2
        = (checkGesture env { s with currentProfile := withDefaultGestures env p }).2 ∧
      (checkGesture env { s with currentProfile := p }).1
        = { (checkGesture env { s with currentProfile := withDefaultGestures env p }).1 with
            currentProfile := p }) ∧
    (∀ p2 : Profile, p2.scrollInherit ≠ 0 ∧ p2.zoomInherit ≠ 0 ∧ p2.rotateInherit ≠ 0 →
      (checkGesture env { s with currentProfile := p }).2
        = (checkGesture env { s with currentProfile := p2 }).2 ∧
      (checkGesture env { s with currentProfile := p }).1.out
        = (checkGesture env { s with currentProfile := p2 }).1.out ∧
      (checkGesture env { s with currentProfile := p }).1
        = { (checkGesture env { s with currentProfile := p2 }).1 with currentProfile := p }) := by
  constructor
  · have h := checkGesture_inherit env s p (withDefaultGestures env p) hp
      (Or.inr ⟨rfl, rfl, rfl, rfl, rfl, rfl, rfl, rfl⟩) (Or.inr ⟨rfl, rfl, rfl, rfl⟩)
      (Or.inr ⟨rfl, rfl, rfl, rfl, rfl⟩)
    rw [h]
    exact ⟨rfl, rfl⟩
  · intro p2 hp2
    have h := checkGesture_inherit env s p p2 hp (Or.inl hp2.1) (Or.inl hp2.2.1)
      (Or.inl hp2.2.2)
    rw [h]
    exact ⟨rfl, rfl, rfl⟩

/-- Witness for C17: a profile that inherits all three gestures and whose own
scroll and zoom values differ from the default ones. -/
theorem C17_inherit_reads_default_witness :
    ((checkGesture demoEnv { scrollState with currentProfile := inheritingProfile }).2
        = (checkGesture demoEnv
            { scrollState with
              currentProfile := withDefaultGestures demoEnv inheritingProfile }).2 ∧
      (checkGesture demoEnv { scrollState with currentProfile := inheritingProfile }).1
        = { (checkGesture demoEnv
              { scrollState with
                currentProfile := withDefaultGestures demoEnv inheritingProfile }).1 with
            currentProfile := inheritingProfile }) ∧
    (∀ p2 : Profile, p2.scrollInherit ≠ 0 ∧ p2.zoomInherit ≠ 0 ∧ p2.rotateInherit ≠ 0 →
      (checkGesture demoEnv { scrollState with currentProfile := inheritingProfile }).2
        = (checkGesture demoEnv { scrollState with currentProfile := p2 }).2 ∧
      (checkGesture demoEnv { scrollState with currentProfile := inheritingProfile }).1.out
        = (checkGesture demoEnv { scrollState with currentProfile := p2 }).1.out ∧
      (checkGesture demoEnv { scrollState with currentProfile := inheritingProfile }).1
        = { (checkGesture demoEnv { scrollState with currentProfile := p2 }).1 with
            currentProfile := inheritingProfile }) :=
  C17_inherit_reads_default demoEnv scrollState inheritingProfile (by decide)

/-! ### Profile lookup -/

theorem find?_first {α : Type} (f : α → Bool) : ∀ (l : List α) (i : Nat) (hi : i < l.length),
    f (l.get ⟨i, hi⟩) = true →
    (∀ (j : Nat) (hj : j < i), f (l.get ⟨j, hj.trans hi⟩) = false) →
    l.find? f = some (l.get ⟨i, hi⟩) := by
  intro l
  induction l with
  | nil => intro i hi; exact absurd hi (Nat.not_lt_zero i)
  | cons a rest ih =>
    intro i hi hm hmin
    cases i with
    | zero =>
      have ha : f a = true := hm
      simp only [List.find?, ha, List.get]
    | succ k =>
      have ha : f a = false := hmin 0 (Nat.succ_pos k)
      have hk : k < rest.length := Nat.lt_of_succ_lt_succ hi
      have := ih k hk hm (fun j hj => hmin (j + 1) (Nat.succ_lt_succ hj))
      simp only [List.find?, ha, List.get]
      exact this

theorem getWindowProfile_eq (env : Env) (resName : String) :
    getWindowProfile env (some (some resName)) =
      (env.profiles.find? (fun p => (p.windowClass.map (strncmp30Eq resName)).getD false)).getD
        env.defaultProfile := by
  have hf : (fun p : Profile =>
        match p.windowClass with
        | some wc => strncmp30Eq resName wc
        | none => false)
      = (fun p => (p.windowClass.map (strncmp30Eq resName)).getD false) := by
    funext p
    cases p.windowClass <;> rfl
  show (match env.profiles.find? (fun p : Profile =>
        match p.windowClass with
        | some wc => strncmp30Eq resName wc
        | none => false) with
    | some p => p
    | none => env.defaultProfile) = _
  rw [hf]
  cases List.find? (fun p => (p.windowClass.map (strncmp30Eq resName)).getD false) env.profiles
    <;> rfl

theorem classMatches_iff (resName : String) (p : Profile) :
    (p.windowClass.map (strncmp30Eq resName)).getD false = true ↔ classMatches resName p := by
  unfold classMatches strncmp30Eq
  cases h : p.windowClass with
  | none => simp
  | some wc => simp

/-- C16: `getWindowProfile` returns `defaultProfile` for the window `None`, for
a window without class hint and for a window whose `res_name` matches no
profile; otherwise it returns the first profile, in the order of the table,
whose `windowClass` agrees with `res_name` on the first 30 characters. -/
theorem C16_getWindowProfile_first_match (env : Env) :
    getWindowProfile env none = env.defaultProfile ∧
    getWindowProfile env (some none) = env.defaultProfile ∧
    ∀ resName : String,
      ((∀ p ∈ env.profiles, ¬ classMatches resName p) →
        getWindowProfile env (some (some resName)) = env.defaultProfile) ∧
      (∀ (i : Nat) (hi : i < env.profiles.length),
        classMatches resName (env.profiles.get ⟨i, hi⟩) →
        (∀ (j : Nat) (hj : j < i), ¬ classMatches resName (env.profiles.get ⟨j, hj.trans hi⟩)) →
        getWindowProfile env (some (some resName)) = env.profiles.get ⟨i, hi⟩) := by
  refine ⟨rfl, rfl, fun resName => ⟨?_, ?_⟩⟩
  · intro hno
    have hnone : env.profiles.find?
        (fun p => (p.windowClass.map (strncmp30Eq resName)).getD false) = none := by
      rw [List.find?_eq_none]
      intro p hp hm
      exact hno p hp ((classMatches_iff resName p).mp hm)
    rw [getWindowProfile_eq, hnone]
    rfl
  · intro i hi hm hmin
    have hsome := find?_first
      (fun p : Profile => (p.windowClass.map (strncmp30Eq resName)).getD false)
      env.profiles i hi ((classMatches_iff resName _).mpr hm)
      (fun j hj => by
        have := hmin j hj
        rw [← classMatches_iff] at this
        simpa using this)
    rw [getWindowProfile_eq, hsome]
    rfl

/-- Witness for C16: of the two profiles of class `evince` the first is
returned. -/
theorem C16_getWindowProfile_first_match_witness :
    getWindowProfile lookupEnv (some (some "evince"))
      = { demoProfile with windowClass := some "evince" } :=
  ((C16_getWindowProfile_first_match lookupEnv).2.2 "evince").2 1 (by decide)
    ⟨"evince", rfl, rfl⟩
    (fun j hj => by
      have hj0 : j = 0 := by omega
      subst hj0
      rintro ⟨wc, h1, h2⟩
      have hwc : wc = "xterm" := by
        have : some "xterm" = some wc := h1
        injection this with this
        exact this.symm
      subst hwc
      revert h2
      decide)

/-! ### The scroll threshold -/

/-- The state in which the branch `TWO_FINGERS_UP` decides on easing: the
compensated intervals are in place and the cancelled axes have lost their
direction. -/
theorem cancelStopped_fields (env : Env) (s : State) :
    (cancelStoppedX (cancelStoppedY (compensateIntervals (releaseScrollBrace env s)))).easingDirectionX
      = (if XEligible s then s.easingDirectionX else 0) ∧
    (cancelStoppedX (cancelStoppedY (compensateIntervals (releaseScrollBrace env s)))).easingDirectionY
      = (if YEligible s then s.easingDirectionY else 0) ∧
    (cancelStoppedX (cancelStoppedY (compensateIntervals (releaseScrollBrace env s)))).lastScrollXIntv
      = compensatedXIntv s ∧
    (cancelStoppedX (cancelStoppedY (compensateIntervals (releaseScrollBrace env s)))).lastScrollYIntv
      = compensatedYIntv s ∧
    (cancelStoppedX (cancelStoppedY (compensateIntervals (releaseScrollBrace env s)))).easingInterval
      = s.easingInterval := by
  have ha : ∀ a : State, a.easingDirectionX = s.easingDirectionX →
      a.easingDirectionY = s.easingDirectionY → a.lastScrollXIntv = s.lastScrollXIntv →
      a.lastScrollYIntv = s.lastScrollYIntv → a.lastLastScrollXIntv = s.lastLastScrollXIntv →
      a.lastLastScrollYIntv = s.lastLastScrollYIntv → a.lastScrollXTime = s.lastScrollXTime →
      a.lastScrollYTime = s.lastScrollYTime → a.fairlyCurrentTime = s.fairlyCurrentTime →
      a.easingInterval = s.easingInterval →
      (cancelStoppedX (cancelStoppedY (compensateIntervals a))).easingDirectionX
        = (if XEligible s then s.easingDirectionX else 0) ∧
      (cancelStoppedX (cancelStoppedY (compensateIntervals a))).easingDirectionY
        = (if YEligible s then s.easingDirectionY else 0) ∧
      (cancelStoppedX (cancelStoppedY (compensateIntervals a))).lastScrollXIntv
        = compensatedXIntv s ∧
      (cancelStoppedX (cancelStoppedY (compensateIntervals a))).lastScrollYIntv
        = compensatedYIntv s ∧
      (cancelStoppedX (cancelStoppedY (compensateIntervals a))).easingInterval
        = s.easingInterval := by
    intro a e1 e2 e3 e4 e5 e6 e7 e8 e9 e10
    have b1 : (compensateIntervals a).lastScrollXIntv = compensatedXIntv s := by
      unfold compensateIntervals compensatedXIntv
      rw [← e3, ← e5]
      simp only
      split_ifs <;> rfl
    have b2 : (compensateIntervals a).lastScrollYIntv = compensatedYIntv s := by
      unfold compensateIntervals compensatedYIntv
      rw [← e4, ← e6]
      simp only
      split_ifs <;> rfl
    have b3 : (compensateIntervals a).easingDirectionX = s.easingDirectionX
        ∧ (compensateIntervals a).easingDirectionY = s.easingDirectionY
        ∧ (compensateIntervals a).lastScrollXTime = s.lastScrollXTime
        ∧ (compensateIntervals a).lastScrollYTime = s.lastScrollYTime
        ∧ (compensateIntervals a).fairlyCurrentTime = s.fairlyCurrentTime
        ∧ (compensateIntervals a).easingInterval = s.easingInterval := by
      unfold compensateIntervals
      simp only
      split_ifs <;> exact ⟨e1, e2, e7, e8, e9, e10⟩
    generalize compensateIntervals a = b at b1 b2 b3
    obtain ⟨b3, b4, b5, b6, b7, b8⟩ := b3
    have c1 : (cancelStoppedY b).easingDirectionY = (if YEligible s then s.easingDirectionY else 0) := by
      by_cases p : b.lastScrollYIntv = 0
          ∨ toU64 (b.fairlyCurrentTime - b.lastScrollYTime) > toU64 (toI32 (b.lastScrollYIntv * 2))
          ∨ b.lastScrollYIntv > MAX_EASING_START_INTERVAL
      · have hv : (cancelStoppedY b).easingDirectionY = 0 := by
          unfold cancelStoppedY; rw [if_pos p]
        rw [hv, if_neg]
        rintro ⟨-, q2, q3, q4⟩
        rw [b2, b6, b7] at p
        rcases p with p | p | p
        · exact q2 p
        · omega
        · omega
      · have hv : (cancelStoppedY b).easingDirectionY = b.easingDirectionY := by
          unfold cancelStoppedY; rw [if_neg p]
        rw [hv, b4]
        rw [b2, b6, b7] at p
        by_cases hz : s.easingDirectionY = 0
        · rw [hz]; split_ifs <;> rfl
        · rw [if_pos]
          refine ⟨hz, ?_, ?_, ?_⟩
          · intro h; exact p (Or.inl h)
          · by_contra h; exact p (Or.inr (Or.inl (by omega)))
          · by_contra h; exact p (Or.inr (Or.inr (by omega)))
    have c2 : (cancelStoppedY b).easingDirectionX = s.easingDirectionX
        ∧ (cancelStoppedY b).lastScrollXIntv = compensatedXIntv s
        ∧ (cancelStoppedY b).lastScrollYIntv = compensatedYIntv s
        ∧ (cancelStoppedY b).lastScrollXTime = s.lastScrollXTime
        ∧ (cancelStoppedY b).fairlyCurrentTime = s.fairlyCurrentTime
        ∧ (cancelStoppedY b).easingInterval = s.easingInterval := by
      have hy : cancelStoppedY b = b ∨ cancelStoppedY b = { b with easingDirectionY := 0 } := by
        unfold cancelStoppedY
        split_ifs
        · exact Or.inr rfl
        · exact Or.inl rfl
      rcases hy with e | e <;> rw [e] <;> exact ⟨b3, b1, b2, b5, b7, b8⟩
    generalize cancelStoppedY b = c at c1 c2
    obtain ⟨c2, c3, c4, c5, c6, c7⟩ := c2
    have d1 : (cancelStoppedX c).easingDirectionX = (if XEligible s then s.easingDirectionX else 0) := by
      by_cases p : c.lastScrollXIntv = 0
          ∨ toU64 (c.fairlyCurrentTime - c.lastScrollXTime) > toU64 (toI32 (c.lastScrollXIntv * 2))
          ∨ c.lastScrollXIntv > MAX_EASING_START_INTERVAL
      · have hv : (cancelStoppedX c).easingDirectionX = 0 := by
          unfold cancelStoppedX; rw [if_pos p]
        rw [hv, if_neg]
        rintro ⟨-, q2, q3, q4⟩
        rw [c3, c5, c6] at p
        rcases p with p | p | p
        · exact q2 p
        · omega
        · omega
      · have hv : (cancelStoppedX c).easingDirectionX = c.easingDirectionX := by
          unfold cancelStoppedX; rw [if_neg p]
        rw [hv, c2]
        rw [c3, c5, c6] at p
        by_cases hz : s.easingDirectionX = 0
        · rw [hz]; split_ifs <;> rfl
        · rw [if_pos]
          refine ⟨hz, ?_, ?_, ?_⟩
          · intro h; exact p (Or.inl h)
          · by_contra h; exact p (Or.inr (Or.inl (by omega)))
          · by_contra h; exact p (Or.inr (Or.inr (by omega)))
    have d2 : (cancelStoppedX c).easingDirectionY = (if YEligible s then s.easingDirectionY else 0)
        ∧ (cancelStoppedX c).lastScrollXIntv = compensatedXIntv s
        ∧ (cancelStoppedX c).lastScrollYIntv = compensatedYIntv s
        ∧ (cancelStoppedX c).easingInterval = s.easingInterval := by
      have hx : cancelStoppedX c = c ∨ cancelStoppedX c = { c with easingDirectionX := 0 } := by
        unfold cancelStoppedX
        split_ifs
        · exact Or.inr rfl
        · exact Or.inl rfl
      rcases hx with e | e <;> rw [e] <;> exact ⟨c1, c3, c4, c7⟩
    exact ⟨d1, d2⟩
  apply ha
  all_goals unfold releaseScrollBrace State.emit
  all_goals simp only
  all_goals split_ifs <;> rfl

theorem startEasingThread_easing (s : State) :
    (startEasingThread s).easingDirectionX = s.easingDirectionX ∧
    (startEasingThread s).easingDirectionY = s.easingDirectionY ∧
    (startEasingThread s).easingInterval = s.easingInterval := by
  unfold startEasingThread State.emit
  simp only
  split_ifs <;> exact ⟨rfl, rfl, rfl⟩

/-- The choice of the axis and the assignment of `easingInterval` (lines
598-610) when at least one axis has a direction and the two do not tie. -/
theorem chooseAxis_fields (d : State)
    (hntie : ¬ (d.easingDirectionX ≠ 0 ∧ d.easingDirectionY ≠ 0
      ∧ d.lastScrollXIntv = d.lastScrollYIntv)) :
    ((setEasingInterval (dropSlowerAxis d)).easingDirectionX = d.easingDirectionX ∧
      (setEasingInterval (dropSlowerAxis d)).easingDirectionY = 0 ∧
      (setEasingInterval (dropSlowerAxis d)).easingInterval = d.lastScrollXIntv ∧
      (d.easingDirectionY ≠ 0 → d.lastScrollXIntv < d.lastScrollYIntv)) ∨
    ((setEasingInterval (dropSlowerAxis d)).easingDirectionX = 0 ∧
      (setEasingInterval (dropSlowerAxis d)).easingDirectionY = d.easingDirectionY ∧
      d.easingDirectionY ≠ 0 ∧
      (setEasingInterval (dropSlowerAxis d)).easingInterval = d.lastScrollYIntv ∧
      (d.easingDirectionX ≠ 0 → d.lastScrollYIntv < d.lastScrollXIntv)) := by
  by_cases hx : d.easingDirectionX = 0
  · by_cases hy : d.easingDirectionY = 0
    · left
      have h1 : dropSlowerAxis d = d := by
        unfold dropSlowerAxis; rw [if_neg (fun h => h.1 hx)]
      rw [h1]
      unfold setEasingInterval
      rw [if_pos hy]
      exact ⟨rfl, hy, rfl, fun h => absurd hy h⟩
    · right
      have h1 : dropSlowerAxis d = d := by
        unfold dropSlowerAxis; rw [if_neg (fun h => h.1 hx)]
      rw [h1]
      unfold setEasingInterval
      rw [if_neg hy, if_pos hx]
      exact ⟨hx, rfl, hy, rfl, fun h => absurd hx h⟩
  · by_cases hy : d.easingDirectionY = 0
    · left
      have h1 : dropSlowerAxis d = d := by
        unfold dropSlowerAxis; rw [if_neg (fun h => h.2 hy)]
      rw [h1]
      unfold setEasingInterval
      rw [if_pos hy]
      exact ⟨rfl, hy, rfl, fun h => absurd hy h⟩
    · have hne : d.lastScrollXIntv ≠ d.lastScrollYIntv := fun h => hntie ⟨hx, hy, h⟩
      by_cases hlt : d.lastScrollXIntv < d.lastScrollYIntv
      · left
        have h1 : dropSlowerAxis d = { d with easingDirectionY := 0 } := by
          unfold dropSlowerAxis; rw [if_pos ⟨hx, hy⟩, if_pos hlt]
        rw [h1]
        unfold setEasingInterval
        rw [if_pos rfl]
        exact ⟨rfl, rfl, rfl, fun _ => hlt⟩
      · right
        have hgt : d.lastScrollYIntv < d.lastScrollXIntv := by omega
        have h1 : dropSlowerAxis d = { d with easingDirectionX := 0 } := by
          unfold dropSlowerAxis; rw [if_pos ⟨hx, hy⟩, if_neg hlt, if_pos hgt]
        rw [h1]
        unfold setEasingInterval
        rw [if_neg (show ¬ ({ d with easingDirectionX := 0 } : State).easingDirectionY = 0 from hy),
          if_pos rfl]
        exact ⟨rfl, rfl, hy, rfl, fun _ => hgt⟩

/-- When both axes have a direction and equal intervals, lines 598-610 drop
neither axis and do not assign `easingInterval`. -/
theorem chooseAxis_tie (d : State)
    (hx : d.easingDirectionX ≠ 0) (hy : d.easingDirectionY ≠ 0)
    (he : d.lastScrollXIntv = d.lastScrollYIntv) :
    setEasingInterval (dropSlowerAxis d) = d := by
  have h1 : dropSlowerAxis d = d := by
    unfold dropSlowerAxis
    rw [if_pos ⟨hx, hy⟩, if_neg (by omega), if_neg (by omega)]
  rw [h1]
  unfold setEasingInterval
  rw [if_neg hy, if_neg hx]

theorem tapIfQuiet_easing (env : Env) (s s2 : State) (h : tapIfQuiet env s = some s2) :
    s2.easingDirectionX = s.easingDirectionX ∧ s2.easingDirectionY = s.easingDirectionY ∧
    s2.easingInterval = s.easingInterval ∧
    countEasingStarts s2.out = countEasingStarts s.out := by
  unfold tapIfQuiet at h
  simp only [State.emit] at h
  split_ifs at h <;>
    first
      | exact Option.noConfusion h
      | (simp only [Option.map_some', Option.some.injEq] at h
         subst h
         first
           | (split_ifs <;> simp [countEasingStarts])
           | simp [countEasingStarts])

/-- The part of the branch `TWO_FINGERS_UP` behind the easing-start block
(lines 615-639) leaves the easing variables and calls `startEasingThread`
nowhere. -/
theorem twoFingersUp_rest (env : Env) (t r : State) (h : twoFingersUp env t = some r) :
    ∃ s1, s1 = (if t.amPerformingGesture = GESTURE_SCROLL ∧ ¬ (t.easingActive ≠ 0) then
        startEasingAfterScroll env t else t) ∧
      r.easingDirectionX = s1.easingDirectionX ∧ r.easingDirectionY = s1.easingDirectionY ∧
      r.easingInterval = s1.easingInterval ∧
      countEasingStarts r.out = countEasingStarts s1.out := by
  refine ⟨_, rfl, ?_⟩
  unfold twoFingersUp at h
  simp only at h
  generalize (if t.amPerformingGesture = GESTURE_SCROLL ∧ ¬ (t.easingActive ≠ 0) then
        startEasingAfterScroll env t else t) = s1 at h ⊢
  split_ifs at h
  · injection h with h
    subst h
    simp [startContinuation, State.emit, countEasingStarts]
  · cases hq : tapIfQuiet env s1 with
    | none => rw [hq] at h; exact Option.noConfusion h
    | some s2 =>
      rw [hq] at h
      simp only [Option.map_some', Option.some.injEq] at h
      subst h
      exact tapIfQuiet_easing env s1 s2 hq

/-- The easing-start block (lines 576-613) in terms of the state at the entry
of the branch: `startEasingThread` is called exactly when an axis is eligible;
then, unless both axes are eligible with equal compensated intervals, one axis
keeps its direction and `easingInterval` is its compensated interval. -/
theorem startEasingAfterScroll_axis (env : Env) (t : State) :
    (¬ (XEligible t ∨ YEligible t) →
      countEasingStarts (startEasingAfterScroll env t).out = countEasingStarts t.out) ∧
    ((XEligible t ∨ YEligible t) →
      countEasingStarts (startEasingAfterScroll env t).out = countEasingStarts t.out + 1 ∧
      (¬ (XEligible t ∧ YEligible t ∧ compensatedXIntv t = compensatedYIntv t) →
        (XEligible t ∧
          (startEasingAfterScroll env t).easingDirectionX = t.easingDirectionX ∧
          (startEasingAfterScroll env t).easingDirectionY = 0 ∧
          (startEasingAfterScroll env t).easingInterval = compensatedXIntv t ∧
          (YEligible t → compensatedXIntv t < compensatedYIntv t)) ∨
        (YEligible t ∧
          (startEasingAfterScroll env t).easingDirectionX = 0 ∧
          (startEasingAfterScroll env t).easingDirectionY = t.easingDirectionY ∧
          (startEasingAfterScroll env t).easingInterval = compensatedYIntv t ∧
          (XEligible t → compensatedYIntv t < compensatedXIntv t))) ∧
      ((XEligible t ∧ YEligible t ∧ compensatedXIntv t = compensatedYIntv t) →
        (startEasingAfterScroll env t).easingDirectionX = t.easingDirectionX ∧
        (startEasingAfterScroll env t).easingDirectionY = t.easingDirectionY ∧
        (startEasingAfterScroll env t).easingInterval = t.easingInterval)) := by
  obtain ⟨f1, f2, f3, f4, f5⟩ := cancelStopped_fields env t
  have hout : (cancelStoppedX (cancelStoppedY (compensateIntervals
        (releaseScrollBrace env t)))).out = t.out ++
      [Call.action (effectiveScrollBraceAction env t.currentProfile) EXECUTEACTION_RELEASE] := by
    rw [(cancelStoppedX_core _).2, (cancelStoppedY_core _).2, (compensateIntervals_core _).2,
      (releaseScrollBrace_core env t).2]
  unfold startEasingAfterScroll
  generalize cancelStoppedX (cancelStoppedY (compensateIntervals (releaseScrollBrace env t))) = d
    at f1 f2 f3 f4 f5 hout
  have hdx : d.easingDirectionX ≠ 0 ↔ XEligible t := by
    rw [f1]
    constructor
    · intro h; by_contra hn; rw [if_neg hn] at h; exact h rfl
    · intro h; rw [if_pos h]; exact h.1
  have hdy : d.easingDirectionY ≠ 0 ↔ YEligible t := by
    rw [f2]
    constructor
    · intro h; by_contra hn; rw [if_neg hn] at h; exact h rfl
    · intro h; rw [if_pos h]; exact h.1
  have hcnt : countEasingStarts d.out = countEasingStarts t.out := by
    rw [hout]; simp [countEasingStarts]
  constructor
  · intro hn
    have hc : ¬ (d.easingDirectionX ≠ 0 ∨ d.easingDirectionY ≠ 0) := by
      rw [hdx, hdy]; exact hn
    unfold startEasingIfEligible
    rw [if_neg hc]
    exact hcnt
  · intro he
    have hc : d.easingDirectionX ≠ 0 ∨ d.easingDirectionY ≠ 0 := by
      rw [hdx, hdy]; exact he
    unfold startEasingIfEligible
    rw [if_pos hc]
    obtain ⟨g1, g2, g3⟩ := startEasingThread_easing (setEasingInterval (dropSlowerAxis d))
    rw [g1, g2, g3]
    refine ⟨?_, ?_, ?_⟩
    · rw [(startEasingThread_core _).2, (setEasingInterval_core _).2, (dropSlowerAxis_core _).2]
      simp only [countEasingStarts] at hcnt ⊢
      rw [List.count_append, hcnt]
      rfl
    · intro hnt
      have hnt2 : ¬ (d.easingDirectionX ≠ 0 ∧ d.easingDirectionY ≠ 0
          ∧ d.lastScrollXIntv = d.lastScrollYIntv) := by
        rw [hdx, hdy, f3, f4]; exact hnt
      rcases chooseAxis_fields d hnt2 with ⟨a1, a2, a3, a4⟩ | ⟨a1, a2, a3, a4, a5⟩
      · left
        have hX : XEligible t := by
          rcases he with h | h
          · exact h
          · by_contra hn
            have hy0 : d.easingDirectionY ≠ 0 := hdy.mpr h
            have := a4 hy0
            have hx0 : d.easingDirectionX = 0 := by
              by_contra h0; exact hn (hdx.mp h0)
            rcases hc with c | c
            · exact c hx0
            · have e1 : dropSlowerAxis d = d := by
                unfold dropSlowerAxis; rw [if_neg (fun h => h.1 hx0)]
              rw [e1] at a2
              unfold setEasingInterval at a2
              rw [if_neg c, if_pos hx0] at a2
              exact c a2
        refine ⟨hX, by rw [a1, f1, if_pos hX], a2, by rw [a3, f3], ?_⟩
        intro hY
        have := a4 (hdy.mpr hY)
        rwa [f3, f4] at this
      · right
        have hY : YEligible t := hdy.mp a3
        refine ⟨hY, a1, by rw [a2, f2, if_pos hY], by rw [a4, f4], ?_⟩
        intro hX
        have := a5 (hdx.mpr hX)
        rwa [f3, f4] at this
    · rintro ⟨hX, hY, hxy⟩
      rw [chooseAxis_tie d (hdx.mpr hX) (hdy.mpr hY) (by rw [f3, f4]; exact hxy)]
      exact ⟨by rw [f1, if_pos hX], by rw [f2, if_pos hY], f5⟩

/-- C21 (the code departs from the claim): a diagonal two-finger scroll from the
idle state whose two axes step at the same times (30 apart). Before the release
tick the gesture is Scroll with no call of `startEasingThread` so far and both
compensated intervals are 30. The release tick takes the branch
`TWO_FINGERS_UP`: with equal intervals neither comparison of lines 600-604
drops an axis, so neither assignment of lines 606-610 runs; `startEasingThread`
is called once with both `easingDirectionX` and `easingDirectionY` at 1 and
with `easingInterval` still at its old value 0, not at the interval 30 of the
scroll. -/
theorem C21_equal_intervals_leave_stale_interval :
    (runTicks demoEnv 10 idleState (diagonalScrollTicks.take 3)).map
      (fun s => (s.hadTwoFingersOn, s.amPerformingGesture, countEasingStarts s.out,
        compensatedXIntv s, compensatedYIntv s)) = some (1, GESTURE_SCROLL, 0, 30, 30) ∧
    (runTicks demoEnv 10 idleState diagonalScrollTicks).map
      (fun r => (countEasingStarts r.out, r.easingDirectionX, r.easingDirectionY,
        r.easingInterval)) = some (1, 1, 1, 0) := by
  constructor <;> decide

/-- Whenever the branch `TWO_FINGERS_UP` calls `startEasingThread`, it calls it
once. Unless both axes were eligible with equal compensated intervals, exactly
one of `easingDirectionX` and `easingDirectionY` is nonzero afterwards, that of
an eligible axis (when both were eligible, the axis with the larger compensated
interval has been dropped), and `easingInterval` equals the compensated last
scroll interval of that axis. When both axes were eligible with equal
compensated intervals, no axis is dropped. -/
theorem twoFingersUp_easing_axis (env : Env) (t r : State)
    (hr : twoFingersUp env t = some r)
    (hcall : countEasingStarts r.out ≠ countEasingStarts t.out) :
    countEasingStarts r.out = countEasingStarts t.out + 1 ∧
    (¬ (XEligible t ∧ YEligible t ∧ compensatedXIntv t = compensatedYIntv t) →
      (XEligible t ∧ r.easingDirectionX ≠ 0 ∧ r.easingDirectionY = 0 ∧
          r.easingInterval = compensatedXIntv t ∧
          (YEligible t → compensatedXIntv t < compensatedYIntv t)) ∨
      (YEligible t ∧ r.easingDirectionX = 0 ∧ r.easingDirectionY ≠ 0 ∧
          r.easingInterval = compensatedYIntv t ∧
          (XEligible t → compensatedYIntv t < compensatedXIntv t))) ∧
    ((XEligible t ∧ YEligible t ∧ compensatedXIntv t = compensatedYIntv t) →
      r.easingDirectionX ≠ 0 ∧ r.easingDirectionY ≠ 0) := by
  obtain ⟨s1, hs1, e1, e2, e3, e4⟩ := twoFingersUp_rest env t r hr
  by_cases hc : t.amPerformingGesture = GESTURE_SCROLL ∧ ¬ (t.easingActive ≠ 0)
  · rw [if_pos hc] at hs1
    obtain ⟨k1, k2⟩ := startEasingAfterScroll_axis env t
    rw [← hs1] at k1 k2
    by_cases he : XEligible t ∨ YEligible t
    · obtain ⟨c1, c2, c3⟩ := k2 he
      refine ⟨by rw [e4, c1], ?_, ?_⟩
      · intro hntie
        rcases c2 hntie with ⟨hX, a1, a2, a3, a4⟩ | ⟨hY, a1, a2, a3, a4⟩
        · exact Or.inl ⟨hX, by rw [e1, a1]; exact hX.1, by rw [e2, a2], by rw [e3, a3], a4⟩
        · exact Or.inr ⟨hY, by rw [e1, a1], by rw [e2, a2]; exact hY.1, by rw [e3, a3], a4⟩
      · intro htie
        obtain ⟨b1, b2, -⟩ := c3 htie
        exact ⟨by rw [e1, b1]; exact htie.1.1, by rw [e2, b2]; exact htie.2.1.1⟩
    · exact absurd (by rw [e4, k1 he]) hcall
  · rw [if_neg hc] at hs1
    subst hs1
    exact absurd e4 hcall

/-- The release after a scroll to the right: the X axis survives. -/
theorem twoFingersUp_easing_axis_example :
    ∃ r, twoFingersUp demoEnv easingReadyState = some r ∧
      countEasingStarts r.out = countEasingStarts easingReadyState.out + 1 ∧
      (¬ (XEligible easingReadyState ∧ YEligible easingReadyState
          ∧ compensatedXIntv easingReadyState = compensatedYIntv easingReadyState) →
        (XEligible easingReadyState ∧ r.easingDirectionX ≠ 0 ∧ r.easingDirectionY = 0 ∧
            r.easingInterval = compensatedXIntv easingReadyState ∧
            (YEligible easingReadyState →
              compensatedXIntv easingReadyState < compensatedYIntv easingReadyState)) ∨
        (YEligible easingReadyState ∧ r.easingDirectionX = 0 ∧ r.easingDirectionY ≠ 0 ∧
            r.easingInterval = compensatedYIntv easingReadyState ∧
            (XEligible easingReadyState →
              compensatedYIntv easingReadyState < compensatedXIntv easingReadyState))) ∧
      ((XEligible easingReadyState ∧ YEligible easingReadyState
          ∧ compensatedXIntv easingReadyState = compensatedYIntv easingReadyState) →
        r.easingDirectionX ≠ 0 ∧ r.easingDirectionY ≠ 0) := by
  have hn : (twoFingersUp demoEnv easingReadyState).map (fun r => countEasingStarts r.out)
      = some 1 := by decide
  cases h : twoFingersUp demoEnv easingReadyState with
  | none => rw [h] at hn; exact Option.noConfusion hn
  | some r =>
    rw [h] at hn
    simp only [Option.map_some', Option.some.injEq] at hn
    exact ⟨r, rfl, twoFingersUp_easing_axis demoEnv easingReadyState r h (by rw [hn]; decide)⟩

/-! ### Small easing intervals -/

/-- C22 (the code departs from the claim): with a start interval `I` in `1..6`
and no stop request the update `(int)(nextInterval · 1.15)` returns
`nextInterval` itself, so the interval never exceeds `MAX_EASING_INTERVAL` and
the easing worker, newly started or woken up, does not park: whatever the
number of passes allowed, it is still stepping. -/
theorem C22_small_interval_never_parks (env : Env) (s : State) (I : Int)
    (hI : 1 ≤ I ∧ I ≤ 6) (hint : s.easingInterval = I) (hstop : s.stopEasing = 0) :
    (∀ k : Nat, easingNextInterval^[k] I = I) ∧
    ∀ fuel, easingThreadFunction env fuel s = none ∧ easingWokenUp env fuel s = none := by
  subst hint
  have hfix := easingNextInterval_small s.easingInterval hI.1 hI.2
  refine ⟨fun k => Function.iterate_fixed hfix k, fun fuel => ⟨?_, ?_⟩⟩
  · exact easingLoop_stuck env s.easingInterval (by omega) hfix fuel s 0 hstop
  · unfold easingWokenUp
    rw [hfix]
    exact easingLoop_stuck env s.easingInterval (by omega) hfix fuel _ 1
      (by rw [easingStep_stopEasing]; exact hstop)

/-- Witness for C22: easing started with `easingInterval = 6`. -/
theorem C22_small_interval_never_parks_witness :
    (∀ k : Nat, easingNextInterval^[k] 6 = 6) ∧
    ∀ fuel, easingThreadFunction demoEnv fuel (easingState 6) = none
      ∧ easingWokenUp demoEnv fuel (easingState 6) = none :=
  C22_small_interval_never_parks demoEnv (easingState 6) 6 (by decide) rfl rfl

/-! ### The release tick and the pretended tick -/

theorem startEasingAfterScroll_out (env : Env) (s : State) :
    (startEasingAfterScroll env s).out = s.out ++
        [Call.action (effectiveScrollBraceAction env s.currentProfile) EXECUTEACTION_RELEASE] ∨
    (startEasingAfterScroll env s).out = s.out ++
        [Call.action (effectiveScrollBraceAction env s.currentProfile) EXECUTEACTION_RELEASE,
         Call.startEasingThread] := by
  unfold startEasingAfterScroll
  have h1 := releaseScrollBrace_core env s
  have h2 := compensateIntervals_core (releaseScrollBrace env s)
  have h3 := cancelStoppedY_core (compensateIntervals (releaseScrollBrace env s))
  have h4 := cancelStoppedX_core (cancelStoppedY (compensateIntervals (releaseScrollBrace env s)))
  have h5 := startEasingIfEligible_core
    (cancelStoppedX (cancelStoppedY (compensateIntervals (releaseScrollBrace env s))))
  rcases h5.2 with e | e
  · left; rw [e, h4.2, h3.2, h2.2, h1.2]
  · right; rw [e, h4.2, h3.2, h2.2, h1.2]; simp

/-- The easing-start step of the branch `TWO_FINGERS_UP`: the recognizer's own
variables stay, and the calls added are the brace release (when the gesture is
Scroll and easing is not active), possibly followed by `startEasingThread`. -/
theorem twoFingersUp_easing (env : Env) (t : State) :
    ∃ s1 new, (if t.amPerformingGesture = GESTURE_SCROLL ∧ ¬ (t.easingActive ≠ 0) then
        startEasingAfterScroll env t else t) = s1 ∧ coreOf s1 = coreOf t ∧
      s1.out = t.out ++ new ∧ (∀ c ∈ new, isButton1Call c = false) ∧
      Call.startContinuation ∉ new ∧
      calledActions new =
        (if t.amPerformingGesture = GESTURE_SCROLL ∧ t.easingActive = 0 then
          [(effectiveScrollBraceAction env t.currentProfile, EXECUTEACTION_RELEASE)]
         else []) := by
  by_cases hc : t.amPerformingGesture = GESTURE_SCROLL ∧ ¬ (t.easingActive ≠ 0)
  · have hc2 : t.amPerformingGesture = GESTURE_SCROLL ∧ t.easingActive = 0 :=
      ⟨hc.1, not_not.mp hc.2⟩
    rw [if_pos hc, if_pos hc2]
    rcases startEasingAfterScroll_out env t with e | e
    · refine ⟨_, _, rfl, (startEasingAfterScroll_core env t).1, e, ?_, by simp, rfl⟩
      intro c hcm
      simp only [List.mem_singleton] at hcm
      subst hcm; rfl
    · refine ⟨_, _, rfl, (startEasingAfterScroll_core env t).1, e, ?_, by simp, rfl⟩
      intro c hcm
      simp only [List.mem_cons, List.mem_singleton, List.not_mem_nil, or_false] at hcm
      rcases hcm with rfl | rfl <;> rfl
  · have hc2 : ¬ (t.amPerformingGesture = GESTURE_SCROLL ∧ t.easingActive = 0) :=
      fun h => hc ⟨h.1, not_not.mpr h.2⟩
    rw [if_neg hc, if_neg hc2]
    exact ⟨_, [], rfl, rfl, by simp, by simp, by simp, rfl⟩

theorem twoFingersUp_continue (env : Env) (t : State)
    (hd : t.dontStartContinuation = 0)
    (hg : t.amPerformingGesture = GESTURE_SCROLL ∨ t.amPerformingGesture = GESTURE_ZOOM
      ∨ t.amPerformingGesture = GESTURE_ROTATE) :
    ∃ s1 new, (twoFingersUp env t).map finishTick =
        some { s1 with continuationWakeup := 1, out := t.out ++ new ++ [Call.startContinuation],
                       fingersDown := 1, fingersWereDown := 1 } ∧
      coreOf s1 = coreOf t ∧ (∀ c ∈ new, isButton1Call c = false) ∧
      Call.startContinuation ∉ new ∧
      calledActions new =
        (if t.amPerformingGesture = GESTURE_SCROLL ∧ t.easingActive = 0 then
          [(effectiveScrollBraceAction env t.currentProfile, EXECUTEACTION_RELEASE)]
         else []) := by
  obtain ⟨s1, new, hs1, hcore, hout, hnb, hnsc, hca⟩ := twoFingersUp_easing env t
  have g1 : s1.amPerformingGesture = t.amPerformingGesture :=
    congrArg GestureCore.amPerformingGesture hcore
  have d1 : s1.dontStartContinuation = 0 :=
    (congrArg GestureCore.dontStartContinuation hcore).trans hd
  have hyc : s1.amPerformingGesture ≠ GESTURE_NONE ∧ s1.amPerformingGesture ≠ GESTURE_UNDECIDED
      ∧ ¬ (s1.dontStartContinuation ≠ 0) := by
    rw [g1]
    refine ⟨?_, ?_, fun c => c d1⟩
    · rcases hg with h | h | h <;> rw [h] <;> decide
    · rcases hg with h | h | h <;> rw [h] <;> decide
  refine ⟨s1, new, ?_, hcore, hnb, hnsc, hca⟩
  unfold twoFingersUp
  simp only
  rw [hs1, if_pos hyc, Option.map_some', finishTick_down _ (by simp)]
  simp only [startContinuation, State.emit, hout]

theorem pretendedTick_eq (env : Env) (fuel : Nat) (s : State) (inp : TickInput)
    (hact : s.active ≠ 0) (hi : s.ignoreFingersUp = 1) (h2 : s.hadTwoFingersOn = 1)
    (hw : s.fingersWereDown = 1) (hf : inp.fingersDown = 0) :
    deviceTick env fuel s inp =
      some { s with f0 := inp.f0, f1 := inp.f1, fairlyCurrentTime := inp.time,
                    fingersDown := 1, fingersWereDown := 1 } := by
  unfold deviceTick processFingers
  generalize hu : ({ s with
    f0 := inp.f0
    f1 := inp.f1
    fingersDown := inp.fingersDown
    fairlyCurrentTime := inp.time } : State) = u
  have hui : u.ignoreFingersUp ≠ 0 := by rw [← hu]; simp only; omega
  have huf : u.fingersDown = 0 := by rw [← hu]; exact hf
  have hm : continuationMask u = { u with fingersDown := 1 } := by
    simp only [continuationMask, if_pos hui, if_pos huf]
  have hp : fingersOnlyPretended u = true := by
    simp only [fingersOnlyPretended, decide_eq_true_eq]; exact ⟨hui, huf⟩
  rw [hm, hp, activateAtReleaseCheck_down _ (by simp)]
  have ha : ¬ ({ u with fingersDown := 1 } : State).active = 0 := by
    rw [← hu]; exact hact
  rw [if_neg ha]
  have hst : stopEasingOnNewTouch { u with fingersDown := 1 } = { u with fingersDown := 1 } := by
    unfold stopEasingOnNewTouch
    rw [if_neg]
    rw [← hu]
    simp only [hw]
    omega
  rw [hst]
  have hb : gestureBranch env fuel true { u with fingersDown := 1 }
      = some { u with fingersDown := 1 } := by
    unfold gestureBranch
    have h1 : ¬ (({ u with fingersDown := 1 } : State).fingersDown = 2
        ∧ ({ u with fingersDown := 1 } : State).hadTwoFingersOn = 0) := by
      simp only; omega
    have h3 : ({ u with fingersDown := 1 } : State).fingersDown > 0
        ∧ ({ u with fingersDown := 1 } : State).hadTwoFingersOn = 1 := by
      rw [← hu]; simp only; omega
    rw [if_neg h1, if_pos h3, if_neg (by simp)]
  rw [hb, Option.map_some', finishTick_down _ (by simp), ← hu]

/-- C24: in an active recognizer state with `hadTwoFingersOn = 1`,
`ignoreFingersUp = 0`, `dontStartContinuation = 0` and the gesture Scroll, Zoom
or Rotate, a tick with `fingersDown = 0` returns; its last call is
`startContinuation`, called once; it emits no direct button-1 event and
executes no Action with phase BOTH (so no tap Action: the only Action it may
execute is the scroll brace with phase RELEASE, when the gesture is Scroll and
easing is not active); afterwards `amPerformingGesture` is unchanged,
`hadTwoFingersOn = 1` and `fingersWereDown = 1`. -/
theorem C24_release_starts_continuation (env : Env) (fuel : Nat) (s : State) (inp : TickInput)
    (ha : s.active ≠ 0) (h2 : s.hadTwoFingersOn = 1) (hi : s.ignoreFingersUp = 0)
    (hd : s.dontStartContinuation = 0)
    (hg : s.amPerformingGesture = GESTURE_SCROLL ∨ s.amPerformingGesture = GESTURE_ZOOM
      ∨ s.amPerformingGesture = GESTURE_ROTATE)
    (hf : inp.fingersDown = 0) :
    ∃ r new, deviceTick env fuel s inp = some r ∧
      r.out = s.out ++ new ++ [Call.startContinuation] ∧
      Call.startContinuation ∉ new ∧
      (∀ c ∈ new ++ [Call.startContinuation], isButton1Call c = false) ∧
      calledActions (new ++ [Call.startContinuation]) =
        (if s.amPerformingGesture = GESTURE_SCROLL ∧ s.easingActive = 0 then
          [(effectiveScrollBraceAction env s.currentProfile, EXECUTEACTION_RELEASE)] else []) ∧
      (∀ a, (a, EXECUTEACTION_BOTH) ∉ calledActions (new ++ [Call.startContinuation])) ∧
      r.amPerformingGesture = s.amPerformingGesture ∧ r.hadTwoFingersOn = 1 ∧
      r.fingersWereDown = 1 := by
  unfold deviceTick
  generalize hu : ({ s with
    f0 := inp.f0
    f1 := inp.f1
    fingersDown := inp.fingersDown
    fairlyCurrentTime := inp.time } : State) = u
  have ua : u.active ≠ 0 := by rw [← hu]; exact ha
  have u2 : u.hadTwoFingersOn = 1 := by rw [← hu]; exact h2
  have ui : u.ignoreFingersUp = 0 := by rw [← hu]; exact hi
  have ud : u.dontStartContinuation = 0 := by rw [← hu]; exact hd
  have uf : u.fingersDown = 0 := by rw [← hu]; exact hf
  have ug : u.amPerformingGesture = s.amPerformingGesture := by rw [← hu]
  have ue : u.easingActive = s.easingActive := by rw [← hu]
  have up : u.currentProfile = s.currentProfile := by rw [← hu]
  have uo : u.out = s.out := by rw [← hu]
  have key : ∀ t : State, t.dontStartContinuation = 0 →
      t.amPerformingGesture = s.amPerformingGesture → t.easingActive = s.easingActive →
      t.currentProfile = s.currentProfile → t.out = s.out → t.hadTwoFingersOn = 1 →
      ∃ r new, (twoFingersUp env t).map finishTick = some r ∧
        r.out = s.out ++ new ++ [Call.startContinuation] ∧
        Call.startContinuation ∉ new ∧
        (∀ c ∈ new ++ [Call.startContinuation], isButton1Call c = false) ∧
        calledActions (new ++ [Call.startContinuation]) =
          (if s.amPerformingGesture = GESTURE_SCROLL ∧ s.easingActive = 0 then
            [(effectiveScrollBraceAction env s.currentProfile, EXECUTEACTION_RELEASE)]
           else []) ∧
        (∀ a, (a, EXECUTEACTION_BOTH) ∉ calledActions (new ++ [Call.startContinuation])) ∧
        r.amPerformingGesture = s.amPerformingGesture ∧ r.hadTwoFingersOn = 1 ∧
        r.fingersWereDown = 1 := by
    intro t td tg te tp tout t2
    obtain ⟨s1, new, hmap, hcore, hnb, hnsc, hca⟩ :=
      twoFingersUp_continue env t td (by rw [tg]; exact hg)
    rw [tg, te, tp] at hca
    have hca2 : calledActions (new ++ [Call.startContinuation]) =
        (if s.amPerformingGesture = GESTURE_SCROLL ∧ s.easingActive = 0 then
          [(effectiveScrollBraceAction env s.currentProfile, EXECUTEACTION_RELEASE)]
         else []) := by
      rw [calledActions_append, hca]
      simp [calledActions]
    refine ⟨_, new, hmap, by rw [tout], hnsc, ?_, hca2, ?_, ?_, ?_, rfl⟩
    · intro c hcm
      rcases List.mem_append.mp hcm with h | h
      · exact hnb c h
      · simp only [List.mem_singleton] at h
        subst h; rfl
    · intro a hmem
      rw [hca2] at hmem
      split_ifs at hmem
      · simp only [List.mem_singleton, Prod.mk.injEq] at hmem
        exact absurd hmem.2 (by decide)
      · simp at hmem
    · show s1.amPerformingGesture = s.amPerformingGesture
      exact (congrArg GestureCore.amPerformingGesture hcore).trans tg
    · show s1.hadTwoFingersOn = 1
      exact (congrArg GestureCore.hadTwoFingersOn hcore).trans t2
  have hpf := processFingers_twoFingersUp env fuel u ui
  rcases activateAtReleaseCheck_active u ua with e | e <;> rw [e] at hpf
  · rw [hpf ua uf u2]
    exact key _ ud ug ue up uo u2
  · rw [hpf ua uf u2]
    exact key _ ud ug ue up uo u2

/-- Witness for C24: both fingers leave during a Scroll gesture. -/
theorem C24_release_starts_continuation_witness :
    ∃ r new, deviceTick demoEnv 0 scrollState
        { f0 := fingerAt 0 0 0, f1 := fingerAt 0 0 1, fingersDown := 0, time := 10 } = some r ∧
      r.out = scrollState.out ++ new ++ [Call.startContinuation] ∧
      Call.startContinuation ∉ new ∧
      (∀ c ∈ new ++ [Call.startContinuation], isButton1Call c = false) ∧
      calledActions (new ++ [Call.startContinuation]) =
        (if scrollState.amPerformingGesture = GESTURE_SCROLL ∧ scrollState.easingActive = 0 then
          [(effectiveScrollBraceAction demoEnv scrollState.currentProfile, EXECUTEACTION_RELEASE)]
         else []) ∧
      (∀ a, (a, EXECUTEACTION_BOTH) ∉ calledActions (new ++ [Call.startContinuation])) ∧
      r.amPerformingGesture = scrollState.amPerformingGesture ∧ r.hadTwoFingersOn = 1 ∧
      r.fingersWereDown = 1 :=
  C24_release_starts_continuation demoEnv 0 scrollState
    { f0 := fingerAt 0 0 0, f1 := fingerAt 0 0 1, fingersDown := 0, time := 10 }
    (by decide) (by decide) (by decide) (by decide) (Or.inl (by decide)) rfl

/-- C25: in an active recognizer state with `ignoreFingersUp = 1`,
`hadTwoFingersOn = 1` and `fingersWereDown = 1`, a tick with `fingersDown = 0`
(a pretended-finger tick) returns the state it read, with `fingersDown = 1`
and `fingersWereDown = 1`, whatever the bound on the calls of `checkGesture`,
the bound 0 included, so that the gesture loop is not entered. The trace is
unchanged (no pointer warp, no button event, no Action, no call of
`stopEasingThread` or `startContinuation`), and so are
`amPerformingGesture`, `hadTwoFingersOn`, `buttonDown`, `maxDist`, the gesture
start centre, the current centre and `ignoreFingersUp`. -/
theorem C25_pretended_tick_frame (env : Env) (s : State) (inp : TickInput)
    (hact : s.active ≠ 0) (hi : s.ignoreFingersUp = 1) (h2 : s.hadTwoFingersOn = 1)
    (hw : s.fingersWereDown = 1) (hf : inp.fingersDown = 0) :
    ∃ r, (∀ fuel, deviceTick env fuel s inp = some r) ∧
      r = { s with f0 := inp.f0, f1 := inp.f1, fairlyCurrentTime := inp.time,
                   fingersDown := 1, fingersWereDown := 1 } ∧
      r.out = s.out ∧ r.amPerformingGesture = s.amPerformingGesture ∧
      r.hadTwoFingersOn = s.hadTwoFingersOn ∧ r.buttonDown = s.buttonDown ∧
      r.maxDist = s.maxDist ∧ r.gestureStartCenterX = s.gestureStartCenterX ∧
      r.gestureStartCenterY = s.gestureStartCenterY ∧ r.currentCenterX = s.currentCenterX ∧
      r.currentCenterY = s.currentCenterY ∧ r.ignoreFingersUp = s.ignoreFingersUp ∧
      r.stopEasing = s.stopEasing ∧ r.continuationWakeup = s.continuationWakeup ∧
      r.fingersWereDown = 1 :=
  ⟨_, fun fuel => pretendedTick_eq env fuel s inp hact hi h2 hw hf, rfl, rfl, rfl, rfl, rfl, rfl,
    rfl, rfl, rfl, rfl, rfl, rfl, rfl, rfl⟩

/-- Witness for C25: a pretended-finger tick during a continued Scroll
gesture. -/
theorem C25_pretended_tick_frame_witness :
    ∃ r, (∀ fuel, deviceTick demoEnv fuel continuedScrollState
        { f0 := fingerAt 0 0 0, f1 := fingerAt 0 0 1, fingersDown := 0, time := 10 } = some r) ∧
      r = { continuedScrollState with
            f0 := fingerAt 0 0 0, f1 := fingerAt 0 0 1, fairlyCurrentTime := 10,
            fingersDown := 1, fingersWereDown := 1 } ∧
      r.out = continuedScrollState.out ∧
      r.amPerformingGesture = continuedScrollState.amPerformingGesture ∧
      r.hadTwoFingersOn = continuedScrollState.hadTwoFingersOn ∧
      r.buttonDown = continuedScrollState.buttonDown ∧
      r.maxDist = continuedScrollState.maxDist ∧
      r.gestureStartCenterX = continuedScrollState.gestureStartCenterX ∧
      r.gestureStartCenterY = continuedScrollState.gestureStartCenterY ∧
      r.currentCenterX = continuedScrollState.currentCenterX ∧
      r.currentCenterY = continuedScrollState.currentCenterY ∧
      r.ignoreFingersUp = continuedScrollState.ignoreFingersUp ∧
      r.stopEasing = continuedScrollState.stopEasing ∧
      r.continuationWakeup = continuedScrollState.continuationWakeup ∧
      r.fingersWereDown = 1 :=
  C25_pretended_tick_frame demoEnv continuedScrollState
    { f0 := fingerAt 0 0 0, f1 := fingerAt 0 0 1, fingersDown := 0, time := 10 }
    (by decide) (by decide) (by decide) (by decide) rfl

/-! ### The scroll loop -/

/-- A call of `checkGesture` in Scroll mode with steps of at least 1 that
returns 0 leaves the state as it is, with the current centre within one step of
the reference centre on both axes. -/
theorem checkGestureScroll_stop (env : Env) (t : State)
    (hh : 1 ≤ effectiveHscrollStep env t.currentProfile)
    (hv : 1 ≤ effectiveVscrollStep env t.currentProfile)
    (h0 : (checkGestureScroll env t).2 = 0) :
    (checkGestureScroll env t).1 = t ∧
    - effectiveHscrollStep env t.currentProfile ≤ t.currentCenterX - t.gestureStartCenterX ∧
    t.currentCenterX - t.gestureStartCenterX ≤ effectiveHscrollStep env t.currentProfile ∧
    - effectiveVscrollStep env t.currentProfile ≤ t.currentCenterY - t.gestureStartCenterY ∧
    t.currentCenterY - t.gestureStartCenterY ≤ effectiveVscrollStep env t.currentProfile := by
  unfold effectiveHscrollStep at hh ⊢
  unfold effectiveVscrollStep at hv ⊢
  unfold checkGestureScroll at h0 ⊢
  simp only at h0 ⊢
  split_ifs at hh hv h0 ⊢ <;> first
    | exact absurd (show (1 : Int) = 0 from h0) one_ne_zero
    | (refine ⟨rfl, ?_, ?_, ?_, ?_⟩ <;> omega)

/-- When the gesture loop ends in Scroll mode with steps of at least 1, the
current centre is within one step of the reference centre on both axes. -/
theorem scroll_loop_settled (env : Env) (fuel : Nat) : ∀ (u u' : State),
    u.amPerformingGesture = GESTURE_SCROLL →
    1 ≤ effectiveHscrollStep env u.currentProfile →
    1 ≤ effectiveVscrollStep env u.currentProfile →
    checkGestureLoop env fuel u = some u' →
    - effectiveHscrollStep env u'.currentProfile ≤ u'.currentCenterX - u'.gestureStartCenterX ∧
    u'.currentCenterX - u'.gestureStartCenterX ≤ effectiveHscrollStep env u'.currentProfile ∧
    - effectiveVscrollStep env u'.currentProfile ≤ u'.currentCenterY - u'.gestureStartCenterY ∧
    u'.currentCenterY - u'.gestureStartCenterY ≤ effectiveVscrollStep env u'.currentProfile := by
  induction fuel with
  | zero => intro u u' _ _ _ h; exact Option.noConfusion h
  | succ f ih =>
    intro u u' hg hh hv h
    have h1 : ¬ (u.amPerformingGesture = GESTURE_UNDECIDED ∧ u.fingersDown = 2) := by
      rw [hg]; rintro ⟨h, _⟩; revert h; decide
    obtain ⟨w1, -, -, w4, w5, -, -⟩ := withMaxDist_core env u
    have tp : (withMaxDist env u).currentProfile = u.currentProfile :=
      congrArg GestureCore.currentProfile w1
    have hcg : checkGesture env u = checkGestureScroll env (withMaxDist env u) := by
      rw [checkGesture_switch env u h1, if_pos hg]
    obtain ⟨k1, -⟩ := checkGestureScroll_core env (withMaxDist env u)
    rw [checkGestureLoop] at h
    split_ifs at h with hr
    · have c1 := k1.trans w1
      have np : (checkGesture env u).1.currentProfile = u.currentProfile := by
        rw [hcg]; exact congrArg GestureCore.currentProfile c1
      have ng : (checkGesture env u).1.amPerformingGesture = u.amPerformingGesture := by
        rw [hcg]; exact congrArg GestureCore.amPerformingGesture c1
      exact ih _ u' (ng.trans hg) (by rw [np]; exact hh) (by rw [np]; exact hv) h
    · injection h with h
      have h0 : (checkGestureScroll env (withMaxDist env u)).2 = 0 := by
        rw [← hcg]; exact not_not.mp hr
      obtain ⟨e, b1, b2, b3, b4⟩ := checkGestureScroll_stop env (withMaxDist env u)
        (by rw [tp]; exact hh) (by rw [tp]; exact hv) h0
      rw [← h, hcg, e]
      exact ⟨b1, b2, b3, b4⟩

/-- C28: in an active state with `hadTwoFingersOn = 1`, the gesture Scroll and
effective scroll steps `hscrollStep ≥ 1` and `vscrollStep ≥ 1`, a tick with one
or two real fingers (a TWO_ON tick), whatever their position, is the gesture
loop followed by the end of `processFingers`; the loop ends after finitely many
calls of `checkGesture`, and then, as at the end of the tick,
`-hscrollStep ≤ currentCenterX - gestureStartCenterX ≤ hscrollStep` and
`-vscrollStep ≤ currentCenterY - gestureStartCenterY ≤ vscrollStep`.
Coordinates are exact integers (no overflow). -/
theorem C28_scroll_loop_settles (env : Env) (s : State) (inp : TickInput)
    (ha : s.active ≠ 0) (h2 : s.hadTwoFingersOn = 1)
    (hg : s.amPerformingGesture = GESTURE_SCROLL)
    (hfd : inp.fingersDown = 1 ∨ inp.fingersDown = 2)
    (hh : 1 ≤ effectiveHscrollStep env s.currentProfile)
    (hv : 1 ≤ effectiveVscrollStep env s.currentProfile) :
    ∃ v, (∀ fuel, deviceTick env fuel s inp = (checkGestureLoop env fuel v).map finishTick) ∧
      ∃ n : Nat, ∀ fuel, n < fuel → ∃ v' r,
        checkGestureLoop env fuel v = some v' ∧ deviceTick env fuel s inp = some r ∧
        (- effectiveHscrollStep env s.currentProfile ≤ v'.currentCenterX - v'.gestureStartCenterX ∧
          v'.currentCenterX - v'.gestureStartCenterX ≤ effectiveHscrollStep env s.currentProfile ∧
          - effectiveVscrollStep env s.currentProfile
            ≤ v'.currentCenterY - v'.gestureStartCenterY ∧
          v'.currentCenterY - v'.gestureStartCenterY
            ≤ effectiveVscrollStep env s.currentProfile) ∧
        (- effectiveHscrollStep env s.currentProfile ≤ r.currentCenterX - r.gestureStartCenterX ∧
          r.currentCenterX - r.gestureStartCenterX ≤ effectiveHscrollStep env s.currentProfile ∧
          - effectiveVscrollStep env s.currentProfile
            ≤ r.currentCenterY - r.gestureStartCenterY ∧
          r.currentCenterY - r.gestureStartCenterY
            ≤ effectiveVscrollStep env s.currentProfile) := by
  obtain ⟨w, v, cx, cy, e1, e2, -, vcore, -⟩ := deviceTick_resume env s inp ha h2 hfd
  have vg : v.amPerformingGesture = GESTURE_SCROLL :=
    (congrArg GestureCore.amPerformingGesture vcore).trans hg
  have vp : v.currentProfile = s.currentProfile := congrArg GestureCore.currentProfile vcore
  have vf : v.fingersDown = inp.fingersDown := congrArg GestureCore.fingersDown vcore
  refine ⟨v, fun fuel => by rw [e1, e2], ?_⟩
  refine ⟨(v.currentCenterX - v.gestureStartCenterX).natAbs
      + (v.currentCenterY - v.gestureStartCenterY).natAbs, ?_⟩
  intro fuel hf
  obtain ⟨v', hv'⟩ := scroll_loop_ends env _ fuel v hf vg (by rw [vp]; omega) (by rw [vp]; omega)
    (le_refl _)
  have hb := scroll_loop_settled env fuel v v' vg (by rw [vp]; exact hh) (by rw [vp]; exact hv) hv'
  obtain ⟨c1, -⟩ := checkGestureLoop_decided_core env fuel v v' (Or.inl vg) hv'
  have vp' : v'.currentProfile = s.currentProfile :=
    (congrArg GestureCore.currentProfile c1).trans vp
  have vf' : v'.fingersDown ≠ 0 := by
    rw [show v'.fingersDown = v.fingersDown from congrArg GestureCore.fingersDown c1, vf]
    omega
  rw [vp'] at hb
  refine ⟨v', finishTick v', hv', by rw [e1, e2, hv']; rfl, hb, ?_⟩
  rw [finishTick_down v' vf']
  exact hb

/-- Witness for C28: the centre 120 to the right of the reference centre with
a scroll step of 50. -/
theorem C28_scroll_loop_settles_witness :
    ∃ v, (∀ fuel, deviceTick demoEnv fuel scrollState (scrollTick 120)
        = (checkGestureLoop demoEnv fuel v).map finishTick) ∧
      ∃ n : Nat, ∀ fuel, n < fuel → ∃ v' r,
        checkGestureLoop demoEnv fuel v = some v' ∧
        deviceTick demoEnv fuel scrollState (scrollTick 120) = some r ∧
        (- effectiveHscrollStep demoEnv scrollState.currentProfile
            ≤ v'.currentCenterX - v'.gestureStartCenterX ∧
          v'.currentCenterX - v'.gestureStartCenterX
            ≤ effectiveHscrollStep demoEnv scrollState.currentProfile ∧
          - effectiveVscrollStep demoEnv scrollState.currentProfile
            ≤ v'.currentCenterY - v'.gestureStartCenterY ∧
          v'.currentCenterY - v'.gestureStartCenterY
            ≤ effectiveVscrollStep demoEnv scrollState.currentProfile) ∧
        (- effectiveHscrollStep demoEnv scrollState.currentProfile
            ≤ r.currentCenterX - r.gestureStartCenterX ∧
          r.currentCenterX - r.gestureStartCenterX
            ≤ effectiveHscrollStep demoEnv scrollState.currentProfile ∧
          - effectiveVscrollStep demoEnv scrollState.currentProfile
            ≤ r.currentCenterY - r.gestureStartCenterY ∧
          r.currentCenterY - r.gestureStartCenterY
            ≤ effectiveVscrollStep demoEnv scrollState.currentProfile) :=
  C28_scroll_loop_settles demoEnv scrollState (scrollTick 120) (by decide) (by decide)
    (by decide) (Or.inr rfl) (by decide) (by decide)

/-! ### The one-finger touch -/

theorem moveToDownFingers_eq (s : State) :
    ∃ pre, moveToDownFingers s = { s with out := s.out ++ pre } ∧
      pre.filter isButton1Call = [] := by
  unfold moveToDownFingers State.emit
  simp only
  split_ifs
  · exact ⟨[Call.x (XEvent.motion s.f0.x s.f0.y), Call.x XEvent.flush,
      Call.x (XEvent.motion s.f1.x s.f1.y), Call.x XEvent.flush], by simp, rfl⟩
  · exact ⟨[Call.x (XEvent.motion s.f0.x s.f0.y), Call.x XEvent.flush], rfl, rfl⟩
  · exact ⟨[Call.x (XEvent.motion s.f1.x s.f1.y), Call.x XEvent.flush], rfl, rfl⟩
  · exact ⟨[], by simp, rfl⟩

theorem stopEasingOnNewTouch_buttons (s : State) :
    coreOf (stopEasingOnNewTouch s) = coreOf s ∧
    ∃ pre, (stopEasingOnNewTouch s).out = s.out ++ pre ∧ pre.filter isButton1Call = [] := by
  unfold stopEasingOnNewTouch stopEasingThread
  simp only [State.emit]
  split_ifs
  · exact ⟨rfl, [Call.stopEasingThread], rfl, rfl⟩
  · exact ⟨rfl, [Call.stopEasingThread], rfl, rfl⟩
  · exact ⟨rfl, [], by simp, rfl⟩

/-- A tick with `ignoreFingersUp = 0` in an active state with fingers down is
the chain of branches behind `stopEasingThread`, followed by the bookkeeping
of `fingersWereDown`. -/
theorem processFingers_real (env : Env) (fuel : Nat) (u v : State)
    (ha : u.active ≠ 0) (hi : u.ignoreFingersUp = 0) (hfd : u.fingersDown ≠ 0)
    (e : gestureBranch env fuel false (stopEasingOnNewTouch u) = some v)
    (hv : v.fingersDown ≠ 0) :
    processFingers env fuel u = some { v with fingersWereDown := v.fingersDown } := by
  have hp : fingersOnlyPretended u = false := by simp [fingersOnlyPretended, hi]
  unfold processFingers
  rw [continuationMask_idle u hi, activateAtReleaseCheck_down u hfd, if_neg ha, hp, e,
    Option.map_some', finishTick_down v hv]

/-- The branch taken with one finger down and `hadTwoFingersOn = 0`. -/
theorem gestureBranch_oneFinger (env : Env) (fuel : Nat) (w : State)
    (hf : w.fingersDown = 1) (h2 : w.hadTwoFingersOn = 0) :
    gestureBranch env fuel false w =
      some (if w.fingersWereDown = 0 then
        moveToDownFingers { w with fingerDownTime := w.fairlyCurrentTime }
      else oneFingerMoved w) := by
  unfold gestureBranch
  have h1 : ¬ (w.fingersDown = 2 ∧ w.hadTwoFingersOn = 0) := by omega
  have h3 : ¬ (w.fingersDown > 0 ∧ w.hadTwoFingersOn = 1) := by omega
  have h4 : ¬ (w.fingersDown = 0 ∧ w.hadTwoFingersOn = 1) := by omega
  rw [if_neg h1, if_neg h3, if_neg h4]
  by_cases hw : w.fingersWereDown = 0
  · rw [if_pos ⟨hf, hw⟩, if_pos hw]
  · rw [if_neg (fun h => hw h.2), if_pos hf, if_neg hw, if_pos rfl]

/-- The branch "moved with one finger": the press is made when the button is
up, no two-finger gesture was seen and the click delay has passed. -/
theorem oneFingerMoved_core (s : State) :
    ∃ pre, oneFingerMoved s = { s with
        buttonDown := (if s.hadTwoFingersOn = 0 ∧ s.buttonDown = 0
            ∧ s.fairlyCurrentTime > toU64 (s.fingerDownTime + CLICK_DELAY) then 1
          else s.buttonDown)
        out := s.out ++ pre } ∧
      pre.filter isButton1Call =
        (if s.hadTwoFingersOn = 0 ∧ s.buttonDown = 0
            ∧ s.fairlyCurrentTime > toU64 (s.fingerDownTime + CLICK_DELAY) then
          [Call.x (XEvent.button 1 true)] else []) := by
  by_cases hc : s.hadTwoFingersOn = 0 ∧ s.buttonDown = 0
      ∧ s.fairlyCurrentTime > toU64 (s.fingerDownTime + CLICK_DELAY)
  · rw [if_pos hc, if_pos hc]
    unfold oneFingerMoved
    simp only [if_pos (And.intro hc.1 hc.2.1), if_pos hc.2.2, State.emit]
    rw [if_pos (by decide)]
    unfold moveToDownFingers State.emit
    simp only
    split_ifs
    · exact ⟨[Call.x (XEvent.button 1 true), Call.x XEvent.flush,
        Call.x (XEvent.motion s.f0.x s.f0.y), Call.x XEvent.flush,
        Call.x (XEvent.motion s.f1.x s.f1.y), Call.x XEvent.flush], by simp, rfl⟩
    · exact ⟨[Call.x (XEvent.button 1 true), Call.x XEvent.flush,
        Call.x (XEvent.motion s.f0.x s.f0.y), Call.x XEvent.flush], by simp, rfl⟩
    · exact ⟨[Call.x (XEvent.button 1 true), Call.x XEvent.flush,
        Call.x (XEvent.motion s.f1.x s.f1.y), Call.x XEvent.flush], by simp, rfl⟩
    · exact ⟨[Call.x (XEvent.button 1 true), Call.x XEvent.flush], rfl, rfl⟩
  · rw [if_neg hc, if_neg hc]
    have hs1 : (if s.hadTwoFingersOn = 0 ∧ s.buttonDown = 0 then
          if s.fairlyCurrentTime > toU64 (s.fingerDownTime + CLICK_DELAY) then
            ({ s with buttonDown := 1 }).emit [Call.x (XEvent.button 1 true), Call.x XEvent.flush]
          else s
        else s) = s := by
      split_ifs with a b
      · exact absurd ⟨a.1, a.2, b⟩ hc
      · rfl
      · rfl
    unfold oneFingerMoved
    simp only
    rw [hs1]
    by_cases hb : s.buttonDown ≠ 0
    · rw [if_pos hb]
      obtain ⟨pre, h1, h2⟩ := moveToDownFingers_eq s
      exact ⟨pre, h1, h2⟩
    · rw [if_neg hb]
      exact ⟨[], by simp, rfl⟩

/-- The touch-down tick of a one-finger touch from the idle state. -/
theorem touchDown_tick (env : Env) (fuel : Nat) (s : State) (inp : TickInput)
    (ha : s.active ≠ 0) (h2 : s.hadTwoFingersOn = 0) (hb : s.buttonDown = 0)
    (hw : s.fingersWereDown = 0) (hi : s.ignoreFingersUp = 0) (hf : inp.fingersDown = 1) :
    ∃ m, deviceTick env fuel s inp = some m ∧ OneFingerHeld s.out inp.time false m := by
  unfold deviceTick
  generalize hu : ({ s with
    f0 := inp.f0
    f1 := inp.f1
    fingersDown := inp.fingersDown
    fairlyCurrentTime := inp.time } : State) = u
  have ua : u.active ≠ 0 := by rw [← hu]; exact ha
  have ui : u.ignoreFingersUp = 0 := by rw [← hu]; exact hi
  have uf : u.fingersDown = 1 := by rw [← hu]; exact hf
  obtain ⟨wc, pre1, wo, wb⟩ := stopEasingOnNewTouch_buttons u
  generalize hwe : stopEasingOnNewTouch u = w at wc wo
  have wf : w.fingersDown = 1 := (congrArg GestureCore.fingersDown wc).trans uf
  have w2 : w.hadTwoFingersOn = 0 := by
    rw [show w.hadTwoFingersOn = u.hadTwoFingersOn from congrArg GestureCore.hadTwoFingersOn wc,
      ← hu]; exact h2
  have ww : w.fingersWereDown = 0 := by
    rw [show w.fingersWereDown = u.fingersWereDown from congrArg GestureCore.fingersWereDown wc,
      ← hu]; exact hw
  have wa : w.active = s.active := by
    rw [show w.active = u.active from congrArg GestureCore.active wc, ← hu]
  have wi : w.ignoreFingersUp = 0 := (congrArg GestureCore.ignoreFingersUp wc).trans ui
  have wb' : w.buttonDown = 0 := by
    rw [show w.buttonDown = u.buttonDown from congrArg GestureCore.buttonDown wc, ← hu]; exact hb
  have wt : w.fairlyCurrentTime = inp.time := by
    rw [show w.fairlyCurrentTime = u.fairlyCurrentTime from
      congrArg GestureCore.fairlyCurrentTime wc, ← hu]
  have uo : u.out = s.out := by rw [← hu]
  have hgb := gestureBranch_oneFinger env fuel w wf w2
  rw [if_pos ww] at hgb
  obtain ⟨pre2, hm, hmb⟩ := moveToDownFingers_eq { w with fingerDownTime := w.fairlyCurrentTime }
  rw [hm] at hgb
  refine ⟨_, processFingers_real env fuel u _ ua ui (by omega) (by rw [hwe]; exact hgb)
    (by simp only; omega), ?_⟩
  refine ⟨by simp only; rw [wa]; exact ha, w2, wf, wi, wt, wb', pre1 ++ pre2, ?_, ?_⟩
  · simp only [wo, uo, List.append_assoc]
  · rw [List.filter_append, wb, hmb]; rfl

/-- A hold tick of a one-finger touch: the button is pressed in it exactly when
it was up and the tick comes later than the click delay. -/
theorem hold_tick (env : Env) (fuel : Nat) (base : List Call) (t0 : Int) (p : Bool)
    (m : State) (inp : TickInput) (hm : OneFingerHeld base t0 p m)
    (ht0 : 0 ≤ t0 ∧ t0 + 200 < 18446744073709551616) (hf : inp.fingersDown = 1) :
    ∃ m', deviceTick env fuel m inp = some m' ∧
      OneFingerHeld base t0 (p || decide (inp.time > t0 + CLICK_DELAY)) m' := by
  obtain ⟨ha, h2, hw, hi, hfd, hb, new, ho, hnb⟩ := hm
  unfold deviceTick
  generalize hu : ({ m with
    f0 := inp.f0
    f1 := inp.f1
    fingersDown := inp.fingersDown
    fairlyCurrentTime := inp.time } : State) = u
  have ua : u.active ≠ 0 := by rw [← hu]; exact ha
  have ui : u.ignoreFingersUp = 0 := by rw [← hu]; exact hi
  have uf : u.fingersDown = 1 := by rw [← hu]; exact hf
  obtain ⟨wc, pre1, wo, wb⟩ := stopEasingOnNewTouch_buttons u
  generalize hwe : stopEasingOnNewTouch u = w at wc wo
  have wf : w.fingersDown = 1 := (congrArg GestureCore.fingersDown wc).trans uf
  have w2 : w.hadTwoFingersOn = 0 := by
    rw [show w.hadTwoFingersOn = u.hadTwoFingersOn from congrArg GestureCore.hadTwoFingersOn wc,
      ← hu]; exact h2
  have ww : w.fingersWereDown = 1 := by
    rw [show w.fingersWereDown = u.fingersWereDown from congrArg GestureCore.fingersWereDown wc,
      ← hu]; exact hw
  have wa : w.active = m.active := by
    rw [show w.active = u.active from congrArg GestureCore.active wc, ← hu]
  have wi : w.ignoreFingersUp = 0 := (congrArg GestureCore.ignoreFingersUp wc).trans ui
  have wb' : w.buttonDown = (if p = true then 1 else 0) := by
    rw [show w.buttonDown = u.buttonDown from congrArg GestureCore.buttonDown wc, ← hu]; exact hb
  have wt : w.fairlyCurrentTime = inp.time := by
    rw [show w.fairlyCurrentTime = u.fairlyCurrentTime from
      congrArg GestureCore.fairlyCurrentTime wc, ← hu]
  have wd : w.fingerDownTime = t0 := by
    rw [show w.fingerDownTime = u.fingerDownTime from congrArg GestureCore.fingerDownTime wc,
      ← hu]; exact hfd
  have uo : u.out = m.out := by rw [← hu]
  have hgb := gestureBranch_oneFinger env fuel w wf w2
  rw [if_neg (by omega)] at hgb
  obtain ⟨pre2, hmv, hmb⟩ := oneFingerMoved_core w
  rw [hmv] at hgb
  have hdelay : toU64 (w.fingerDownTime + CLICK_DELAY) = t0 + CLICK_DELAY := by
    rw [wd]
    unfold toU64 CLICK_DELAY
    omega
  rw [hdelay, wt] at hmb
  refine ⟨_, processFingers_real env fuel u _ ua ui (by omega) (by rw [hwe]; exact hgb)
    (by simp only; omega), ?_⟩
  refine ⟨by simp only; rw [wa]; exact ha, w2, wf, wi, wd, ?_, new ++ (pre1 ++ pre2), ?_, ?_⟩
  · simp only
    rw [hdelay, wt, wb']
    cases p <;> by_cases hq : inp.time > t0 + CLICK_DELAY <;> simp [hq, w2]
  · simp only [wo, uo, ho, List.append_assoc]
  · rw [List.filter_append, List.filter_append, hnb, wb, hmb, wb']
    cases p <;> by_cases hq : inp.time > t0 + CLICK_DELAY <;> simp [hq, w2]

/-- The release tick of a one-finger touch: a press and a release when the
button is still up, a release when it is down. -/
theorem release_tick (env : Env) (fuel : Nat) (base : List Call) (t0 : Int) (p : Bool)
    (m : State) (inp : TickInput) (hm : OneFingerHeld base t0 p m)
    (hf : inp.fingersDown = 0) :
    ∃ r new, deviceTick env fuel m inp = some r ∧ r.out = base ++ new ∧
      new.filter isButton1Call
        = [Call.x (XEvent.button 1 true), Call.x (XEvent.button 1 false)] ∧
      r.buttonDown = 0 ∧ r.fingersWereDown = 0 := by
  obtain ⟨ha, h2, hw, hi, -, hb, new, ho, hnb⟩ := hm
  unfold deviceTick
  generalize hu : ({ m with
    f0 := inp.f0
    f1 := inp.f1
    fingersDown := inp.fingersDown
    fairlyCurrentTime := inp.time } : State) = u
  have ua : u.active ≠ 0 := by rw [← hu]; exact ha
  have ui : u.ignoreFingersUp = 0 := by rw [← hu]; exact hi
  have uf : u.fingersDown = 0 := by rw [← hu]; exact hf
  have u2 : u.hadTwoFingersOn = 0 := by rw [← hu]; exact h2
  have uw : u.fingersWereDown = 1 := by rw [← hu]; exact hw
  have ub : u.buttonDown = (if p = true then 1 else 0) := by rw [← hu]; exact hb
  have uo : u.out = base ++ new := by rw [← hu]; exact ho
  have key : ∀ t : State, t.active ≠ 0 → t.fingersDown = 0 → t.hadTwoFingersOn = 0 →
      t.fingersWereDown = 1 → t.buttonDown = (if p = true then 1 else 0) →
      t.out = base ++ new →
      ∃ r new', (gestureBranch env fuel false (stopEasingOnNewTouch t)).map finishTick = some r ∧
        r.out = base ++ new' ∧
        new'.filter isButton1Call
          = [Call.x (XEvent.button 1 true), Call.x (XEvent.button 1 false)] ∧
        r.buttonDown = 0 ∧ r.fingersWereDown = 0 := by
    intro t ta tf t2 tw tb tout
    have hst : stopEasingOnNewTouch t = t := by
      unfold stopEasingOnNewTouch
      rw [if_neg]
      omega
    have hgb : gestureBranch env fuel false t = some (lastFingerReleased t) := by
      unfold gestureBranch
      rw [if_neg (by omega), if_neg (by omega), if_neg (by omega), if_neg (by omega),
        if_neg (by omega), if_pos (by omega)]
    rw [hst, hgb, Option.map_some']
    cases p with
    | false =>
      have tb0 : t.buttonDown = 0 := by rw [tb]; rfl
      have hl : lastFingerReleased t = { t with out := t.out ++
          [Call.x (XEvent.button 1 true), Call.x XEvent.flush,
           Call.x (XEvent.button 1 false), Call.x XEvent.flush] } := by
        unfold lastFingerReleased State.emit
        rw [if_pos ⟨t2, tb0⟩]
      rw [hl]
      obtain ⟨ar, hfin⟩ := finishTick_up { t with out := t.out ++
          [Call.x (XEvent.button 1 true), Call.x XEvent.flush,
           Call.x (XEvent.button 1 false), Call.x XEvent.flush] } ta tf
      rw [hfin]
      refine ⟨_, new ++ [Call.x (XEvent.button 1 true), Call.x XEvent.flush,
           Call.x (XEvent.button 1 false), Call.x XEvent.flush], rfl, ?_, ?_, tb0, rfl⟩
      · simp only [tout, List.append_assoc]
      · rw [List.filter_append, hnb]; rfl
    | true =>
      have tb1 : t.buttonDown = 1 := by rw [tb]; rfl
      have hl : lastFingerReleased t = { t with buttonDown := 0, out := t.out ++
          [Call.x (XEvent.button 1 false), Call.x XEvent.flush] } := by
        unfold lastFingerReleased releaseButton State.emit
        rw [if_neg (by omega), if_pos (by omega)]
      rw [hl]
      obtain ⟨ar, hfin⟩ := finishTick_up { t with buttonDown := 0, out := t.out ++
          [Call.x (XEvent.button 1 false), Call.x XEvent.flush] } ta tf
      rw [hfin]
      refine ⟨_, new ++ [Call.x (XEvent.button 1 false), Call.x XEvent.flush], rfl, ?_, ?_,
        rfl, rfl⟩
      · simp only [tout, List.append_assoc]
      · rw [List.filter_append, hnb]; rfl
  have hp : fingersOnlyPretended u = false := by simp [fingersOnlyPretended, ui]
  unfold processFingers
  rw [continuationMask_idle u ui, hp]
  rcases activateAtReleaseCheck_active u ua with e | e <;> rw [e]
  · rw [if_neg ua]
    exact key u ua uf u2 uw ub uo
  · rw [if_neg ua]
    exact key _ ua uf u2 uw ub uo

theorem runTicks_append (env : Env) (fuel : Nat) (a b : List TickInput) : ∀ s : State,
    runTicks env fuel s (a ++ b) = (runTicks env fuel s a).bind (fun m => runTicks env fuel m b) := by
  induction a with
  | nil => intro s; rfl
  | cons x rest ih =>
    intro s
    simp only [List.cons_append, runTicks]
    cases deviceTick env fuel s x with
    | none => rfl
    | some s1 => simp only [Option.some_bind]; exact ih s1

/-- The hold ticks of a one-finger touch: afterwards the button is pressed
exactly when it was before or one of the ticks came later than the click
delay. -/
theorem holds_run (env : Env) (fuel : Nat) (base : List Call) (t0 : Int)
    (ht0 : 0 ≤ t0 ∧ t0 + 200 < 18446744073709551616) :
    ∀ (holds : List TickInput) (p : Bool) (m : State), OneFingerHeld base t0 p m →
      (∀ h ∈ holds, h.fingersDown = 1) →
      ∃ m', runTicks env fuel m holds = some m' ∧
        OneFingerHeld base t0 (p || clickDelayPassed t0 holds) m' := by
  intro holds
  induction holds with
  | nil =>
    intro p m hm _
    refine ⟨m, rfl, ?_⟩
    simpa [clickDelayPassed] using hm
  | cons x rest ih =>
    intro p m hm hh
    obtain ⟨m1, e1, hm1⟩ := hold_tick env fuel base t0 p m x hm ht0 (hh x (List.mem_cons_self _ _))
    obtain ⟨m2, e2, hm2⟩ := ih _ m1 hm1 (fun h hmem => hh h (List.mem_cons_of_mem _ hmem))
    refine ⟨m2, by simp only [runTicks, e1, Option.some_bind]; exact e2, ?_⟩
    have : (p || clickDelayPassed t0 (x :: rest))
        = (p || decide (x.time > t0 + CLICK_DELAY) || clickDelayPassed t0 rest) := by
      simp [clickDelayPassed, Bool.or_assoc]
    rw [this]
    exact hm2

/-- C23: a one-finger touch processed while active, from a state with
`hadTwoFingersOn = 0`, `buttonDown = 0`, `fingersWereDown = 0` and
`ignoreFingersUp = 0`: a touch-down tick at a time `t0` (an `unsigned long`
with `t0 + 200` in range), any number of hold ticks at arbitrary times and a
release tick all return. After the touch-down tick and any number of the hold
ticks `fingerDownTime = t0` and the direct button-1 events emitted so far are
one press if one of these hold ticks had a time greater than
`fingerDownTime + 200`, and none otherwise; after the release tick they are
exactly one press followed by one release. So the press is emitted in the
first hold tick later than `fingerDownTime + 200`, and in the release tick if
there is none. -/
theorem C23_one_finger_click (env : Env) (fuel : Nat) (s : State) (down up : TickInput)
    (holds : List TickInput)
    (ha : s.active ≠ 0) (h2 : s.hadTwoFingersOn = 0) (hb : s.buttonDown = 0)
    (hw : s.fingersWereDown = 0) (hi : s.ignoreFingersUp = 0)
    (hd : down.fingersDown = 1) (hh : ∀ h ∈ holds, h.fingersDown = 1)
    (hu : up.fingersDown = 0)
    (ht : 0 ≤ down.time ∧ down.time + 200 < 18446744073709551616) :
    (∀ pre rest, holds = pre ++ rest →
      ∃ m new, runTicks env fuel s (down :: pre) = some m ∧ m.fingerDownTime = down.time ∧
        m.out = s.out ++ new ∧
        new.filter isButton1Call =
          (if clickDelayPassed down.time pre = true then [Call.x (XEvent.button 1 true)]
           else [])) ∧
    ∃ r new, runTicks env fuel s (down :: (holds ++ [up])) = some r ∧ r.out = s.out ++ new ∧
      new.filter isButton1Call
        = [Call.x (XEvent.button 1 true), Call.x (XEvent.button 1 false)] := by
  obtain ⟨m0, e0, hm0⟩ := touchDown_tick env fuel s down ha h2 hb hw hi hd
  constructor
  · intro pre rest hsplit
    have hpre : ∀ h ∈ pre, h.fingersDown = 1 := by
      intro h hmem
      exact hh h (by rw [hsplit]; exact List.mem_append_left _ hmem)
    obtain ⟨m, e, hm⟩ := holds_run env fuel s.out down.time ht pre false m0 hm0 hpre
    obtain ⟨-, -, -, -, hfd, -, new, ho, hnb⟩ := hm
    refine ⟨m, new, by simp only [runTicks, e0, Option.some_bind]; exact e, hfd, ho, ?_⟩
    rw [hnb, Bool.false_or]
  · obtain ⟨m, e, hm⟩ := holds_run env fuel s.out down.time ht holds false m0 hm0 hh
    obtain ⟨r, new, er, ho, hnb, -, -⟩ := release_tick env fuel s.out down.time _ m up hm hu
    refine ⟨r, new, ?_, ho, hnb⟩
    simp only [runTicks, e0, Option.some_bind]
    rw [runTicks_append, e]
    simp only [Option.some_bind, runTicks, er]

/-- Witness for C23: a touch at time 0 held at times 100 and 250 and released
at time 300; the press falls into the hold tick at time 250. -/
theorem C23_one_finger_click_witness :
    (∀ pre rest, [oneFingerTick 10 10 100, oneFingerTick 10 10 250] = pre ++ rest →
      ∃ m new, runTicks demoEnv 0 idleState (oneFingerTick 10 10 0 :: pre) = some m ∧
        m.fingerDownTime = (oneFingerTick 10 10 0).time ∧
        m.out = idleState.out ++ new ∧
        new.filter isButton1Call =
          (if clickDelayPassed (oneFingerTick 10 10 0).time pre = true then
            [Call.x (XEvent.button 1 true)]
           else [])) ∧
    ∃ r new, runTicks demoEnv 0 idleState
        (oneFingerTick 10 10 0 :: ([oneFingerTick 10 10 100, oneFingerTick 10 10 250]
          ++ [noFingerTick 300])) = some r ∧
      r.out = idleState.out ++ new ∧
      new.filter isButton1Call
        = [Call.x (XEvent.button 1 true), Call.x (XEvent.button 1 false)] :=
  C23_one_finger_click demoEnv 0 idleState (oneFingerTick 10 10 0) (noFingerTick 300)
    [oneFingerTick 10 10 100, oneFingerTick 10 10 250] (by decide) (by decide) (by decide)
    (by decide) (by decide) rfl (by decide) rfl (by decide)

/-! ### The gesture invariant -/

theorem flagsOf_core {a b : State} (h : coreOf a = coreOf b) : flagsOf a = flagsOf b := by
  have h1 : a.hadTwoFingersOn = b.hadTwoFingersOn := congrArg GestureCore.hadTwoFingersOn h
  have h2 : a.amPerformingGesture = b.amPerformingGesture :=
    congrArg GestureCore.amPerformingGesture h
  have h3 : a.fingersWereDown = b.fingersWereDown := congrArg GestureCore.fingersWereDown h
  have h4 : a.fingersDown = b.fingersDown := congrArg GestureCore.fingersDown h
  simp only [flagsOf, h1, h2, h3, h4]

theorem activateAtReleaseCheck_flags (s : State) :
    flagsOf (activateAtReleaseCheck s) = flagsOf s := by
  unfold activateAtReleaseCheck activate releaseButton State.emit
  simp only
  split_ifs <;> rfl

theorem continuationMask_flags (s : State) :
    (continuationMask s).hadTwoFingersOn = s.hadTwoFingersOn ∧
    (continuationMask s).amPerformingGesture = s.amPerformingGesture ∧
    (continuationMask s).fingersWereDown = s.fingersWereDown ∧
    ((continuationMask s).fingersDown = s.fingersDown ∨ (continuationMask s).fingersDown = 1) := by
  unfold continuationMask
  split_ifs
  · exact ⟨rfl, rfl, rfl, Or.inr rfl⟩
  · exact ⟨rfl, rfl, rfl, Or.inl rfl⟩
  · exact ⟨rfl, rfl, rfl, Or.inl rfl⟩

theorem finishTick_flags (v : State) :
    (finishTick v).hadTwoFingersOn = (if v.fingersDown = 0 then 0 else v.hadTwoFingersOn) ∧
    (finishTick v).amPerformingGesture = v.amPerformingGesture ∧
    (finishTick v).fingersWereDown = v.fingersDown := by
  unfold finishTick
  simp only
  have h := activateAtReleaseCheck_flags
    { (if v.fingersDown = 0 then { v with hadTwoFingersOn := 0 } else v) with
      fingersWereDown := (if v.fingersDown = 0 then { v with hadTwoFingersOn := 0 } else v).fingersDown }
  have h1 := congrArg GestureFlags.hadTwoFingersOn h
  have h2 := congrArg GestureFlags.amPerformingGesture h
  have h3 := congrArg GestureFlags.fingersWereDown h
  simp only [flagsOf] at h1 h2 h3
  rw [h1, h2, h3]
  split_ifs <;> exact ⟨rfl, rfl, rfl⟩

/-- The classification block writes `amPerformingGesture` only, to a gesture. -/
theorem checkGestureUndecided_flags (env : Env) (t r : State) (cd ca md : Dbl) (k : Int)
    (h : checkGestureUndecided env t cd ca md = some (r, k)) :
    r.hadTwoFingersOn = t.hadTwoFingersOn ∧ r.fingersWereDown = t.fingersWereDown ∧
    r.fingersDown = t.fingersDown ∧ r.amPerformingGesture ≠ GESTURE_NONE := by
  unfold checkGestureUndecided State.emit at h
  simp only at h
  split_ifs at h <;>
    first
      | exact Option.noConfusion h
      | (simp only [Option.some.injEq, Prod.mk.injEq] at h
         obtain ⟨h, -⟩ := h
         subst h
         exact ⟨rfl, rfl, rfl, by simp only; decide⟩)

/-- A call of `checkGesture` leaves `hadTwoFingersOn`, `fingersWereDown` and
`fingersDown`, and a gesture in progress stays in progress. -/
theorem checkGesture_flags (env : Env) (u : State) :
    (checkGesture env u).1.hadTwoFingersOn = u.hadTwoFingersOn ∧
    (checkGesture env u).1.fingersWereDown = u.fingersWereDown ∧
    (checkGesture env u).1.fingersDown = u.fingersDown ∧
    (u.amPerformingGesture ≠ GESTURE_NONE →
      (checkGesture env u).1.amPerformingGesture ≠ GESTURE_NONE) := by
  obtain ⟨w1, -⟩ := withMaxDist_core env u
  have wf := flagsOf_core w1
  have a1 : (withMaxDist env u).hadTwoFingersOn = u.hadTwoFingersOn :=
    congrArg GestureFlags.hadTwoFingersOn wf
  have a2 : (withMaxDist env u).fingersWereDown = u.fingersWereDown :=
    congrArg GestureFlags.fingersWereDown wf
  have a3 : (withMaxDist env u).fingersDown = u.fingersDown :=
    congrArg GestureFlags.fingersDown wf
  have a4 : (withMaxDist env u).amPerformingGesture = u.amPerformingGesture :=
    congrArg GestureFlags.amPerformingGesture wf
  have viaCore : ∀ r : State, coreOf r = coreOf (withMaxDist env u) →
      r.hadTwoFingersOn = u.hadTwoFingersOn ∧ r.fingersWereDown = u.fingersWereDown ∧
      r.fingersDown = u.fingersDown ∧
      (u.amPerformingGesture ≠ GESTURE_NONE → r.amPerformingGesture ≠ GESTURE_NONE) := by
    intro r hr
    have rf := flagsOf_core hr
    refine ⟨(congrArg GestureFlags.hadTwoFingersOn rf).trans a1,
      (congrArg GestureFlags.fingersWereDown rf).trans a2,
      (congrArg GestureFlags.fingersDown rf).trans a3, ?_⟩
    intro hne
    rw [show r.amPerformingGesture = u.amPerformingGesture from
      (congrArg GestureFlags.amPerformingGesture rf).trans a4]
    exact hne
  by_cases hu : u.amPerformingGesture = GESTURE_UNDECIDED ∧ u.fingersDown = 2
  · rw [checkGesture_undecided env u hu.1 hu.2]
    cases hc : checkGestureUndecided env (withMaxDist env u) (currentDistOf env u)
        (currentAngleOf env u) (moveDistOf env u) with
    | none => exact viaCore _ rfl
    | some p =>
      obtain ⟨r, k⟩ := p
      obtain ⟨b1, b2, b3, b4⟩ := checkGestureUndecided_flags env _ r _ _ _ k hc
      exact ⟨b1.trans a1, b2.trans a2, b3.trans a3, fun _ => b4⟩
  · rw [checkGesture_switch env u hu]
    split_ifs
    · exact viaCore _ (checkGestureScroll_core env _).1
    · exact viaCore _ (checkGestureZoom_core env _ _).1
    · exact viaCore _ (checkGestureRotate_core env _ _).1
    · exact viaCore _ rfl

theorem checkGestureLoop_flags (env : Env) (fuel : Nat) : ∀ (u v : State),
    checkGestureLoop env fuel u = some v →
    v.hadTwoFingersOn = u.hadTwoFingersOn ∧ v.fingersWereDown = u.fingersWereDown ∧
    v.fingersDown = u.fingersDown ∧
    (u.amPerformingGesture ≠ GESTURE_NONE → v.amPerformingGesture ≠ GESTURE_NONE) := by
  induction fuel with
  | zero => intro u v h; exact Option.noConfusion h
  | succ f ih =>
    intro u v h
    obtain ⟨k1, k2, k3, k4⟩ := checkGesture_flags env u
    rw [checkGestureLoop] at h
    split_ifs at h
    · obtain ⟨j1, j2, j3, j4⟩ := ih _ v h
      exact ⟨j1.trans k1, j2.trans k2, j3.trans k3, fun hne => j4 (k4 hne)⟩
    · injection h with h
      rw [← h]
      exact ⟨k1, k2, k3, k4⟩

theorem twoFingersDown_flags (env : Env) (s : State) :
    (twoFingersDown env s).hadTwoFingersOn = 1 ∧
    (twoFingersDown env s).amPerformingGesture = GESTURE_UNDECIDED ∧
    (twoFingersDown env s).fingersDown = s.fingersDown := by
  unfold twoFingersDown releaseButton State.emit
  simp only
  split_ifs <;> simp

theorem twoFingersOn_flags (env : Env) (fuel : Nat) (w v : State)
    (h : twoFingersOn env fuel w = some v) :
    v.hadTwoFingersOn = w.hadTwoFingersOn ∧ v.fingersDown = w.fingersDown ∧
    (w.amPerformingGesture ≠ GESTURE_NONE → v.amPerformingGesture ≠ GESTURE_NONE) := by
  obtain ⟨v0, -, cx, cy, e, hcore, -⟩ := twoFingersOn_entry env w
  rw [e fuel] at h
  obtain ⟨k1, -, k3, k4⟩ := checkGestureLoop_flags env fuel v0 v h
  have hf := flagsOf_core hcore
  have b1 : v0.hadTwoFingersOn = w.hadTwoFingersOn := congrArg GestureFlags.hadTwoFingersOn hf
  have b3 : v0.fingersDown = w.fingersDown := congrArg GestureFlags.fingersDown hf
  have b4 : v0.amPerformingGesture = w.amPerformingGesture :=
    congrArg GestureFlags.amPerformingGesture hf
  exact ⟨k1.trans b1, k3.trans b3, fun hne => k4 (by rw [b4]; exact hne)⟩

theorem tapIfQuiet_flags (env : Env) (s s2 : State) (h : tapIfQuiet env s = some s2) :
    flagsOf s2 = flagsOf s := by
  unfold tapIfQuiet at h
  simp only [State.emit] at h
  split_ifs at h <;>
    first
      | exact Option.noConfusion h
      | (simp only [Option.map_some', Option.some.injEq] at h
         subst h
         first
           | (split_ifs <;> rfl)
           | rfl)

/-- The branch `TWO_FINGERS_UP` either starts the continuation, pretending one
finger with the gesture kept, or ends the gesture. -/
theorem twoFingersUp_flags (env : Env) (w v : State) (h : twoFingersUp env w = some v) :
    v.hadTwoFingersOn = w.hadTwoFingersOn ∧
    ((v.fingersDown = 1 ∧ v.amPerformingGesture ≠ GESTURE_NONE) ∨
     (v.fingersDown = w.fingersDown ∧ v.amPerformingGesture = GESTURE_NONE)) := by
  obtain ⟨s1, new, hs1, hcore, -⟩ := twoFingersUp_easing env w
  have hf := flagsOf_core hcore
  have b1 : s1.hadTwoFingersOn = w.hadTwoFingersOn := congrArg GestureFlags.hadTwoFingersOn hf
  have b3 : s1.fingersDown = w.fingersDown := congrArg GestureFlags.fingersDown hf
  unfold twoFingersUp at h
  simp only at h
  rw [hs1] at h
  split_ifs at h with hc
  · injection h with h
    subst h
    exact ⟨b1, Or.inl ⟨rfl, hc.1⟩⟩
  · cases hq : tapIfQuiet env s1 with
    | none => rw [hq] at h; exact Option.noConfusion h
    | some s2 =>
      rw [hq] at h
      simp only [Option.map_some', Option.some.injEq] at h
      subst h
      have tf := tapIfQuiet_flags env s1 s2 hq
      exact ⟨(congrArg GestureFlags.hadTwoFingersOn tf).trans b1,
        Or.inr ⟨(congrArg GestureFlags.fingersDown tf).trans b3, rfl⟩⟩

theorem lastFingerReleased_flags (s : State) : flagsOf (lastFingerReleased s) = flagsOf s := by
  unfold lastFingerReleased releaseButton State.emit
  split_ifs <;> rfl

theorem oneFingerMoved_flags (s : State) : flagsOf (oneFingerMoved s) = flagsOf s := by
  obtain ⟨pre, h, -⟩ := oneFingerMoved_core s
  rw [h]; rfl

theorem moveToDownFingers_flags (s : State) : flagsOf (moveToDownFingers s) = flagsOf s := by
  obtain ⟨pre, h, -⟩ := moveToDownFingers_eq s
  rw [h]; rfl

/-- The chain of branches followed by the end of `processFingers` keeps the
gesture invariant, for a finger count that is not negative. -/
theorem gestureBranch_inv (env : Env) (fuel : Nat) (pretended : Bool) (w v : State)
    (hinv : (w.hadTwoFingersOn = 1 ↔ w.amPerformingGesture ≠ GESTURE_NONE))
    (hfd : 0 ≤ w.fingersDown)
    (h : gestureBranch env fuel pretended w = some v) :
    GestureInv (finishTick v) := by
  obtain ⟨f1, f2, f3⟩ := finishTick_flags v
  have done : ∀ (_ : v.fingersDown = 0 → v.amPerformingGesture = GESTURE_NONE)
      (_ : v.fingersDown ≠ 0 → (v.hadTwoFingersOn = 1 ↔ v.amPerformingGesture ≠ GESTURE_NONE))
      (_ : 0 ≤ v.fingersDown), GestureInv (finishTick v) := by
    intro h0 h1 h2
    unfold GestureInv
    rw [f1, f2, f3]
    by_cases hz : v.fingersDown = 0
    · rw [if_pos hz]
      have := h0 hz
      constructor
      · constructor
        · intro c; exact absurd c (by decide)
        · intro c; exact absurd this c
      · intro c; exact absurd c (by decide)
    · rw [if_neg hz]
      exact ⟨h1 hz, fun _ => by omega⟩
  have same : flagsOf v = flagsOf w → w.hadTwoFingersOn ≠ 1 → GestureInv (finishTick v) := by
    intro hf hn
    have b1 : v.hadTwoFingersOn = w.hadTwoFingersOn := congrArg GestureFlags.hadTwoFingersOn hf
    have b2 : v.amPerformingGesture = w.amPerformingGesture :=
      congrArg GestureFlags.amPerformingGesture hf
    have b3 : v.fingersDown = w.fingersDown := congrArg GestureFlags.fingersDown hf
    have hg : w.amPerformingGesture = GESTURE_NONE := by
      by_contra c; exact hn (hinv.mpr c)
    refine done (fun _ => b2.trans hg) (fun _ => ?_) (by rw [b3]; exact hfd)
    rw [b1, b2]; exact hinv
  unfold gestureBranch at h
  split_ifs at h with c1 c2 c3 c4 c5 c6 c7 c8
  · injection h with h
    obtain ⟨a1, a2, a3⟩ := twoFingersDown_flags env w
    rw [h] at a1 a2 a3
    refine done (fun hz => by omega) (fun _ => ?_) (by omega)
    rw [a1, a2]
    exact ⟨fun _ => by decide, fun _ => rfl⟩
  · obtain ⟨a1, a3, a4⟩ := twoFingersOn_flags env fuel w v h
    have hg : w.amPerformingGesture ≠ GESTURE_NONE := hinv.mp c2.2
    refine done (fun hz => by omega) (fun _ => ?_) (by omega)
    exact ⟨fun _ => a4 hg, fun _ => a1.trans c2.2⟩
  · injection h with h
    subst h
    have hg : w.amPerformingGesture ≠ GESTURE_NONE := hinv.mp c2.2
    refine done (fun hz => by omega) (fun _ => ?_) hfd
    exact ⟨fun _ => hg, fun _ => c2.2⟩
  · obtain ⟨a1, a2⟩ := twoFingersUp_flags env w v h
    rcases a2 with ⟨a3, a4⟩ | ⟨a3, a4⟩
    · refine done (fun hz => by omega) (fun _ => ?_) (by omega)
      exact ⟨fun _ => a4, fun _ => a1.trans c4.2⟩
    · exact done (fun _ => a4) (fun hz => absurd (a3.trans c4.1) hz) (by omega)
  · injection h with h
    subst h
    exact same (moveToDownFingers_flags _) (by omega)
  · injection h with h
    subst h
    exact same (oneFingerMoved_flags _) (by omega)
  · injection h with h
    subst h
    exact same rfl (by omega)
  · injection h with h
    subst h
    exact same (lastFingerReleased_flags _) (by omega)
  · injection h with h
    subst h
    exact same rfl (by omega)

theorem GestureInv_congr {a b : State} (h1 : a.hadTwoFingersOn = b.hadTwoFingersOn)
    (h2 : a.amPerformingGesture = b.amPerformingGesture)
    (h3 : a.fingersWereDown = b.fingersWereDown) (hb : GestureInv b) : GestureInv a := by
  unfold GestureInv at hb ⊢
  rw [h1, h2, h3]
  exact hb

/-- A call of `processFingers` that returns keeps the gesture invariant, for a
finger count that is not negative. -/
theorem processFingers_inv (env : Env) (fuel : Nat) (u r : State) (hinv : GestureInv u)
    (hfd : 0 ≤ u.fingersDown) (h : processFingers env fuel u = some r) : GestureInv r := by
  obtain ⟨m1, m2, m3, m4⟩ := continuationMask_flags u
  have af := activateAtReleaseCheck_flags (continuationMask u)
  have a1 : (activateAtReleaseCheck (continuationMask u)).hadTwoFingersOn = u.hadTwoFingersOn :=
    (congrArg GestureFlags.hadTwoFingersOn af).trans m1
  have a2 : (activateAtReleaseCheck (continuationMask u)).amPerformingGesture
      = u.amPerformingGesture := (congrArg GestureFlags.amPerformingGesture af).trans m2
  have a3 : (activateAtReleaseCheck (continuationMask u)).fingersWereDown = u.fingersWereDown :=
    (congrArg GestureFlags.fingersWereDown af).trans m3
  have a4 : 0 ≤ (activateAtReleaseCheck (continuationMask u)).fingersDown := by
    rw [show (activateAtReleaseCheck (continuationMask u)).fingersDown
      = (continuationMask u).fingersDown from congrArg GestureFlags.fingersDown af]
    rcases m4 with e | e <;> rw [e]
    · exact hfd
    · decide
  unfold processFingers at h
  generalize activateAtReleaseCheck (continuationMask u) = a at a1 a2 a3 a4 h
  split_ifs at h with hact
  · injection h with h
    rw [← h]
    exact GestureInv_congr a1 a2 a3 hinv
  · obtain ⟨wc, -⟩ := stopEasingOnNewTouch_core a
    have wf := flagsOf_core wc
    have w1 : (stopEasingOnNewTouch a).hadTwoFingersOn = u.hadTwoFingersOn :=
      (congrArg GestureFlags.hadTwoFingersOn wf).trans a1
    have w2 : (stopEasingOnNewTouch a).amPerformingGesture = u.amPerformingGesture :=
      (congrArg GestureFlags.amPerformingGesture wf).trans a2
    have w4 : 0 ≤ (stopEasingOnNewTouch a).fingersDown := by
      rw [show (stopEasingOnNewTouch a).fingersDown = a.fingersDown from
        congrArg GestureFlags.fingersDown wf]
      exact a4
    cases hb : gestureBranch env fuel (fingersOnlyPretended u) (stopEasingOnNewTouch a) with
    | none => rw [hb] at h; exact Option.noConfusion h
    | some v =>
      rw [hb] at h
      simp only [Option.map_some', Option.some.injEq] at h
      rw [← h]
      exact gestureBranch_inv env fuel _ _ v (by rw [w1, w2]; exact hinv.1) w4 hb

/-- C29: in every state the recognizer reaches from an initial state
(`amPerformingGesture = GESTURE_NONE`, `hadTwoFingersOn = 0`,
`fingersWereDown = 0`) through ticks with `fingersDown` in `{0, 1, 2}` that
return, continuation-timeout ticks that return and writes of the other threads
to other variables (so also ticks while inactive), `hadTwoFingersOn = 1` holds
exactly when `amPerformingGesture ≠ GESTURE_NONE`, and `hadTwoFingersOn = 1`
implies `fingersWereDown > 0`. -/
theorem C29_gesture_invariant (env : Env) (s : State) (h : Reachable env s) :
    (s.hadTwoFingersOn = 1 ↔ s.amPerformingGesture ≠ GESTURE_NONE) ∧
    (s.hadTwoFingersOn = 1 → s.fingersWereDown > 0) := by
  show GestureInv s
  induction h with
  | init s hg h2 _ =>
    unfold GestureInv
    rw [hg, h2]
    exact ⟨⟨fun c => absurd c (by decide), fun c => absurd rfl c⟩, fun c => absurd c (by decide)⟩
  | tick fuel s r inp _ hfd ht ih =>
    unfold deviceTick at ht
    refine processFingers_inv env fuel _ r ?_ ?_ ht
    · exact GestureInv_congr rfl rfl rfl ih
    · show 0 ≤ inp.fingersDown
      omega
  | timeout fuel s r _ ht ih =>
    unfold continuationTimeout at ht
    split_ifs at ht
    · cases hp : processFingers env fuel
          { s with ignoreFingersUp := 0, fingersDown := 0, dontStartContinuation := 1 } with
      | none => rw [hp] at ht; exact Option.noConfusion ht
      | some r1 =>
        rw [hp] at ht
        simp only [Option.map_some', Option.some.injEq] at ht
        rw [← ht]
        refine GestureInv_congr rfl rfl rfl (processFingers_inv env fuel _ r1 ?_ ?_ hp)
        · exact GestureInv_congr rfl rfl rfl ih
        · exact le_refl _
    · injection ht with ht
      rw [← ht]; exact ih
  | others s r _ h1 h2 h3 ih => exact GestureInv_congr h1 h2 h3 ih

theorem isSome_getD {α : Type} (o : Option α) (d : α) (h : o.isSome = true) :
    o = some (o.getD d) := by
  cases o with
  | none => exact absurd h (by simp)
  | some x => rfl

/-- Witness for C29: the state after two fingers have touched in the idle
state. -/
theorem C29_gesture_invariant_witness :
    (((deviceTick demoEnv 10 idleState (scrollTick 250)).getD idleState).hadTwoFingersOn = 1 ↔
      ((deviceTick demoEnv 10 idleState (scrollTick 250)).getD idleState).amPerformingGesture
        ≠ GESTURE_NONE) ∧
    (((deviceTick demoEnv 10 idleState (scrollTick 250)).getD idleState).hadTwoFingersOn = 1 →
      ((deviceTick demoEnv 10 idleState (scrollTick 250)).getD idleState).fingersWereDown > 0) :=
  C29_gesture_invariant demoEnv _
    (Reachable.tick 10 idleState _ (scrollTick 250) (Reachable.init idleState rfl rfl rfl)
      (Or.inr (Or.inr rfl))
      (isSome_getD (deviceTick demoEnv 10 idleState (scrollTick 250)) idleState (by decide)))

/-! ### The device loop of the extended-continuation version -/

/-- C26 (the code departs from the claim): the handling of SYN_MT_REPORT in the
device loop of the extended-continuation version stays within `fingerInfos[0]`
and `fingerInfos[1]` exactly when the id of the pending finger is 0 or 1. For
every other id the guarded block is skipped, but the write
`fingerInfos[index].down = 1` behind it is made outside the array: so with the
id `-1` that `tempFingerInfo` has at the start and after every SYN_REPORT, and
with the id 2 of a third finger. -/
theorem C26_down_flag_written_out_of_range (c : Emu.Calib) (temp : Ext.FingerInfo)
    (s : Ext.State) :
    (handleMtReport c temp s).isSome = decide (temp.id = 0 ∨ temp.id = 1) ∧
    handleMtReport c { x := -1, y := -1, down := -1, id := -1 } s = none ∧
    handleMtReport c { x := 300, y := 200, down := -1, id := 2 } s = none ∧
    (handleMtReport c { x := 300, y := 200, down := -1, id := 1 } s).isSome = true := by
  refine ⟨?_, rfl, rfl, rfl⟩
  unfold handleMtReport State.modifyFinger?
  simp only
  by_cases h0 : temp.id = 0
  · simp [h0]
  · by_cases h1 : temp.id = 1
    · simp [h1]
    · simp [h0, h1]

/-! ### Activation and the grab (`twofingemu.c`) -/

theorem grabCalls_append (a b : List Emu.Call) :
    grabCalls (a ++ b) = grabCalls a ++ grabCalls b := by
  induction a with
  | nil => rfl
  | cons c rest ih => cases c <;> simp [grabCalls, ih]

theorem grabCalls_events (es : List XEvent) : grabCalls (es.map Emu.Call.x) = [] := by
  induction es with
  | nil => rfl
  | cons e rest ih => simp [grabCalls, ih]

/-- A grab appended to alternating calls that do not end with a grab keeps them
alternating. -/
theorem ActivationInv_grab (g : List Bool) (h : AlternatesFromGrab g)
    (hl : g.getLast? ≠ some true) :
    AlternatesFromGrab (g ++ [true]) ∧ (g ++ [true]).getLast? = some true := by
  obtain ⟨hc, hh⟩ := h
  refine ⟨⟨?_, ?_⟩, by simp⟩
  · rw [List.chain'_append]
    refine ⟨hc, List.chain'_singleton _, ?_⟩
    intro x hx y hy
    simp only [List.head?_cons, Option.mem_def, Option.some.injEq] at hy
    subst hy
    intro e
    subst e
    exact hl hx
  · cases g with
    | nil => simp
    | cons a rest => simpa using hh

/-- An ungrab appended to alternating calls that end with a grab keeps them
alternating. -/
theorem ActivationInv_ungrab (g : List Bool) (h : AlternatesFromGrab g)
    (hl : g.getLast? = some true) :
    AlternatesFromGrab (g ++ [false]) ∧ (g ++ [false]).getLast? ≠ some true := by
  obtain ⟨hc, hh⟩ := h
  refine ⟨⟨?_, ?_⟩, by simp⟩
  · rw [List.chain'_append]
    refine ⟨hc, List.chain'_singleton _, ?_⟩
    intro x hx y hy
    simp only [List.head?_cons, Option.mem_def, Option.some.injEq] at hy
    subst hy
    rw [hl] at hx
    simp only [Option.mem_def, Option.some.injEq] at hx
    subst hx
    decide
  · cases g with
    | nil => simp at hl
    | cons a rest => simpa using hh

theorem GrabInv_frame (s t : Emu.Daemon) (ha : t.active = s.active)
    (ho : grabCalls t.out = grabCalls s.out) (h : GrabInv s) : GrabInv t := by
  unfold GrabInv at h ⊢
  rw [ha, ho]
  exact h

theorem activate_inv (s : Emu.Daemon) (h : GrabInv s) : ActivationInv (Emu.activate s) := by
  obtain ⟨halt, hact⟩ := h
  unfold Emu.activate
  simp only
  rcases hact with ⟨a1, hl⟩ | ⟨a0, hl⟩
  · rw [if_neg (by rw [a1]; decide)]
    exact ⟨⟨halt, Or.inl ⟨a1, hl⟩⟩, fun c => c.2 rfl⟩
  · rw [if_pos a0]
    obtain ⟨k1, k2⟩ := ActivationInv_grab _ halt hl
    refine ⟨⟨?_, Or.inl ⟨rfl, ?_⟩⟩, fun c => c.2 rfl⟩
    · show AlternatesFromGrab (grabCalls (s.out ++ [Emu.Call.grab]))
      rw [grabCalls_append]; exact k1
    · show (grabCalls (s.out ++ [Emu.Call.grab])).getLast? = some true
      rw [grabCalls_append]; exact k2

theorem deactivate_inv (s : Emu.Daemon) (h : GrabInv s) : ActivationInv (Emu.deactivate s) := by
  obtain ⟨halt, hact⟩ := h
  unfold Emu.deactivate
  simp only
  rcases hact with ⟨a1, hl⟩ | ⟨a0, hl⟩
  · rw [if_pos (by rw [a1]; decide)]
    obtain ⟨k1, k2⟩ := ActivationInv_ungrab _ halt hl
    refine ⟨⟨?_, Or.inr ⟨rfl, ?_⟩⟩, fun c => c.2 rfl⟩
    · show AlternatesFromGrab (grabCalls (s.out ++ [Emu.Call.ungrab]))
      rw [grabCalls_append]; exact k1
    · show (grabCalls (s.out ++ [Emu.Call.ungrab])).getLast? ≠ some true
      rw [grabCalls_append]; exact k2
  · rw [if_neg (by rw [a0]; decide)]
    exact ⟨⟨halt, Or.inr ⟨a0, hl⟩⟩, fun c => c.2 rfl⟩

theorem releaseButton_frame (s : Emu.Daemon) :
    (Emu.releaseButton s).active = s.active ∧
    (Emu.releaseButton s).activateAtRelease = s.activateAtRelease ∧
    grabCalls (Emu.releaseButton s).out = grabCalls s.out := by
  unfold Emu.releaseButton
  split_ifs
  · refine ⟨rfl, rfl, ?_⟩
    show grabCalls (s.out ++ _) = grabCalls s.out
    rw [grabCalls_append]
    simp [grabCalls]
  · exact ⟨rfl, rfl, rfl⟩

theorem activateAtReleaseCheck_inv (s : Emu.Daemon) (h : ActivationInv s) :
    ActivationInv (Emu.activateAtReleaseCheck s) := by
  unfold Emu.activateAtReleaseCheck
  split_ifs
  · obtain ⟨r1, -, r3⟩ := releaseButton_frame s
    exact activate_inv _ (GrabInv_frame s _ r1 r3 h.1)
  · exact h

theorem leaveWindow_inv (s : Emu.Daemon) (h : ActivationInv s) :
    ActivationInv (Emu.leaveWindow s) := by
  unfold Emu.leaveWindow
  split_ifs with a0
  · exact ⟨GrabInv_frame s _ rfl rfl h.1, fun c => c.1 a0⟩
  · exact h

theorem enterBlacklistedWindow_inv (s : Emu.Daemon) (h : ActivationInv s) :
    ActivationInv (Emu.enterBlacklistedWindow s) := by
  unfold Emu.enterBlacklistedWindow
  obtain ⟨r1, -, r3⟩ := releaseButton_frame { s with activateAtRelease := 0 }
  exact deactivate_inv _ (GrabInv_frame { s with activateAtRelease := 0 } _ r1 r3
    (GrabInv_frame s _ rfl rfl h.1))

theorem processFingers_activation (c : Emu.Calib) (fs : Emu.Fingers) (g : Emu.GestureEffect)
    (s : Emu.Daemon) (h : ActivationInv s) : ActivationInv (Emu.processFingers c fs g s) := by
  have h1 : ActivationInv (Emu.activateAtReleaseCheck
      { s with fingerInfos := Emu.calibrateSlots c fs, fingersDown := Emu.countFingersDown fs }) :=
    activateAtReleaseCheck_inv _ ⟨GrabInv_frame s _ rfl rfl h.1, h.2⟩
  unfold Emu.processFingers
  simp only
  generalize Emu.activateAtReleaseCheck
    { s with fingerInfos := Emu.calibrateSlots c fs, fingersDown := Emu.countFingersDown fs } = s1
    at h1
  split_ifs
  · exact h1
  · apply activateAtReleaseCheck_inv
    refine ⟨GrabInv_frame s1 _ rfl ?_ h1.1, h1.2⟩
    show grabCalls (s1.out ++ g.events.map Emu.Call.x) = grabCalls s1.out
    rw [grabCalls_append, grabCalls_events, List.append_nil]

theorem runOps_inv (c : Emu.Calib) (ops : List Emu.Op) : ∀ s : Emu.Daemon,
    ActivationInv s → ActivationInv (Emu.runOps c s ops) := by
  induction ops with
  | nil => intro s h; exact h
  | cons op rest ih =>
    intro s h
    have hs : ActivationInv (Emu.step c s op) := by
      cases op with
      | activate => exact activate_inv s h.1
      | deactivate => exact deactivate_inv s h.1
      | leaveWindow => exact leaveWindow_inv s h
      | enterBlacklistedWindow => exact enterBlacklistedWindow_inv s h
      | processFingers fs g => exact processFingers_activation c fs g s h
    exact ih _ hs

/-- C30: from a state with `active = 0`, `activateAtRelease = 0` and no grab or
ungrab call made, after every sequence of calls of `activate`, `deactivate`,
`leaveWindow`, `enterBlacklistedWindow` and `processFingers` (whatever the
slots and whatever the recognizer tick emits and does to `buttonDown` and
`fingersDown`), the
calls of `grab` and `ungrab` made so far strictly alternate and begin with a
grab, `active = 1` holds exactly when the most recent of them was a grab
(`active` being 0 otherwise), and `active` and `activateAtRelease` are not
both nonzero. -/
theorem C30_grab_alternation (c : Emu.Calib) (s : Emu.Daemon) (ops : List Emu.Op)
    (ha : s.active = 0) (_hr : s.activateAtRelease = 0) (hg : grabCalls s.out = []) :
    AlternatesFromGrab (grabCalls (Emu.runOps c s ops).out) ∧
    ((Emu.runOps c s ops).active = 1 ↔
      (grabCalls (Emu.runOps c s ops).out).getLast? = some true) ∧
    ((Emu.runOps c s ops).active = 0 ∨ (Emu.runOps c s ops).active = 1) ∧
    ¬ ((Emu.runOps c s ops).active ≠ 0 ∧ (Emu.runOps c s ops).activateAtRelease ≠ 0) := by
  have h0 : ActivationInv s := by
    refine ⟨⟨?_, Or.inr ⟨ha, ?_⟩⟩, fun c => c.1 ha⟩
    · rw [hg]; exact ⟨List.chain'_nil, by simp⟩
    · rw [hg]; simp
  obtain ⟨⟨halt, hact⟩, hboth⟩ := runOps_inv c ops s h0
  refine ⟨halt, ?_, ?_, hboth⟩
  · rcases hact with ⟨a1, hl⟩ | ⟨a0, hl⟩
    · exact ⟨fun _ => hl, fun _ => a1⟩
    · exact ⟨fun c => absurd (a0.symm.trans c) (by decide), fun c => absurd c hl⟩
  · rcases hact with ⟨a1, -⟩ | ⟨a0, -⟩
    · exact Or.inr a1
    · exact Or.inl a0

/-- Witness for C30: activation, a deferred re-activation after a blacklisted
window, carried out by the tick with no finger down. -/
theorem C30_grab_alternation_witness :
    (Emu.runOps calibSwapped initDaemon [Emu.Op.activate, Emu.Op.leaveWindow,
        Emu.Op.enterBlacklistedWindow, Emu.Op.leaveWindow,
        Emu.Op.processFingers { f0 := Emu.emptyFinger, f1 := Emu.emptyFinger }
          { events := [], buttonDown := 0, fingersDown := 0 }]).out
      = [Emu.Call.grab, Emu.Call.ungrab, Emu.Call.grab] ∧
    AlternatesFromGrab (grabCalls (Emu.runOps calibSwapped initDaemon [Emu.Op.activate,
        Emu.Op.leaveWindow, Emu.Op.enterBlacklistedWindow, Emu.Op.leaveWindow,
        Emu.Op.processFingers { f0 := Emu.emptyFinger, f1 := Emu.emptyFinger }
          { events := [], buttonDown := 0, fingersDown := 0 }]).out) ∧
    ((Emu.runOps calibSwapped initDaemon [Emu.Op.activate, Emu.Op.leaveWindow,
        Emu.Op.enterBlacklistedWindow, Emu.Op.leaveWindow,
        Emu.Op.processFingers { f0 := Emu.emptyFinger, f1 := Emu.emptyFinger }
          { events := [], buttonDown := 0, fingersDown := 0 }]).active = 1 ↔
      (grabCalls (Emu.runOps calibSwapped initDaemon [Emu.Op.activate, Emu.Op.leaveWindow,
        Emu.Op.enterBlacklistedWindow, Emu.Op.leaveWindow,
        Emu.Op.processFingers { f0 := Emu.emptyFinger, f1 := Emu.emptyFinger }
          { events := [], buttonDown := 0, fingersDown := 0 }]).out).getLast? = some true) ∧
    ((Emu.runOps calibSwapped initDaemon [Emu.Op.activate, Emu.Op.leaveWindow,
        Emu.Op.enterBlacklistedWindow, Emu.Op.leaveWindow,
        Emu.Op.processFingers { f0 := Emu.emptyFinger, f1 := Emu.emptyFinger }
          { events := [], buttonDown := 0, fingersDown := 0 }]).active = 0 ∨
      (Emu.runOps calibSwapped initDaemon [Emu.Op.activate, Emu.Op.leaveWindow,
        Emu.Op.enterBlacklistedWindow, Emu.Op.leaveWindow,
        Emu.Op.processFingers { f0 := Emu.emptyFinger, f1 := Emu.emptyFinger }
          { events := [], buttonDown := 0, fingersDown := 0 }]).active = 1) ∧
    ¬ ((Emu.runOps calibSwapped initDaemon [Emu.Op.activate, Emu.Op.leaveWindow,
        Emu.Op.enterBlacklistedWindow, Emu.Op.leaveWindow,
        Emu.Op.processFingers { f0 := Emu.emptyFinger, f1 := Emu.emptyFinger }
          { events := [], buttonDown := 0, fingersDown := 0 }]).active ≠ 0 ∧
      (Emu.runOps calibSwapped initDaemon [Emu.Op.activate, Emu.Op.leaveWindow,
        Emu.Op.enterBlacklistedWindow, Emu.Op.leaveWindow,
        Emu.Op.processFingers { f0 := Emu.emptyFinger, f1 := Emu.emptyFinger }
          { events := [], buttonDown := 0, fingersDown := 0 }]).activateAtRelease ≠ 0) :=
  ⟨by decide, C30_grab_alternation calibSwapped initDaemon _ rfl rfl rfl⟩

end RecognizerTheorems

end TwoFing
